import Mathlib

/-! # Control plane of the Jiva volume operator

A shallow embedding of `pkg/controllers/jivavolume_controller.go`.

* Go `string` is `String`, Go `int` is `Int` (64-bit two's complement values,
  with the conversions that can wrap written out), Go slices and maps are lists
  and association lists.
* A Go `error` result is `Option Err` (`none` is `nil`).
* The API server, the target's status endpoint, the event recorder and the
  package-level maps are fields of `World`, passed from call to call.
-/

namespace Jiva

/-! ## Machine integers -/

/-- The value of a Go conversion `int32(x)`: `x` reduced to 32 bits, two's complement. -/
def int32 (x : Int) : Int := (x + 2147483648) % 4294967296 - 2147483648

/-- A Go `int` result of 64-bit arithmetic: the exact result reduced to 64 bits. -/
def int64 (x : Int) : Int := (x + 9223372036854775808) % 18446744073709551616 - 9223372036854775808

/-- Values a Go `int` can hold. -/
def IsInt (x : Int) : Prop := -9223372036854775808 ≤ x ∧ x ≤ 9223372036854775807

/-- Values an `int32` can hold. -/
def IsInt32 (x : Int) : Prop := -2147483648 ≤ x ∧ x ≤ 2147483647

instance (x : Int) : Decidable (IsInt x) := by unfold IsInt; infer_instance

instance (x : Int) : Decidable (IsInt32 x) := by unfold IsInt32; infer_instance

/-! ## Strings and maps -/

/-- Go `strings.Split(s, sep)[0]` for a one-character separator: the part of `s` before the
first occurrence of `sep` (all of `s` when there is none). -/
def splitHead (sep : Char) (s : String) : String := String.mk (s.toList.takeWhile (fun c => c != sep))

/-- A Go `map[string]string`. -/
abbrev StrMap := List (String × String)

/-- Go `m[k]` on a `map[string]string`: the empty string when the key is absent. -/
def mapGet (m : StrMap) (k : String) : String :=
  match m.find? (fun p => p.1 == k) with
  | some p => p.2
  | none => ""

/-- Go `_, ok := m[k]`. -/
def mapHas (m : StrMap) (k : String) : Bool := m.any (fun p => p.1 == k)

/-- Go `m[k] = v`. -/
def mapSet (m : StrMap) (k v : String) : StrMap :=
  if m.any (fun p => p.1 == k) then m.map (fun p => if p.1 == k then (k, v) else p)
  else m ++ [(k, v)]

/-! ## Errors -/

/-- Go error values, as far as the controller tells them apart. -/
inductive Err where
  | notFound : Err
  | alreadyExists : Err
  | api (msg : String) : Err
  | msg (text : String) : Err
  | wrap (context : String) (inner : Err) : Err
deriving DecidableEq, Repr

/-- The test `errors.IsNotFound`. -/
def Err.isNotFound : Err → Bool
  | Err.notFound => true
  | _ => false

/-! ## Data model -/

/-- Modelled from the spec: the phase constant `Pending` of the API package
`pkg/apis/openebs/v1alpha1` (a Go string type; the unset phase is the empty string). -/
def JivaVolumePhasePending : String := "Pending"

/-- Modelled from the spec: the phase constant `Syncing` of the API package. -/
def JivaVolumePhaseSyncing : String := "Syncing"

/-- Modelled from the spec: the phase constant `Failed` of the API package. -/
def JivaVolumePhaseFailed : String := "Failed"

/-- Modelled from the spec: the phase constant `Unknown` of the API package. -/
def JivaVolumePhaseUnkown : String := "Unknown"

/-- Modelled from the spec: the phase constant `Ready` of the API package. -/
def JivaVolumePhaseReady : String := "Ready"

/-- Modelled from the spec: the phase constant `Deleting` of the API package. -/
def JivaVolumePhaseDeleting : String := "Deleting"

/-- Modelled from the spec: the migration state `InProgress` of the API package. -/
def ReconcileInProgress : String := "ReconcileInProgress"

/-- Modelled from the spec: the migration state `Success` of the API package. -/
def ReconcileComplete : String := "ReconcileComplete"

structure Toleration where
  Key : String
  Operator : String
  Effect : String
  TolerationSeconds : Option Int
deriving DecidableEq, Repr

structure ResourceRequirements where
  Requests : StrMap
  Limits : StrMap
deriving DecidableEq, Repr

structure LabelSelector where
  MatchLabels : StrMap
deriving DecidableEq, Repr

structure PodAffinityTerm where
  LabelSelector : Option LabelSelector
  TopologyKey : String
deriving DecidableEq, Repr

structure PodAntiAffinity where
  RequiredDuringSchedulingIgnoredDuringExecution : List PodAffinityTerm
deriving DecidableEq, Repr

structure Affinity where
  NodeAffinity : Option String
  PodAffinity : Option String
  PodAntiAffinity : Option PodAntiAffinity
deriving DecidableEq, Repr

structure TargetSpec where
  Tolerations : List Toleration
  Resources : Option ResourceRequirements
  NodeSelector : Option StrMap
  Affinity : Option Affinity
  AuxResources : Option ResourceRequirements
  ReplicationFactor : Int
  DisableMonitor : Bool
deriving DecidableEq, Repr

structure ReplicaSpec where
  Tolerations : List Toleration
  Resources : Option ResourceRequirements
  NodeSelector : Option StrMap
  Affinity : Option Affinity
deriving DecidableEq, Repr

structure JivaVolumePolicySpec where
  ReplicaSC : String
  ServiceAccountName : String
  PriorityClassName : String
  Target : TargetSpec
  Replica : ReplicaSpec
deriving DecidableEq, Repr

structure JivaVolumePolicy where
  Name : String
  Namespace : String
  Spec : JivaVolumePolicySpec
deriving DecidableEq, Repr

structure ISCSISpec where
  TargetIP : String
  TargetPort : Int
  Iqn : String
deriving DecidableEq, Repr

structure JivaVolumeSpec where
  PV : String
  Capacity : String
  ISCSISpec : ISCSISpec
  Policy : JivaVolumePolicySpec
  DesiredReplicationFactor : Int
deriving DecidableEq, Repr

structure ReplicaStatus where
  Address : String
  Mode : String
deriving DecidableEq, Repr

structure JivaVolumeStatus where
  Status : String
  ReplicaCount : Int
  ReplicaStatuses : List ReplicaStatus
  Phase : String
deriving DecidableEq, Repr

structure VersionStatus where
  Current : String
  State : String
deriving DecidableEq, Repr

structure VersionDetails where
  Desired : String
  Status : VersionStatus
deriving DecidableEq, Repr

structure JivaVolume where
  Kind : String
  APIVersion : String
  Name : String
  Namespace : String
  UID : String
  Labels : StrMap
  Annotations : StrMap
  Spec : JivaVolumeSpec
  Status : JivaVolumeStatus
  VersionDetails : VersionDetails
deriving DecidableEq, Repr

/-- The assignment `cr.Status.Phase = phase`. -/
def JivaVolume.withPhase (cr : JivaVolume) (phase : String) : JivaVolume :=
  { cr with Status := { cr.Status with Phase := phase } }

/-- The assignment `cr.Spec.ISCSISpec = iscsi`. -/
def JivaVolume.withISCSISpec (cr : JivaVolume) (iscsi : ISCSISpec) : JivaVolume :=
  { cr with Spec := { cr.Spec with ISCSISpec := iscsi } }

/-- The assignments `cr.Spec.Policy = policySpec` and
`cr.Spec.DesiredReplicationFactor = policySpec.Target.ReplicationFactor`. -/
def JivaVolume.withPolicy (cr : JivaVolume) (policySpec : JivaVolumePolicySpec) : JivaVolume :=
  { cr with Spec := { cr.Spec with Policy := policySpec,
                                    DesiredReplicationFactor := policySpec.Target.ReplicationFactor } }

/-- What the target's `/stats` endpoint answers. -/
structure Stats where
  TargetStatus : String
  Replicas : List ReplicaStatus
deriving DecidableEq, Repr

/-! ## Cluster objects

The objects the controller reads and writes through the API client, with the fields it
sets or inspects. -/

structure OwnerReference where
  APIVersion : String
  Kind : String
  Name : String
  UID : String
  Controller : Option Bool
  BlockOwnerDeletion : Option Bool
deriving DecidableEq, Repr

structure ServicePort where
  Name : String
  Port : Int
  Protocol : String
  TargetPort : Int
deriving DecidableEq, Repr

structure Service where
  Name : String
  Namespace : String
  Labels : StrMap
  Selector : StrMap
  Ports : List ServicePort
  ClusterIP : String
  OwnerReferences : List OwnerReference
deriving DecidableEq, Repr

structure ContainerPort where
  Port : Int
  Protocol : String
deriving DecidableEq, Repr

structure EnvVar where
  Name : String
  Value : String
deriving DecidableEq, Repr

structure VolumeMount where
  Name : String
  MountPath : String
deriving DecidableEq, Repr

structure Container where
  Name : String
  Image : String
  ImagePullPolicy : String
  Ports : List ContainerPort
  Command : List String
  Args : List String
  Env : List EnvVar
  Resources : Option ResourceRequirements
  Privileged : Option Bool
  VolumeMounts : List VolumeMount
deriving DecidableEq, Repr

structure PodTemplateSpec where
  Labels : StrMap
  Annotations : StrMap
  ServiceAccountName : String
  PriorityClassName : String
  Tolerations : List Toleration
  NodeSelector : Option StrMap
  Affinity : Option Affinity
  Containers : List Container
deriving DecidableEq, Repr

structure Deployment where
  Name : String
  Namespace : String
  Labels : StrMap
  Replicas : Int
  StrategyType : String
  SelectorMatchLabels : StrMap
  Template : PodTemplateSpec
  OwnerReferences : List OwnerReference
deriving DecidableEq, Repr

structure PersistentVolumeClaim where
  Name : String
  Namespace : String
  Annotations : StrMap
  Finalizers : List String
  OwnerReferences : List OwnerReference
  StorageClass : String
  AccessModes : List String
  Capacity : String
  VolumeName : String
deriving DecidableEq, Repr

structure StatefulSet where
  Name : String
  Namespace : String
  Labels : StrMap
  ServiceName : String
  PodManagementPolicy : String
  StrategyType : String
  Replicas : Int
  SelectorMatchLabels : StrMap
  Template : PodTemplateSpec
  VolumeClaimTemplates : List PersistentVolumeClaim
  OwnerReferences : List OwnerReference
deriving DecidableEq, Repr

structure PodDisruptionBudget where
  Kind : String
  APIVersion : String
  Name : String
  Namespace : String
  SelectorMatchLabels : StrMap
  MinAvailable : Int
  OwnerReferences : List OwnerReference
deriving DecidableEq, Repr

structure PersistentVolume where
  Name : String
  Finalizers : List String
deriving DecidableEq, Repr

/-- A volume of a pod; `ClaimName` is `none` when the volume is not a persistent claim. -/
structure PodVolume where
  Name : String
  ClaimName : Option String
deriving DecidableEq, Repr

structure Pod where
  Name : String
  Namespace : String
  Labels : StrMap
  Phase : String
  NodeName : String
  PodIP : String
  Volumes : List PodVolume
deriving DecidableEq, Repr

structure NodeCondition where
  CondType : String
  Status : String
deriving DecidableEq, Repr

structure Node where
  Name : String
  Conditions : List NodeCondition
deriving DecidableEq, Repr

/-- The cluster address the API server gives to a service. -/
def Service.withClusterIP (x : Service) (ip : String) : Service := { x with ClusterIP := ip }

/-- The owner references `SetControllerReference` leaves on the object. -/
def Service.withOwners (x : Service) (refs : List OwnerReference) : Service :=
  { x with OwnerReferences := refs }

def Deployment.withOwners (x : Deployment) (refs : List OwnerReference) : Deployment :=
  { x with OwnerReferences := refs }

def StatefulSet.withOwners (x : StatefulSet) (refs : List OwnerReference) : StatefulSet :=
  { x with OwnerReferences := refs }

def PodDisruptionBudget.withOwners (x : PodDisruptionBudget) (refs : List OwnerReference) :
    PodDisruptionBudget :=
  { x with OwnerReferences := refs }

/-! ## The world outside the reconciler -/

/-- A namespaced name (`types.NamespacedName`); cluster-scoped objects have the empty namespace. -/
structure Key where
  Namespace : String
  Name : String
deriving DecidableEq, Repr

inductive Kind where
  | JivaVolume | JivaVolumePolicy | Service | Deployment | StatefulSet
  | PodDisruptionBudget | Pod | PersistentVolumeClaim | PersistentVolume | Node
deriving DecidableEq, Repr

/-- One request issued by the reconciler, in the order issued. -/
inductive Call where
  | get (kind : Kind) (key : Key) : Call
  | list (kind : Kind) (ns : String) : Call
  | create (kind : Kind) (key : Key) : Call
  | update (kind : Kind) (key : Key) : Call
  | patch (kind : Kind) (key : Key) : Call
  | delete (kind : Kind) (key : Key) : Call
  | stats (addr : String) : Call
deriving DecidableEq, Repr

/-- An event handed to the recorder. -/
structure Event where
  Object : String
  EventType : String
  Reason : String
  Message : String
deriving DecidableEq, Repr

/-- The objects stored by the API server. -/
structure Cluster where
  Volumes : List JivaVolume
  Policies : List JivaVolumePolicy
  Services : List Service
  Deployments : List Deployment
  StatefulSets : List StatefulSet
  PDBs : List PodDisruptionBudget
  Pods : List Pod
  PVCs : List PersistentVolumeClaim
  PVs : List PersistentVolume
  Nodes : List Node
deriving DecidableEq, Repr

/-- Everything the reconciler acts on besides the resource in its hands.

* `faults`: what goes wrong with the API calls to come, one entry per call in the order
  issued (`none`, or no entry left, lets the call act on `cluster`);
* `stats`: the answers of the target's status endpoint to the queries to come (`none`, or
  no entry left, is a failed query);
* `ipPool`: the cluster addresses the API server gives to the services created next;
* `calls`, `events`, `slept`: requests issued, events recorded and seconds slept so far;
* `podIPMap`, `selectorMap`: the package-level maps. -/
structure World where
  cluster : Cluster
  faults : List (Option Err)
  stats : List (Option Stats)
  ipPool : List String
  calls : List Call
  events : List Event
  slept : Nat
  podIPMap : StrMap
  selectorMap : StrMap
deriving DecidableEq, Repr

/-- A kind of object the API server stores: where it lives in `Cluster` and how it is named. -/
class Resource (α : Type) where
  kind : Kind
  key : α → Key
  sel : Cluster → List α
  put : Cluster → List α → Cluster
  sel_put : ∀ c xs, sel (put c xs) = xs

instance : Resource JivaVolume where
  kind := Kind.JivaVolume
  key x := { Namespace := x.Namespace, Name := x.Name }
  sel c := c.Volumes
  put c xs := { c with Volumes := xs }
  sel_put _ _ := rfl

instance : Resource JivaVolumePolicy where
  kind := Kind.JivaVolumePolicy
  key x := { Namespace := x.Namespace, Name := x.Name }
  sel c := c.Policies
  put c xs := { c with Policies := xs }
  sel_put _ _ := rfl

instance : Resource Service where
  kind := Kind.Service
  key x := { Namespace := x.Namespace, Name := x.Name }
  sel c := c.Services
  put c xs := { c with Services := xs }
  sel_put _ _ := rfl

instance : Resource Deployment where
  kind := Kind.Deployment
  key x := { Namespace := x.Namespace, Name := x.Name }
  sel c := c.Deployments
  put c xs := { c with Deployments := xs }
  sel_put _ _ := rfl

instance : Resource StatefulSet where
  kind := Kind.StatefulSet
  key x := { Namespace := x.Namespace, Name := x.Name }
  sel c := c.StatefulSets
  put c xs := { c with StatefulSets := xs }
  sel_put _ _ := rfl

instance : Resource PodDisruptionBudget where
  kind := Kind.PodDisruptionBudget
  key x := { Namespace := x.Namespace, Name := x.Name }
  sel c := c.PDBs
  put c xs := { c with PDBs := xs }
  sel_put _ _ := rfl

instance : Resource Pod where
  kind := Kind.Pod
  key x := { Namespace := x.Namespace, Name := x.Name }
  sel c := c.Pods
  put c xs := { c with Pods := xs }
  sel_put _ _ := rfl

instance : Resource PersistentVolumeClaim where
  kind := Kind.PersistentVolumeClaim
  key x := { Namespace := x.Namespace, Name := x.Name }
  sel c := c.PVCs
  put c xs := { c with PVCs := xs }
  sel_put _ _ := rfl

instance : Resource PersistentVolume where
  kind := Kind.PersistentVolume
  key x := { Namespace := "", Name := x.Name }
  sel c := c.PVs
  put c xs := { c with PVs := xs }
  sel_put _ _ := rfl

instance : Resource Node where
  kind := Kind.Node
  key x := { Namespace := "", Name := x.Name }
  sel c := c.Nodes
  put c xs := { c with Nodes := xs }
  sel_put _ _ := rfl

/-- The fault injected into the next request, if any. -/
def World.fault (w : World) : Option Err := w.faults.head?.join

/-- The world once the request `c` is issued: the request is logged and its fault entry used up. -/
def World.tick (w : World) (c : Call) : World :=
  { w with faults := w.faults.tail, calls := w.calls ++ [c] }

/-- The stored object of the given name, if any. -/
def Cluster.find (α : Type) [Resource α] (c : Cluster) (k : Key) : Option α :=
  (Resource.sel c : List α).find? (fun x => decide (Resource.key x = k))

/-- The stored objects of kind `α` after `f` is applied to them. -/
def World.store {α : Type} [Resource α] (w : World) (f : List α → List α) : World :=
  { w with cluster := Resource.put w.cluster (f (Resource.sel w.cluster)) }

/-- What a `Get` returns: the injected fault, else the stored object, else `NotFound`. -/
def getResult (α : Type) [Resource α] (k : Key) (w : World) : Except Err α :=
  match w.fault with
  | some e => Except.error e
  | none =>
    match w.cluster.find α k with
    | some x => Except.ok x
    | none => Except.error Err.notFound

/-- The client call `Get`. -/
def apiGet (α : Type) [Resource α] (k : Key) (w : World) : Except Err α × World :=
  (getResult α k w, w.tick (Call.get (Resource.kind α) k))

/-- What a `Create` returns: the injected fault, else `AlreadyExists` when the name is taken. -/
def createResult (α : Type) [Resource α] (k : Key) (w : World) : Option Err :=
  match w.fault with
  | some e => some e
  | none => if (w.cluster.find α k).isSome then some Err.alreadyExists else none

/-- The client call `Create`: on success the object is stored. -/
def apiCreate {α : Type} [Resource α] (x : α) (w : World) : Option Err × World :=
  let w1 := w.tick (Call.create (Resource.kind α) (Resource.key x))
  match createResult α (Resource.key x) w with
  | some e => (some e, w1)
  | none => (none, w1.store (fun (stored : List α) => stored ++ [x]))

/-- What an `Update`, `Patch` or `Delete` returns: the injected fault, else `NotFound` when no
object of that name is stored. -/
def writeResult (α : Type) [Resource α] (k : Key) (w : World) : Option Err :=
  match w.fault with
  | some e => some e
  | none => if (w.cluster.find α k).isSome then none else some Err.notFound

/-- The client call `Update`: on success the object replaces the stored object of the same
name. The object handed in is left as it is. Resource versions are not part of the model: an
update from a copy read before another update is not refused as a conflict. -/
def apiUpdate {α : Type} [Resource α] (x : α) (w : World) : Option Err × World :=
  let w1 := w.tick (Call.update (Resource.kind α) (Resource.key x))
  match writeResult α (Resource.key x) w with
  | some e => (some e, w1)
  | none =>
    (none, w1.store (fun (stored : List α) => stored.map (fun y => if Resource.key y = Resource.key x then x else y)))

/-- The client call `Patch` with a merge patch: on success the change `f` (the difference
between the object read and its edited copy) is applied to the stored object of that name. -/
def apiPatch (α : Type) [Resource α] (k : Key) (f : α → α) (w : World) : Option Err × World :=
  let w1 := w.tick (Call.patch (Resource.kind α) k)
  match writeResult α k w with
  | some e => (some e, w1)
  | none => (none, w1.store (fun (stored : List α) => stored.map (fun y => if Resource.key y = k then f y else y)))

/-- The client call `Delete`: on success the stored object of that name is removed. -/
def apiDelete (α : Type) [Resource α] (k : Key) (w : World) : Option Err × World :=
  let w1 := w.tick (Call.delete (Resource.kind α) k)
  match writeResult α k w with
  | some e => (some e, w1)
  | none => (none, w1.store (fun (stored : List α) => stored.filter (fun y => !decide (Resource.key y = k))))

/-- The client call `List` on the pods of a namespace, filtered by `keep` (the label and
field selectors of the request). -/
def apiListPods (ns : String) (keep : Pod → Bool) (w : World) : Except Err (List Pod) × World :=
  let w1 := w.tick (Call.list Kind.Pod ns)
  match w.fault with
  | some e => (Except.error e, w1)
  | none => (Except.ok (w.cluster.Pods.filter (fun p => p.Namespace == ns && keep p)), w1)

/-- The recorder call `Eventf`. -/
def World.eventf (w : World) (cr : JivaVolume) (eventType reason message : String) : World :=
  { w with events := w.events ++ [{ Object := cr.Name, EventType := eventType, Reason := reason, Message := message }] }

/-- The call `time.Sleep`, in seconds. -/
def World.sleep (w : World) (seconds : Nat) : World := { w with slept := w.slept + seconds }

def EventTypeWarning : String := "Warning"

/-- The status query `cli.Get("/stats", stats)` against the target at `addr`: the next
answer of the endpoint, `none` when the query fails. -/
def World.getStats (w : World) (addr : String) : Option Stats × World :=
  (w.stats.head?.join, { w with stats := w.stats.tail, calls := w.calls ++ [Call.stats addr] })

/-- The result of a Go call that may panic instead of returning. -/
inductive Ret (α : Type) where
  | done (a : α) : Ret α
  | panic : Ret α
deriving DecidableEq, Repr

/-! ## The reconciler

What the controller takes from packages outside this file is a field of
`JivaVolumeReconciler`: the build version and the version checks of package `version`,
the registered migrations (`upgradeMap`), `units.RAMInBytes`, `labels.Parse`, the
process environment, and the checks the builders of `pkg/kubernetes` make in `Build`
(a builder returns the object assembled from the fields given, or an error). -/

structure JivaVolumeReconciler where
  Version : String
  IsCurrentVersionValid : String → Bool
  IsDesiredVersionValid : String → Bool
  upgradeMap : List (String × (JivaVolume → World → Except Err JivaVolume × World))
  RAMInBytes : String → Option Int
  ParseLabels : String → Bool
  LookupEnv : String → Option String
  ServiceBuildErr : Service → Option Err
  DeploymentBuildErr : Deployment → Option Err
  StatefulSetBuildErr : StatefulSet → Option Err

/-- Whether a pod carries the label `k` with value `v` (one requirement `k=v` of a selector). -/
def hasLabel (labels : StrMap) (k v : String) : Bool := mapHas labels k && mapGet labels k == v

def isNodeReady (node : Node) : Bool :=
  node.Conditions.any (fun cond => cond.CondType == "Ready" && cond.Status == "True")

/-- The loop of `updatePodIPMap` over the pods listed: the addresses of the pods whose node
can be read and is ready. -/
def runningPodIPs : List Pod → World → List String × World
  | [], w => ([], w)
  | pod :: rest, w =>
    match apiGet Node { Namespace := "", Name := pod.NodeName } w with
    | (Except.ok node, w1) =>
      if isNodeReady node then
        match runningPodIPs rest w1 with
        | (ips, w2) => (pod.PodIP :: ips, w2)
      else runningPodIPs rest w1
    | (Except.error _, w1) => runningPodIPs rest w1

def updatePodIPMap (r : JivaVolumeReconciler) (cr : JivaVolume) (w : World) : Option Err × World :=
  let controllerLabel := "openebs.io/component=jiva-controller,openebs.io/persistent-volume="
  let bySelector : Pod → Bool := fun pod =>
    if r.ParseLabels (controllerLabel ++ cr.Name) then
      hasLabel pod.Labels "openebs.io/component" "jiva-controller"
        && hasLabel pod.Labels "openebs.io/persistent-volume" cr.Name
    else true
  match apiListPods cr.Namespace (fun pod => bySelector pod && pod.Phase == "Running") w with
  | (Except.error e, w1) => (some e, w1)
  | (Except.ok pods, w1) =>
    match runningPodIPs pods w1 with
    | (ips, w2) =>
      match ips with
      | [ip] => (none, { w2 with podIPMap := mapSet w2.podIPMap cr.Name ip })
      | _ => (some (Err.msg ("expected 1 controller pod got " ++ toString pods.length)), w2)

/-- The function `getJivaVolume`: it reads the stored resource and assigns the copy to its own
parameter only, so all the caller sees is the error. -/
def getJivaVolume (cr : JivaVolume) (w : World) : Option Err × World :=
  match apiGet JivaVolume { Namespace := cr.Namespace, Name := cr.Name } w with
  | (Except.error e, w1) => (some e, w1)
  | (Except.ok _, w1) => (none, w1)

def updateJivaVolume (cr : JivaVolume) (w : World) : Option Err × World :=
  match apiUpdate cr w with
  | (some e, w1) => (some (Err.wrap "failed to update JivaVolume, err" e), w1)
  | (none, w1) =>
    match getJivaVolume cr w1 with
    | (some e, w2) => (some (Err.wrap "failed to get JivaVolume, err" e), w2)
    | (none, w2) => (none, w2)

def setdefaults (cr : JivaVolume) : JivaVolume :=
  { cr with Status := { Status := "Unknown", ReplicaCount := 0, ReplicaStatuses := [],
                        Phase := JivaVolumePhaseSyncing } }

/-- The deferred call `updateStatus(&err, cr)`, with the value `err` has when the function
returns. -/
def updateStatus (err : Option Err) (cr : JivaVolume) (w : World) : JivaVolume × World :=
  let cr1 := if err.isSome then setdefaults cr else cr
  let w1 := (updateJivaVolume cr1 w).2
  let w2 := (getJivaVolume cr1 w1).2
  (cr1, w2)

/-- The assignments of `getAndUpdateVolumeStatus` to `cr.Status` from the answer `stats`. -/
def setStatusFromStats (cr : JivaVolume) (stats : Stats) : JivaVolume :=
  { cr with Status := {
      Status := stats.TargetStatus,
      ReplicaCount := (stats.Replicas.length : Int),
      ReplicaStatuses := stats.Replicas.map (fun rep => { Address := rep.Address, Mode := rep.Mode }),
      Phase := if stats.TargetStatus = "RW" then JivaVolumePhaseReady
               else if stats.TargetStatus = "RO" then JivaVolumePhaseSyncing
               else JivaVolumePhaseUnkown } }

/-- The address `getAndUpdateVolumeStatus` queries: the cached pod address when there is
one, else the target address of the spec, on port 9501. -/
def statsAddr (cr : JivaVolume) (w : World) : String :=
  if mapHas w.podIPMap cr.Name then mapGet w.podIPMap cr.Name ++ ":9501"
  else cr.Spec.ISCSISpec.TargetIP ++ ":9501"

def getAndUpdateVolumeStatus (r : JivaVolumeReconciler) (cr : JivaVolume) (w : World) :
    Option Err × JivaVolume × World :=
  match getJivaVolume cr w with
  | (some e, w1) =>
    (some (Err.wrap "failed to getAndUpdateVolumeStatus, err" e), updateStatus (some e) cr w1)
  | (none, w1) =>
    let addr := statsAddr cr w1
    if addr.length = 0 then
      (some (Err.msg "failed to get volume stats: target address is empty"), updateStatus none cr w1)
    else
      match w1.getStats addr with
      | (some stats, w2) => (none, updateStatus none (setStatusFromStats cr stats) w2)
      | (none, w2) =>
        -- the query failed: `stats` keeps its zero value and `err` becomes the result of
        -- the address refresh
        let stats : Stats := { TargetStatus := "", Replicas := [] }
        match updatePodIPMap r cr w2 with
        | (some e, w3) => (none, updateStatus (some e) (setStatusFromStats cr stats) (w3.sleep 1))
        | (none, w3) => (none, updateStatus none (setStatusFromStats cr stats) w3)

/-- The loop of `isScaleup` over the replica statuses: false at the first replica that is
not in mode `RW`. -/
def allReplicasRW : List ReplicaStatus → Bool
  | [] => true
  | rep :: rest => if rep.Mode ≠ "RW" then false else allReplicasRW rest

def isScaleup (cr : JivaVolume) (w : World) : Bool × World :=
  let desired := cr.Spec.DesiredReplicationFactor
  let factor := cr.Spec.Policy.Target.ReplicationFactor
  if desired > factor then
    if factor ≠ cr.Status.ReplicaCount then
      (false, w.eventf cr EventTypeWarning "ReplicaScaleup"
        ("failed to scaleup volume, replica count: " ++ toString cr.Status.ReplicaCount
          ++ " in status not equal to replicationfactor: " ++ toString factor))
    else if allReplicasRW cr.Status.ReplicaStatuses = false then
      (false, w.eventf cr EventTypeWarning "ReplicaScaleup"
        ("failed to scaleup volume, all replicas for volume " ++ cr.Name ++ " should be in RW state"))
    else if int64 (desired - factor) ≠ 1 then
      (false, w.eventf cr EventTypeWarning "ReplicaScaleup"
        ("failed to scaleup volume, only single replica scaleup is allowed, desired: "
          ++ toString desired ++ " actual: " ++ toString factor))
    else (true, w)
  else (false, w)

/-- The loop of `isHAVolume`: `availableReplicas` counts the replicas in mode `RW` seen so
far, and the loop returns true when the count reaches `qurom`. -/
def isHAVolumeLoop (qurom : Int) : Int → List ReplicaStatus → Bool
  | _, [] => false
  | availableReplicas, rep :: rest =>
    if rep.Mode = "RW" then
      if availableReplicas + 1 = qurom then true
      else isHAVolumeLoop qurom (availableReplicas + 1) rest
    else isHAVolumeLoop qurom availableReplicas rest

def isHAVolume (cr : JivaVolume) : Bool :=
  if cr.Spec.Policy.Target.ReplicationFactor < 3 then false
  else
    let qurom := Int.tdiv cr.Spec.Policy.Target.ReplicationFactor 2 + 1
    isHAVolumeLoop qurom 0 cr.Status.ReplicaStatuses

/-! ### Replica relocation -/

/-- The part of `removeSTSVolume` after the label `deletepvc`. -/
def removeSTSVolumeClaim (pvc : PersistentVolumeClaim) (w : World) : Option Err × World :=
  let key : Key := { Namespace := pvc.Namespace, Name := pvc.Name }
  match apiPatch PersistentVolumeClaim key (fun c => { c with Finalizers := [] }) w with
  | (some e, w1) => (some e, w1)
  | (none, w1) =>
    match apiDelete PersistentVolumeClaim key w1 with
    | (some e, w2) => (some e, w2)
    | (none, w2) => (none, w2)

def removeSTSVolume (pvc : PersistentVolumeClaim) (w : World) : Option Err × World :=
  let key : Key := { Namespace := "", Name := pvc.VolumeName }
  match apiGet PersistentVolume key w with
  | (Except.error e, w1) =>
    if e.isNotFound then removeSTSVolumeClaim pvc w1 else (some e, w1)
  | (Except.ok _, w1) =>
    match apiPatch PersistentVolume key (fun v => { v with Finalizers := [] }) w1 with
    | (some e, w2) => (some e, w2)
    | (none, w2) =>
      match apiDelete PersistentVolume key w2 with
      | (some e, w3) => (some e, w3)
      | (none, w3) => removeSTSVolumeClaim pvc w3

/-- The loop of `moveReplicasForMissingNodes` over the replica pods listed. Reading the claim
name of a pod without a first volume, or whose first volume is not a claim, panics. -/
def moveReplicaPods (cr : JivaVolume) : List Pod → World → Ret (Option Err) × World
  | [], w => (Ret.done none, w)
  | pod :: rest, w =>
    if pod.Phase ≠ "Pending" then moveReplicaPods cr rest w
    else
      match pod.Volumes.head?.map (fun v => v.ClaimName) with
      | none => (Ret.panic, w)
      | some none => (Ret.panic, w)
      | some (some claimName) =>
        let podKey : Key := { Namespace := pod.Namespace, Name := pod.Name }
        match apiGet PersistentVolumeClaim { Namespace := pod.Namespace, Name := claimName } w with
        | (Except.error e, w1) =>
          if e.isNotFound then
            match apiDelete Pod podKey w1 with
            | (some e2, w2) =>
              if !e2.isNotFound then (Ret.done (some e2), w2.sleep 10)
              else moveReplicaPods cr rest (w2.sleep 10)
            | (none, w2) => moveReplicaPods cr rest (w2.sleep 10)
          else (Ret.done (some e), w1)
        | (Except.ok pvc, w1) =>
          let nodeName := mapGet pvc.Annotations "volume.kubernetes.io/selected-node"
          if nodeName ≠ "" then
            match apiGet Node { Namespace := "", Name := nodeName } w1 with
            | (Except.ok _, w2) => moveReplicaPods cr rest w2
            | (Except.error e, w2) =>
              if e.isNotFound then
                match removeSTSVolume pvc w2 with
                | (some e2, w3) => (Ret.done (some e2), w3)
                | (none, w3) =>
                  match apiDelete Pod podKey w3 with
                  | (some e3, w4) => (Ret.done (some e3), w4)
                  | (none, w4) =>
                    moveReplicaPods cr rest ((w4.sleep 10).eventf cr EventTypeWarning "ReplicaMovement"
                      ("replica " ++ pod.Name ++ " and it's corresponding PVC & PV deleted"))
              else (Ret.done (some e), w2)
          else moveReplicaPods cr rest w1

def moveReplicasForMissingNodes (r : JivaVolumeReconciler) (cr : JivaVolume) (w : World) :
    Ret (Option Err) × World :=
  if !isHAVolume cr then (Ret.done none, w)
  else
    let replicaLabel := "openebs.io/component=jiva-replica,openebs.io/persistent-volume="
    if !r.ParseLabels (replicaLabel ++ cr.Name) then
      (Ret.done (some (Err.msg "unable to parse label selector")), w)
    else
      let bySelector : Pod → Bool := fun pod =>
        hasLabel pod.Labels "openebs.io/component" "jiva-replica"
          && hasLabel pod.Labels "openebs.io/persistent-volume" cr.Name
      match apiListPods cr.Namespace bySelector w with
      | (Except.error e, w1) => (Ret.done (some e), w1)
      | (Except.ok pods, w1) => moveReplicaPods cr pods w1

/-! ### Scale-up -/

/-- The loop of `performScaleup` over the containers of the target deployment: every
container named `jiva-controller` gets `value` in its first environment variable; `none`
when such a container has no environment variable (the index expression panics). -/
def setReplicationFactorEnv (value : String) : List Container → Option (List Container)
  | [] => some []
  | con :: rest =>
    if con.Name = "jiva-controller" then
      match con.Env with
      | [] => none
      | first :: others =>
        (setReplicationFactorEnv value rest).map
          (fun cs => { con with Env := { first with Value := value } :: others } :: cs)
    else (setReplicationFactorEnv value rest).map (fun cs => con :: cs)

def performScaleup (cr : JivaVolume) (w : World) : Ret (Option Err) × JivaVolume × World :=
  let replicaKey : Key := { Namespace := cr.Namespace, Name := cr.Name ++ "-jiva-rep" }
  match apiGet StatefulSet replicaKey w with
  | (Except.error e, w1) => (Ret.done (some e), cr, w1)
  | (Except.ok _, w1) =>
    let desiredReplicas := int32 cr.Spec.DesiredReplicationFactor
    match apiPatch StatefulSet replicaKey (fun s => { s with Replicas := desiredReplicas }) w1 with
    | (some e, w2) => (Ret.done (some e), cr, w2)
    | (none, w2) =>
      let controllerKey : Key := { Namespace := cr.Namespace, Name := cr.Name ++ "-jiva-ctrl" }
      match apiGet Deployment controllerKey w2 with
      | (Except.error e, w3) => (Ret.done (some e), cr, w3)
      | (Except.ok ctrlDeploy, w3) =>
        match setReplicationFactorEnv (toString cr.Spec.DesiredReplicationFactor)
            ctrlDeploy.Template.Containers with
        | none => (Ret.panic, cr, w3)
        | some containers =>
          match apiPatch Deployment controllerKey
              (fun d => { d with Template := { d.Template with Containers := containers } }) w3 with
          | (some e, w4) => (Ret.done (some e), cr, w4)
          | (none, w4) =>
            let cr1 : JivaVolume :=
              { cr with
                Spec := { cr.Spec with Policy := { cr.Spec.Policy with Target :=
                  { cr.Spec.Policy.Target with ReplicationFactor := desiredReplicas } } },
                Status := { cr.Status with Phase := JivaVolumePhaseSyncing } }
            match updateJivaVolume cr1 w4 with
            | (some e, w5) => (Ret.done (some (Err.wrap "failed to update JivaVolume phase" e)), cr1, w5)
            | (none, w5) => (Ret.done none, cr1, w5)

/-! ### Labels, ports and images -/

def pdbAPIVersion : String := "policyv1beta1"

def defaultStorageClass : String := "openebs-hostpath"

def replicaAntiAffinityKey : String := "openebs.io/replica-anti-affinity"

def defaultReplicationFactor : Int := 3

def defaultDisableMonitor : Bool := false

def openebsPVC : String := "openebs.io/persistent-volume-claim"

def updateErrMsg : String := "failed to update JivaVolume with service info"

def defaultServiceAccountName (r : JivaVolumeReconciler) : String :=
  (r.LookupEnv "OPENEBS_SERVICEACCOUNT_NAME").getD ""

def getImage (r : JivaVolumeReconciler) (key component : String) : String :=
  match r.LookupEnv key with
  | some image => image
  | none =>
    if component = "jiva-controller" ∨ component = "jiva-replica" then "openebs/jiva:ci"
    else if component = "exporter" then "openebs/m-exporter:ci"
    else ""

def defaultReplicaMatchLabels (pv : String) : StrMap :=
  [("openebs.io/cas-type", "jiva"),
   ("openebs.io/component", "jiva-replica"),
   ("openebs.io/persistent-volume", pv)]

def defaultReplicaLabels (r : JivaVolumeReconciler) (pv : String) : StrMap :=
  mapSet (defaultReplicaMatchLabels pv) "openebs.io/version" r.Version

def defaultControllerMatchLabels (pv pvc : String) : StrMap :=
  [("openebs.io/cas-type", "jiva"),
   ("openebs.io/component", "jiva-controller"),
   ("openebs.io/persistent-volume", pv),
   (openebsPVC, pvc)]

def defaultControllerLabels (r : JivaVolumeReconciler) (pv pvc : String) : StrMap :=
  mapSet (defaultControllerMatchLabels pv pvc) "openebs.io/version" r.Version

def defaultAnnotations : StrMap :=
  [("prometheus.io/path", "/metrics"), ("prometheus.io/port", "9500"), ("prometheus.io/scrap", "true")]

def defaultControllerPorts : List ContainerPort :=
  [{ Port := 3260, Protocol := "TCP" }, { Port := 9501, Protocol := "TCP" }]

def defaultControllerSVCPorts : List ServicePort :=
  [{ Name := "iscsi", Port := 3260, Protocol := "TCP", TargetPort := 3260 },
   { Name := "api", Port := 9501, Protocol := "TCP", TargetPort := 9501 },
   { Name := "exporter", Port := 9500, Protocol := "TCP", TargetPort := 9500 }]

def defaultReplicaPorts : List ContainerPort :=
  [{ Port := 9502, Protocol := "TCP" }, { Port := 9503, Protocol := "TCP" },
   { Port := 9504, Protocol := "TCP" }]

def defaultServiceLabels (r : JivaVolumeReconciler) (pv : String) : StrMap :=
  [("openebs.io/cas-type", "jiva"),
   ("openebs.io/component", "jiva-controller-service"),
   ("openebs.io/persistent-volume", pv),
   ("openebs.io/version", r.Version)]

/-- The group and version under which the scheme of the operator knows `JivaVolume`. -/
def jivaVolumeGroupVersion : String := "openebs.io/v1alpha1"

/-- The kind under which the scheme of the operator knows `JivaVolume`. -/
def jivaVolumeKind : String := "JivaVolume"

/-- The call `controllerutil.SetControllerReference(cr, obj, r.Scheme)` on the owner
references of `obj`, for a scheme that knows the kind of `cr`: the volume becomes the
controlling owner, unless the object is already controlled by another owner. The group,
version and kind of the reference are those of the scheme, whatever the type fields of `cr`
hold. -/
def setControllerReference (cr : JivaVolume) (refs : List OwnerReference) :
    Except Err (List OwnerReference) :=
  let ref : OwnerReference :=
    { APIVersion := jivaVolumeGroupVersion, Kind := jivaVolumeKind, Name := cr.Name, UID := cr.UID,
      Controller := some true, BlockOwnerDeletion := some true }
  let same : OwnerReference → Bool := fun o =>
    o.APIVersion == ref.APIVersion && o.Kind == ref.Kind && o.Name == ref.Name
  match refs.find? (fun o => o.Controller == some true) with
  | some existing =>
    if same existing then Except.ok (refs.map (fun o => if same o then ref else o))
    else Except.error (Err.msg ("Object is already owned by another controller " ++ existing.Name))
  | none =>
    if refs.any same then Except.ok (refs.map (fun o => if same o then ref else o))
    else Except.ok (refs ++ [ref])

/-- The call `r.Create` on a service: the API server gives the stored service its cluster
address. -/
def apiCreateService (svc : Service) (w : World) : Option Err × World :=
  match apiCreate (svc.withClusterIP (w.ipPool.head?.getD "")) w with
  | (some e, w1) => (some e, w1)
  | (none, w1) => (none, { w1 with ipPool := w1.ipPool.tail })

/-! ### The install steps -/

/-- The loop of `updateJivaVolumeWithServiceInfo` over the ports of the service: every port
named `iscsi` sets `found`, the target port and the identifier. -/
def setTargetPort (pv : String) : List ServicePort → Bool × ISCSISpec → Bool × ISCSISpec
  | [], acc => acc
  | port :: rest, acc =>
    if port.Name = "iscsi" then
      setTargetPort pv rest
        (true, { acc.2 with TargetPort := port.Port, Iqn := "iqn.2016-09.com.openebs.jiva" ++ ":" ++ pv })
    else setTargetPort pv rest acc

/-- The assignments of `updateJivaVolumeWithServiceInfo` to `cr.Spec.ISCSISpec` from the
service read: the target address, then the loop over the ports. The first component is
`found`. -/
def targetInfo (cr : JivaVolume) (ctrlSVC : Service) : Bool × ISCSISpec :=
  setTargetPort cr.Spec.PV ctrlSVC.Ports
    (false, { cr.Spec.ISCSISpec with TargetIP := ctrlSVC.ClusterIP })

def updateJivaVolumeWithServiceInfo (cr : JivaVolume) (w : World) : Option Err × JivaVolume × World :=
  match apiGet Service { Namespace := cr.Namespace, Name := cr.Name ++ "-jiva-ctrl-svc" } w with
  | (Except.error e, w1) => (some (Err.wrap updateErrMsg e), cr, w1)
  | (Except.ok ctrlSVC, w1) =>
    match targetInfo cr ctrlSVC with
    | (found, iscsi1) =>
      if !found then
        (some (Err.msg (updateErrMsg ++ ", err: can't find targetPort in target service spec")),
          cr.withISCSISpec iscsi1, w1)
      else
        match apiUpdate ((cr.withISCSISpec iscsi1).withPhase JivaVolumePhasePending) w1 with
        | (some e, w2) =>
          (some (Err.wrap updateErrMsg e), (cr.withISCSISpec iscsi1).withPhase JivaVolumePhasePending, w2)
        | (none, w2) =>
          match getJivaVolume ((cr.withISCSISpec iscsi1).withPhase JivaVolumePhasePending) w2 with
          | (some e, w3) =>
            (some (Err.wrap updateErrMsg e), (cr.withISCSISpec iscsi1).withPhase JivaVolumePhasePending, w3)
          | (none, w3) => (none, (cr.withISCSISpec iscsi1).withPhase JivaVolumePhasePending, w3)

/-- The service object `createControllerService` assembles. -/
def controllerServiceObj (r : JivaVolumeReconciler) (cr : JivaVolume) : Service :=
  { Name := cr.Name ++ "-jiva-ctrl-svc",
    Namespace := cr.Namespace,
    Labels := defaultServiceLabels r cr.Spec.PV,
    Selector := [("openebs.io/cas-type", "jiva"), ("openebs.io/persistent-volume", cr.Spec.PV)],
    Ports := defaultControllerSVCPorts,
    ClusterIP := "",
    OwnerReferences := [] }

def createControllerService (r : JivaVolumeReconciler) (cr : JivaVolume) (w : World) :
    Option Err × JivaVolume × World :=
  let svcObj := controllerServiceObj r cr
  match r.ServiceBuildErr svcObj with
  | some e => (some (Err.wrap "failed to build service object, err" e), cr, w)
  | none =>
    match apiGet Service { Namespace := svcObj.Namespace, Name := svcObj.Name } w with
    | (Except.error e, w1) =>
      if e.isNotFound then
        match setControllerReference cr svcObj.OwnerReferences with
        | Except.error e1 => (some e1, cr, w1)
        | Except.ok refs =>
          match apiCreateService (svcObj.withOwners refs) w1 with
          | (some e2, w2) => (some e2, cr, w2)
          | (none, w2) => updateJivaVolumeWithServiceInfo cr (w2.sleep 1)
      else (some (Err.wrap ("failed to get the service details: " ++ svcObj.Name) e), cr, w1)
    | (Except.ok _, w1) => updateJivaVolumeWithServiceInfo cr w1

/-- The deployment object `createControllerDeployment` assembles. -/
def controllerDeploymentObj (r : JivaVolumeReconciler) (cr : JivaVolume) : Deployment :=
  let policy := cr.Spec.Policy
  let target : Container :=
    { Name := "jiva-controller",
      Image := getImage r "OPENEBS_IO_JIVA_CONTROLLER_IMAGE" "jiva-controller",
      ImagePullPolicy := "IfNotPresent",
      Ports := defaultControllerPorts,
      Command := ["launch"],
      Args := ["controller", "--frontend", "gotgt", "--clusterIP", cr.Spec.ISCSISpec.TargetIP, cr.Name],
      Env := [{ Name := "REPLICATION_FACTOR", Value := toString policy.Target.ReplicationFactor }],
      Resources := policy.Target.Resources,
      Privileged := none,
      VolumeMounts := [] }
  let exporter : Container :=
    { Name := "maya-volume-exporter",
      Image := getImage r "OPENEBS_IO_MAYA_EXPORTER_IMAGE" "exporter",
      ImagePullPolicy := "IfNotPresent",
      Ports := [{ Port := 9500, Protocol := "TCP" }],
      Command := ["maya-exporter"],
      Args := [],
      Env := [],
      Resources := policy.Target.AuxResources,
      Privileged := none,
      VolumeMounts := [] }
  { Name := cr.Name ++ "-jiva-ctrl",
    Namespace := cr.Namespace,
    Labels := defaultControllerLabels r cr.Spec.PV (mapGet cr.Labels openebsPVC),
    Replicas := 1,
    StrategyType := "Recreate",
    SelectorMatchLabels := defaultControllerMatchLabels cr.Spec.PV (mapGet cr.Labels openebsPVC),
    Template :=
      { Labels := defaultControllerLabels r cr.Spec.PV (mapGet cr.Labels openebsPVC),
        Annotations := defaultAnnotations,
        ServiceAccountName :=
          if policy.ServiceAccountName.length ≠ 0 then policy.ServiceAccountName
          else defaultServiceAccountName r,
        PriorityClassName :=
          if policy.PriorityClassName.length ≠ 0 then policy.PriorityClassName else "",
        Tolerations := policy.Target.Tolerations,
        NodeSelector := policy.Target.NodeSelector,
        Affinity := policy.Target.Affinity,
        Containers := if !policy.Target.DisableMonitor then [target, exporter] else [target] },
    OwnerReferences := [] }

def createControllerDeployment (r : JivaVolumeReconciler) (cr : JivaVolume) (w : World) :
    Option Err × JivaVolume × World :=
  let dep := controllerDeploymentObj r cr
  match r.DeploymentBuildErr dep with
  | some e => (some (Err.wrap "failed to build deployment object, err" e), cr, w)
  | none =>
    match apiGet Deployment { Namespace := dep.Namespace, Name := dep.Name } w with
    | (Except.error e, w1) =>
      if e.isNotFound then
        match setControllerReference cr dep.OwnerReferences with
        | Except.error e1 => (some e1, cr, w1)
        | Except.ok refs =>
          match apiCreate (dep.withOwners refs) w1 with
          | (some e2, w2) => (some e2, cr, w2)
          | (none, w2) => (none, cr, w2)
      else (some (Err.wrap ("failed to get the deployment details: " ++ dep.Name) e), cr, w1)
    | (Except.ok _, w1) => (none, cr, w1)

/-- The call `metav1.LabelSelectorAsMap` on a selector made of match labels. -/
def labelSelectorAsMap : Option LabelSelector → StrMap
  | none => []
  | some ls => ls.MatchLabels

/-- The loop of `createReplicaStatefulSet` that assigns the selector of each user
anti-affinity term to the package-level `selectorMap` (the last term wins). -/
def lastSelector (terms : List PodAffinityTerm) (selectorMap : StrMap) : StrMap :=
  terms.foldl (fun _ term => labelSelectorAsMap term.LabelSelector) selectorMap

/-- The value of `selectorMap` after the pod template of the replica group is assembled. -/
def replicaSelectorMap (cr : JivaVolume) (selectorMap : StrMap) : StrMap :=
  match cr.Spec.Policy.Replica.Affinity with
  | none => selectorMap
  | some aff =>
    match aff.PodAntiAffinity with
    | none => selectorMap
    | some anti => lastSelector anti.RequiredDuringSchedulingIgnoredDuringExecution selectorMap

/-- The labels of the replica pod template. -/
def replicaPodLabels (r : JivaVolumeReconciler) (cr : JivaVolume) (selectorMap : StrMap) : StrMap :=
  let defaultLabels := defaultReplicaLabels r cr.Spec.PV
  match cr.Spec.Policy.Replica.Affinity with
  | none => defaultLabels
  | some aff =>
    match aff.PodAntiAffinity with
    | none => defaultLabels
    | some _ =>
      mapSet defaultLabels replicaAntiAffinityKey
        (mapGet (replicaSelectorMap cr selectorMap) replicaAntiAffinityKey)

/-- The affinity of the replica pod template: the default anti-affinity term, then the
terms and affinities of the policy. -/
def replicaAffinity (cr : JivaVolume) : Affinity :=
  let defaultTerm : PodAffinityTerm :=
    { LabelSelector := some { MatchLabels := defaultReplicaMatchLabels cr.Spec.PV },
      TopologyKey := "kubernetes.io/hostname" }
  match cr.Spec.Policy.Replica.Affinity with
  | none => { NodeAffinity := none, PodAffinity := none,
              PodAntiAffinity := some { RequiredDuringSchedulingIgnoredDuringExecution := [defaultTerm] } }
  | some aff =>
    { NodeAffinity := aff.NodeAffinity,
      PodAffinity := aff.PodAffinity,
      PodAntiAffinity := some { RequiredDuringSchedulingIgnoredDuringExecution :=
        match aff.PodAntiAffinity with
        | none => [defaultTerm]
        | some anti => defaultTerm :: anti.RequiredDuringSchedulingIgnoredDuringExecution } }

/-- The stateful set object `createReplicaStatefulSet` assembles, for the service read,
the capacity in bytes and the value of `selectorMap` on entry. -/
def replicaStatefulSetObj (r : JivaVolumeReconciler) (cr : JivaVolume) (svc : Service)
    (capacity : Int) (selectorMap : StrMap) : StatefulSet :=
  let policy := cr.Spec.Policy
  let replica : Container :=
    { Name := "jiva-replica",
      Image := getImage r "OPENEBS_IO_JIVA_REPLICA_IMAGE" "jiva-replica",
      ImagePullPolicy := "IfNotPresent",
      Ports := defaultReplicaPorts,
      Command := ["launch"],
      Args := ["replica", "--frontendIP", svc.ClusterIP, "--size", toString capacity, "openebs"],
      Env := [],
      Resources := policy.Replica.Resources,
      Privileged := some true,
      VolumeMounts := [{ Name := "openebs", MountPath := "/openebs" }] }
  { Name := cr.Name ++ "-jiva-rep",
    Namespace := cr.Namespace,
    Labels := defaultReplicaLabels r cr.Spec.PV,
    ServiceName := "jiva-replica-svc",
    PodManagementPolicy := "Parallel",
    StrategyType := "RollingUpdate",
    Replicas := int32 policy.Target.ReplicationFactor,
    SelectorMatchLabels := defaultReplicaMatchLabels cr.Spec.PV,
    Template :=
      { Labels := replicaPodLabels r cr selectorMap,
        Annotations := [],
        ServiceAccountName :=
          if policy.ServiceAccountName.length ≠ 0 then policy.ServiceAccountName
          else defaultServiceAccountName r,
        PriorityClassName :=
          if policy.PriorityClassName.length ≠ 0 then policy.PriorityClassName else "",
        Tolerations := policy.Replica.Tolerations,
        NodeSelector := policy.Replica.NodeSelector,
        Affinity := some (replicaAffinity cr),
        Containers := [replica] },
    VolumeClaimTemplates :=
      [{ Name := "openebs",
         Namespace := cr.Namespace,
         Annotations := [],
         Finalizers := [],
         OwnerReferences :=
           [{ APIVersion := cr.APIVersion, Kind := cr.Kind, Name := cr.Name, UID := cr.UID,
              Controller := some true, BlockOwnerDeletion := some false }],
         StorageClass := policy.ReplicaSC,
         AccessModes := ["ReadWriteOnce"],
         Capacity := cr.Spec.Capacity,
         VolumeName := "" }],
    OwnerReferences := [] }

def createReplicaStatefulSet (r : JivaVolumeReconciler) (cr : JivaVolume) (w : World) :
    Option Err × JivaVolume × World :=
  let svcName := cr.Name ++ "-jiva-ctrl-svc"
  match apiGet Service { Namespace := cr.Namespace, Name := svcName } w with
  | (Except.error e, w1) => (some (Err.wrap ("failed to get svc " ++ svcName ++ ", err") e), cr, w1)
  | (Except.ok svc, w1) =>
    match r.RAMInBytes (splitHead 'i' cr.Spec.Capacity) with
    | none =>
      (some (Err.msg ("failed to convert human readable size: " ++ cr.Spec.Capacity ++ " into int64")),
        cr, w1)
    | some capacity =>
      let stsObj := replicaStatefulSetObj r cr svc capacity w1.selectorMap
      let w2 : World := { w1 with selectorMap := replicaSelectorMap cr w1.selectorMap }
      match r.StatefulSetBuildErr stsObj with
      | some e => (some (Err.wrap "failed to build statefulset object, err" e), cr, w2)
      | none =>
        match apiGet StatefulSet { Namespace := stsObj.Namespace, Name := stsObj.Name } w2 with
        | (Except.error e, w3) =>
          if e.isNotFound then
            match setControllerReference cr stsObj.OwnerReferences with
            | Except.error e1 => (some e1, cr, w3)
            | Except.ok refs =>
              match apiCreate (stsObj.withOwners refs) w3 with
              | (some e2, w4) => (some e2, cr, w4)
              | (none, w4) => (none, cr, w4)
          else (some (Err.wrap ("failed to get the statefulset details: " ++ stsObj.Name) e), cr, w3)
        | (Except.ok _, w3) => (none, cr, w3)

/-- The budget object `createReplicaPodDisruptionBudget` assembles. -/
def replicaPodDisruptionBudgetObj (cr : JivaVolume) : PodDisruptionBudget :=
  let min := cr.Spec.Policy.Target.ReplicationFactor
  { Kind := "PodDisruptionBudget",
    APIVersion := pdbAPIVersion,
    Name := cr.Name ++ "-pdb",
    Namespace := cr.Namespace,
    SelectorMatchLabels := defaultReplicaMatchLabels cr.Spec.PV,
    MinAvailable := int32 (Int.tdiv min 2 + 1),
    OwnerReferences := [] }

def createReplicaPodDisruptionBudget (_r : JivaVolumeReconciler) (cr : JivaVolume) (w : World) :
    Option Err × JivaVolume × World :=
  let pdbObj := replicaPodDisruptionBudgetObj cr
  match apiGet PodDisruptionBudget { Namespace := pdbObj.Namespace, Name := pdbObj.Name } w with
  | (Except.error e, w1) =>
    if e.isNotFound then
      match setControllerReference cr pdbObj.OwnerReferences with
      | Except.error e1 => (some e1, cr, w1)
      | Except.ok refs =>
        match apiCreate (pdbObj.withOwners refs) w1 with
        | (some e2, w2) => (some e2, cr, w2)
        | (none, w2) => (none, cr, w2)
    else (some (Err.wrap ("failed to get the pod disruption budget details: " ++ pdbObj.Name) e), cr, w1)
  | (Except.ok _, w1) => (none, cr, w1)

/-! ### Policy resolution -/

def TaintEffectNoExecute : String := "NoExecute"

def TolerationOpExists : String := "Exists"

def getBaseReplicaTolerations : List Toleration :=
  ["node.kubernetes.io/notReady", "node.cloudprovider.kubernetes.io/uninitialized",
   "node.kubernetes.io/unreachable", "node.kubernetes.io/not-ready",
   "node.kubernetes.io/unschedulable", "node.kubernetes.io/out-of-disk",
   "node.kubernetes.io/memory-pressure", "node.kubernetes.io/disk-pressure",
   "node.kubernetes.io/network-unavailable"].map
    (fun key => { Key := key, Effect := TaintEffectNoExecute, Operator := TolerationOpExists,
                  TolerationSeconds := none })

def getBaseTargetTolerations : List Toleration :=
  ["node.kubernetes.io/notReady", "node.kubernetes.io/unreachable",
   "node.kubernetes.io/not-ready"].map
    (fun key => { Key := key, Effect := TaintEffectNoExecute, Operator := TolerationOpExists,
                  TolerationSeconds := some 0 })

/-- The resource requirements of the default policy: requests and limits of `0` for CPU and
memory. -/
def zeroResources : ResourceRequirements :=
  { Requests := [("cpu", "0"), ("memory", "0")], Limits := [("cpu", "0"), ("memory", "0")] }

def getDefaultPolicySpec : JivaVolumePolicySpec :=
  { ReplicaSC := defaultStorageClass,
    ServiceAccountName := "",
    PriorityClassName := "",
    Target :=
      { Tolerations := getBaseTargetTolerations,
        Resources := some zeroResources,
        NodeSelector := none,
        Affinity := none,
        AuxResources := some zeroResources,
        ReplicationFactor := defaultReplicationFactor,
        DisableMonitor := defaultDisableMonitor },
    Replica :=
      { Tolerations := getBaseReplicaTolerations,
        Resources := some zeroResources,
        NodeSelector := none,
        Affinity := none } }

def defaultRF (policy defaultPolicy : JivaVolumePolicySpec) : JivaVolumePolicySpec :=
  if policy.Target.ReplicationFactor = 0 then
    { policy with Target := { policy.Target with ReplicationFactor := defaultPolicy.Target.ReplicationFactor } }
  else policy

def defaultSC (policy defaultPolicy : JivaVolumePolicySpec) : JivaVolumePolicySpec :=
  if policy.ReplicaSC = "" then { policy with ReplicaSC := defaultPolicy.ReplicaSC } else policy

def defaultTargetRes (policy defaultPolicy : JivaVolumePolicySpec) : JivaVolumePolicySpec :=
  if policy.Target.Resources = none then
    { policy with Target := { policy.Target with Resources := defaultPolicy.Target.Resources } }
  else policy

def defaultTargetAuxRes (policy defaultPolicy : JivaVolumePolicySpec) : JivaVolumePolicySpec :=
  if policy.Target.AuxResources = none then
    { policy with Target := { policy.Target with AuxResources := defaultPolicy.Target.AuxResources } }
  else policy

def defaultReplicaRes (policy defaultPolicy : JivaVolumePolicySpec) : JivaVolumePolicySpec :=
  if policy.Replica.Resources = none then
    { policy with Replica := { policy.Replica with Resources := defaultPolicy.Replica.Resources } }
  else policy

def defaultTargetTolerations (policy defaultPolicy : JivaVolumePolicySpec) : JivaVolumePolicySpec :=
  { policy with Target :=
    { policy.Target with Tolerations := defaultPolicy.Target.Tolerations ++ policy.Target.Tolerations } }

def defaultReplicaTolerations (policy defaultPolicy : JivaVolumePolicySpec) : JivaVolumePolicySpec :=
  { policy with Replica :=
    { policy.Replica with Tolerations := defaultPolicy.Replica.Tolerations ++ policy.Replica.Tolerations } }

def validatePolicySpec (policy : JivaVolumePolicySpec) : JivaVolumePolicySpec :=
  let defaultPolicy := getDefaultPolicySpec
  let optFuncs : List (JivaVolumePolicySpec → JivaVolumePolicySpec → JivaVolumePolicySpec) :=
    [defaultRF, defaultSC, defaultTargetRes, defaultReplicaRes,
     defaultTargetTolerations, defaultReplicaTolerations, defaultTargetAuxRes]
  optFuncs.foldl (fun p o => o p defaultPolicy) policy

def populateJivaVolumePolicy (_r : JivaVolumeReconciler) (cr : JivaVolume) (w : World) :
    Option Err × JivaVolume × World :=
  let policyName := mapGet cr.Annotations "openebs.io/volume-policy"
  if policyName ≠ "" then
    match apiGet JivaVolumePolicy { Namespace := cr.Namespace, Name := policyName } w with
    | (Except.error e, w1) => (some (Err.wrap ("failed to get volume policy " ++ policyName) e), cr, w1)
    | (Except.ok policy, w1) => (none, cr.withPolicy (validatePolicySpec policy.Spec), w1)
  else (none, cr.withPolicy getDefaultPolicySpec, w)

/-! ### Bootstrap -/

/-- One install step: `func(r *JivaVolumeReconciler, cr *JivaVolume) error`. -/
abbrev InstallFunc := JivaVolumeReconciler → JivaVolume → World → Option Err × JivaVolume × World

def installFuncs : List InstallFunc :=
  [populateJivaVolumePolicy,
   createControllerService,
   createControllerDeployment,
   createReplicaStatefulSet,
   createReplicaPodDisruptionBudget]

/-- The function `finally` (a reserved word here, hence the underscore): the phase is set from `err` and the volume is updated; a failed
update is logged only. -/
def finally_ (err : Option Err) (cr : JivaVolume) (w : World) : JivaVolume × World :=
  let cr1 : JivaVolume :=
    if err.isSome then cr.withPhase JivaVolumePhaseFailed
    else cr.withPhase JivaVolumePhaseSyncing
  (cr1, (updateJivaVolume cr1 w).2)

def shouldReconcile (r : JivaVolumeReconciler) (cr : JivaVolume) : Bool × Option Err :=
  let operatorVersion := r.Version
  let jivaVolumeVersion := cr.VersionDetails.Status.Current
  if jivaVolumeVersion ≠ operatorVersion then
    (false, some (Err.msg ("jiva operator version is " ++ operatorVersion ++ " but volume "
      ++ cr.Name ++ " version is " ++ jivaVolumeVersion)))
  else (true, none)

/-- The loop of `bootstrapJiva` over the install steps: it breaks at the first step that
returns an error, after recording a warning event. -/
def runInstallFuncs (r : JivaVolumeReconciler) :
    List InstallFunc → JivaVolume → World → Option Err × JivaVolume × World
  | [], cr, w => (none, cr, w)
  | f :: rest, cr, w =>
    match f r cr w with
    | (some e, cr1, w1) =>
      (some e, cr1, w1.eventf cr1 EventTypeWarning "Bootstrap"
        "failed to bootstrap volume, due to error")
    | (none, cr1, w1) => runInstallFuncs r rest cr1 w1

def bootstrapJiva (r : JivaVolumeReconciler) (cr : JivaVolume) (w : World) :
    Option Err × JivaVolume × World :=
  match runInstallFuncs r installFuncs cr w with
  | (err, cr1, w1) => (err, finally_ err cr1 w1)

/-! ### Version upgrade -/

/-- Modelled from the spec: the method `SetInProgressStatus` of the API package, which marks
the migration state `InProgress`. -/
def VersionStatus.SetInProgressStatus (vs : VersionStatus) : VersionStatus :=
  { vs with State := ReconcileInProgress }

/-- Modelled from the spec: the method `SetSuccessStatus` of the API package, which marks the
migration state `Success` and makes the current version the desired one. -/
def VersionDetails.SetSuccessStatus (vd : VersionDetails) : VersionDetails :=
  { vd with Status := { Current := vd.Desired, State := ReconcileComplete } }

/-- The lookup `upgradeMap[path]`. -/
def lookupUpgrade (r : JivaVolumeReconciler) (path : String) :
    Option (JivaVolume → World → Except Err JivaVolume × World) :=
  (r.upgradeMap.find? (fun p => p.1 == path)).map (fun p => p.2)

/-- The end of `reconcileVersion`, from `cr = jObj.DeepCopy()` on. -/
def finishUpgrade (jObj : JivaVolume) (w : World) : Option Err × World :=
  let cr := jObj
  let jObj1 : JivaVolume := { jObj with VersionDetails := jObj.VersionDetails.SetSuccessStatus }
  match updateJivaVolume jObj1 w with
  | (some e, w1) => (some e, w1)
  | (none, w1) =>
    match getJivaVolume cr w1 with
    | (some e, w2) => (some (Err.wrap updateErrMsg e), w2)
    | (none, w2) => (none, w2)

/-- The middle of `reconcileVersion`: the reload, the lookup of the migration and its call. -/
def runUpgrade (r : JivaVolumeReconciler) (cr jObj : JivaVolume) (w : World) : Option Err × World :=
  match getJivaVolume cr w with
  | (some e, w1) => (some (Err.wrap updateErrMsg e), w1)
  | (none, w1) =>
    let path := splitHead '-' jObj.VersionDetails.Status.Current
    match lookupUpgrade r path with
    | some funcValue =>
      match funcValue jObj w1 with
      | (Except.error e, w2) => (some e, w2)
      | (Except.ok jObj1, w2) => finishUpgrade jObj1 w2
    | none => finishUpgrade jObj w1

/-- The function `reconcileVersion`. It works on the copy `jObj`; its assignments to `cr`
rebind its own parameter, so the resource of the caller is not written. -/
def reconcileVersion (r : JivaVolumeReconciler) (cr : JivaVolume) (w : World) : Option Err × World :=
  if cr.VersionDetails.Status.Current ≠ cr.VersionDetails.Desired then
    if !r.IsCurrentVersionValid cr.VersionDetails.Status.Current then
      (some (Err.msg ("invalid current version " ++ cr.VersionDetails.Status.Current)), w)
    else if !r.IsDesiredVersionValid cr.VersionDetails.Desired then
      (some (Err.msg ("invalid desired version " ++ cr.VersionDetails.Desired)), w)
    else
      let jObj := cr
      if cr.VersionDetails.Status.State ≠ ReconcileInProgress then
        let jObj1 : JivaVolume :=
          { jObj with VersionDetails :=
            { jObj.VersionDetails with Status := jObj.VersionDetails.Status.SetInProgressStatus } }
        match updateJivaVolume jObj1 w with
        | (some e, w1) => (some e, w1)
        | (none, w1) => runUpgrade r cr jObj1 w1
      else runUpgrade r cr jObj w
  else (none, w)

/-! ### The reconciliation state machine -/

/-- What a call of `Reconcile` leaves: its result (the error returned, or a panic), the
resource in its hands when it stops (`none` when none was loaded), and the world. -/
structure Reconciled where
  result : Ret (Option Err)
  volume : Option JivaVolume
  world : World

/-- The branch of `Reconcile` for phase `Ready`. -/
def reconcileReady (r : JivaVolumeReconciler) (cr : JivaVolume) (w : World) : Reconciled :=
  match getAndUpdateVolumeStatus r cr w with
  | (some e, cr1, w1) => { result := Ret.done (some e), volume := some cr1, world := w1 }
  | (none, cr1, w1) =>
    match isScaleup cr1 w1 with
    | (true, w2) =>
      match performScaleup cr1 w2 with
      | (Ret.panic, cr2, w3) => { result := Ret.panic, volume := some cr2, world := w3 }
      | (Ret.done (some e), cr2, w3) =>
        { result := Ret.done (some (Err.wrap ("failed to scaleup volume " ++ cr2.Name) e)),
          volume := some cr2,
          world := w3.eventf cr2 EventTypeWarning "ReplicaScaleup" "failed to scaleup volume, due to error" }
      | (Ret.done none, cr2, w3) =>
        match getAndUpdateVolumeStatus r cr2 w3 with
        | (err, cr3, w4) => { result := Ret.done err, volume := some cr3, world := w4 }
    | (false, w2) =>
      match moveReplicasForMissingNodes r cr1 w2 with
      | (Ret.panic, w3) => { result := Ret.panic, volume := some cr1, world := w3 }
      | (Ret.done (some e), w3) =>
        { result := Ret.done (some (Err.wrap ("failed to move replica " ++ cr1.Name) e)),
          volume := some cr1,
          world := w3.eventf cr1 EventTypeWarning "ReplicaMovement" "failed to move replica, due to error" }
      | (Ret.done none, w3) => { result := Ret.done none, volume := some cr1, world := w3 }

/-- The switch of `Reconcile` on `instance.Status.Phase`; `ok` is the result of
`shouldReconcile`. -/
def reconcilePhase (r : JivaVolumeReconciler) (ok : Bool) (cr : JivaVolume) (w : World) : Reconciled :=
  if cr.Status.Phase = JivaVolumePhaseReady then reconcileReady r cr w
  else if cr.Status.Phase = JivaVolumePhaseSyncing ∨ cr.Status.Phase = JivaVolumePhaseUnkown then
    match getAndUpdateVolumeStatus r cr w with
    | (err, cr1, w1) => { result := Ret.done err, volume := some cr1, world := w1 }
  else if cr.Status.Phase = JivaVolumePhaseDeleting then
    { result := Ret.done none, volume := some cr, world := w }
  else if cr.Status.Phase = "" ∨ cr.Status.Phase = JivaVolumePhasePending
      ∨ cr.Status.Phase = JivaVolumePhaseFailed then
    if ok then
      match bootstrapJiva r cr w with
      | (err, cr1, w1) => { result := Ret.done err, volume := some cr1, world := w1 }
    else { result := Ret.done none, volume := some cr, world := w }
  else { result := Ret.done none, volume := some cr, world := w }

/-- The refresh of the cached pod address in `Reconcile`: attempted when no address is cached
for the volume; a failure is logged and followed by a pause of one second. -/
def refreshPodIP (r : JivaVolumeReconciler) (cr : JivaVolume) (w : World) : World :=
  if !mapHas w.podIPMap cr.Name then
    match updatePodIPMap r cr w with
    | (some _, w1) => w1.sleep 1
    | (none, w1) => w1
  else w

def Reconcile (r : JivaVolumeReconciler) (req : Key) (w : World) : Reconciled :=
  match apiGet JivaVolume req w with
  | (Except.error e, w1) =>
    if e.isNotFound then { result := Ret.done none, volume := none, world := w1 }
    else { result := Ret.done (some e), volume := none, world := w1 }
  | (Except.ok cr, w1) =>
    match reconcileVersion r cr w1 with
    | (some e, w2) => { result := Ret.done (some e), volume := some cr, world := w2 }
    | (none, w2) =>
      match shouldReconcile r cr with
      | (_, some e) => { result := Ret.done (some e), volume := some cr, world := w2 }
      | (ok, none) => reconcilePhase r ok cr (refreshPodIP r cr w2)

/-! ## Notions of the specification -/

/-- The number of observed replicas in mode `RW`. -/
def rwCount (reps : List ReplicaStatus) : Nat := reps.countP (fun rep => rep.Mode == "RW")

/-- The quorum of the specification for `n` replicas: `⌊n/2⌋ + 1`. -/
def quorum (n : Int) : Int := Int.fdiv n 2 + 1

/-- What the loop of `performScaleup` does to one container: a container named
`jiva-controller` gets `value` in its first environment variable, any other is kept. -/
def envSet (value : String) (old new : Container) : Prop :=
  if old.Name = "jiva-controller" then
    ∃ first others, old.Env = first :: others ∧
      new = { old with Env := { first with Value := value } :: others }
  else new = old

/-- The end of a failed install step: the error is kept and a warning event recorded. -/
def bootstrapFail (e : Err) (cr : JivaVolume) (w : World) : Option Err × JivaVolume × World :=
  (some e, cr, w.eventf cr EventTypeWarning "Bootstrap" "failed to bootstrap volume, due to error")

/-- The install pipeline as the specification words it: resolve the policy, ensure the
service, the target deployment, the replica stateful set and the disruption budget, in this
order; a step that fails aborts the remaining steps and its error is the result. -/
def installInOrder (r : JivaVolumeReconciler) (cr : JivaVolume) (w : World) :
    Option Err × JivaVolume × World :=
  match populateJivaVolumePolicy r cr w with
  | (some e, cr1, w1) => bootstrapFail e cr1 w1
  | (none, cr1, w1) =>
    match createControllerService r cr1 w1 with
    | (some e, cr2, w2) => bootstrapFail e cr2 w2
    | (none, cr2, w2) =>
      match createControllerDeployment r cr2 w2 with
      | (some e, cr3, w3) => bootstrapFail e cr3 w3
      | (none, cr3, w3) =>
        match createReplicaStatefulSet r cr3 w3 with
        | (some e, cr4, w4) => bootstrapFail e cr4 w4
        | (none, cr4, w4) =>
          match createReplicaPodDisruptionBudget r cr4 w4 with
          | (some e, cr5, w5) => bootstrapFail e cr5 w5
          | (none, cr5, w5) => (none, cr5, w5)

/-- The requests issued between the worlds `before` and `after` (the log only grows). -/
def issued (before after : World) : List Call := after.calls.drop before.calls.length

def Call.isCreate : Call → Bool
  | Call.create _ _ => true
  | _ => false

/-- The contract of an "ensure exists" step for the object of kind `α` named `k`, where
`got` is what the `Get` by name of the step returns, `before` and `after` are the worlds
around the step and `err` is its result:
* a `Create` is issued exactly when the `Get` returns not-found, and it is the `Create` of
  that object;
* when the object is found, no `Create` is issued and the stored objects of that kind are
  left as they are;
* when the `Get` fails otherwise, the step returns an error, issues no `Create` and leaves
  the cluster as it is. -/
def EnsureContract (α : Type) [Resource α] (k : Key) (got : Except Err α)
    (before after : World) (err : Option Err) : Prop :=
  ((∃ c ∈ issued before after, c.isCreate = true) ↔ ∃ e, got = Except.error e ∧ e.isNotFound = true) ∧
  (∀ c ∈ issued before after, c.isCreate = true → c = Call.create (Resource.kind α) k) ∧
  (∀ x, got = Except.ok x →
    (∀ c ∈ issued before after, c.isCreate = false) ∧
      (Resource.sel after.cluster : List α) = Resource.sel before.cluster) ∧
  (∀ e, got = Except.error e → e.isNotFound = false →
    err.isSome = true ∧ (∀ c ∈ issued before after, c.isCreate = false) ∧
      after.cluster = before.cluster)

/-- The "ensure exists" pattern of the specification: get the object by name; if it is not
found, create it; if it is found, leave it untouched; any other read error is fatal. -/
def ensureExists {α : Type} [Resource α] (obj : α) (context : String) (w : World) :
    Option Err × World :=
  match apiGet α (Resource.key obj) w with
  | (Except.ok _, w1) => (none, w1)
  | (Except.error e, w1) =>
    if e.isNotFound then apiCreate obj w1
    else (some (Err.wrap context e), w1)

/-- The owner reference `setControllerReference` gives to an object without owners. -/
def controllerRef (cr : JivaVolume) : OwnerReference :=
  { APIVersion := jivaVolumeGroupVersion, Kind := jivaVolumeKind, Name := cr.Name, UID := cr.UID,
    Controller := some true, BlockOwnerDeletion := some true }

/-- The objects the steps create: the assembled object, owned by the volume. -/
def ownedService (r : JivaVolumeReconciler) (cr : JivaVolume) : Service :=
  (controllerServiceObj r cr).withOwners [controllerRef cr]

def ownedDeployment (r : JivaVolumeReconciler) (cr : JivaVolume) : Deployment :=
  (controllerDeploymentObj r cr).withOwners [controllerRef cr]

def ownedStatefulSet (r : JivaVolumeReconciler) (cr : JivaVolume) (svc : Service) (capacity : Int)
    (selectorMap : StrMap) : StatefulSet :=
  (replicaStatefulSetObj r cr svc capacity selectorMap).withOwners [controllerRef cr]

def ownedPodDisruptionBudget (cr : JivaVolume) : PodDisruptionBudget :=
  (replicaPodDisruptionBudgetObj cr).withOwners [controllerRef cr]

/-- The world in which `createReplicaStatefulSet` reads the stateful set: the service is
read and the package-level `selectorMap` is assigned. -/
def statefulSetReadWorld (cr : JivaVolume) (w : World) : World :=
  { (apiGet Service { Namespace := cr.Namespace, Name := cr.Name ++ "-jiva-ctrl-svc" } w).2 with
    selectorMap := replicaSelectorMap cr w.selectorMap }

/-- No `Create` is issued between the worlds `before` and `after`. -/
def Quiet (before after : World) : Prop :=
  ∃ cs, after.calls = before.calls ++ cs ∧ ∀ c ∈ cs, c.isCreate = false

/-- The world in which `Reconcile` reaches the switch on the phase, for the volume `cr`
loaded in the world `w1`: after the version step and the refresh of the pod address. -/
def switchWorld (r : JivaVolumeReconciler) (cr : JivaVolume) (w1 : World) : World :=
  refreshPodIP r cr (reconcileVersion r cr w1).2

/-- The status observed in a cycle on a volume in phase `Ready`: the one the first call of
`getAndUpdateVolumeStatus` leaves in the volume `cr` loaded in the world `w1`. -/
def observedStatus (r : JivaVolumeReconciler) (cr : JivaVolume) (w1 : World) : JivaVolumeStatus :=
  (getAndUpdateVolumeStatus r cr (switchWorld r cr w1)).2.1.Status

/-- The policy `populateJivaVolumePolicy` resolves for the volume `cr` in the cluster `c`: the
defaults without a policy annotation, else the named policy with the defaults filled in. -/
def resolvedPolicy (cr : JivaVolume) (c : Cluster) : JivaVolumePolicySpec :=
  if mapGet cr.Annotations "openebs.io/volume-policy" ≠ "" then
    match c.find JivaVolumePolicy
        { Namespace := cr.Namespace, Name := mapGet cr.Annotations "openebs.io/volume-policy" } with
    | some policy => validatePolicySpec policy.Spec
    | none => getDefaultPolicySpec
  else getDefaultPolicySpec

/-- The objects of kind `α` stored in `c` are stored unchanged in `c'`. -/
def Keeps (α : Type) [Resource α] (c c' : Cluster) : Prop :=
  ∀ k x, c.find α k = some x → c'.find α k = some x

/-- From `c` to `c'` the policies are the same, the services, deployments, stateful sets and
disruption budgets stored are kept as they are, and the volumes stored are still stored. -/
def Grows (c c' : Cluster) : Prop :=
  c'.Policies = c.Policies ∧ Keeps Service c c' ∧ Keeps Deployment c c' ∧ Keeps StatefulSet c c' ∧
    Keeps PodDisruptionBudget c c' ∧
    ∀ k, (c.find JivaVolume k).isSome = true → (c'.find JivaVolume k).isSome = true

/-- The volume `cr` is installed in the world `w`, as a run of the installer without error
leaves it: its policy is the resolved one and its desired replication factor that of the
policy, its target information is that of its stored service, the objects of the installer
can be built, and the volume, its service, target deployment, replica group and disruption
budget are stored. -/
def Installed (r : JivaVolumeReconciler) (cr : JivaVolume) (w : World) : Prop :=
  (mapGet cr.Annotations "openebs.io/volume-policy" ≠ "" →
    (w.cluster.find JivaVolumePolicy
      { Namespace := cr.Namespace, Name := mapGet cr.Annotations "openebs.io/volume-policy" }).isSome
      = true) ∧
  resolvedPolicy cr w.cluster = cr.Spec.Policy ∧
  cr.Spec.DesiredReplicationFactor = cr.Spec.Policy.Target.ReplicationFactor ∧
  r.ServiceBuildErr (controllerServiceObj r cr) = none ∧
  r.DeploymentBuildErr (controllerDeploymentObj r cr) = none ∧
  (∃ svc capacity,
    w.cluster.find Service { Namespace := cr.Namespace, Name := cr.Name ++ "-jiva-ctrl-svc" }
      = some svc ∧
    (targetInfo cr svc).1 = true ∧ (targetInfo cr svc).2 = cr.Spec.ISCSISpec ∧
    r.RAMInBytes (splitHead 'i' cr.Spec.Capacity) = some capacity ∧
    r.StatefulSetBuildErr (replicaStatefulSetObj r cr svc capacity w.selectorMap) = none) ∧
  (w.cluster.find JivaVolume { Namespace := cr.Namespace, Name := cr.Name }).isSome = true ∧
  (w.cluster.find Deployment { Namespace := cr.Namespace, Name := cr.Name ++ "-jiva-ctrl" }).isSome
    = true ∧
  (w.cluster.find StatefulSet { Namespace := cr.Namespace, Name := cr.Name ++ "-jiva-rep" }).isSome
    = true ∧
  (w.cluster.find PodDisruptionBudget { Namespace := cr.Namespace, Name := cr.Name ++ "-pdb" }).isSome
    = true

/-! ## Sample data -/

def rwReplica (addr : String) : ReplicaStatus := { Address := addr, Mode := "RW" }

/-- A volume of three read-write replicas in phase `Ready`, with the default policy. -/
def sampleVolume : JivaVolume :=
  { Kind := "JivaVolume",
    APIVersion := "openebs.io/v1alpha1",
    Name := "pvc-1",
    Namespace := "openebs",
    UID := "uid-1",
    Labels := [(openebsPVC, "claim-1")],
    Annotations := [],
    Spec :=
      { PV := "pvc-1",
        Capacity := "5Gi",
        ISCSISpec := { TargetIP := "10.0.0.1", TargetPort := 3260,
                       Iqn := "iqn.2016-09.com.openebs.jiva:pvc-1" },
        Policy := getDefaultPolicySpec,
        DesiredReplicationFactor := 3 },
    Status :=
      { Status := "RW",
        ReplicaCount := 3,
        ReplicaStatuses := [rwReplica "10.0.0.2", rwReplica "10.0.0.3", rwReplica "10.0.0.4"],
        Phase := JivaVolumePhaseReady },
    VersionDetails := { Desired := "3.0.0", Status := { Current := "3.0.0", State := ReconcileComplete } } }

/-- The sample volume with a request for one more replica. -/
def sampleScaleVolume : JivaVolume :=
  { sampleVolume with Spec := { sampleVolume.Spec with DesiredReplicationFactor := 4 } }

def emptyCluster : Cluster :=
  { Volumes := [], Policies := [], Services := [], Deployments := [], StatefulSets := [],
    PDBs := [], Pods := [], PVCs := [], PVs := [], Nodes := [] }

/-- A reconciler of build version `3.0.0` without registered migrations, whose builders
accept every object. -/
def sampleReconciler : JivaVolumeReconciler :=
  { Version := "3.0.0",
    IsCurrentVersionValid := fun _ => true,
    IsDesiredVersionValid := fun _ => true,
    upgradeMap := [],
    RAMInBytes := fun size => if size = "5G" then some 5368709120 else none,
    ParseLabels := fun _ => true,
    LookupEnv := fun _ => none,
    ServiceBuildErr := fun _ => none,
    DeploymentBuildErr := fun _ => none,
    StatefulSetBuildErr := fun _ => none }

/-- A world without stored objects, faults or recorded history. -/
def emptyWorld : World :=
  { cluster := emptyCluster, faults := [], stats := [], ipPool := [], calls := [], events := [],
    slept := 0, podIPMap := [], selectorMap := [] }

/-- A world that stores the sample volume and nothing else; the target does not answer. -/
def sampleWorld : World :=
  { emptyWorld with cluster := { emptyCluster with Volumes := [sampleVolume] } }

/-- The service, the target deployment and the replica group the installer builds for the
sample volume. -/
def sampleService : Service :=
  { controllerServiceObj sampleReconciler sampleVolume with ClusterIP := "10.0.0.1" }

def sampleDeployment : Deployment := controllerDeploymentObj sampleReconciler sampleVolume

def sampleStatefulSet : StatefulSet :=
  replicaStatefulSetObj sampleReconciler sampleVolume sampleService 5368709120 []

/-- A world that stores the sample volume with its service, target deployment, replica
group and disruption budget. -/
def sampleScaleWorld : World :=
  { emptyWorld with
    cluster :=
      { emptyCluster with
        Volumes := [sampleVolume],
        Services := [sampleService],
        Deployments := [sampleDeployment],
        StatefulSets := [sampleStatefulSet],
        PDBs := [replicaPodDisruptionBudgetObj sampleVolume] } }

/-- The sample volume with a desired replication factor of `2^31`. -/
def sampleWrapVolume : JivaVolume :=
  { sampleVolume with Spec := { sampleVolume.Spec with DesiredReplicationFactor := 2147483648 } }

/-- An answer of the status endpoint listing `n` replicas, all in mode `RW`. -/
def scaleStats (n : Nat) : Stats :=
  { TargetStatus := "RW", Replicas := List.replicate n (rwReplica "") }

/-- The sample volume with the effective replication factor `n` and a request for one more
replica. -/
def scaleVolume (n : Nat) : JivaVolume :=
  { sampleVolume with
    Spec := { sampleVolume.Spec with
      Policy := { getDefaultPolicySpec with
        Target := { getDefaultPolicySpec.Target with ReplicationFactor := (n : Int) } },
      DesiredReplicationFactor := (n : Int) + 1 } }

/-- A world that stores the volume of `n` replicas with its service, target deployment,
replica group and disruption budget, and in which the target answers `scaleStats n`. -/
def scaleWorld (n : Nat) : World :=
  { sampleScaleWorld with
    cluster := { sampleScaleWorld.cluster with Volumes := [scaleVolume n] },
    stats := [some (scaleStats n)] }

/-- The volume with the effective replication factor `2^31 - 1` and the desired factor
`2^31`. -/
def sampleBigVolume : JivaVolume := scaleVolume 2147483647

/-- The world that stores `sampleBigVolume` and in which the target answers `2^31 - 1`
replicas, all in mode `RW`. -/
def sampleBigWorld : World := scaleWorld 2147483647

/-- A policy of the namespace `openebs` that sets the storage class `custom` and leaves
everything else unset. -/
def samplePolicy : JivaVolumePolicy :=
  { Name := "gold",
    Namespace := "openebs",
    Spec :=
      { ReplicaSC := "custom",
        ServiceAccountName := "",
        PriorityClassName := "",
        Target := { Tolerations := [], Resources := none, NodeSelector := none, Affinity := none,
                    AuxResources := none, ReplicationFactor := 0, DisableMonitor := false },
        Replica := { Tolerations := [], Resources := none, NodeSelector := none, Affinity := none } } }

/-- The sample volume, annotated with the policy `gold`. -/
def samplePolicyVolume : JivaVolume :=
  { sampleVolume with Annotations := [("openebs.io/volume-policy", "gold")] }

/-- A world that stores the annotated volume and the policy `gold`. -/
def samplePolicyWorld : World :=
  { emptyWorld with
    cluster := { emptyCluster with Volumes := [samplePolicyVolume], Policies := [samplePolicy] } }

/-- The sample volume with the effective replication factor `n`. -/
def factorVolume (n : Int) : JivaVolume :=
  { sampleVolume with
    Spec := { sampleVolume.Spec with
      Policy := { getDefaultPolicySpec with
        Target := { getDefaultPolicySpec.Target with ReplicationFactor := n } } } }

/-- The copy `jObj` that `reconcileVersion` hands to the migration: the volume, marked
`InProgress` unless it is so already. -/
def migrationCopy (cr : JivaVolume) : JivaVolume :=
  if cr.VersionDetails.Status.State ≠ ReconcileInProgress then
    { cr with VersionDetails :=
      { cr.VersionDetails with Status := cr.VersionDetails.Status.SetInProgressStatus } }
  else cr

/-- The world in which `reconcileVersion` looks up and calls the migration, when the calls
before it succeed: after the update of the marked copy (unless the volume was marked
already) and the reload of the volume. -/
def migrationWorld (cr : JivaVolume) (w : World) : World :=
  if cr.VersionDetails.Status.State ≠ ReconcileInProgress then
    (getJivaVolume cr (updateJivaVolume (migrationCopy cr) w).2).2
  else (getJivaVolume cr w).2

/-- The resource `reconcileVersion` persists at its end: `jObj` after `SetSuccessStatus`. -/
def markedSuccess (jObj : JivaVolume) : JivaVolume :=
  { jObj with VersionDetails := jObj.VersionDetails.SetSuccessStatus }

/-- The sample volume with a request for version `3.1.0`, its current version being `3.0.0`. -/
def sampleUpgradeVolume : JivaVolume :=
  { sampleVolume with VersionDetails := { sampleVolume.VersionDetails with Desired := "3.1.0" } }

/-- A world that stores the volume to upgrade and nothing else. -/
def sampleUpgradeWorld : World :=
  { emptyWorld with cluster := { emptyCluster with Volumes := [sampleUpgradeVolume] } }

/-- A migration that labels the resource and calls nothing. -/
def sampleMigration (jObj : JivaVolume) (w : World) : Except Err JivaVolume × World :=
  (Except.ok { jObj with Labels := jObj.Labels ++ [("migrated", "true")] }, w)

/-- A migration that fails and calls nothing. -/
def sampleFailingMigration (_jObj : JivaVolume) (w : World) : Except Err JivaVolume × World :=
  (Except.error (Err.msg "migration failed"), w)

/-- The sample reconciler with `sampleMigration` registered for version `3.0.0`. -/
def sampleUpgradeReconciler : JivaVolumeReconciler :=
  { sampleReconciler with upgradeMap := [("3.0.0", sampleMigration)] }

/-- The sample reconciler with `sampleFailingMigration` registered for version `3.0.0`. -/
def sampleFailingReconciler : JivaVolumeReconciler :=
  { sampleReconciler with upgradeMap := [("3.0.0", sampleFailingMigration)] }

/-- The sample reconciler for which `3.0.0` is the only valid desired version. -/
def sampleStrictReconciler : JivaVolumeReconciler :=
  { sampleReconciler with IsDesiredVersionValid := fun v => v == "3.0.0" }

/-- A cycle that ends without doing anything: no error, the volume and the world as they
are. -/
def noAction (cr : JivaVolume) (w : World) : Reconciled :=
  { result := Ret.done none, volume := some cr, world := w }

/-- A cycle that ends with the status refresh: its error is the result. -/
def refreshOnly (r : JivaVolumeReconciler) (cr : JivaVolume) (w : World) : Reconciled :=
  match getAndUpdateVolumeStatus r cr w with
  | (err, cr1, w1) => { result := Ret.done err, volume := some cr1, world := w1 }

/-- A cycle that ends with the scale-up followed by a status refresh; a failed scale-up is
recorded as a warning and ends the cycle before the refresh. -/
def scaleupThenRefresh (r : JivaVolumeReconciler) (cr : JivaVolume) (w : World) : Reconciled :=
  match performScaleup cr w with
  | (Ret.panic, cr2, w3) => { result := Ret.panic, volume := some cr2, world := w3 }
  | (Ret.done (some e), cr2, w3) =>
    { result := Ret.done (some (Err.wrap ("failed to scaleup volume " ++ cr2.Name) e)),
      volume := some cr2,
      world := w3.eventf cr2 EventTypeWarning "ReplicaScaleup" "failed to scaleup volume, due to error" }
  | (Ret.done none, cr2, w3) => refreshOnly r cr2 w3

/-- A cycle that ends with the relocation of replicas; a failed relocation is recorded as a
warning. -/
def relocateOnly (r : JivaVolumeReconciler) (cr : JivaVolume) (w : World) : Reconciled :=
  match moveReplicasForMissingNodes r cr w with
  | (Ret.panic, w3) => { result := Ret.panic, volume := some cr, world := w3 }
  | (Ret.done (some e), w3) =>
    { result := Ret.done (some (Err.wrap ("failed to move replica " ++ cr.Name) e)),
      volume := some cr,
      world := w3.eventf cr EventTypeWarning "ReplicaMovement" "failed to move replica, due to error" }
  | (Ret.done none, w3) => { result := Ret.done none, volume := some cr, world := w3 }

/-- A cycle that ends with the bootstrap installer: its error is the result. -/
def bootstrapOnly (r : JivaVolumeReconciler) (cr : JivaVolume) (w : World) : Reconciled :=
  match bootstrapJiva r cr w with
  | (err, cr1, w1) => { result := Ret.done err, volume := some cr1, world := w1 }

/-- The branch for phase `Ready` as the specification words it: the status refresh, whose
error ends the cycle, then the scale-up followed by a second refresh when `isScaleup` is true
of the refreshed volume, and the relocation when it is false. -/
def readyDispatch (r : JivaVolumeReconciler) (cr : JivaVolume) (w : World) : Reconciled :=
  match getAndUpdateVolumeStatus r cr w with
  | (some e, cr1, w1) => { result := Ret.done (some e), volume := some cr1, world := w1 }
  | (none, cr1, w1) =>
    if (isScaleup cr1 w1).1 = true then scaleupThenRefresh r cr1 (isScaleup cr1 w1).2
    else relocateOnly r cr1 (isScaleup cr1 w1).2

/-! ### Notions of the relocation -/

/-- The replica pods of the volume that `moveReplicasForMissingNodes` lists in the cluster
`c`: the pods of the namespace of the volume that carry the two labels of its selector. -/
def replicaPods (cr : JivaVolume) (c : Cluster) : List Pod :=
  c.Pods.filter (fun pod => pod.Namespace == cr.Namespace &&
    (hasLabel pod.Labels "openebs.io/component" "jiva-replica"
      && hasLabel pod.Labels "openebs.io/persistent-volume" cr.Name))

/-- The name of the claim of the first volume of a pod, in the namespace of the pod. -/
def claimKey (pod : Pod) : Option Key :=
  match pod.Volumes.head?.map (fun v => v.ClaimName) with
  | some (some claimName) => some { Namespace := pod.Namespace, Name := claimName }
  | _ => none

/-- The node a claim is annotated to (`volume.kubernetes.io/selected-node`); empty when the
annotation is not set. -/
def selectedNode (pvc : PersistentVolumeClaim) : String :=
  mapGet pvc.Annotations "volume.kubernetes.io/selected-node"

/-- The claim is annotated to a node, and no node of that name is stored in `c`. -/
def NodeGone (c : Cluster) (pvc : PersistentVolumeClaim) : Prop :=
  selectedNode pvc ≠ "" ∧ c.find Node { Namespace := "", Name := selectedNode pvc } = none

/-- In the cluster `c`, the claim `pvc`, stored under the name `k`, is the claim of a pending
pod of `pods` and the node it is annotated to is gone. -/
def StaleClaim (c : Cluster) (pods : List Pod) (k : Key) (pvc : PersistentVolumeClaim) : Prop :=
  ∃ pod ∈ pods, pod.Phase = "Pending" ∧ claimKey pod = some k ∧
    c.find PersistentVolumeClaim k = some pvc ∧ NodeGone c pvc

/-- In the cluster `c`, the pod is pending and either its claim is not stored, or the node its
claim is annotated to is gone. -/
def Relocatable (c : Cluster) (pod : Pod) : Prop :=
  pod.Phase = "Pending" ∧ ∃ k, claimKey pod = some k ∧
    (c.find PersistentVolumeClaim k = none ∨
      ∃ pvc, c.find PersistentVolumeClaim k = some pvc ∧ NodeGone c pvc)

/-- What warrants a request of the relocation, in terms of the cluster `c` it starts from and
the pods `pods` it lists: reads are free; a pod is deleted only when it is one of the pods
listed and relocatable; a claim is patched or deleted only when it is stale, and a volume only
when it is the volume of a stale claim; nothing is created or updated. -/
def Warranted (c : Cluster) (pods : List Pod) : Call → Prop
  | Call.get _ _ => True
  | Call.list _ _ => True
  | Call.delete Kind.Pod k =>
    ∃ pod ∈ pods, ({ Namespace := pod.Namespace, Name := pod.Name } : Key) = k ∧ Relocatable c pod
  | Call.patch Kind.PersistentVolumeClaim k => ∃ pvc, StaleClaim c pods k pvc
  | Call.delete Kind.PersistentVolumeClaim k => ∃ pvc, StaleClaim c pods k pvc
  | Call.patch Kind.PersistentVolume k =>
    ∃ kc pvc, StaleClaim c pods kc pvc ∧ k = { Namespace := "", Name := pvc.VolumeName }
  | Call.delete Kind.PersistentVolume k =>
    ∃ kc pvc, StaleClaim c pods kc pvc ∧ k = { Namespace := "", Name := pvc.VolumeName }
  | _ => False

/-- No injected fault is `NotFound`: a request answers `NotFound` only when the object it names
is not stored, which is when the API server gives that answer. Faults of every other kind may
be pending. -/
def realNotFound (faults : List (Option Err)) : Bool :=
  faults.all (fun f =>
    match f with
    | some e => !e.isNotFound
    | none => true)

/-- What the loop of the relocation keeps true of the world, relative to the cluster `c` it
started from, as long as no call fails for a reason other than a missing object: no pending
fault is `NotFound`, the nodes are those of `c`, and a claim is stored as in `c` unless it was
stale in `c` and is stored no more. -/
def RelocInv (c : Cluster) (w : World) : Prop :=
  realNotFound w.faults = true ∧ w.cluster.Nodes = c.Nodes ∧
  ∀ k, w.cluster.find PersistentVolumeClaim k = c.find PersistentVolumeClaim k ∨
    (w.cluster.find PersistentVolumeClaim k = none ∧
      ∃ pvc, c.find PersistentVolumeClaim k = some pvc ∧ NodeGone c pvc)


/-- The requests issued between the worlds `w` and `w1` are all warranted. -/
def Traced (c : Cluster) (pods : List Pod) (w w1 : World) : Prop :=
  ∃ cs, w1.calls = w.calls ++ cs ∧ ∀ x ∈ cs, Warranted c pods x

/-! ### Sample data of the relocation -/

/-- A pending replica pod of the sample volume; its first volume is the claim
`openebs-pvc-1-jiva-rep-0`. -/
def samplePendingPod : Pod :=
  { Name := "pvc-1-jiva-rep-0",
    Namespace := "openebs",
    Labels := [("openebs.io/component", "jiva-replica"), ("openebs.io/persistent-volume", "pvc-1")],
    Phase := "Pending",
    NodeName := "",
    PodIP := "",
    Volumes := [{ Name := "openebs", ClaimName := some "openebs-pvc-1-jiva-rep-0" }] }

/-- The claim of the pending replica pod, annotated to the node `node-1` and bound to the
volume `pv-rep-0`. -/
def sampleReplicaClaim : PersistentVolumeClaim :=
  { Name := "openebs-pvc-1-jiva-rep-0",
    Namespace := "openebs",
    Annotations := [("volume.kubernetes.io/selected-node", "node-1")],
    Finalizers := ["kubernetes.io/pvc-protection"],
    OwnerReferences := [],
    StorageClass := "openebs-hostpath",
    AccessModes := ["ReadWriteOnce"],
    Capacity := "5Gi",
    VolumeName := "pv-rep-0" }

/-- A world in which the pending replica pod is stored and its claim is not; the node
`node-2` is stored. -/
def sampleOrphanWorld : World :=
  { emptyWorld with
    cluster := { emptyCluster with
      Volumes := [sampleVolume],
      Pods := [samplePendingPod],
      Nodes := [{ Name := "node-2", Conditions := [{ CondType := "Ready", Status := "True" }] }] } }

/-- A world in which the pending replica pod, its claim and the volume of the claim are
stored, and the node `node-1` the claim is annotated to is not. -/
def sampleStaleWorld : World :=
  { emptyWorld with
    cluster := { emptyCluster with
      Volumes := [sampleVolume],
      Pods := [samplePendingPod],
      PVCs := [sampleReplicaClaim],
      PVs := [{ Name := "pv-rep-0", Finalizers := ["kubernetes.io/pv-protection"] }],
      Nodes := [{ Name := "node-2", Conditions := [{ CondType := "Ready", Status := "True" }] }] } }

/-- The sample volume when no replica is known to be read-write. -/
def sampleDegradedVolume : JivaVolume :=
  { sampleVolume with Status := { sampleVolume.Status with ReplicaStatuses := [] } }


/-- The world `w` when its request number `n` (counted from zero) answers `NotFound` and
the requests before it meet no fault: the object went away in between. -/
def notFoundAt (w : World) (n : Nat) : World :=
  { w with faults := List.replicate n none ++ [some Err.notFound] }

/-- The world `w` when its request number `n` (counted from zero) fails with an error of the
API server other than `NotFound` and the requests before it meet no fault. -/
def timeoutAt (w : World) (n : Nat) : World :=
  { w with faults := List.replicate n none ++ [some (Err.api "timeout")] }

/-- The world with the stale claim when the node `node-1` the claim is annotated to is
stored as well. -/
def sampleSettledWorld : World :=
  { sampleStaleWorld with
    cluster := { sampleStaleWorld.cluster with
      Nodes := [{ Name := "node-1", Conditions := [{ CondType := "Ready", Status := "True" }] },
                { Name := "node-2", Conditions := [{ CondType := "Ready", Status := "True" }] }] } }


/-- The port named `iscsi` of a service; the last one when several carry the name. -/
def iscsiPort (ports : List ServicePort) : Option ServicePort :=
  ports.reverse.find? (fun port => decide (port.Name = "iscsi"))

/-- The export the claim describes for a volume whose target service has the cluster address
`ip` and the port `port` named `iscsi`. -/
def exportOf (cr : JivaVolume) (ip : String) (port : ServicePort) : ISCSISpec :=
  { TargetIP := ip, TargetPort := port.Port, Iqn := "iqn.2016-09.com.openebs.jiva:" ++ cr.Spec.PV }

/-- The sample service without its port `iscsi`. -/
def sampleBareService : Service :=
  { sampleService with Ports := [{ Name := "api", Port := 9501, Protocol := "TCP", TargetPort := 9501 }] }

/-- The sample volume before the installer ran: no export recorded, phase unset. -/
def sampleFreshVolume : JivaVolume :=
  { sampleVolume with
    Spec := { sampleVolume.Spec with ISCSISpec := { TargetIP := "", TargetPort := 0, Iqn := "" } },
    Status := { sampleVolume.Status with Phase := "" } }

/-- A world that stores the fresh sample volume and the service `svc`. -/
def serviceWorld (svc : Service) : World :=
  { emptyWorld with
    cluster := { emptyCluster with Volumes := [sampleFreshVolume], Services := [svc] } }


/-! ## Pointers

`Reconcile` and its helpers pass the volume as a Go pointer `*JivaVolume`. The functions
above are written on values, with the resource of the caller left out of the result where
the Go function only assigns to its own parameter. The functions of this section are the
same Go functions written on addresses of a heap, to relate the two. -/

/-- The zero value of `JivaVolumePolicySpec`. -/
def zeroPolicySpec : JivaVolumePolicySpec :=
  { ReplicaSC := "", ServiceAccountName := "", PriorityClassName := "",
    Target := { Tolerations := [], Resources := none, NodeSelector := none, Affinity := none,
                AuxResources := none, ReplicationFactor := 0, DisableMonitor := false },
    Replica := { Tolerations := [], Resources := none, NodeSelector := none, Affinity := none } }

/-- The zero value `JivaVolume{}`. -/
def zeroVolume : JivaVolume :=
  { Kind := "", APIVersion := "", Name := "", Namespace := "", UID := "", Labels := [],
    Annotations := [],
    Spec := { PV := "", Capacity := "", ISCSISpec := { TargetIP := "", TargetPort := 0, Iqn := "" },
              Policy := zeroPolicySpec, DesiredReplicationFactor := 0 },
    Status := { Status := "", ReplicaCount := 0, ReplicaStatuses := [], Phase := "" },
    VersionDetails := { Desired := "", Status := { Current := "", State := "" } } }

/-- The volumes allocated so far; the address of a volume is its position. -/
structure Heap where
  cells : List JivaVolume
deriving DecidableEq, Repr

/-- The volume at an address, `*p`; `none` when nothing is allocated there. -/
def Heap.read (h : Heap) (p : Nat) : Option JivaVolume := h.cells.get? p

/-- The assignment `*p = x`. -/
def Heap.write (h : Heap) (p : Nat) (x : JivaVolume) : Heap := { cells := h.cells.set p x }

/-- A new volume with the value `x`, as `&JivaVolume{}` and `DeepCopy` make one: its address,
and the heap with it. -/
def Heap.alloc (h : Heap) (x : JivaVolume) : Nat × Heap :=
  (h.cells.length, { cells := h.cells ++ [x] })

/-- The function `getJivaVolume` on addresses. The second component is the value of its
parameter `cr` when it returns: the address of the copy after a successful read. Reading
through an address where nothing is allocated panics. -/
def getJivaVolumeAt (cr : Nat) (h : Heap) (w : World) : Ret (Option Err) × Nat × Heap × World :=
  match h.alloc zeroVolume with
  | (inst, h1) =>
    match h1.read cr with
    | none => (Ret.panic, cr, h1, w)
    | some c =>
      match apiGet JivaVolume { Namespace := c.Namespace, Name := c.Name } w with
      | (Except.error e, w1) => (Ret.done (some e), cr, h1, w1)
      | (Except.ok x, w1) =>
        -- `Get` fills `*instance`; `cr = instance.DeepCopy()` assigns to the parameter
        match (h1.write inst x).alloc x with
        | (copy, h2) => (Ret.done none, copy, h2, w1)

/-- The function `updateJivaVolume` on addresses. As in `apiUpdate`, the object handed to
`Update` is left as it is. -/
def updateJivaVolumeAt (cr : Nat) (h : Heap) (w : World) : Ret (Option Err) × Heap × World :=
  match h.read cr with
  | none => (Ret.panic, h, w)
  | some c =>
    match apiUpdate c w with
    | (some e, w1) => (Ret.done (some (Err.wrap "failed to update JivaVolume, err" e)), h, w1)
    | (none, w1) =>
      match getJivaVolumeAt cr h w1 with
      | (Ret.panic, _, h2, w2) => (Ret.panic, h2, w2)
      | (Ret.done (some e), _, h2, w2) =>
        (Ret.done (some (Err.wrap "failed to get JivaVolume, err" e)), h2, w2)
      | (Ret.done none, _, h2, w2) => (Ret.done none, h2, w2)

/-- The end of `reconcileVersion` on addresses, from `cr = jObj.DeepCopy()` on. -/
def finishUpgradeAt (jObj : Nat) (h : Heap) (w : World) : Ret (Option Err) × Heap × World :=
  match h.read jObj with
  | none => (Ret.panic, h, w)
  | some j =>
    match h.alloc j with
    | (cr, h1) =>
      match updateJivaVolumeAt jObj
          (h1.write jObj { j with VersionDetails := j.VersionDetails.SetSuccessStatus }) w with
      | (Ret.panic, h2, w1) => (Ret.panic, h2, w1)
      | (Ret.done (some e), h2, w1) => (Ret.done (some e), h2, w1)
      | (Ret.done none, h2, w1) =>
        match getJivaVolumeAt cr h2 w1 with
        | (Ret.panic, _, h3, w2) => (Ret.panic, h3, w2)
        | (Ret.done (some e), _, h3, w2) => (Ret.done (some (Err.wrap updateErrMsg e)), h3, w2)
        | (Ret.done none, _, h3, w2) => (Ret.done none, h3, w2)

/-- The middle of `reconcileVersion` on addresses. A migration gets the copy `jObj` and
returns a volume of its own. -/
def runUpgradeAt (r : JivaVolumeReconciler) (cr jObj : Nat) (h : Heap) (w : World) :
    Ret (Option Err) × Heap × World :=
  match getJivaVolumeAt cr h w with
  | (Ret.panic, _, h1, w1) => (Ret.panic, h1, w1)
  | (Ret.done (some e), _, h1, w1) => (Ret.done (some (Err.wrap updateErrMsg e)), h1, w1)
  | (Ret.done none, _, h1, w1) =>
    match h1.read jObj with
    | none => (Ret.panic, h1, w1)
    | some j =>
      match lookupUpgrade r (splitHead '-' j.VersionDetails.Status.Current) with
      | some funcValue =>
        match funcValue j w1 with
        | (Except.error e, w2) => (Ret.done (some e), h1, w2)
        | (Except.ok j1, w2) =>
          match h1.alloc j1 with
          | (jObj1, h2) => finishUpgradeAt jObj1 h2 w2
      | none => finishUpgradeAt jObj h1 w1

/-- The function `reconcileVersion` on addresses. -/
def reconcileVersionAt (r : JivaVolumeReconciler) (cr : Nat) (h : Heap) (w : World) :
    Ret (Option Err) × Heap × World :=
  match h.read cr with
  | none => (Ret.panic, h, w)
  | some c =>
    if c.VersionDetails.Status.Current ≠ c.VersionDetails.Desired then
      if !r.IsCurrentVersionValid c.VersionDetails.Status.Current then
        (Ret.done (some (Err.msg ("invalid current version " ++ c.VersionDetails.Status.Current))), h, w)
      else if !r.IsDesiredVersionValid c.VersionDetails.Desired then
        (Ret.done (some (Err.msg ("invalid desired version " ++ c.VersionDetails.Desired))), h, w)
      else
        match h.alloc c with
        | (jObj, h1) =>
          if c.VersionDetails.Status.State ≠ ReconcileInProgress then
            match updateJivaVolumeAt jObj
                (h1.write jObj
                  { c with VersionDetails :=
                    { c.VersionDetails with Status := c.VersionDetails.Status.SetInProgressStatus } })
                w with
            | (Ret.panic, h2, w1) => (Ret.panic, h2, w1)
            | (Ret.done (some e), h2, w1) => (Ret.done (some e), h2, w1)
            | (Ret.done none, h2, w1) => runUpgradeAt r cr jObj h2 w1
          else runUpgradeAt r cr jObj h1 w
    else (Ret.done none, h, w)

/-- A heap with the sample volume at address `0`. -/
def sampleHeap : Heap := { cells := [sampleUpgradeVolume] }


/-- A policy of the namespace `openebs` that sets nothing. -/
def sampleUnsetPolicy : JivaVolumePolicy :=
  { Name := "plain", Namespace := "openebs", Spec := zeroPolicySpec }

/-- The sample volume, annotated with the policy `plain`. -/
def sampleUnsetPolicyVolume : JivaVolume :=
  { sampleVolume with Annotations := [("openebs.io/volume-policy", "plain")] }

/-- A world that stores the volume annotated with `plain` and the policy `plain`. -/
def sampleUnsetPolicyWorld : World :=
  { emptyWorld with
    cluster := { emptyCluster with
      Volumes := [sampleUnsetPolicyVolume], Policies := [sampleUnsetPolicy] } }


/-! ### Notions of the closure of the phases -/

/-- The phases of a volume whose objects are installed: `Ready`, `Syncing` and `Unknown`. -/
def Bootstrapped (phase : String) : Prop :=
  phase = JivaVolumePhaseReady ∨ phase = JivaVolumePhaseSyncing ∨ phase = JivaVolumePhaseUnkown

instance (phase : String) : Decidable (Bootstrapped phase) := by
  unfold Bootstrapped; infer_instance

/-- The requests that only the bootstrap installer and the policy resolver issue: a `Create`
of any object, and any request on a policy, a service or a disruption budget. -/
def Call.isInstall : Call → Bool
  | Call.create _ _ => true
  | Call.get kind _ | Call.list kind _ | Call.update kind _ | Call.patch kind _
  | Call.delete kind _ =>
    kind == Kind.JivaVolumePolicy || kind == Kind.Service || kind == Kind.PodDisruptionBudget
  | Call.stats _ => false

/-- The volume stored under the name `k`, if any, satisfies `P`. -/
def Stored (P : JivaVolume → Prop) (k : Key) (w : World) : Prop :=
  ∀ x, w.cluster.find JivaVolume k = some x → P x

/-- From the world `w` to the world `w1` no request of the installer or the policy resolver
was issued, and when the volume stored under `k` satisfied `P` it still does. -/
def Calm (P : JivaVolume → Prop) (k : Key) (w w1 : World) : Prop :=
  (∃ cs, w1.calls = w.calls ++ cs ∧ ∀ c ∈ cs, c.isInstall = false) ∧
  (Stored P k w → Stored P k w1)

/-- The volume `cr` after an accepted scale-up, with the status `status`: its effective
replication factor is the desired one, as an `int32`. -/
def scaledVolume (cr : JivaVolume) (status : JivaVolumeStatus) : JivaVolume :=
  { cr with
    Status := status,
    Spec := { cr.Spec with Policy := { cr.Spec.Policy with Target :=
      { cr.Spec.Policy.Target with
        ReplicationFactor := int32 cr.Spec.DesiredReplicationFactor } } } }

/-- The sample volume in phase `Deleting`. -/
def sampleDeletingVolume : JivaVolume := sampleVolume.withPhase JivaVolumePhaseDeleting

/-- A world that stores the sample volume in phase `Deleting` and nothing else. -/
def sampleDeletingWorld : World :=
  { emptyWorld with cluster := { emptyCluster with Volumes := [sampleDeletingVolume] } }

/-- A world that stores the sample volume in the phase `phase` and nothing else; no pod
address is cached. -/
def phaseWorld (phase : String) : World :=
  { emptyWorld with cluster := { emptyCluster with Volumes := [sampleVolume.withPhase phase] } }

/-- The world `phaseWorld phase` with a pod address cached for the sample volume. -/
def cachedPhaseWorld (phase : String) : World :=
  { phaseWorld phase with podIPMap := [("pvc-1", "10.0.0.9")] }


/-! ### Notions of the selectors -/

/-- The match labels `sel` select the pods labelled `labels`: every key of `sel` is present
in `labels` with the same value. -/
def Selects (sel labels : StrMap) : Prop :=
  ∀ p ∈ sel, mapHas labels p.1 = true ∧ mapGet labels p.1 = p.2

instance (sel labels : StrMap) : Decidable (Selects sel labels) := by
  unfold Selects; infer_instance

/-! ## Properties -/

/-! ### The API client -/

@[simp] theorem tick_cluster (w : World) (c : Call) : (w.tick c).cluster = w.cluster := rfl

@[simp] theorem tick_faults (w : World) (c : Call) : (w.tick c).faults = w.faults.tail := rfl

@[simp] theorem tick_calls (w : World) (c : Call) : (w.tick c).calls = w.calls ++ [c] := rfl

@[simp] theorem tick_events (w : World) (c : Call) : (w.tick c).events = w.events := rfl

@[simp] theorem tick_stats (w : World) (c : Call) : (w.tick c).stats = w.stats := rfl

@[simp] theorem tick_podIPMap (w : World) (c : Call) : (w.tick c).podIPMap = w.podIPMap := rfl

@[simp] theorem tick_selectorMap (w : World) (c : Call) : (w.tick c).selectorMap = w.selectorMap := rfl

@[simp] theorem tick_ipPool (w : World) (c : Call) : (w.tick c).ipPool = w.ipPool := rfl

@[simp] theorem store_cluster {α : Type} [Resource α] (w : World) (f : List α → List α) :
    (w.store f).cluster = Resource.put w.cluster (f (Resource.sel w.cluster)) := rfl

@[simp] theorem store_faults {α : Type} [Resource α] (w : World) (f : List α → List α) :
    (w.store f).faults = w.faults := rfl

@[simp] theorem store_calls {α : Type} [Resource α] (w : World) (f : List α → List α) :
    (w.store f).calls = w.calls := rfl

@[simp] theorem store_events {α : Type} [Resource α] (w : World) (f : List α → List α) :
    (w.store f).events = w.events := rfl

@[simp] theorem store_stats {α : Type} [Resource α] (w : World) (f : List α → List α) :
    (w.store f).stats = w.stats := rfl

@[simp] theorem store_podIPMap {α : Type} [Resource α] (w : World) (f : List α → List α) :
    (w.store f).podIPMap = w.podIPMap := rfl

@[simp] theorem store_selectorMap {α : Type} [Resource α] (w : World) (f : List α → List α) :
    (w.store f).selectorMap = w.selectorMap := rfl

@[simp] theorem store_ipPool {α : Type} [Resource α] (w : World) (f : List α → List α) :
    (w.store f).ipPool = w.ipPool := rfl

/-- A successful `Get` returns the stored object and only logs the call. -/
theorem apiGet_ok {α : Type} [Resource α] {k : Key} {w w1 : World} {x : α}
    (h : apiGet α k w = (Except.ok x, w1)) :
    w.fault = none ∧ w.cluster.find α k = some x ∧ w1 = w.tick (Call.get (Resource.kind α) k) := by
  unfold apiGet getResult at h
  cases hf : w.fault with
  | some e => rw [hf] at h; simp at h
  | none =>
    rw [hf] at h
    cases hx : w.cluster.find α k with
    | none => rw [hx] at h; simp at h
    | some y =>
      rw [hx] at h
      simp only [Prod.mk.injEq, Except.ok.injEq] at h
      exact ⟨rfl, by rw [h.1], h.2.symm⟩

/-- A failed `Get` only logs the call; without an injected fault it fails with `NotFound`,
and only when no object of that name is stored. -/
theorem apiGet_error {α : Type} [Resource α] {k : Key} {w w1 : World} {e : Err}
    (h : apiGet α k w = (Except.error e, w1)) :
    w1 = w.tick (Call.get (Resource.kind α) k) ∧
      (w.fault = some e ∨ (w.fault = none ∧ w.cluster.find α k = none ∧ e = Err.notFound)) := by
  unfold apiGet getResult at h
  cases hf : w.fault with
  | some e1 =>
    rw [hf] at h
    simp only [Prod.mk.injEq, Except.error.injEq] at h
    exact ⟨h.2.symm, Or.inl (by rw [h.1])⟩
  | none =>
    rw [hf] at h
    cases hx : w.cluster.find α k with
    | none =>
      rw [hx] at h
      simp only [Prod.mk.injEq, Except.error.injEq] at h
      exact ⟨h.2.symm, Or.inr ⟨rfl, rfl, h.1.symm⟩⟩
    | some y => rw [hx] at h; simp at h

/-- A `Get` of a stored object succeeds when no fault is injected. -/
theorem apiGet_of_find {α : Type} [Resource α] {k : Key} {w : World} {x : α}
    (hf : w.fault = none) (hx : w.cluster.find α k = some x) :
    apiGet α k w = (Except.ok x, w.tick (Call.get (Resource.kind α) k)) := by
  unfold apiGet getResult
  rw [hf, hx]

theorem apiCreate_none {α : Type} [Resource α] {x : α} {w w1 : World}
    (h : apiCreate x w = (none, w1)) :
    w.fault = none ∧ w.cluster.find α (Resource.key x) = none ∧
      w1 = (w.tick (Call.create (Resource.kind α) (Resource.key x))).store (fun stored => stored ++ [x]) := by
  unfold apiCreate createResult at h
  cases hf : w.fault with
  | some e => rw [hf] at h; simp at h
  | none =>
    rw [hf] at h
    cases hx : w.cluster.find α (Resource.key x) with
    | some y => rw [hx] at h; simp at h
    | none =>
      rw [hx] at h
      simp only [Option.isSome_none, Bool.false_eq_true, if_false, Prod.mk.injEq, true_and] at h
      exact ⟨rfl, rfl, h.symm⟩

theorem apiCreate_some {α : Type} [Resource α] {x : α} {w w1 : World} {e : Err}
    (h : apiCreate x w = (some e, w1)) :
    w1 = w.tick (Call.create (Resource.kind α) (Resource.key x)) := by
  unfold apiCreate at h
  cases hc : createResult α (Resource.key x) w with
  | some e1 => rw [hc] at h; simp only [Prod.mk.injEq] at h; exact h.2.symm
  | none => rw [hc] at h; simp at h

theorem writeResult_none {α : Type} [Resource α] {k : Key} {w : World}
    (h : writeResult α k w = none) : w.fault = none ∧ (w.cluster.find α k).isSome = true := by
  unfold writeResult at h
  cases hf : w.fault with
  | some e => rw [hf] at h; simp at h
  | none =>
    rw [hf] at h
    by_cases hx : (w.cluster.find α k).isSome = true
    · exact ⟨rfl, hx⟩
    · simp [hx] at h

theorem writeResult_of_find {α : Type} [Resource α] {k : Key} {w : World}
    (hf : w.fault = none) (hx : (w.cluster.find α k).isSome = true) : writeResult α k w = none := by
  unfold writeResult
  rw [hf]; simp [hx]

theorem apiUpdate_none {α : Type} [Resource α] {x : α} {w w1 : World}
    (h : apiUpdate x w = (none, w1)) :
    w.fault = none ∧ (w.cluster.find α (Resource.key x)).isSome = true ∧
      w1 = (w.tick (Call.update (Resource.kind α) (Resource.key x))).store
        (fun (stored : List α) => stored.map (fun y => if Resource.key y = Resource.key x then x else y)) := by
  unfold apiUpdate at h
  cases hr : writeResult α (Resource.key x) w with
  | some e => rw [hr] at h; simp at h
  | none =>
    rw [hr] at h
    simp only [Prod.mk.injEq, true_and] at h
    exact ⟨(writeResult_none hr).1, (writeResult_none hr).2, h.symm⟩

theorem apiUpdate_some {α : Type} [Resource α] {x : α} {w w1 : World} {e : Err}
    (h : apiUpdate x w = (some e, w1)) :
    w1 = w.tick (Call.update (Resource.kind α) (Resource.key x)) := by
  unfold apiUpdate at h
  cases hr : writeResult α (Resource.key x) w with
  | some e1 => rw [hr] at h; simp only [Prod.mk.injEq] at h; exact h.2.symm
  | none => rw [hr] at h; simp at h

theorem apiPatch_none {α : Type} [Resource α] {k : Key} {f : α → α} {w w1 : World}
    (h : apiPatch α k f w = (none, w1)) :
    w.fault = none ∧ (w.cluster.find α k).isSome = true ∧
      w1 = (w.tick (Call.patch (Resource.kind α) k)).store
        (fun (stored : List α) => stored.map (fun y => if Resource.key y = k then f y else y)) := by
  unfold apiPatch at h
  cases hr : writeResult α k w with
  | some e => rw [hr] at h; simp at h
  | none =>
    rw [hr] at h
    simp only [Prod.mk.injEq, true_and] at h
    exact ⟨(writeResult_none hr).1, (writeResult_none hr).2, h.symm⟩

theorem apiPatch_some {α : Type} [Resource α] {k : Key} {f : α → α} {w w1 : World} {e : Err}
    (h : apiPatch α k f w = (some e, w1)) : w1 = w.tick (Call.patch (Resource.kind α) k) := by
  unfold apiPatch at h
  cases hr : writeResult α k w with
  | some e1 => rw [hr] at h; simp only [Prod.mk.injEq] at h; exact h.2.symm
  | none => rw [hr] at h; simp at h

/-- Looking up `k` after a key-preserving change to the objects named `k`. -/
theorem find_map_key {α : Type} (key : α → Key) (k : Key) (g : α → α)
    (hg : ∀ x, key (g x) = key x) (xs : List α) :
    (xs.map (fun y => if key y = k then g y else y)).find? (fun x => decide (key x = k))
      = (xs.find? (fun x => decide (key x = k))).map g := by
  induction xs with
  | nil => rfl
  | cons x rest ih =>
    by_cases hx : key x = k
    · simp [List.find?_cons, hx, hg]
    · simp [List.find?_cons, hx, ih]

/-- The function `getJivaVolume` as a pair: the error of the read, and the world after it. -/
theorem getJivaVolume_eq (cr : JivaVolume) (w : World) :
    getJivaVolume cr w =
      (match getResult JivaVolume { Namespace := cr.Namespace, Name := cr.Name } w with
        | Except.error e => some e
        | Except.ok _ => none,
       w.tick (Call.get Kind.JivaVolume { Namespace := cr.Namespace, Name := cr.Name })) := by
  unfold getJivaVolume apiGet
  cases getResult JivaVolume { Namespace := cr.Namespace, Name := cr.Name } w <;> rfl

theorem getJivaVolume_snd (cr : JivaVolume) (w : World) :
    (getJivaVolume cr w).2 =
      w.tick (Call.get Kind.JivaVolume { Namespace := cr.Namespace, Name := cr.Name }) := by
  rw [getJivaVolume_eq]

/-! ### `isHAVolume` -/

theorem isHAVolumeLoop_iff (q : Int) (reps : List ReplicaStatus) :
    ∀ a : Int, a < q → (isHAVolumeLoop q a reps = true ↔ q ≤ a + (rwCount reps : Int)) := by
  induction reps with
  | nil => intro a ha; simp [isHAVolumeLoop, rwCount]; omega
  | cons rep rest ih =>
    intro a ha
    unfold isHAVolumeLoop
    by_cases hm : rep.Mode = "RW"
    · have hc : (rwCount (rep :: rest) : Int) = (rwCount rest : Int) + 1 := by
        simp [rwCount, List.countP_cons, hm]
      by_cases hq : a + 1 = q
      · simp [hm, hq, hc]; omega
      · have hlt : a + 1 < q := by omega
        simp only [hm, hq, if_true, if_false]
        rw [ih (a + 1) hlt, hc]; omega
    · have hc : (rwCount (rep :: rest) : Int) = (rwCount rest : Int) := by
        simp [rwCount, List.countP_cons, hm]
      simp only [hm, if_false]
      rw [ih a ha, hc]

/-- C1: `isHAVolume` returns true exactly when the effective replication factor is at least 3
and the number of observed replicas in mode `RW` is at least the quorum `⌊factor/2⌋ + 1`. -/
theorem isHAVolume_iff_quorum (cr : JivaVolume) :
    isHAVolume cr = true ↔
      3 ≤ cr.Spec.Policy.Target.ReplicationFactor ∧
        quorum cr.Spec.Policy.Target.ReplicationFactor ≤ (rwCount cr.Status.ReplicaStatuses : Int) := by
  unfold isHAVolume quorum
  by_cases h : cr.Spec.Policy.Target.ReplicationFactor < 3
  · simp [h]
  · have h3 : 3 ≤ cr.Spec.Policy.Target.ReplicationFactor := by omega
    have hdiv : Int.tdiv cr.Spec.Policy.Target.ReplicationFactor 2
        = Int.fdiv cr.Spec.Policy.Target.ReplicationFactor 2 := by
      rw [Int.tdiv_eq_ediv (by omega) (by omega), Int.fdiv_eq_ediv _ (by omega)]
    have hq : (0 : Int) < Int.fdiv cr.Spec.Policy.Target.ReplicationFactor 2 + 1 := by
      rw [Int.fdiv_eq_ediv _ (by omega)]; omega
    simp only [h, if_false, hdiv]
    rw [isHAVolumeLoop_iff _ _ 0 hq]
    simp [h3]

/-! ### `isScaleup` -/

theorem allReplicasRW_iff (reps : List ReplicaStatus) :
    allReplicasRW reps = true ↔ ∀ rep ∈ reps, rep.Mode = "RW" := by
  induction reps with
  | nil => simp [allReplicasRW]
  | cons rep rest ih =>
    unfold allReplicasRW
    by_cases hm : rep.Mode = "RW"
    · simp [hm, ih]
    · simp [hm]

theorem int64_sub_eq_one (d f : Int) (hd : IsInt d) (hf : IsInt f) (hlt : f < d) :
    int64 (d - f) = 1 ↔ d = f + 1 := by
  unfold IsInt at hd hf
  unfold int64
  omega

theorem isScaleup_fst (cr : JivaVolume) (w : World) :
    (isScaleup cr w).1 =
      (decide (cr.Spec.DesiredReplicationFactor > cr.Spec.Policy.Target.ReplicationFactor)
        && decide (cr.Spec.Policy.Target.ReplicationFactor = cr.Status.ReplicaCount)
        && allReplicasRW cr.Status.ReplicaStatuses
        && decide (int64 (cr.Spec.DesiredReplicationFactor - cr.Spec.Policy.Target.ReplicationFactor) = 1)) := by
  simp only [isScaleup]
  by_cases h1 : cr.Spec.DesiredReplicationFactor > cr.Spec.Policy.Target.ReplicationFactor
  · rw [if_pos h1]
    by_cases h2 : cr.Spec.Policy.Target.ReplicationFactor ≠ cr.Status.ReplicaCount
    · rw [if_pos h2]; simp [h2]
    · rw [if_neg h2]
      by_cases h3 : allReplicasRW cr.Status.ReplicaStatuses = false
      · rw [if_pos h3]; simp [h3]
      · rw [if_neg h3]
        by_cases h5 : int64 (cr.Spec.DesiredReplicationFactor - cr.Spec.Policy.Target.ReplicationFactor) ≠ 1
        · rw [if_pos h5]; simp [h5]
        · rw [if_neg h5]
          have h2a := not_not.1 h2
          have h5a := not_not.1 h5
          simp only [Bool.not_eq_false] at h3
          have h1a : decide (cr.Spec.DesiredReplicationFactor
              > cr.Spec.Policy.Target.ReplicationFactor) = true := decide_eq_true h1
          rw [h1a, decide_eq_true h2a, h3, decide_eq_true h5a]
          rfl
  · rw [if_neg h1]; simp [h1]

/-- What an accepted scale-up tells about the volume. -/
theorem isScaleup_accepted (cr : JivaVolume) (w : World)
    (hd : IsInt cr.Spec.DesiredReplicationFactor)
    (hf : IsInt cr.Spec.Policy.Target.ReplicationFactor)
    (h : (isScaleup cr w).1 = true) :
    cr.Spec.DesiredReplicationFactor = cr.Spec.Policy.Target.ReplicationFactor + 1 ∧
      cr.Status.ReplicaCount = cr.Spec.Policy.Target.ReplicationFactor ∧
        ∀ rep ∈ cr.Status.ReplicaStatuses, rep.Mode = "RW" := by
  rw [isScaleup_fst] at h
  simp only [Bool.and_eq_true, decide_eq_true_eq, allReplicasRW_iff] at h
  obtain ⟨⟨⟨h1, h2⟩, h3⟩, h4⟩ := h
  exact ⟨(int64_sub_eq_one _ _ hd hf h1).1 h4, h2.symm, h3⟩

/-- A request for one more replica is accepted when every replica is counted and in mode
`RW`. -/
theorem isScaleup_accepts (cr : JivaVolume) (w : World)
    (hd : IsInt cr.Spec.DesiredReplicationFactor)
    (hf : IsInt cr.Spec.Policy.Target.ReplicationFactor)
    (h1 : cr.Spec.DesiredReplicationFactor = cr.Spec.Policy.Target.ReplicationFactor + 1)
    (h2 : cr.Status.ReplicaCount = cr.Spec.Policy.Target.ReplicationFactor)
    (h3 : ∀ rep ∈ cr.Status.ReplicaStatuses, rep.Mode = "RW") :
    (isScaleup cr w).1 = true := by
  rw [isScaleup_fst]
  simp only [Bool.and_eq_true, decide_eq_true_eq, allReplicasRW_iff]
  have hlt : cr.Spec.DesiredReplicationFactor > cr.Spec.Policy.Target.ReplicationFactor := by omega
  exact ⟨⟨⟨hlt, h2.symm⟩, h3⟩, (int64_sub_eq_one _ _ hd hf hlt).2 h1⟩

/-- C2: `isScaleup` returns true exactly when the desired replication factor is the effective
one plus one, the replica count of the status equals the effective factor, and every observed
replica is in mode `RW`. -/
theorem isScaleup_iff (cr : JivaVolume) (w : World)
    (hd : IsInt cr.Spec.DesiredReplicationFactor)
    (hf : IsInt cr.Spec.Policy.Target.ReplicationFactor) :
    (isScaleup cr w).1 = true ↔
      cr.Spec.DesiredReplicationFactor = cr.Spec.Policy.Target.ReplicationFactor + 1 ∧
        cr.Status.ReplicaCount = cr.Spec.Policy.Target.ReplicationFactor ∧
          ∀ rep ∈ cr.Status.ReplicaStatuses, rep.Mode = "RW" := by
  rw [isScaleup_fst]
  simp only [Bool.and_eq_true, decide_eq_true_eq, allReplicasRW_iff]
  constructor
  · rintro ⟨⟨⟨h1, h2⟩, h3⟩, h4⟩
    exact ⟨(int64_sub_eq_one _ _ hd hf h1).1 h4, h2.symm, h3⟩
  · rintro ⟨h1, h2, h3⟩
    have hlt : cr.Spec.DesiredReplicationFactor > cr.Spec.Policy.Target.ReplicationFactor := by omega
    exact ⟨⟨⟨hlt, h2.symm⟩, h3⟩, (int64_sub_eq_one _ _ hd hf hlt).2 h1⟩

theorem isScaleup_iff_witness :
    (IsInt sampleScaleVolume.Spec.DesiredReplicationFactor ∧
      IsInt sampleScaleVolume.Spec.Policy.Target.ReplicationFactor) ∧
    ((isScaleup sampleScaleVolume emptyWorld).1 = true ↔
      sampleScaleVolume.Spec.DesiredReplicationFactor
          = sampleScaleVolume.Spec.Policy.Target.ReplicationFactor + 1 ∧
        sampleScaleVolume.Status.ReplicaCount = sampleScaleVolume.Spec.Policy.Target.ReplicationFactor ∧
          ∀ rep ∈ sampleScaleVolume.Status.ReplicaStatuses, rep.Mode = "RW") :=
  ⟨⟨by decide, by decide⟩, isScaleup_iff sampleScaleVolume emptyWorld (by decide) (by decide)⟩

/-- C4, as stated, fails: on the sample volume, whose desired replication factor equals the
effective one, `isScaleup` returns false and records no event. -/
theorem isScaleup_silent_rejection :
    (isScaleup sampleVolume emptyWorld).1 = false ∧ (isScaleup sampleVolume emptyWorld).2.events = [] := by
  decide

/-- C4, amended: `isScaleup` changes nothing but the recorded events; when the desired
replication factor exceeds the effective one and `isScaleup` returns false, it records exactly
one event, a warning on the volume; when the desired factor does not exceed the effective
one, it returns false and records nothing. -/
theorem isScaleup_rejection (cr : JivaVolume) (w : World) :
    (∃ evs, (isScaleup cr w).2 = { w with events := w.events ++ evs }) ∧
    (cr.Spec.DesiredReplicationFactor > cr.Spec.Policy.Target.ReplicationFactor →
      (isScaleup cr w).1 = false →
        ∃ e, e.EventType = EventTypeWarning ∧ e.Object = cr.Name ∧
          (isScaleup cr w).2.events = w.events ++ [e]) ∧
    (¬ cr.Spec.DesiredReplicationFactor > cr.Spec.Policy.Target.ReplicationFactor →
      (isScaleup cr w).1 = false ∧ (isScaleup cr w).2 = w) := by
  simp only [isScaleup]
  by_cases h1 : cr.Spec.DesiredReplicationFactor > cr.Spec.Policy.Target.ReplicationFactor
  · rw [if_pos h1]
    refine ⟨?_, ?_, fun h => absurd h1 h⟩
    · by_cases h2 : cr.Spec.Policy.Target.ReplicationFactor ≠ cr.Status.ReplicaCount
      · rw [if_pos h2]; exact ⟨_, rfl⟩
      · rw [if_neg h2]
        by_cases h3 : allReplicasRW cr.Status.ReplicaStatuses = false
        · rw [if_pos h3]; exact ⟨_, rfl⟩
        · rw [if_neg h3]
          by_cases h5 : int64 (cr.Spec.DesiredReplicationFactor - cr.Spec.Policy.Target.ReplicationFactor) ≠ 1
          · rw [if_pos h5]; exact ⟨_, rfl⟩
          · rw [if_neg h5]; exact ⟨[], by simp⟩
    · intro _
      by_cases h2 : cr.Spec.Policy.Target.ReplicationFactor ≠ cr.Status.ReplicaCount
      · rw [if_pos h2]; exact fun _ => ⟨_, rfl, rfl, rfl⟩
      · rw [if_neg h2]
        by_cases h3 : allReplicasRW cr.Status.ReplicaStatuses = false
        · rw [if_pos h3]; exact fun _ => ⟨_, rfl, rfl, rfl⟩
        · rw [if_neg h3]
          by_cases h5 : int64 (cr.Spec.DesiredReplicationFactor - cr.Spec.Policy.Target.ReplicationFactor) ≠ 1
          · rw [if_pos h5]; exact fun _ => ⟨_, rfl, rfl, rfl⟩
          · rw [if_neg h5]; intro h; simp at h
  · rw [if_neg h1]
    exact ⟨⟨[], by simp⟩, fun h => absurd h h1, fun _ => ⟨rfl, rfl⟩⟩

theorem isScaleup_rejection_witness :
    (sampleScaleVolume.Spec.DesiredReplicationFactor
        > sampleScaleVolume.Spec.Policy.Target.ReplicationFactor →
      (isScaleup { sampleScaleVolume with Status := { sampleScaleVolume.Status with ReplicaCount := 2 } }
          emptyWorld).1 = false →
        ∃ e, e.EventType = EventTypeWarning ∧ e.Object = sampleScaleVolume.Name ∧
          (isScaleup { sampleScaleVolume with Status := { sampleScaleVolume.Status with ReplicaCount := 2 } }
            emptyWorld).2.events = emptyWorld.events ++ [e]) ∧
    sampleScaleVolume.Spec.DesiredReplicationFactor
        > sampleScaleVolume.Spec.Policy.Target.ReplicationFactor ∧
    (isScaleup { sampleScaleVolume with Status := { sampleScaleVolume.Status with ReplicaCount := 2 } }
      emptyWorld).1 = false :=
  ⟨(isScaleup_rejection
      { sampleScaleVolume with Status := { sampleScaleVolume.Status with ReplicaCount := 2 } }
      emptyWorld).2.1, by decide, by decide⟩

/-! ### `getAndUpdateVolumeStatus` -/

theorem updateStatus_fst (err : Option Err) (cr : JivaVolume) (w : World) :
    (updateStatus err cr w).1 = if err.isSome then setdefaults cr else cr := rfl

theorem statsAddr_length (cr : JivaVolume) (w : World) : (statsAddr cr w).length ≠ 0 := by
  unfold statsAddr
  have h5 : (":9501" : String).length = 5 := by decide
  split <;> simp [String.length_append, h5]

theorem getStats_fst (w : World) (addr : String) : (w.getStats addr).1 = w.stats.head?.join := rfl

theorem map_replicaStatus_id (reps : List ReplicaStatus) :
    reps.map (fun rep => ({ Address := rep.Address, Mode := rep.Mode } : ReplicaStatus)) = reps := by
  induction reps with
  | nil => rfl
  | cons rep rest ih => simp [ih]

/-- C6: after a successful status query `getAndUpdateVolumeStatus` returns no error and the
status of the volume is a function of the answer alone: the status string is the target
status, the replica count is the number of replicas answered, the replica statuses are the
answered ones in the same order, and the phase is `Ready` for `RW`, `Syncing` for `RO` and
`Unknown` for every other target status. -/
theorem getAndUpdateVolumeStatus_success (r : JivaVolumeReconciler) (cr : JivaVolume) (w : World)
    (stats : Stats)
    (hget : (getJivaVolume cr w).1 = none)
    (hstats : w.stats.head?.join = some stats) :
    (getAndUpdateVolumeStatus r cr w).1 = none ∧
    (getAndUpdateVolumeStatus r cr w).2.1.Status =
      { Status := stats.TargetStatus,
        ReplicaCount := (stats.Replicas.length : Int),
        ReplicaStatuses := stats.Replicas,
        Phase := if stats.TargetStatus = "RW" then JivaVolumePhaseReady
                 else if stats.TargetStatus = "RO" then JivaVolumePhaseSyncing
                 else JivaVolumePhaseUnkown } := by
  have hw := getJivaVolume_snd cr w
  unfold getAndUpdateVolumeStatus
  rcases hg : getJivaVolume cr w with ⟨e, w1⟩
  rw [hg] at hget hw
  simp only at hget hw
  subst hget
  simp only [statsAddr_length, if_false]
  have hs : (w1.getStats (statsAddr cr w1)).1 = some stats := by
    rw [getStats_fst, hw]; exact hstats
  rcases hq : w1.getStats (statsAddr cr w1) with ⟨a, w2⟩
  rw [hq] at hs
  simp only at hs
  subst hs
  simp [updateStatus_fst, setStatusFromStats, map_replicaStatus_id]

theorem getAndUpdateVolumeStatus_success_witness :
    ((getJivaVolume sampleVolume { sampleWorld with stats := [some { TargetStatus := "RO", Replicas := [] }] }).1
        = none ∧
      ({ sampleWorld with stats := [some { TargetStatus := "RO", Replicas := [] }] } : World).stats.head?.join
        = some { TargetStatus := "RO", Replicas := [] }) ∧
    (getAndUpdateVolumeStatus sampleReconciler sampleVolume
        { sampleWorld with stats := [some { TargetStatus := "RO", Replicas := [] }] }).2.1.Status.Phase
      = JivaVolumePhaseSyncing :=
  ⟨⟨by decide, by decide⟩,
    by
      rw [(getAndUpdateVolumeStatus_success sampleReconciler sampleVolume
        { sampleWorld with stats := [some { TargetStatus := "RO", Replicas := [] }] }
        { TargetStatus := "RO", Replicas := [] } (by decide) (by decide)).2]
      decide⟩

/-- C7, as stated, fails: the sample volume is stored, its status is `RW` with three
replicas in phase `Ready`, the status query fails and no target pod is found; after
`getAndUpdateVolumeStatus` the status is the default one, not the one before the call. -/
theorem getAndUpdateVolumeStatus_failure_resets :
    (getJivaVolume sampleVolume sampleWorld).1 = none ∧
    sampleWorld.stats.head?.join = none ∧
    (getAndUpdateVolumeStatus sampleReconciler sampleVolume sampleWorld).1 = none ∧
    (getAndUpdateVolumeStatus sampleReconciler sampleVolume sampleWorld).2.1.Status =
      { Status := "Unknown", ReplicaCount := 0, ReplicaStatuses := [], Phase := JivaVolumePhaseSyncing } ∧
    (getAndUpdateVolumeStatus sampleReconciler sampleVolume sampleWorld).2.1.Status
      ≠ sampleVolume.Status := by
  decide

/-- C7, amended: when the status query fails, `getAndUpdateVolumeStatus` returns no error and
does not keep the status: the replica count becomes 0 and the replica statuses empty, with
status `Unknown` and phase `Syncing` when the refresh of the pod address fails as well, and
with the empty status string and phase `Unknown` when the refresh succeeds; the rest of the
volume is as before. -/
theorem getAndUpdateVolumeStatus_query_failure (r : JivaVolumeReconciler) (cr : JivaVolume)
    (w : World)
    (hget : (getJivaVolume cr w).1 = none)
    (hstats : w.stats.head?.join = none) :
    (getAndUpdateVolumeStatus r cr w).1 = none ∧
    (getAndUpdateVolumeStatus r cr w).2.1 =
      { cr with Status :=
        if (updatePodIPMap r cr
            (((getJivaVolume cr w).2.getStats (statsAddr cr (getJivaVolume cr w).2)).2)).1.isSome then
          { Status := "Unknown", ReplicaCount := 0, ReplicaStatuses := [],
            Phase := JivaVolumePhaseSyncing }
        else
          { Status := "", ReplicaCount := 0, ReplicaStatuses := [], Phase := JivaVolumePhaseUnkown } } := by
  unfold getAndUpdateVolumeStatus
  rcases hg : getJivaVolume cr w with ⟨e, w1⟩
  rw [hg] at hget
  simp only at hget
  subst hget
  have hw : w1 = (getJivaVolume cr w).2 := by rw [hg]
  simp only [statsAddr_length, if_false]
  have hs : (w1.getStats (statsAddr cr w1)).1 = none := by
    rw [getStats_fst, hw, getJivaVolume_snd]; exact hstats
  rcases hq : w1.getStats (statsAddr cr w1) with ⟨a, w2⟩
  rw [hq] at hs
  simp only at hs
  subst hs
  simp only
  rcases hu : updatePodIPMap r cr w2 with ⟨e, w3⟩
  cases e with
  | some e => simp [updateStatus_fst, setStatusFromStats, setdefaults]
  | none => simp [updateStatus_fst, setStatusFromStats, JivaVolumePhaseUnkown]

theorem getAndUpdateVolumeStatus_query_failure_witness :
    ((getJivaVolume sampleVolume sampleWorld).1 = none ∧ sampleWorld.stats.head?.join = none) ∧
    (getAndUpdateVolumeStatus sampleReconciler sampleVolume sampleWorld).1 = none :=
  ⟨⟨by decide, by decide⟩,
    (getAndUpdateVolumeStatus_query_failure sampleReconciler sampleVolume sampleWorld
      (by decide) (by decide)).1⟩

/-! ### `performScaleup` -/

/-- Looking up `k` after the objects named `k` are replaced by `x`, itself named `k`. -/
theorem find_map_const {α : Type} (key : α → Key) (k : Key) (x : α) (hx : key x = k)
    (xs : List α) (h : (xs.find? (fun y => decide (key y = k))).isSome = true) :
    (xs.map (fun y => if key y = k then x else y)).find? (fun y => decide (key y = k)) = some x := by
  induction xs with
  | nil => simp at h
  | cons y rest ih =>
    by_cases hy : key y = k
    · simp [List.find?_cons, hy, hx]
    · simp only [List.find?_cons, hy, decide_False] at h
      simp [List.find?_cons, hy, ih h]

theorem updateJivaVolume_none {cr : JivaVolume} {w w1 : World}
    (h : updateJivaVolume cr w = (none, w1)) :
    w.fault = none ∧ (w.cluster.find JivaVolume (Resource.key cr)).isSome = true ∧
      w1.cluster = Resource.put w.cluster
        ((Resource.sel w.cluster : List JivaVolume).map
          (fun y => if Resource.key y = Resource.key cr then cr else y)) := by
  unfold updateJivaVolume at h
  rcases hu : apiUpdate cr w with ⟨e, w2⟩
  rw [hu] at h
  cases e with
  | some e => simp at h
  | none =>
    obtain ⟨hf, hx, hw2⟩ := apiUpdate_none hu
    refine ⟨hf, hx, ?_⟩
    have hs := getJivaVolume_snd cr w2
    rcases hg : getJivaVolume cr w2 with ⟨e, w3⟩
    rw [hg] at hs
    simp only [hg] at h
    cases e with
    | some e => simp at h
    | none =>
      simp only [Prod.mk.injEq, true_and] at h hs
      rw [← h, hs, hw2]
      rfl

theorem setReplicationFactorEnv_some (value : String) (cs : List Container) :
    ∀ cs', setReplicationFactorEnv value cs = some cs' → List.Forall₂ (envSet value) cs cs' := by
  induction cs with
  | nil => intro cs' h; simp [setReplicationFactorEnv] at h; subst h; exact List.Forall₂.nil
  | cons con rest ih =>
    intro cs' h
    unfold setReplicationFactorEnv at h
    by_cases hn : con.Name = "jiva-controller"
    · rw [if_pos hn] at h
      cases he : con.Env with
      | nil => rw [he] at h; simp at h
      | cons first others =>
        rw [he] at h
        simp only [Option.map_eq_some'] at h
        obtain ⟨tl, htl, rfl⟩ := h
        refine List.Forall₂.cons ?_ (ih tl htl)
        unfold envSet
        rw [if_pos hn]
        exact ⟨first, others, he, rfl⟩
    · rw [if_neg hn] at h
      simp only [Option.map_eq_some'] at h
      obtain ⟨tl, htl, rfl⟩ := h
      refine List.Forall₂.cons ?_ (ih tl htl)
      unfold envSet
      rw [if_neg hn]

/-- The calls behind a run of `performScaleup` that returns no error. -/
theorem performScaleup_done {cr : JivaVolume} {w : World}
    (h : (performScaleup cr w).1 = Ret.done none) :
    ∃ s0 d0 cs w1 w2 w3 w4 w5,
      apiGet StatefulSet { Namespace := cr.Namespace, Name := cr.Name ++ "-jiva-rep" } w
        = (Except.ok s0, w1) ∧
      apiPatch StatefulSet { Namespace := cr.Namespace, Name := cr.Name ++ "-jiva-rep" }
        (fun s => { s with Replicas := int32 cr.Spec.DesiredReplicationFactor }) w1 = (none, w2) ∧
      apiGet Deployment { Namespace := cr.Namespace, Name := cr.Name ++ "-jiva-ctrl" } w2
        = (Except.ok d0, w3) ∧
      setReplicationFactorEnv (toString cr.Spec.DesiredReplicationFactor) d0.Template.Containers
        = some cs ∧
      apiPatch Deployment { Namespace := cr.Namespace, Name := cr.Name ++ "-jiva-ctrl" }
        (fun d => { d with Template := { d.Template with Containers := cs } }) w3 = (none, w4) ∧
      updateJivaVolume (performScaleup cr w).2.1 w4 = (none, w5) ∧
      (performScaleup cr w).2.1 =
        { cr with
          Spec := { cr.Spec with Policy := { cr.Spec.Policy with Target :=
            { cr.Spec.Policy.Target with
              ReplicationFactor := int32 cr.Spec.DesiredReplicationFactor } } },
          Status := { cr.Status with Phase := JivaVolumePhaseSyncing } } ∧
      (performScaleup cr w).2.2 = w5 := by
  simp only [performScaleup] at h ⊢
  rcases h1 : apiGet StatefulSet { Namespace := cr.Namespace, Name := cr.Name ++ "-jiva-rep" } w
    with ⟨r1, w1⟩
  rw [h1] at h
  cases r1 with
  | error e => simp at h
  | ok s0 =>
    simp only at h ⊢
    rcases h2 : apiPatch StatefulSet { Namespace := cr.Namespace, Name := cr.Name ++ "-jiva-rep" }
      (fun s => { s with Replicas := int32 cr.Spec.DesiredReplicationFactor }) w1 with ⟨r2, w2⟩
    rw [h2] at h
    cases r2 with
    | some e => simp at h
    | none =>
      simp only at h ⊢
      rcases h3 : apiGet Deployment { Namespace := cr.Namespace, Name := cr.Name ++ "-jiva-ctrl" } w2
        with ⟨r3, w3⟩
      rw [h3] at h
      cases r3 with
      | error e => simp at h
      | ok d0 =>
        simp only at h ⊢
        cases h4 : setReplicationFactorEnv (toString cr.Spec.DesiredReplicationFactor)
            d0.Template.Containers with
        | none => rw [h4] at h; simp at h
        | some cs =>
          rw [h4] at h
          simp only at h ⊢
          rcases h5 : apiPatch Deployment { Namespace := cr.Namespace, Name := cr.Name ++ "-jiva-ctrl" }
            (fun d => { d with Template := { d.Template with Containers := cs } }) w3 with ⟨r5, w4⟩
          rw [h5] at h
          cases r5 with
          | some e => simp at h
          | none =>
            simp only at h ⊢
            split at h
            · simp at h
            · next w5 h6 =>
              refine ⟨s0, d0, cs, w1, w2, w3, w4, w5, rfl, h2, h3, h4, h5, ?_, ?_, ?_⟩ <;>
                simp only [h6]

/-- C5, as stated, fails: for a desired replication factor of `2^31` every call of
`performScaleup` succeeds, yet the stateful set is left with `-2^31` replicas and the
volume with the effective factor `-2^31`. -/
theorem performScaleup_wraps :
    (performScaleup sampleWrapVolume sampleScaleWorld).1 = Ret.done none ∧
    (performScaleup sampleWrapVolume sampleScaleWorld).2.1.Spec.Policy.Target.ReplicationFactor
      = -2147483648 ∧
    ((performScaleup sampleWrapVolume sampleScaleWorld).2.2.cluster.find StatefulSet
        { Namespace := "openebs", Name := "pvc-1-jiva-rep" }).map (fun s => s.Replicas)
      = some (-2147483648) ∧
    sampleWrapVolume.Spec.DesiredReplicationFactor = 2147483648 := by
  decide


/-- C5, amended: when the desired replication factor fits in 32 bits and every call of
`performScaleup` succeeds, the replica stateful set is left with the desired replica count,
every container named `jiva-controller` of the target deployment has the decimal string of
the desired factor as the value of its first environment variable (the one the installer
names `REPLICATION_FACTOR`), nothing else of either object changes, and the volume, in the
hands of the caller and as stored, has the desired factor as its effective factor and phase
`Syncing`. -/
theorem performScaleup_success (cr : JivaVolume) (w : World)
    (hd : IsInt32 cr.Spec.DesiredReplicationFactor)
    (h : (performScaleup cr w).1 = Ret.done none) :
    (∃ s0, w.cluster.find StatefulSet { Namespace := cr.Namespace, Name := cr.Name ++ "-jiva-rep" }
        = some s0 ∧
      (performScaleup cr w).2.2.cluster.find StatefulSet
          { Namespace := cr.Namespace, Name := cr.Name ++ "-jiva-rep" }
        = some { s0 with Replicas := cr.Spec.DesiredReplicationFactor }) ∧
    (∃ d0 cs, w.cluster.find Deployment { Namespace := cr.Namespace, Name := cr.Name ++ "-jiva-ctrl" }
        = some d0 ∧
      List.Forall₂ (envSet (toString cr.Spec.DesiredReplicationFactor)) d0.Template.Containers cs ∧
      (performScaleup cr w).2.2.cluster.find Deployment
          { Namespace := cr.Namespace, Name := cr.Name ++ "-jiva-ctrl" }
        = some { d0 with Template := { d0.Template with Containers := cs } }) ∧
    (performScaleup cr w).2.1 =
      { cr with
        Spec := { cr.Spec with Policy := { cr.Spec.Policy with Target :=
          { cr.Spec.Policy.Target with ReplicationFactor := cr.Spec.DesiredReplicationFactor } } },
        Status := { cr.Status with Phase := JivaVolumePhaseSyncing } } ∧
    (performScaleup cr w).2.2.cluster.find JivaVolume { Namespace := cr.Namespace, Name := cr.Name }
      = some (performScaleup cr w).2.1 := by
  have h32 : int32 cr.Spec.DesiredReplicationFactor = cr.Spec.DesiredReplicationFactor := by
    unfold IsInt32 at hd; unfold int32; omega
  obtain ⟨s0, d0, cs, w1, w2, w3, w4, w5, h1, h2, h3, h4, h5, h6, hcr, hw⟩ := performScaleup_done h
  rw [h32] at h2 hcr
  obtain ⟨-, hs0, hw1⟩ := apiGet_ok h1
  obtain ⟨-, -, hw2⟩ := apiPatch_none h2
  obtain ⟨-, hd0, hw3⟩ := apiGet_ok h3
  obtain ⟨-, -, hw4⟩ := apiPatch_none h5
  obtain ⟨-, hv, hc5⟩ := updateJivaVolume_none h6
  rw [hw]
  refine ⟨⟨s0, hs0, ?_⟩, ⟨d0, cs, ?_, setReplicationFactorEnv_some _ _ _ h4, ?_⟩, hcr, ?_⟩
  · have e5 : w5.cluster.StatefulSets = w4.cluster.StatefulSets := by rw [hc5]; rfl
    have e4 : w4.cluster.StatefulSets = w3.cluster.StatefulSets := by rw [hw4]; rfl
    have e3 : w3.cluster = w2.cluster := by rw [hw3]; rfl
    have e1 : w1.cluster = w.cluster := by rw [hw1]; rfl
    have e2 : w2.cluster.StatefulSets = w1.cluster.StatefulSets.map
        (fun y => if Resource.key y = ({ Namespace := cr.Namespace, Name := cr.Name ++ "-jiva-rep" } : Key)
          then { y with Replicas := cr.Spec.DesiredReplicationFactor } else y) := by rw [hw2]; rfl
    have hfind := find_map_key (α := StatefulSet) Resource.key
      { Namespace := cr.Namespace, Name := cr.Name ++ "-jiva-rep" }
      (fun s => { s with Replicas := cr.Spec.DesiredReplicationFactor }) (fun _ => rfl)
      w.cluster.StatefulSets
    show List.find? _ w5.cluster.StatefulSets = _
    rw [e5, e4, e3, e2, e1, hfind]
    show Option.map _ (w.cluster.find StatefulSet _) = _
    rw [hs0]; rfl
  · have e2 : w2.cluster.Deployments = w1.cluster.Deployments := by rw [hw2]; rfl
    have e1 : w1.cluster = w.cluster := by rw [hw1]; rfl
    show List.find? _ w.cluster.Deployments = _
    rw [← e1, ← e2]; exact hd0
  · have e5 : w5.cluster.Deployments = w4.cluster.Deployments := by rw [hc5]; rfl
    have e3 : w3.cluster = w2.cluster := by rw [hw3]; rfl
    have e4 : w4.cluster.Deployments = w3.cluster.Deployments.map
        (fun y => if Resource.key y = ({ Namespace := cr.Namespace, Name := cr.Name ++ "-jiva-ctrl" } : Key)
          then { y with Template := { y.Template with Containers := cs } } else y) := by rw [hw4]; rfl
    have hfind := find_map_key (α := Deployment) Resource.key
      { Namespace := cr.Namespace, Name := cr.Name ++ "-jiva-ctrl" }
      (fun d => { d with Template := { d.Template with Containers := cs } }) (fun _ => rfl)
      w2.cluster.Deployments
    show List.find? _ w5.cluster.Deployments = _
    rw [e5, e4, e3, hfind]
    show Option.map _ (w2.cluster.find Deployment _) = _
    rw [hd0]; rfl
  · rw [hc5]
    show List.find? _ (List.map _ w4.cluster.Volumes) = _
    have hkey : (Resource.key (performScaleup cr w).2.1 : Key)
        = { Namespace := cr.Namespace, Name := cr.Name } := by rw [hcr]; rfl
    rw [hkey] at hv ⊢
    exact find_map_const Resource.key _ _ hkey _ hv

theorem performScaleup_success_witness :
    (IsInt32 sampleScaleVolume.Spec.DesiredReplicationFactor ∧
      (performScaleup sampleScaleVolume sampleScaleWorld).1 = Ret.done none) ∧
    (performScaleup sampleScaleVolume sampleScaleWorld).2.1 =
      { sampleScaleVolume with
        Spec := { sampleScaleVolume.Spec with Policy := { sampleScaleVolume.Spec.Policy with Target :=
          { sampleScaleVolume.Spec.Policy.Target with
            ReplicationFactor := sampleScaleVolume.Spec.DesiredReplicationFactor } } },
        Status := { sampleScaleVolume.Status with Phase := JivaVolumePhaseSyncing } } :=
  ⟨⟨by decide, by decide⟩,
    (performScaleup_success sampleScaleVolume sampleScaleWorld (by decide) (by decide)).2.2.1⟩

/-! ### `bootstrapJiva` -/

theorem runInstallFuncs_eq_installInOrder (r : JivaVolumeReconciler) (cr : JivaVolume) (w : World) :
    runInstallFuncs r installFuncs cr w = installInOrder r cr w := by
  simp only [installFuncs, runInstallFuncs, installInOrder, bootstrapFail]

theorem updateJivaVolume_calls (cr : JivaVolume) (w : World) :
    Call.update Kind.JivaVolume { Namespace := cr.Namespace, Name := cr.Name }
      ∈ (updateJivaVolume cr w).2.calls := by
  unfold updateJivaVolume
  rcases hu : apiUpdate cr w with ⟨e, w1⟩
  have hc : Call.update Kind.JivaVolume { Namespace := cr.Namespace, Name := cr.Name } ∈ w1.calls := by
    cases e with
    | some e => rw [apiUpdate_some hu]; simp [Resource.kind, Resource.key]
    | none => rw [(apiUpdate_none hu).2.2]; simp [Resource.kind, Resource.key]
  cases e with
  | some e => exact hc
  | none =>
    simp only
    have hs := getJivaVolume_snd cr w1
    rcases hg : getJivaVolume cr w1 with ⟨e2, w2⟩
    rw [hg] at hs
    simp only at hs
    cases e2 <;> simp [hs, hc]

theorem updateJivaVolume_stored (cr : JivaVolume) (w : World) (h : (apiUpdate cr w).1 = none) :
    (updateJivaVolume cr w).2.cluster.find JivaVolume { Namespace := cr.Namespace, Name := cr.Name }
      = some cr := by
  unfold updateJivaVolume
  rcases hu : apiUpdate cr w with ⟨e, w1⟩
  rw [hu] at h
  simp only at h
  subst h
  obtain ⟨-, hx, hw1⟩ := apiUpdate_none hu
  simp only
  have hs := getJivaVolume_snd cr w1
  rcases hg : getJivaVolume cr w1 with ⟨e2, w2⟩
  rw [hg] at hs
  simp only at hs
  have hc : w2.cluster = w1.cluster := by rw [hs]; rfl
  have hfind : w1.cluster.find JivaVolume { Namespace := cr.Namespace, Name := cr.Name } = some cr := by
    rw [hw1]
    exact find_map_const Resource.key _ cr rfl _ hx
  cases e2 <;> simp only [hc, hfind]

/-- C8: `bootstrapJiva` runs the install steps in the order policy, service, target
deployment, replica stateful set, disruption budget, stops at the first step that returns an
error and returns that error (`installInOrder`); it then sets the phase to `Failed` exactly
when a step failed and to `Syncing` otherwise, changes nothing else of the volume, and
issues the update of the volume, which stores it when the update goes through. -/
theorem bootstrapJiva_spec (r : JivaVolumeReconciler) (cr : JivaVolume) (w : World) :
    (bootstrapJiva r cr w).1 = (installInOrder r cr w).1 ∧
    (bootstrapJiva r cr w).2.1 =
      (installInOrder r cr w).2.1.withPhase
        (if (installInOrder r cr w).1.isSome then JivaVolumePhaseFailed else JivaVolumePhaseSyncing) ∧
    ((bootstrapJiva r cr w).2.1.Status.Phase = JivaVolumePhaseFailed ↔ (bootstrapJiva r cr w).1 ≠ none) ∧
    ((bootstrapJiva r cr w).2.1.Status.Phase = JivaVolumePhaseSyncing ↔ (bootstrapJiva r cr w).1 = none) ∧
    (bootstrapJiva r cr w).2.2
      = (updateJivaVolume (bootstrapJiva r cr w).2.1 (installInOrder r cr w).2.2).2 ∧
    Call.update Kind.JivaVolume
        { Namespace := (bootstrapJiva r cr w).2.1.Namespace, Name := (bootstrapJiva r cr w).2.1.Name }
      ∈ (bootstrapJiva r cr w).2.2.calls ∧
    ((apiUpdate (bootstrapJiva r cr w).2.1 (installInOrder r cr w).2.2).1 = none →
      (bootstrapJiva r cr w).2.2.cluster.find JivaVolume
          { Namespace := (bootstrapJiva r cr w).2.1.Namespace, Name := (bootstrapJiva r cr w).2.1.Name }
        = some (bootstrapJiva r cr w).2.1) := by
  have hb : bootstrapJiva r cr w =
      ((installInOrder r cr w).1,
        finally_ (installInOrder r cr w).1 (installInOrder r cr w).2.1 (installInOrder r cr w).2.2) := by
    unfold bootstrapJiva
    rw [runInstallFuncs_eq_installInOrder]
  rcases ho : installInOrder r cr w with ⟨err, cr1, w1⟩
  rw [ho] at hb
  simp only at hb
  rw [hb]
  cases err with
  | some e =>
    refine ⟨rfl, rfl, ?_, ?_, rfl, ?_, ?_⟩
    · simp [finally_, JivaVolume.withPhase]
    · simp [finally_, JivaVolume.withPhase, JivaVolumePhaseFailed, JivaVolumePhaseSyncing]
    · exact updateJivaVolume_calls _ _
    · exact updateJivaVolume_stored _ _
  | none =>
    refine ⟨rfl, rfl, ?_, ?_, rfl, ?_, ?_⟩
    · simp [finally_, JivaVolume.withPhase, JivaVolumePhaseFailed, JivaVolumePhaseSyncing]
    · simp [finally_, JivaVolume.withPhase]
    · exact updateJivaVolume_calls _ _
    · exact updateJivaVolume_stored _ _

theorem bootstrapJiva_spec_witness :
    (apiUpdate (bootstrapJiva sampleReconciler sampleVolume sampleScaleWorld).2.1
        (installInOrder sampleReconciler sampleVolume sampleScaleWorld).2.2).1 = none ∧
    (bootstrapJiva sampleReconciler sampleVolume sampleScaleWorld).2.2.cluster.find JivaVolume
        { Namespace := (bootstrapJiva sampleReconciler sampleVolume sampleScaleWorld).2.1.Namespace,
          Name := (bootstrapJiva sampleReconciler sampleVolume sampleScaleWorld).2.1.Name }
      = some (bootstrapJiva sampleReconciler sampleVolume sampleScaleWorld).2.1 :=
  ⟨by decide, (bootstrapJiva_spec sampleReconciler sampleVolume sampleScaleWorld).2.2.2.2.2.2 (by decide)⟩

/-! ### The ensure steps -/

theorem issued_of_calls {w w1 : World} {cs : List Call} (h : w1.calls = w.calls ++ cs) :
    issued w w1 = cs := by
  simp [issued, h]

theorem Quiet.quiet_refl (w : World) : Quiet w w := ⟨[], by simp, by simp⟩

theorem Quiet.quiet_trans {w1 w2 w3 : World} (h12 : Quiet w1 w2) (h23 : Quiet w2 w3) : Quiet w1 w3 := by
  obtain ⟨cs, hc, hq⟩ := h12
  obtain ⟨ds, hd, hr⟩ := h23
  refine ⟨cs ++ ds, by rw [hd, hc, List.append_assoc], ?_⟩
  intro c hmem
  rcases List.mem_append.1 hmem with h | h
  · exact hq c h
  · exact hr c h

theorem Quiet.of_calls_eq {w1 w2 : World} (h : w2.calls = w1.calls) : Quiet w1 w2 :=
  ⟨[], by simp [h], by simp⟩

theorem Quiet.tick (w : World) (c : Call) (hc : c.isCreate = false) : Quiet w (w.tick c) :=
  ⟨[c], rfl, by simpa using hc⟩

theorem Quiet.issued {w1 w2 : World} (h : Quiet w1 w2) : ∀ c ∈ issued w1 w2, c.isCreate = false := by
  obtain ⟨cs, hc, hq⟩ := h
  rw [issued_of_calls hc]
  exact hq

theorem setControllerReference_nil (cr : JivaVolume) :
    setControllerReference cr [] = Except.ok [controllerRef cr] := by
  simp [setControllerReference, controllerRef]

theorem apiGet_quiet (α : Type) [Resource α] (k : Key) (w : World) : Quiet w (apiGet α k w).2 :=
  Quiet.tick w _ rfl

theorem apiCreate_calls {α : Type} [Resource α] (x : α) (w : World) :
    (apiCreate x w).2.calls = w.calls ++ [Call.create (Resource.kind α) (Resource.key x)] := by
  rcases h : apiCreate x w with ⟨e, w1⟩
  cases e with
  | some e => rw [apiCreate_some h]; rfl
  | none => rw [(apiCreate_none h).2.2]; rfl

/-- The contract of the "ensure exists" pattern. -/
theorem ensureExists_contract {α : Type} [Resource α] (obj : α) (context : String) (w : World) :
    EnsureContract α (Resource.key obj) (getResult α (Resource.key obj) w) w
      (ensureExists obj context w).2 (ensureExists obj context w).1 := by
  unfold ensureExists apiGet
  cases hg : getResult α (Resource.key obj) w with
  | ok x =>
    have hi : issued w (w.tick (Call.get (Resource.kind α) (Resource.key obj)))
        = [Call.get (Resource.kind α) (Resource.key obj)] := issued_of_calls rfl
    simp only [EnsureContract, hi]
    refine ⟨?_, ?_, ?_, ?_⟩
    · simp [Call.isCreate]
    · simp [Call.isCreate]
    · intro _ _; exact ⟨by simp [Call.isCreate], rfl⟩
    · intro e he; simp at he
  | error e =>
    by_cases hn : e.isNotFound = true
    · have hi : issued w (apiCreate obj (w.tick (Call.get (Resource.kind α) (Resource.key obj)))).2
          = [Call.get (Resource.kind α) (Resource.key obj),
             Call.create (Resource.kind α) (Resource.key obj)] :=
        issued_of_calls (by rw [apiCreate_calls]; simp)
      simp only [hn, if_true, EnsureContract, hi]
      refine ⟨?_, ?_, ?_, ?_⟩
      · simp [Call.isCreate, hn]
      · simp [Call.isCreate]
      · intro x hx; simp at hx
      · intro e' he' hf
        simp only [Except.error.injEq] at he'
        subst he'
        rw [hn] at hf; simp at hf
    · have hi : issued w (w.tick (Call.get (Resource.kind α) (Resource.key obj)))
          = [Call.get (Resource.kind α) (Resource.key obj)] := issued_of_calls rfl
      simp only [if_neg hn]
      simp only [EnsureContract, hi]
      refine ⟨?_, ?_, ?_, ?_⟩
      · simp [Call.isCreate, hn]
      · simp [Call.isCreate]
      · intro x hx; simp at hx
      · intro _ _ _; exact ⟨rfl, by simp [Call.isCreate], rfl⟩

theorem createControllerDeployment_eq (r : JivaVolumeReconciler) (cr : JivaVolume) (w : World)
    (hb : r.DeploymentBuildErr (controllerDeploymentObj r cr) = none) :
    createControllerDeployment r cr w =
      ((ensureExists (ownedDeployment r cr)
          ("failed to get the deployment details: " ++ (controllerDeploymentObj r cr).Name) w).1,
        cr,
        (ensureExists (ownedDeployment r cr)
          ("failed to get the deployment details: " ++ (controllerDeploymentObj r cr).Name) w).2) := by
  have hrefs : setControllerReference cr (controllerDeploymentObj r cr).OwnerReferences
      = Except.ok [controllerRef cr] := setControllerReference_nil cr
  have hk : (Resource.key (ownedDeployment r cr) : Key)
      = { Namespace := (controllerDeploymentObj r cr).Namespace,
          Name := (controllerDeploymentObj r cr).Name } := rfl
  simp only [createControllerDeployment, hb, ensureExists, hrefs, hk]
  generalize apiGet Deployment _ w = out
  rcases out with ⟨g, w1⟩
  cases g with
  | ok x => rfl
  | error e =>
    simp only
    by_cases hn : e.isNotFound = true
    · simp only [hn, if_true]
      simp only [ownedDeployment]
      generalize apiCreate (α := Deployment) _ w1 = out2
      rcases out2 with ⟨e2, w2⟩
      cases e2 <;> rfl
    · simp only [if_neg hn]

theorem createReplicaPodDisruptionBudget_eq (r : JivaVolumeReconciler) (cr : JivaVolume) (w : World) :
    createReplicaPodDisruptionBudget r cr w =
      ((ensureExists (ownedPodDisruptionBudget cr)
          ("failed to get the pod disruption budget details: " ++ (replicaPodDisruptionBudgetObj cr).Name) w).1,
        cr,
        (ensureExists (ownedPodDisruptionBudget cr)
          ("failed to get the pod disruption budget details: " ++ (replicaPodDisruptionBudgetObj cr).Name) w).2) := by
  have hrefs : setControllerReference cr (replicaPodDisruptionBudgetObj cr).OwnerReferences
      = Except.ok [controllerRef cr] := setControllerReference_nil cr
  have hk : (Resource.key (ownedPodDisruptionBudget cr) : Key)
      = { Namespace := (replicaPodDisruptionBudgetObj cr).Namespace,
          Name := (replicaPodDisruptionBudgetObj cr).Name } := rfl
  simp only [createReplicaPodDisruptionBudget, ensureExists, hrefs, hk]
  generalize apiGet PodDisruptionBudget _ w = out
  rcases out with ⟨g, w1⟩
  cases g with
  | ok x => rfl
  | error e =>
    simp only
    by_cases hn : e.isNotFound = true
    · simp only [hn, if_true]
      simp only [ownedPodDisruptionBudget]
      generalize apiCreate (α := PodDisruptionBudget) _ w1 = out2
      rcases out2 with ⟨e2, w2⟩
      cases e2 <;> rfl
    · simp only [if_neg hn]

theorem createReplicaStatefulSet_eq (r : JivaVolumeReconciler) (cr : JivaVolume) (w : World)
    (svc : Service) (capacity : Int)
    (hsvc : getResult Service { Namespace := cr.Namespace, Name := cr.Name ++ "-jiva-ctrl-svc" } w
      = Except.ok svc)
    (hram : r.RAMInBytes (splitHead 'i' cr.Spec.Capacity) = some capacity)
    (hb : r.StatefulSetBuildErr (replicaStatefulSetObj r cr svc capacity w.selectorMap) = none) :
    createReplicaStatefulSet r cr w =
      ((ensureExists (ownedStatefulSet r cr svc capacity w.selectorMap)
          ("failed to get the statefulset details: "
            ++ (replicaStatefulSetObj r cr svc capacity w.selectorMap).Name)
          (statefulSetReadWorld cr w)).1,
        cr,
        (ensureExists (ownedStatefulSet r cr svc capacity w.selectorMap)
          ("failed to get the statefulset details: "
            ++ (replicaStatefulSetObj r cr svc capacity w.selectorMap).Name)
          (statefulSetReadWorld cr w)).2) := by
  have hrefs : setControllerReference cr
      (replicaStatefulSetObj r cr svc capacity w.selectorMap).OwnerReferences
      = Except.ok [controllerRef cr] := setControllerReference_nil cr
  have hk : (Resource.key (ownedStatefulSet r cr svc capacity w.selectorMap) : Key)
      = { Namespace := (replicaStatefulSetObj r cr svc capacity w.selectorMap).Namespace,
          Name := (replicaStatefulSetObj r cr svc capacity w.selectorMap).Name } := rfl
  have hget : apiGet Service { Namespace := cr.Namespace, Name := cr.Name ++ "-jiva-ctrl-svc" } w
      = (Except.ok svc, w.tick (Call.get (Resource.kind Service)
          { Namespace := cr.Namespace, Name := cr.Name ++ "-jiva-ctrl-svc" })) := by
    rw [apiGet, hsvc]
  simp only [createReplicaStatefulSet, hget, hram, tick_selectorMap, hb, ensureExists, hrefs, hk,
    statefulSetReadWorld]
  generalize apiGet StatefulSet _ _ = out
  rcases out with ⟨g, w1⟩
  cases g with
  | ok x => rfl
  | error e =>
    simp only
    by_cases hn : e.isNotFound = true
    · simp only [hn, if_true]
      simp only [ownedStatefulSet]
      generalize apiCreate (α := StatefulSet) _ w1 = out2
      rcases out2 with ⟨e2, w2⟩
      cases e2 <;> rfl
    · simp only [if_neg hn]

theorem apiUpdate_calls {α : Type} [Resource α] (x : α) (w : World) :
    (apiUpdate x w).2.calls = w.calls ++ [Call.update (Resource.kind α) (Resource.key x)] := by
  rcases h : apiUpdate x w with ⟨e, w1⟩
  cases e with
  | some e => rw [apiUpdate_some h]; rfl
  | none => rw [(apiUpdate_none h).2.2]; rfl

/-- An update of the volume changes no stored object but volumes. -/
theorem apiUpdate_volume_cluster (x : JivaVolume) (w : World) :
    (apiUpdate x w).2.cluster = { w.cluster with Volumes := (apiUpdate x w).2.cluster.Volumes } := by
  rcases h : apiUpdate x w with ⟨e, w1⟩
  cases e with
  | some e => rw [apiUpdate_some h]; rfl
  | none => rw [(apiUpdate_none h).2.2]; rfl

theorem updateJivaVolume_quiet (cr : JivaVolume) (w : World) : Quiet w (updateJivaVolume cr w).2 := by
  unfold updateJivaVolume
  have hc := apiUpdate_calls cr w
  rcases hu : apiUpdate cr w with ⟨e, w1⟩
  rw [hu] at hc
  have h1 : Quiet w w1 := ⟨_, hc, by simp [Call.isCreate]⟩
  cases e with
  | some e => exact h1
  | none =>
    simp only
    have hs := getJivaVolume_snd cr w1
    rcases hg : getJivaVolume cr w1 with ⟨e2, w2⟩
    rw [hg] at hs
    simp only at hs
    have h2 : Quiet w1 w2 := by rw [hs]; exact Quiet.tick _ _ rfl
    cases e2 <;> exact h1.quiet_trans h2

theorem updateJivaVolume_cluster (cr : JivaVolume) (w : World) :
    (updateJivaVolume cr w).2.cluster
      = { w.cluster with Volumes := (updateJivaVolume cr w).2.cluster.Volumes } := by
  unfold updateJivaVolume
  have hc := apiUpdate_volume_cluster cr w
  rcases hu : apiUpdate cr w with ⟨e, w1⟩
  rw [hu] at hc
  cases e with
  | some e => exact hc
  | none =>
    simp only
    have hs := getJivaVolume_snd cr w1
    rcases hg : getJivaVolume cr w1 with ⟨e2, w2⟩
    rw [hg] at hs
    simp only at hs hc
    have h2 : w2.cluster = w1.cluster := by rw [hs]; rfl
    cases e2 <;> simp only [h2] <;> exact hc

/-- The propagation of the service information issues no `Create` and changes no stored
object but volumes. -/
theorem updateJivaVolumeWithServiceInfo_frame (cr : JivaVolume) (w : World) :
    Quiet w (updateJivaVolumeWithServiceInfo cr w).2.2 ∧
    (updateJivaVolumeWithServiceInfo cr w).2.2.cluster
      = { w.cluster with Volumes := (updateJivaVolumeWithServiceInfo cr w).2.2.cluster.Volumes } := by
  unfold updateJivaVolumeWithServiceInfo
  have hq0 := apiGet_quiet Service { Namespace := cr.Namespace, Name := cr.Name ++ "-jiva-ctrl-svc" } w
  have hc0 : (apiGet Service { Namespace := cr.Namespace, Name := cr.Name ++ "-jiva-ctrl-svc" } w).2.cluster
      = w.cluster := rfl
  rcases hget : apiGet Service { Namespace := cr.Namespace, Name := cr.Name ++ "-jiva-ctrl-svc" } w with ⟨g, w1⟩
  rw [hget] at hq0 hc0
  simp only at hq0 hc0
  cases g with
  | error e => exact ⟨hq0, by simp only [hc0]⟩
  | ok ctrlSVC =>
    simp only
    generalize targetInfo cr ctrlSVC = res
    rcases res with ⟨found, iscsi1⟩
    cases found with
    | false => exact ⟨hq0, by simp only [Bool.not_false, if_true, hc0]⟩
    | true =>
      simp only [Bool.not_true, Bool.false_eq_true, if_false]
      generalize (cr.withISCSISpec iscsi1).withPhase JivaVolumePhasePending = cr2
      have hq1 := apiUpdate_calls cr2 w1
      have hc1 := apiUpdate_volume_cluster cr2 w1
      rcases hupd : apiUpdate cr2 w1 with ⟨e, w2⟩
      rw [hupd] at hq1 hc1
      simp only at hq1 hc1
      have hq12 : Quiet w1 w2 := ⟨_, hq1, by simp [Call.isCreate]⟩
      cases e with
      | some e => exact ⟨hq0.quiet_trans hq12, by rw [hc1, hc0]⟩
      | none =>
        simp only
        have hs := getJivaVolume_snd cr2 w2
        rcases hg2 : getJivaVolume cr2 w2 with ⟨e2, w3⟩
        rw [hg2] at hs
        simp only at hs
        have hq23 : Quiet w2 w3 := by rw [hs]; exact Quiet.tick _ _ rfl
        have hc2 : w3.cluster = w2.cluster := by rw [hs]; rfl
        cases e2 <;> exact ⟨(hq0.quiet_trans hq12).quiet_trans hq23, by simp only [hc2]; rw [hc1, hc0]⟩

theorem ensureExists_calls {α : Type} [Resource α] (obj : α) (context : String) (w : World) :
    ∃ ds, (ensureExists obj context w).2.calls = w.calls ++ ds := by
  unfold ensureExists apiGet
  cases getResult α (Resource.key obj) w with
  | ok x => exact ⟨_, rfl⟩
  | error e =>
    by_cases hn : e.isNotFound = true
    · simp only [hn, if_true]
      rw [apiCreate_calls]
      exact ⟨_, by rw [tick_calls, List.append_assoc]⟩
    · simp only [if_neg hn]
      exact ⟨_, rfl⟩

/-- A contract holds for the whole step when the step first issues requests that create
nothing and change nothing. -/
theorem EnsureContract.prepend {α : Type} [Resource α] {k : Key} {got : Except Err α}
    {w w2 after : World} {err : Option Err} {cs ds : List Call}
    (hcs : w2.calls = w.calls ++ cs) (hq : ∀ c ∈ cs, c.isCreate = false)
    (hds : after.calls = w2.calls ++ ds) (hcl : w2.cluster = w.cluster)
    (h : EnsureContract α k got w2 after err) : EnsureContract α k got w after err := by
  have hi2 : issued w2 after = ds := issued_of_calls hds
  have hi : issued w after = cs ++ ds := issued_of_calls (by rw [hds, hcs, List.append_assoc])
  unfold EnsureContract at h ⊢
  rw [hi2] at h
  rw [hi, ← hcl]
  obtain ⟨h1, h2, h3, h4⟩ := h
  refine ⟨?_, ?_, ?_, ?_⟩
  · rw [← h1]
    constructor
    · rintro ⟨c, hc, hcc⟩
      rcases List.mem_append.1 hc with hm | hm
      · rw [hq c hm] at hcc; simp at hcc
      · exact ⟨c, hm, hcc⟩
    · rintro ⟨c, hc, hcc⟩
      exact ⟨c, List.mem_append.2 (Or.inr hc), hcc⟩
  · intro c hc hcc
    rcases List.mem_append.1 hc with hm | hm
    · rw [hq c hm] at hcc; simp at hcc
    · exact h2 c hm hcc
  · intro x hx
    refine ⟨?_, (h3 x hx).2⟩
    intro c hc
    rcases List.mem_append.1 hc with hm | hm
    · exact hq c hm
    · exact (h3 x hx).1 c hm
  · intro e he hne
    refine ⟨(h4 e he hne).1, ?_, (h4 e he hne).2.2⟩
    intro c hc
    rcases List.mem_append.1 hc with hm | hm
    · exact hq c hm
    · exact (h4 e he hne).2.1 c hm

theorem apiCreateService_calls (svc : Service) (w : World) :
    (apiCreateService svc w).2.calls
      = w.calls ++ [Call.create Kind.Service { Namespace := svc.Namespace, Name := svc.Name }] := by
  unfold apiCreateService
  have hc := apiCreate_calls (svc.withClusterIP (w.ipPool.head?.getD "")) w
  rcases hcr : apiCreate (svc.withClusterIP (w.ipPool.head?.getD "")) w with ⟨e, w1⟩
  rw [hcr] at hc
  cases e <;> exact hc

/-- The contract of the service step: the pattern, followed (when the service exists or was
created) by the propagation of the service information, which creates nothing and leaves
the stored services as they are. -/
theorem createControllerService_ensures (r : JivaVolumeReconciler) (cr : JivaVolume) (w : World)
    (hb : r.ServiceBuildErr (controllerServiceObj r cr) = none) :
    EnsureContract Service { Namespace := cr.Namespace, Name := cr.Name ++ "-jiva-ctrl-svc" }
      (getResult Service { Namespace := cr.Namespace, Name := cr.Name ++ "-jiva-ctrl-svc" } w)
      w (createControllerService r cr w).2.2 (createControllerService r cr w).1 := by
  have hrefs : setControllerReference cr (controllerServiceObj r cr).OwnerReferences
      = Except.ok [controllerRef cr] := setControllerReference_nil cr
  have hname : (controllerServiceObj r cr).Name = cr.Name ++ "-jiva-ctrl-svc" := rfl
  have hns : (controllerServiceObj r cr).Namespace = cr.Namespace := rfl
  simp only [createControllerService, hb, hrefs, apiGet, hname, hns]
  cases hg : getResult Service { Namespace := cr.Namespace, Name := cr.Name ++ "-jiva-ctrl-svc" } w with
  | ok x =>
    simp only
    obtain ⟨⟨ds, hds, hdq⟩, hcl⟩ := updateJivaVolumeWithServiceInfo_frame cr
      (w.tick (Call.get (Resource.kind Service) { Namespace := cr.Namespace, Name := cr.Name ++ "-jiva-ctrl-svc" }))
    have hds2 : (updateJivaVolumeWithServiceInfo cr
        (w.tick (Call.get (Resource.kind Service) { Namespace := cr.Namespace, Name := cr.Name ++ "-jiva-ctrl-svc" }))).2.2.calls
        = w.calls ++ (Call.get (Resource.kind Service) { Namespace := cr.Namespace, Name := cr.Name ++ "-jiva-ctrl-svc" } :: ds) := by
      rw [hds]; simp
    have hi := issued_of_calls hds2
    simp only [EnsureContract, hi]
    refine ⟨?_, ?_, ?_, ?_⟩
    · constructor
      · rintro ⟨c, hc, hcc⟩
        rcases List.mem_cons.1 hc with hm | hm
        · rw [hm] at hcc; simp [Call.isCreate] at hcc
        · rw [hdq c hm] at hcc; simp at hcc
      · rintro ⟨e, he, _⟩; simp at he
    · intro c hc hcc
      rcases List.mem_cons.1 hc with hm | hm
      · rw [hm] at hcc; simp [Call.isCreate] at hcc
      · rw [hdq c hm] at hcc; simp at hcc
    · intro _ _
      refine ⟨?_, ?_⟩
      · intro c hc
        rcases List.mem_cons.1 hc with hm | hm
        · rw [hm]; rfl
        · exact hdq c hm
      · show _ = w.cluster.Services
        rw [hcl]; rfl
    · intro e he; simp at he
  | error e =>
    simp only
    by_cases hn : e.isNotFound = true
    · simp only [hn, if_true]
      have hcc : (apiCreateService ((controllerServiceObj r cr).withOwners [controllerRef cr])
          (w.tick (Call.get (Resource.kind Service) { Namespace := cr.Namespace, Name := cr.Name ++ "-jiva-ctrl-svc" }))).2.calls
          = w.calls ++ [Call.get (Resource.kind Service) { Namespace := cr.Namespace, Name := cr.Name ++ "-jiva-ctrl-svc" },
              Call.create Kind.Service { Namespace := cr.Namespace, Name := cr.Name ++ "-jiva-ctrl-svc" }] := by
        rw [apiCreateService_calls, tick_calls, List.append_assoc]; rfl
      rcases hcs : apiCreateService ((controllerServiceObj r cr).withOwners [controllerRef cr])
        (w.tick (Call.get (Resource.kind Service) { Namespace := cr.Namespace, Name := cr.Name ++ "-jiva-ctrl-svc" })) with ⟨e2, w2⟩
      rw [hcs] at hcc
      simp only at hcc
      have hex : ∃ ds, (∀ c ∈ ds, c.isCreate = false) ∧
          (match e2 with
            | some e2 => ((some e2, cr, w2) : Option Err × JivaVolume × World)
            | none => updateJivaVolumeWithServiceInfo cr (w2.sleep 1)).2.2.calls
            = w.calls ++ (Call.get (Resource.kind Service) { Namespace := cr.Namespace, Name := cr.Name ++ "-jiva-ctrl-svc" }
                :: Call.create Kind.Service { Namespace := cr.Namespace, Name := cr.Name ++ "-jiva-ctrl-svc" } :: ds) := by
        cases e2 with
        | some e2 => exact ⟨[], by simp, by simp [hcc]⟩
        | none =>
          obtain ⟨⟨ds, hds, hdq⟩, -⟩ := updateJivaVolumeWithServiceInfo_frame cr (w2.sleep 1)
          refine ⟨ds, hdq, ?_⟩
          simp only
          rw [hds]
          show w2.calls ++ ds = _
          rw [hcc]; simp
      obtain ⟨ds, hdq, hds⟩ := hex
      have hi := issued_of_calls hds
      have hout : (match ((e2, w2) : Option Err × World) with
            | (some e2, w2) => ((some e2, cr, w2) : Option Err × JivaVolume × World)
            | (none, w2) => updateJivaVolumeWithServiceInfo cr (w2.sleep 1))
          = (match e2 with
            | some e2 => ((some e2, cr, w2) : Option Err × JivaVolume × World)
            | none => updateJivaVolumeWithServiceInfo cr (w2.sleep 1)) := by
        cases e2 <;> rfl
      simp only [hout]
      simp only [EnsureContract, hi]
      refine ⟨?_, ?_, ?_, ?_⟩
      · constructor
        · intro _; exact ⟨e, rfl, hn⟩
        · intro _; exact ⟨_, List.mem_cons_of_mem _ (List.mem_cons_self _ _), rfl⟩
      · intro c hc hcr
        rcases List.mem_cons.1 hc with hm | hm
        · rw [hm] at hcr; simp [Call.isCreate] at hcr
        · rcases List.mem_cons.1 hm with hm2 | hm2
          · rw [hm2]; rfl
          · rw [hdq c hm2] at hcr; simp at hcr
      · intro x hx; simp at hx
      · intro e' he' hf
        simp only [Except.error.injEq] at he'
        subst he'
        rw [hn] at hf; simp at hf
    · have hi : issued w (w.tick (Call.get (Resource.kind Service) { Namespace := cr.Namespace, Name := cr.Name ++ "-jiva-ctrl-svc" }))
          = [Call.get (Resource.kind Service) { Namespace := cr.Namespace, Name := cr.Name ++ "-jiva-ctrl-svc" }] :=
        issued_of_calls rfl
      simp only [if_neg hn]
      simp only [EnsureContract, hi]
      refine ⟨?_, ?_, ?_, ?_⟩
      · simp [Call.isCreate, hn]
      · simp [Call.isCreate]
      · intro x hx; simp at hx
      · intro _ _ _; exact ⟨rfl, by simp [Call.isCreate], rfl⟩

/-- C10: each of the four ensure steps (service, target deployment, replica stateful set,
disruption budget) meets `EnsureContract` for its object and the `Get` by name it issues:
it issues a `Create`, of that object, exactly when the `Get` returns not-found; when the
object is found it issues no `Create` and leaves the stored objects of that kind as they
are; when the `Get` fails otherwise it returns an error, issues no `Create` and leaves the
cluster as it is. (The steps that build their object through a builder are taken with a
successful build; the stateful set step is taken from its entry, with the service read and
the capacity parsed.) -/
theorem ensure_steps_contract (r : JivaVolumeReconciler) (cr : JivaVolume) (w : World) :
    (r.ServiceBuildErr (controllerServiceObj r cr) = none →
      EnsureContract Service { Namespace := cr.Namespace, Name := cr.Name ++ "-jiva-ctrl-svc" }
        (getResult Service { Namespace := cr.Namespace, Name := cr.Name ++ "-jiva-ctrl-svc" } w)
        w (createControllerService r cr w).2.2 (createControllerService r cr w).1) ∧
    (r.DeploymentBuildErr (controllerDeploymentObj r cr) = none →
      EnsureContract Deployment { Namespace := cr.Namespace, Name := cr.Name ++ "-jiva-ctrl" }
        (getResult Deployment { Namespace := cr.Namespace, Name := cr.Name ++ "-jiva-ctrl" } w)
        w (createControllerDeployment r cr w).2.2 (createControllerDeployment r cr w).1) ∧
    (∀ svc capacity,
      getResult Service { Namespace := cr.Namespace, Name := cr.Name ++ "-jiva-ctrl-svc" } w
          = Except.ok svc →
        r.RAMInBytes (splitHead 'i' cr.Spec.Capacity) = some capacity →
          r.StatefulSetBuildErr (replicaStatefulSetObj r cr svc capacity w.selectorMap) = none →
            EnsureContract StatefulSet { Namespace := cr.Namespace, Name := cr.Name ++ "-jiva-rep" }
              (getResult StatefulSet { Namespace := cr.Namespace, Name := cr.Name ++ "-jiva-rep" }
                (statefulSetReadWorld cr w))
              w (createReplicaStatefulSet r cr w).2.2 (createReplicaStatefulSet r cr w).1) ∧
    EnsureContract PodDisruptionBudget { Namespace := cr.Namespace, Name := cr.Name ++ "-pdb" }
      (getResult PodDisruptionBudget { Namespace := cr.Namespace, Name := cr.Name ++ "-pdb" } w)
      w (createReplicaPodDisruptionBudget r cr w).2.2 (createReplicaPodDisruptionBudget r cr w).1 := by
  refine ⟨createControllerService_ensures r cr w, ?_, ?_, ?_⟩
  · intro hb
    rw [createControllerDeployment_eq r cr w hb]
    exact ensureExists_contract (ownedDeployment r cr) _ w
  · intro svc capacity hsvc hram hb
    rw [createReplicaStatefulSet_eq r cr w svc capacity hsvc hram hb]
    obtain ⟨ds, hds⟩ := ensureExists_calls (ownedStatefulSet r cr svc capacity w.selectorMap)
      ("failed to get the statefulset details: "
        ++ (replicaStatefulSetObj r cr svc capacity w.selectorMap).Name) (statefulSetReadWorld cr w)
    have hcs : (statefulSetReadWorld cr w).calls = w.calls
        ++ [Call.get Kind.Service { Namespace := cr.Namespace, Name := cr.Name ++ "-jiva-ctrl-svc" }] := rfl
    exact EnsureContract.prepend hcs (by simp [Call.isCreate]) hds rfl
      (ensureExists_contract (ownedStatefulSet r cr svc capacity w.selectorMap) _
        (statefulSetReadWorld cr w))
  · rw [createReplicaPodDisruptionBudget_eq r cr w]
    exact ensureExists_contract (ownedPodDisruptionBudget cr) _ w

theorem ensure_steps_contract_witness :
    sampleReconciler.DeploymentBuildErr (controllerDeploymentObj sampleReconciler sampleVolume) = none ∧
    EnsureContract Deployment { Namespace := sampleVolume.Namespace, Name := sampleVolume.Name ++ "-jiva-ctrl" }
      (getResult Deployment { Namespace := sampleVolume.Namespace, Name := sampleVolume.Name ++ "-jiva-ctrl" }
        sampleWorld)
      sampleWorld (createControllerDeployment sampleReconciler sampleVolume sampleWorld).2.2
      (createControllerDeployment sampleReconciler sampleVolume sampleWorld).1 :=
  ⟨rfl, (ensure_steps_contract sampleReconciler sampleVolume sampleWorld).2.1 rfl⟩

/-! ### `Reconcile` in phase `Ready` -/

/-- The status refresh writes the status of the volume and nothing else. -/
theorem getAndUpdateVolumeStatus_spec (r : JivaVolumeReconciler) (cr : JivaVolume) (w : World) :
    (getAndUpdateVolumeStatus r cr w).2.1
      = { cr with Status := (getAndUpdateVolumeStatus r cr w).2.1.Status } := by
  unfold getAndUpdateVolumeStatus
  generalize getJivaVolume cr w = out
  rcases out with ⟨e, w1⟩
  cases e with
  | some e => simp [updateStatus_fst, setdefaults]
  | none =>
    simp only [statsAddr_length, if_false]
    generalize w1.getStats (statsAddr cr w1) = out2
    rcases out2 with ⟨st, w2⟩
    cases st with
    | some stats => simp [updateStatus_fst, setStatusFromStats]
    | none =>
      simp only
      generalize updatePodIPMap r cr w2 = out3
      rcases out3 with ⟨e3, w3⟩
      cases e3 <;> simp [updateStatus_fst, setStatusFromStats, setdefaults]

/-- The volume after `performScaleup` is the one before, or the one before with the desired
factor (as an `int32`) as its effective factor and phase `Syncing`. -/
theorem performScaleup_volume (cr : JivaVolume) (w : World) :
    (performScaleup cr w).2.1 = cr ∨
    ((performScaleup cr w).2.1.Spec.Policy.Target.ReplicationFactor
        = int32 cr.Spec.DesiredReplicationFactor ∧
      (performScaleup cr w).2.1.Spec.DesiredReplicationFactor = cr.Spec.DesiredReplicationFactor) := by
  simp only [performScaleup]
  generalize apiGet StatefulSet _ w = o1
  rcases o1 with ⟨r1, w1⟩
  cases r1 with
  | error e => exact Or.inl rfl
  | ok s0 =>
    simp only
    generalize apiPatch StatefulSet _ _ w1 = o2
    rcases o2 with ⟨r2, w2⟩
    cases r2 with
    | some e => exact Or.inl rfl
    | none =>
      simp only
      generalize apiGet Deployment _ w2 = o3
      rcases o3 with ⟨r3, w3⟩
      cases r3 with
      | error e => exact Or.inl rfl
      | ok d0 =>
        simp only
        cases setReplicationFactorEnv (toString cr.Spec.DesiredReplicationFactor) d0.Template.Containers with
        | none => exact Or.inl rfl
        | some cs =>
          simp only
          generalize apiPatch Deployment _ _ w3 = o5
          rcases o5 with ⟨r5, w4⟩
          cases r5 with
          | some e => exact Or.inl rfl
          | none =>
            simp only
            generalize updateJivaVolume _ w4 = o6
            rcases o6 with ⟨r6, w5⟩
            cases r6 <;> exact Or.inr ⟨rfl, rfl⟩

/-- The volume `reconcileReady` ends with: its effective factor is the one before, or the
desired one (as an `int32`) and then `isScaleup` held on the status just observed. -/
theorem reconcileReady_factor (r : JivaVolumeReconciler) (cr : JivaVolume) (w : World) :
    ∃ cr', (reconcileReady r cr w).volume = some cr' ∧
      (cr'.Spec.Policy.Target.ReplicationFactor = cr.Spec.Policy.Target.ReplicationFactor ∨
        (cr'.Spec.Policy.Target.ReplicationFactor = int32 cr.Spec.DesiredReplicationFactor ∧
          (isScaleup (getAndUpdateVolumeStatus r cr w).2.1
            (getAndUpdateVolumeStatus r cr w).2.2).1 = true)) := by
  have hspec := getAndUpdateVolumeStatus_spec r cr w
  unfold reconcileReady
  rcases hg : getAndUpdateVolumeStatus r cr w with ⟨e, cr1, w1⟩
  rw [hg] at hspec
  simp only at hspec
  have hrf : cr1.Spec = cr.Spec := by rw [hspec]
  cases e with
  | some e => exact ⟨cr1, rfl, Or.inl (by rw [hrf])⟩
  | none =>
    simp only
    rcases hs : isScaleup cr1 w1 with ⟨b, w2⟩
    cases b with
    | false =>
      simp only
      generalize moveReplicasForMissingNodes r cr1 w2 = o
      rcases o with ⟨m, w3⟩
      cases m with
      | panic => exact ⟨cr1, rfl, Or.inl (by rw [hrf])⟩
      | done me => cases me <;> exact ⟨cr1, rfl, Or.inl (by rw [hrf])⟩
    | true =>
      simp only
      have hv := performScaleup_volume cr1 w2
      rcases hp : performScaleup cr1 w2 with ⟨p, cr2, w3⟩
      rw [hp] at hv
      simp only at hv
      have hfac : cr2.Spec.Policy.Target.ReplicationFactor = cr.Spec.Policy.Target.ReplicationFactor ∨
          cr2.Spec.Policy.Target.ReplicationFactor = int32 cr.Spec.DesiredReplicationFactor := by
        rcases hv with hv | hv
        · exact Or.inl (by rw [hv, hrf])
        · exact Or.inr (by rw [hv.1, hrf])
      have hfin : ∀ cr' : JivaVolume, cr'.Spec = cr2.Spec →
          (cr'.Spec.Policy.Target.ReplicationFactor = cr.Spec.Policy.Target.ReplicationFactor ∨
            (cr'.Spec.Policy.Target.ReplicationFactor = int32 cr.Spec.DesiredReplicationFactor ∧
              True)) := by
        intro cr' h'
        rw [h']
        rcases hfac with h | h
        · exact Or.inl h
        · exact Or.inr ⟨h, trivial⟩
      cases p with
      | panic => exact ⟨cr2, rfl, hfin cr2 rfl⟩
      | done pe =>
        cases pe with
        | some e => exact ⟨cr2, rfl, hfin cr2 rfl⟩
        | none =>
          simp only
          have hspec2 := getAndUpdateVolumeStatus_spec r cr2 w3
          rcases hg2 : getAndUpdateVolumeStatus r cr2 w3 with ⟨e3, cr3, w4⟩
          rw [hg2] at hspec2
          simp only at hspec2
          have h3 : cr3.Spec = cr2.Spec := by rw [hspec2]
          exact ⟨cr3, rfl, hfin cr3 h3⟩

/-- `Reconcile` on a stored volume in phase `Ready` stops before the switch with the volume
as loaded, or runs the `Ready` branch in the world `switchWorld`. -/
theorem Reconcile_ready (r : JivaVolumeReconciler) (req : Key) (w : World) (cr0 : JivaVolume)
    (hload : getResult JivaVolume req w = Except.ok cr0)
    (hphase : cr0.Status.Phase = JivaVolumePhaseReady) :
    (Reconcile r req w).volume = some cr0 ∨
    Reconcile r req w = reconcileReady r cr0 (switchWorld r cr0 (apiGet JivaVolume req w).2) := by
  unfold Reconcile
  have hget : apiGet JivaVolume req w = (Except.ok cr0, (apiGet JivaVolume req w).2) := by
    unfold apiGet; rw [hload]
  rw [hget]
  simp only
  unfold switchWorld
  generalize (apiGet JivaVolume req w).2 = w1
  rcases reconcileVersion r cr0 w1 with ⟨e, w2⟩
  cases e with
  | some e => exact Or.inl rfl
  | none =>
    simp only
    rcases shouldReconcile r cr0 with ⟨ok, e2⟩
    cases e2 with
    | some e => exact Or.inl rfl
    | none =>
      simp only
      right
      unfold reconcilePhase
      rw [if_pos hphase]

/-- C3, amended: for a volume loaded in phase `Ready` whose desired replication factor fits in
32 bits, the effective replication factor of the volume `Reconcile` ends with is the one
loaded or exactly one greater, and it is greater only if, in the status observed in the
cycle, the replica count equals the old factor and every observed replica is in mode `RW`. -/
theorem Reconcile_ready_factor (r : JivaVolumeReconciler) (req : Key) (w : World) (cr0 : JivaVolume)
    (hload : getResult JivaVolume req w = Except.ok cr0)
    (hphase : cr0.Status.Phase = JivaVolumePhaseReady)
    (hd : IsInt32 cr0.Spec.DesiredReplicationFactor)
    (hf : IsInt cr0.Spec.Policy.Target.ReplicationFactor) :
    ∃ cr', (Reconcile r req w).volume = some cr' ∧
      (cr'.Spec.Policy.Target.ReplicationFactor = cr0.Spec.Policy.Target.ReplicationFactor ∨
        (cr'.Spec.Policy.Target.ReplicationFactor = cr0.Spec.Policy.Target.ReplicationFactor + 1 ∧
          (observedStatus r cr0 (apiGet JivaVolume req w).2).ReplicaCount
            = cr0.Spec.Policy.Target.ReplicationFactor ∧
          ∀ rep ∈ (observedStatus r cr0 (apiGet JivaVolume req w).2).ReplicaStatuses,
            rep.Mode = "RW")) := by
  rcases Reconcile_ready r req w cr0 hload hphase with h | h
  · exact ⟨cr0, h, Or.inl rfl⟩
  · obtain ⟨cr', hv, hfac⟩ := reconcileReady_factor r cr0 (switchWorld r cr0 (apiGet JivaVolume req w).2)
    refine ⟨cr', by rw [h]; exact hv, ?_⟩
    rcases hfac with hfac | ⟨hfac, hup⟩
    · exact Or.inl hfac
    · right
      have hspec := getAndUpdateVolumeStatus_spec r cr0 (switchWorld r cr0 (apiGet JivaVolume req w).2)
      have hs : (getAndUpdateVolumeStatus r cr0 (switchWorld r cr0 (apiGet JivaVolume req w).2)).2.1.Spec
          = cr0.Spec := by rw [hspec]
      have hd32 : int32 cr0.Spec.DesiredReplicationFactor = cr0.Spec.DesiredReplicationFactor := by
        unfold IsInt32 at hd; unfold int32; omega
      have hdi : IsInt cr0.Spec.DesiredReplicationFactor := by
        unfold IsInt32 at hd; unfold IsInt; omega
      have hiff := isScaleup_accepted _ _ (by rw [hs]; exact hdi) (by rw [hs]; exact hf) hup
      rw [hs] at hiff
      exact ⟨by rw [hfac, hd32]; exact hiff.1, hiff.2.1, hiff.2.2⟩

theorem Reconcile_ready_factor_witness :
    (getResult JivaVolume { Namespace := "openebs", Name := "pvc-1" } sampleScaleWorld
        = Except.ok sampleVolume ∧
      sampleVolume.Status.Phase = JivaVolumePhaseReady ∧
      IsInt32 sampleVolume.Spec.DesiredReplicationFactor ∧
      IsInt sampleVolume.Spec.Policy.Target.ReplicationFactor) ∧
    ∃ cr', (Reconcile sampleReconciler { Namespace := "openebs", Name := "pvc-1" } sampleScaleWorld).volume
        = some cr' ∧
      (cr'.Spec.Policy.Target.ReplicationFactor = sampleVolume.Spec.Policy.Target.ReplicationFactor ∨
        (cr'.Spec.Policy.Target.ReplicationFactor = sampleVolume.Spec.Policy.Target.ReplicationFactor + 1 ∧
          (observedStatus sampleReconciler sampleVolume
              (apiGet JivaVolume { Namespace := "openebs", Name := "pvc-1" } sampleScaleWorld).2).ReplicaCount
            = sampleVolume.Spec.Policy.Target.ReplicationFactor ∧
          ∀ rep ∈ (observedStatus sampleReconciler sampleVolume
              (apiGet JivaVolume { Namespace := "openebs", Name := "pvc-1" } sampleScaleWorld).2).ReplicaStatuses,
            rep.Mode = "RW")) :=
  ⟨⟨rfl, by decide, by decide, by decide⟩,
    Reconcile_ready_factor sampleReconciler { Namespace := "openebs", Name := "pvc-1" } sampleScaleWorld
      sampleVolume rfl (by decide) (by decide) (by decide)⟩

theorem reconcileVersion_same (r : JivaVolumeReconciler) (cr : JivaVolume) (w : World)
    (h : cr.VersionDetails.Status.Current = cr.VersionDetails.Desired) :
    reconcileVersion r cr w = (none, w) := by
  unfold reconcileVersion
  simp [h]

/-- `Reconcile` on a stored volume in phase `Ready` and of the version of the operator runs
the `Ready` branch. -/
theorem Reconcile_ready_eq (r : JivaVolumeReconciler) (req : Key) (w : World) (cr0 : JivaVolume)
    (hload : getResult JivaVolume req w = Except.ok cr0)
    (hphase : cr0.Status.Phase = JivaVolumePhaseReady)
    (hsame : cr0.VersionDetails.Status.Current = cr0.VersionDetails.Desired)
    (hver : cr0.VersionDetails.Status.Current = r.Version) :
    Reconcile r req w = reconcileReady r cr0 (switchWorld r cr0 (apiGet JivaVolume req w).2) := by
  unfold Reconcile
  have hget : apiGet JivaVolume req w = (Except.ok cr0, (apiGet JivaVolume req w).2) := by
    unfold apiGet; rw [hload]
  rw [hget]
  simp only
  unfold switchWorld
  generalize (apiGet JivaVolume req w).2 = w1
  rw [reconcileVersion_same r cr0 w1 hsame]
  have hsr : shouldReconcile r cr0 = (true, none) := by
    unfold shouldReconcile
    simp [hver]
  simp only [hsr]
  unfold reconcilePhase
  rw [if_pos hphase]

/-- After a successful status query `getAndUpdateVolumeStatus` returns no error. -/
theorem getAndUpdateVolumeStatus_success_error (r : JivaVolumeReconciler) (cr : JivaVolume)
    (w : World) (stats : Stats)
    (hget : (getJivaVolume cr w).1 = none)
    (hstats : w.stats.head?.join = some stats) :
    (getAndUpdateVolumeStatus r cr w).1 = none := by
  have hw := getJivaVolume_snd cr w
  unfold getAndUpdateVolumeStatus
  rcases hg : getJivaVolume cr w with ⟨e, w1⟩
  rw [hg] at hget hw
  simp only at hget hw
  subst hget
  simp only [statsAddr_length, if_false]
  have hs : (w1.getStats (statsAddr cr w1)).1 = some stats := by
    rw [getStats_fst, hw]; exact hstats
  rcases hq : w1.getStats (statsAddr cr w1) with ⟨a, w2⟩
  rw [hq] at hs
  simp only at hs
  subst hs
  rfl

theorem getAndUpdateVolumeStatus_success_volume (r : JivaVolumeReconciler) (cr : JivaVolume)
    (w : World) (stats : Stats)
    (hget : (getJivaVolume cr w).1 = none)
    (hstats : w.stats.head?.join = some stats) :
    (getAndUpdateVolumeStatus r cr w).2.1 = setStatusFromStats cr stats := by
  have hw := getJivaVolume_snd cr w
  unfold getAndUpdateVolumeStatus
  rcases hg : getJivaVolume cr w with ⟨e, w1⟩
  rw [hg] at hget hw
  simp only at hget hw
  subst hget
  simp only [statsAddr_length, if_false]
  have hs : (w1.getStats (statsAddr cr w1)).1 = some stats := by
    rw [getStats_fst, hw]; exact hstats
  rcases hq : w1.getStats (statsAddr cr w1) with ⟨a, w2⟩
  rw [hq] at hs
  simp only at hs
  subst hs
  simp [updateStatus_fst]

theorem isScaleup_snd_of_true (cr : JivaVolume) (w : World) (h : (isScaleup cr w).1 = true) :
    (isScaleup cr w).2 = w := by
  simp only [isScaleup] at h ⊢
  split_ifs at h ⊢
  rfl

/-- The `Ready` branch with an accepted scale-up that goes through: the volume ends with the
desired factor, as an `int32`, as its effective factor. -/
theorem reconcileReady_scaleup (r : JivaVolumeReconciler) (cr : JivaVolume) (w : World)
    (he : (getAndUpdateVolumeStatus r cr w).1 = none)
    (hs : (isScaleup (getAndUpdateVolumeStatus r cr w).2.1 (getAndUpdateVolumeStatus r cr w).2.2).1 = true)
    (hp : (performScaleup (getAndUpdateVolumeStatus r cr w).2.1
      (getAndUpdateVolumeStatus r cr w).2.2).1 = Ret.done none) :
    ∃ cr', (reconcileReady r cr w).volume = some cr' ∧
      cr'.Spec.Policy.Target.ReplicationFactor = int32 cr.Spec.DesiredReplicationFactor := by
  have hspec := getAndUpdateVolumeStatus_spec r cr w
  have hw2 := isScaleup_snd_of_true _ _ hs
  unfold reconcileReady
  rcases hg : getAndUpdateVolumeStatus r cr w with ⟨e, cr1, w1⟩
  rw [hg] at he hs hp hspec hw2
  simp only at he hs hp hspec hw2
  subst he
  have hrf : cr1.Spec = cr.Spec := by rw [hspec]
  simp only
  rcases hsc : isScaleup cr1 w1 with ⟨b, w2⟩
  rw [hsc] at hs hw2
  simp only at hs hw2
  subst hs
  subst hw2
  simp only
  obtain ⟨s0, d0, cs, v1, v2, v3, v4, v5, -, -, -, -, -, -, hcr2, -⟩ := performScaleup_done hp
  rcases hpp : performScaleup cr1 w2 with ⟨p, cr2, w3⟩
  rw [hpp] at hp hcr2
  simp only at hp hcr2
  subst hp
  simp only
  have hspec2 := getAndUpdateVolumeStatus_spec r cr2 w3
  rcases hg2 : getAndUpdateVolumeStatus r cr2 w3 with ⟨e3, cr3, w4⟩
  rw [hg2] at hspec2
  simp only at hspec2
  refine ⟨cr3, rfl, ?_⟩
  rw [hspec2, hcr2, hrf]

theorem allRW_replicate (n : Nat) (addr : String) :
    ∀ rep ∈ (List.replicate n (rwReplica addr)).map
        (fun rep => ({ Address := rep.Address, Mode := rep.Mode } : ReplicaStatus)),
      rep.Mode = "RW" := by
  intro rep hrep
  rw [map_replicaStatus_id] at hrep
  rw [List.eq_of_mem_replicate hrep]
  rfl

/-- In the world of `n` read-write replicas, with the effective factor `n` and the desired
factor `n + 1`, the cycle scales up and leaves the desired factor, as an `int32`, as the
effective factor. -/
theorem Reconcile_scaleWorld (n : Nat) (hn : IsInt ((n : Int) + 1)) :
    ∃ cr', (Reconcile sampleReconciler { Namespace := "openebs", Name := "pvc-1" } (scaleWorld n)).volume
        = some cr' ∧
      cr'.Spec.Policy.Target.ReplicationFactor = int32 ((n : Int) + 1) := by
  rw [Reconcile_ready_eq sampleReconciler { Namespace := "openebs", Name := "pvc-1" } (scaleWorld n)
    (scaleVolume n) rfl rfl rfl rfl]
  have hget : (getJivaVolume (scaleVolume n) (switchWorld sampleReconciler (scaleVolume n)
      (apiGet JivaVolume { Namespace := "openebs", Name := "pvc-1" } (scaleWorld n)).2)).1 = none := rfl
  have hstats : (switchWorld sampleReconciler (scaleVolume n)
      (apiGet JivaVolume { Namespace := "openebs", Name := "pvc-1" } (scaleWorld n)).2).stats.head?.join
      = some (scaleStats n) := rfl
  have hvol := getAndUpdateVolumeStatus_success_volume sampleReconciler _ _ _ hget hstats
  have herr := getAndUpdateVolumeStatus_success_error sampleReconciler _ _ _ hget hstats
  have hscale : (isScaleup (getAndUpdateVolumeStatus sampleReconciler (scaleVolume n)
      (switchWorld sampleReconciler (scaleVolume n)
        (apiGet JivaVolume { Namespace := "openebs", Name := "pvc-1" } (scaleWorld n)).2)).2.1
      (getAndUpdateVolumeStatus sampleReconciler (scaleVolume n)
      (switchWorld sampleReconciler (scaleVolume n)
        (apiGet JivaVolume { Namespace := "openebs", Name := "pvc-1" } (scaleWorld n)).2)).2.2).1 = true := by
    rw [hvol]
    have hf : IsInt ((n : Int)) := by unfold IsInt at hn ⊢; omega
    refine isScaleup_accepts _ _ hn hf rfl ?_ ?_
    · show (((List.replicate n (rwReplica "")).length : Nat) : Int) = (n : Int)
      rw [List.length_replicate]
    · exact allRW_replicate _ _
  obtain ⟨cr', hv, hfac⟩ := reconcileReady_scaleup sampleReconciler (scaleVolume n) _ herr hscale rfl
  exact ⟨cr', hv, hfac⟩

/-- C3, as stated, fails: the volume is stored in phase `Ready` with the effective factor
`2^31 - 1` and the desired factor `2^31`, the target answers `RW` with `2^31 - 1` replicas in
mode `RW`, every call succeeds, and `Reconcile` ends with the effective factor `-2^31`, which
is neither the old factor nor the old factor plus one. -/
theorem Reconcile_ready_wraps :
    getResult JivaVolume { Namespace := "openebs", Name := "pvc-1" } sampleBigWorld
      = Except.ok sampleBigVolume ∧
    sampleBigVolume.Status.Phase = JivaVolumePhaseReady ∧
    sampleBigVolume.Spec.Policy.Target.ReplicationFactor = 2147483647 ∧
    sampleBigVolume.Spec.DesiredReplicationFactor = 2147483648 ∧
    ∃ cr', (Reconcile sampleReconciler { Namespace := "openebs", Name := "pvc-1" } sampleBigWorld).volume
        = some cr' ∧
      cr'.Spec.Policy.Target.ReplicationFactor = -2147483648 := by
  refine ⟨rfl, rfl, rfl, by decide, ?_⟩
  obtain ⟨cr', hv, hfac⟩ := Reconcile_scaleWorld 2147483647 (by decide)
  exact ⟨cr', hv, hfac.trans (by decide)⟩

/-! ### Idempotence of the installer -/

theorem fault_of_faults_nil {w : World} (h : w.faults = []) : w.fault = none := by
  simp [World.fault, h]

theorem Keeps.keeps_refl (α : Type) [Resource α] (c : Cluster) : Keeps α c c := fun _ _ h => h

theorem Keeps.keeps_trans {α : Type} [Resource α] {c1 c2 c3 : Cluster} (h12 : Keeps α c1 c2)
    (h23 : Keeps α c2 c3) : Keeps α c1 c3 := fun k x h => h23 k x (h12 k x h)

theorem Keeps.of_sel {α : Type} [Resource α] {c c' : Cluster}
    (h : (Resource.sel c' : List α) = Resource.sel c) : Keeps α c c' := by
  intro k x hx
  unfold Cluster.find at hx ⊢
  rw [h]; exact hx

theorem Keeps.of_append {α : Type} [Resource α] {c c' : Cluster} {xs : List α}
    (h : (Resource.sel c' : List α) = Resource.sel c ++ xs) : Keeps α c c' := by
  intro k x hx
  unfold Cluster.find at hx ⊢
  rw [h, List.find?_append, hx]; rfl

theorem Grows.grows_refl (c : Cluster) : Grows c c :=
  ⟨rfl, Keeps.keeps_refl _ c, Keeps.keeps_refl _ c, Keeps.keeps_refl _ c, Keeps.keeps_refl _ c, fun _ h => h⟩

theorem Grows.grows_trans {c1 c2 c3 : Cluster} (h12 : Grows c1 c2) (h23 : Grows c2 c3) : Grows c1 c3 :=
  ⟨h23.1.trans h12.1, h12.2.1.keeps_trans h23.2.1, h12.2.2.1.keeps_trans h23.2.2.1,
    h12.2.2.2.1.keeps_trans h23.2.2.2.1, h12.2.2.2.2.1.keeps_trans h23.2.2.2.2.1,
    fun k h => h23.2.2.2.2.2 k (h12.2.2.2.2.2 k h)⟩

theorem Grows.of_eq {c c' : Cluster} (h : c' = c) : Grows c c' := by rw [h]; exact Grows.grows_refl c

theorem isSome_find_map {α : Type} (key : α → Key) (k k' : Key) (x : α) (hx : key x = k')
    (xs : List α) (h : (xs.find? (fun y => decide (key y = k))).isSome = true) :
    ((xs.map (fun y => if key y = k' then x else y)).find? (fun y => decide (key y = k))).isSome
      = true := by
  induction xs with
  | nil => simp at h
  | cons y rest ih =>
    by_cases hy : key y = k
    · by_cases hy' : key y = k'
      · have : key x = k := by rw [hx, ← hy', hy]
        simp [List.find?_cons, hy', this]
      · rw [List.map_cons, if_neg hy', List.find?_cons]
        simp [hy]
    · simp only [List.find?_cons, hy, decide_False] at h
      by_cases hy' : key y = k'
      · by_cases hxk : key x = k
        · simp [List.find?_cons, hy', hxk]
        · simp only [List.map_cons, hy', if_true, List.find?_cons, hxk, decide_False]
          exact ih h
      · simp only [List.map_cons, hy', if_false, List.find?_cons, hy, decide_False]
        exact ih h

/-- An update of a volume keeps everything the installer relies on. -/
theorem apiUpdate_volume_grows (x : JivaVolume) (w : World) : Grows w.cluster (apiUpdate x w).2.cluster := by
  rcases h : apiUpdate x w with ⟨e, w1⟩
  cases e with
  | some e => rw [apiUpdate_some h]; exact Grows.grows_refl _
  | none =>
    rw [(apiUpdate_none h).2.2]
    refine ⟨rfl, Keeps.of_sel rfl, Keeps.of_sel rfl, Keeps.of_sel rfl, Keeps.of_sel rfl, ?_⟩
    intro k hk
    exact isSome_find_map Resource.key k (Resource.key x) x rfl _ hk

theorem updateJivaVolume_grows (cr : JivaVolume) (w : World) :
    Grows w.cluster (updateJivaVolume cr w).2.cluster := by
  unfold updateJivaVolume
  have hg := apiUpdate_volume_grows cr w
  rcases hu : apiUpdate cr w with ⟨e, w1⟩
  rw [hu] at hg
  cases e with
  | some e => exact hg
  | none =>
    simp only
    have hs := getJivaVolume_snd cr w1
    rcases hg2 : getJivaVolume cr w1 with ⟨e2, w2⟩
    rw [hg2] at hs
    simp only at hs
    have h2 : w2.cluster = w1.cluster := by rw [hs]; rfl
    cases e2 <;> simp only [h2] <;> exact hg

theorem tick_faults_nil {w : World} (h : w.faults = []) (c : Call) : (w.tick c).faults = [] := by
  simp [h]

/-- The pattern on a stored object, without fault: the object is read and nothing else is done. -/
theorem ensureExists_of_found {α : Type} [Resource α] (obj : α) (context : String) {w : World}
    (hf : w.faults = []) (hx : (w.cluster.find α (Resource.key obj)).isSome = true) :
    ensureExists obj context w = (none, w.tick (Call.get (Resource.kind α) (Resource.key obj))) := by
  obtain ⟨x, hx'⟩ := Option.isSome_iff_exists.1 hx
  unfold ensureExists
  rw [apiGet_of_find (fault_of_faults_nil hf) hx']

/-- After the pattern returns no error the object is stored, and the cluster is the one
before or the one before with the object added. -/
theorem ensureExists_none {α : Type} [Resource α] {obj : α} {context : String} {w w' : World}
    (h : ensureExists obj context w = (none, w')) :
    (w'.cluster.find α (Resource.key obj)).isSome = true ∧
    (w'.cluster = w.cluster ∨
      w'.cluster = Resource.put w.cluster ((Resource.sel w.cluster : List α) ++ [obj])) ∧
    w'.selectorMap = w.selectorMap := by
  unfold ensureExists at h
  rcases hg : apiGet α (Resource.key obj) w with ⟨g, w1⟩
  rw [hg] at h
  cases g with
  | ok x =>
    simp only [Prod.mk.injEq, true_and] at h
    obtain ⟨-, hx, hw1⟩ := apiGet_ok hg
    subst h
    rw [hw1]
    exact ⟨by rw [tick_cluster, hx]; rfl, Or.inl rfl, rfl⟩
  | error e =>
    simp only at h
    have hw1 := (apiGet_error hg).1
    by_cases hn : e.isNotFound = true
    · rw [if_pos hn] at h
      obtain ⟨-, -, hw'⟩ := apiCreate_none h
      rw [hw', hw1]
      refine ⟨?_, Or.inr rfl, rfl⟩
      simp only [store_cluster, tick_cluster, Cluster.find, Resource.sel_put, List.find?_append]
      simp
    · rw [if_neg hn] at h
      simp at h

theorem grows_append_service (c : Cluster) (x : Service) :
    Grows c (Resource.put c ((Resource.sel c : List Service) ++ [x])) :=
  ⟨rfl, Keeps.of_append rfl, Keeps.of_sel rfl, Keeps.of_sel rfl, Keeps.of_sel rfl, fun _ h => h⟩

theorem grows_append_deployment (c : Cluster) (x : Deployment) :
    Grows c (Resource.put c ((Resource.sel c : List Deployment) ++ [x])) :=
  ⟨rfl, Keeps.of_sel rfl, Keeps.of_append rfl, Keeps.of_sel rfl, Keeps.of_sel rfl, fun _ h => h⟩

theorem grows_append_statefulSet (c : Cluster) (x : StatefulSet) :
    Grows c (Resource.put c ((Resource.sel c : List StatefulSet) ++ [x])) :=
  ⟨rfl, Keeps.of_sel rfl, Keeps.of_sel rfl, Keeps.of_append rfl, Keeps.of_sel rfl, fun _ h => h⟩

theorem grows_append_budget (c : Cluster) (x : PodDisruptionBudget) :
    Grows c (Resource.put c ((Resource.sel c : List PodDisruptionBudget) ++ [x])) :=
  ⟨rfl, Keeps.of_sel rfl, Keeps.of_sel rfl, Keeps.of_sel rfl, Keeps.of_append rfl, fun _ h => h⟩

/-- The deployment step after it returns no error. -/
theorem createControllerDeployment_none {r : JivaVolumeReconciler} {cr cr' : JivaVolume}
    {w w' : World} (h : createControllerDeployment r cr w = (none, cr', w')) :
    r.DeploymentBuildErr (controllerDeploymentObj r cr) = none ∧ cr' = cr ∧
    (w'.cluster.find Deployment { Namespace := cr.Namespace, Name := cr.Name ++ "-jiva-ctrl" }).isSome
      = true ∧
    Grows w.cluster w'.cluster ∧ w'.selectorMap = w.selectorMap := by
  cases hb : r.DeploymentBuildErr (controllerDeploymentObj r cr) with
  | some e => simp [createControllerDeployment, hb] at h
  | none =>
    rw [createControllerDeployment_eq r cr w hb] at h
    simp only [Prod.mk.injEq] at h
    obtain ⟨h1, h2, h3⟩ := h
    have he : ensureExists (ownedDeployment r cr)
        ("failed to get the deployment details: " ++ (controllerDeploymentObj r cr).Name) w
        = (none, w') := Prod.ext h1 h3
    obtain ⟨hx, hc, hs⟩ := ensureExists_none he
    refine ⟨rfl, h2.symm, hx, ?_, hs⟩
    rcases hc with hc | hc
    · exact Grows.of_eq hc
    · rw [hc]; exact grows_append_deployment _ _

/-- The deployment step on a stored deployment, without fault. -/
theorem createControllerDeployment_found {r : JivaVolumeReconciler} {cr : JivaVolume} {w : World}
    (hf : w.faults = [])
    (hb : r.DeploymentBuildErr (controllerDeploymentObj r cr) = none)
    (hx : (w.cluster.find Deployment { Namespace := cr.Namespace, Name := cr.Name ++ "-jiva-ctrl" }).isSome
      = true) :
    createControllerDeployment r cr w
      = (none, cr, w.tick (Call.get Kind.Deployment
          { Namespace := cr.Namespace, Name := cr.Name ++ "-jiva-ctrl" })) := by
  rw [createControllerDeployment_eq r cr w hb,
    ensureExists_of_found (ownedDeployment r cr) _ hf hx]
  rfl

/-- The budget step after it returns no error. -/
theorem createReplicaPodDisruptionBudget_none {r : JivaVolumeReconciler} {cr cr' : JivaVolume}
    {w w' : World} (h : createReplicaPodDisruptionBudget r cr w = (none, cr', w')) :
    cr' = cr ∧
    (w'.cluster.find PodDisruptionBudget { Namespace := cr.Namespace, Name := cr.Name ++ "-pdb" }).isSome
      = true ∧
    Grows w.cluster w'.cluster ∧ w'.selectorMap = w.selectorMap := by
  rw [createReplicaPodDisruptionBudget_eq r cr w] at h
  simp only [Prod.mk.injEq] at h
  obtain ⟨h1, h2, h3⟩ := h
  have he : ensureExists (ownedPodDisruptionBudget cr)
      ("failed to get the pod disruption budget details: " ++ (replicaPodDisruptionBudgetObj cr).Name) w
      = (none, w') := Prod.ext h1 h3
  obtain ⟨hx, hc, hs⟩ := ensureExists_none he
  refine ⟨h2.symm, hx, ?_, hs⟩
  rcases hc with hc | hc
  · exact Grows.of_eq hc
  · rw [hc]; exact grows_append_budget _ _

/-- The budget step on a stored budget, without fault. -/
theorem createReplicaPodDisruptionBudget_found {r : JivaVolumeReconciler} {cr : JivaVolume}
    {w : World} (hf : w.faults = [])
    (hx : (w.cluster.find PodDisruptionBudget
      { Namespace := cr.Namespace, Name := cr.Name ++ "-pdb" }).isSome = true) :
    createReplicaPodDisruptionBudget r cr w
      = (none, cr, w.tick (Call.get Kind.PodDisruptionBudget
          { Namespace := cr.Namespace, Name := cr.Name ++ "-pdb" })) := by
  rw [createReplicaPodDisruptionBudget_eq r cr w,
    ensureExists_of_found (ownedPodDisruptionBudget cr) _ hf hx]
  rfl

theorem getResult_of_find {α : Type} [Resource α] {k : Key} {w : World} {x : α}
    (hf : w.fault = none) (hx : w.cluster.find α k = some x) : getResult α k w = Except.ok x := by
  unfold getResult
  rw [hf, hx]

theorem lastSelector_idem (terms : List PodAffinityTerm) (sm : StrMap) :
    lastSelector terms (lastSelector terms sm) = lastSelector terms sm := by
  cases terms with
  | nil => rfl
  | cons t ts => simp [lastSelector, List.foldl_cons]

theorem replicaSelectorMap_idem (cr : JivaVolume) (sm : StrMap) :
    replicaSelectorMap cr (replicaSelectorMap cr sm) = replicaSelectorMap cr sm := by
  rcases h1 : cr.Spec.Policy.Replica.Affinity with _ | aff
  · simp only [replicaSelectorMap, h1]
  · rcases h2 : aff.PodAntiAffinity with _ | anti
    · simp only [replicaSelectorMap, h1, h2]
    · simp only [replicaSelectorMap, h1, h2]
      exact lastSelector_idem _ _

/-- The stateful set assembled in a second run, with the `selectorMap` the first run left,
is the one assembled in the first run. -/
theorem replicaStatefulSetObj_idem (r : JivaVolumeReconciler) (cr : JivaVolume) (svc : Service)
    (capacity : Int) (sm : StrMap) :
    replicaStatefulSetObj r cr svc capacity (replicaSelectorMap cr sm)
      = replicaStatefulSetObj r cr svc capacity sm := by
  unfold replicaStatefulSetObj replicaPodLabels
  rw [replicaSelectorMap_idem]

/-- The stateful set step after it returns no error. -/
theorem createReplicaStatefulSet_none {r : JivaVolumeReconciler} {cr cr' : JivaVolume}
    {w w' : World} (h : createReplicaStatefulSet r cr w = (none, cr', w')) :
    ∃ svc capacity,
      w.cluster.find Service { Namespace := cr.Namespace, Name := cr.Name ++ "-jiva-ctrl-svc" }
        = some svc ∧
      r.RAMInBytes (splitHead 'i' cr.Spec.Capacity) = some capacity ∧
      r.StatefulSetBuildErr (replicaStatefulSetObj r cr svc capacity w.selectorMap) = none ∧
      cr' = cr ∧
      (w'.cluster.find StatefulSet { Namespace := cr.Namespace, Name := cr.Name ++ "-jiva-rep" }).isSome
        = true ∧
      Grows w.cluster w'.cluster ∧ w'.selectorMap = replicaSelectorMap cr w.selectorMap := by
  rcases hget : apiGet Service { Namespace := cr.Namespace, Name := cr.Name ++ "-jiva-ctrl-svc" } w
    with ⟨g, w1⟩
  cases g with
  | error e => simp [createReplicaStatefulSet, hget] at h
  | ok svc =>
    obtain ⟨hfault, hfind, hw1⟩ := apiGet_ok hget
    have hsvc := getResult_of_find hfault hfind
    cases hram : r.RAMInBytes (splitHead 'i' cr.Spec.Capacity) with
    | none => simp [createReplicaStatefulSet, hget, hram] at h
    | some capacity =>
      cases hb : r.StatefulSetBuildErr (replicaStatefulSetObj r cr svc capacity w.selectorMap) with
      | some e =>
        have hsel : w1.selectorMap = w.selectorMap := by rw [hw1]; rfl
        simp [createReplicaStatefulSet, hget, hram, hsel, hb] at h
      | none =>
        rw [createReplicaStatefulSet_eq r cr w svc capacity hsvc hram hb] at h
        simp only [Prod.mk.injEq] at h
        obtain ⟨h1, h2, h3⟩ := h
        have he : ensureExists (ownedStatefulSet r cr svc capacity w.selectorMap)
            ("failed to get the statefulset details: "
              ++ (replicaStatefulSetObj r cr svc capacity w.selectorMap).Name)
            (statefulSetReadWorld cr w) = (none, w') := Prod.ext h1 h3
        obtain ⟨hx, hc, hs⟩ := ensureExists_none he
        refine ⟨svc, capacity, hfind, rfl, hb, h2.symm, hx, ?_, by rw [hs]; rfl⟩
        rcases hc with hc | hc
        · exact Grows.of_eq hc
        · rw [hc]; exact grows_append_statefulSet _ _

/-- The stateful set step on a stored stateful set, without fault. -/
theorem createReplicaStatefulSet_found {r : JivaVolumeReconciler} {cr : JivaVolume} {w : World}
    {svc : Service} {capacity : Int} (hf : w.faults = [])
    (hsvc : w.cluster.find Service { Namespace := cr.Namespace, Name := cr.Name ++ "-jiva-ctrl-svc" }
      = some svc)
    (hram : r.RAMInBytes (splitHead 'i' cr.Spec.Capacity) = some capacity)
    (hb : r.StatefulSetBuildErr (replicaStatefulSetObj r cr svc capacity w.selectorMap) = none)
    (hx : (w.cluster.find StatefulSet { Namespace := cr.Namespace, Name := cr.Name ++ "-jiva-rep" }).isSome
      = true) :
    createReplicaStatefulSet r cr w
      = (none, cr, (statefulSetReadWorld cr w).tick (Call.get Kind.StatefulSet
          { Namespace := cr.Namespace, Name := cr.Name ++ "-jiva-rep" })) := by
  have hf2 : (statefulSetReadWorld cr w).faults = [] := by
    show w.faults.tail = []
    rw [hf]; rfl
  rw [createReplicaStatefulSet_eq r cr w svc capacity
      (getResult_of_find (fault_of_faults_nil hf) hsvc) hram hb,
    ensureExists_of_found (ownedStatefulSet r cr svc capacity w.selectorMap) _ hf2 hx]
  rfl

/-- The policy step after it returns no error. -/
theorem populateJivaVolumePolicy_none {r : JivaVolumeReconciler} {cr cr' : JivaVolume}
    {w w' : World} (h : populateJivaVolumePolicy r cr w = (none, cr', w')) :
    cr' = cr.withPolicy (resolvedPolicy cr w.cluster) ∧
    (mapGet cr.Annotations "openebs.io/volume-policy" ≠ "" →
      (w.cluster.find JivaVolumePolicy
        { Namespace := cr.Namespace, Name := mapGet cr.Annotations "openebs.io/volume-policy" }).isSome
        = true) ∧
    w'.cluster = w.cluster ∧ w'.selectorMap = w.selectorMap := by
  simp only [populateJivaVolumePolicy] at h
  unfold resolvedPolicy
  by_cases hn : mapGet cr.Annotations "openebs.io/volume-policy" ≠ ""
  · rw [if_pos hn] at h
    rw [if_pos hn]
    rcases hget : apiGet JivaVolumePolicy
      { Namespace := cr.Namespace, Name := mapGet cr.Annotations "openebs.io/volume-policy" } w with ⟨g, w1⟩
    rw [hget] at h
    cases g with
    | error e => simp at h
    | ok policy =>
      obtain ⟨-, hfind, hw1⟩ := apiGet_ok hget
      simp only [Prod.mk.injEq, true_and] at h
      rw [hfind]
      refine ⟨h.1.symm, fun _ => by simp, ?_, ?_⟩
      · rw [← h.2, hw1]; rfl
      · rw [← h.2, hw1]; rfl
  · rw [if_neg hn] at h
    rw [if_neg hn]
    simp only [Prod.mk.injEq, true_and] at h
    exact ⟨h.1.symm, fun hc => absurd hc hn, by rw [h.2], by rw [h.2]⟩

/-- The policy step with a readable policy, without fault. -/
theorem populateJivaVolumePolicy_found {r : JivaVolumeReconciler} {cr : JivaVolume} {w : World}
    (hf : w.faults = [])
    (hp : mapGet cr.Annotations "openebs.io/volume-policy" ≠ "" →
      (w.cluster.find JivaVolumePolicy
        { Namespace := cr.Namespace, Name := mapGet cr.Annotations "openebs.io/volume-policy" }).isSome
        = true) :
    ∃ w', populateJivaVolumePolicy r cr w = (none, cr.withPolicy (resolvedPolicy cr w.cluster), w') ∧
      w'.faults = [] ∧ Quiet w w' ∧ w'.cluster = w.cluster ∧ w'.selectorMap = w.selectorMap := by
  simp only [populateJivaVolumePolicy]
  unfold resolvedPolicy
  by_cases hn : mapGet cr.Annotations "openebs.io/volume-policy" ≠ ""
  · obtain ⟨policy, hfind⟩ := Option.isSome_iff_exists.1 (hp hn)
    rw [if_pos hn, if_pos hn, apiGet_of_find (fault_of_faults_nil hf) hfind, hfind]
    exact ⟨_, rfl, tick_faults_nil hf _, Quiet.tick _ _ rfl, rfl, rfl⟩
  · rw [if_neg hn, if_neg hn]
    exact ⟨_, rfl, hf, Quiet.quiet_refl _, rfl, rfl⟩

theorem setTargetPort_fst (pv : String) (ports : List ServicePort) :
    ∀ (b : Bool) (x : ISCSISpec),
      (setTargetPort pv ports (b, x)).1 = (b || ports.any (fun port => decide (port.Name = "iscsi"))) := by
  induction ports with
  | nil => intro b x; simp [setTargetPort]
  | cons port rest ih =>
    intro b x
    unfold setTargetPort
    by_cases hn : port.Name = "iscsi"
    · rw [if_pos hn, ih]; simp [hn]
    · rw [if_neg hn, ih]; simp [hn]

/-- Once a port named `iscsi` is found, the target port and the identifier set do not depend
on the ones before. -/
theorem setTargetPort_snd (pv : String) (ports : List ServicePort) :
    ports.any (fun port => decide (port.Name = "iscsi")) = true →
      ∀ (b b' : Bool) (x y : ISCSISpec), x.TargetIP = y.TargetIP →
        (setTargetPort pv ports (b, x)).2 = (setTargetPort pv ports (b', y)).2 := by
  induction ports with
  | nil => intro h; simp at h
  | cons port rest ih =>
    intro h b b' x y hxy
    unfold setTargetPort
    by_cases hn : port.Name = "iscsi"
    · rw [if_pos hn, if_pos hn]
      simp only [hxy]
    · rw [if_neg hn, if_neg hn]
      have hrest : rest.any (fun port => decide (port.Name = "iscsi")) = true := by
        simpa [hn] using h
      exact ih hrest b b' x y hxy

theorem updateJivaVolumeWithServiceInfo_grows (cr : JivaVolume) (w : World) :
    Grows w.cluster (updateJivaVolumeWithServiceInfo cr w).2.2.cluster ∧
    (updateJivaVolumeWithServiceInfo cr w).2.2.selectorMap = w.selectorMap := by
  unfold updateJivaVolumeWithServiceInfo
  rcases hget : apiGet Service { Namespace := cr.Namespace, Name := cr.Name ++ "-jiva-ctrl-svc" } w with ⟨g, w1⟩
  have hw1 : w1 = w.tick (Call.get (Resource.kind Service)
      { Namespace := cr.Namespace, Name := cr.Name ++ "-jiva-ctrl-svc" }) := by
    have := congrArg Prod.snd hget; exact this.symm
  cases g with
  | error e => exact ⟨by rw [hw1]; exact Grows.grows_refl _, by rw [hw1]; rfl⟩
  | ok ctrlSVC =>
    simp only
    generalize targetInfo cr ctrlSVC = res
    rcases res with ⟨found, iscsi1⟩
    cases found with
    | false => exact ⟨by rw [hw1]; exact Grows.grows_refl _, by rw [hw1]; rfl⟩
    | true =>
      simp only [Bool.not_true, Bool.false_eq_true, if_false]
      generalize (cr.withISCSISpec iscsi1).withPhase JivaVolumePhasePending = cr2
      have hg1 := apiUpdate_volume_grows cr2 w1
      have hsel : (apiUpdate cr2 w1).2.selectorMap = w1.selectorMap := by
        rcases hu : apiUpdate cr2 w1 with ⟨e, w2⟩
        cases e with
        | some e => rw [apiUpdate_some hu]; rfl
        | none => rw [(apiUpdate_none hu).2.2]; rfl
      rcases hupd : apiUpdate cr2 w1 with ⟨e, w2⟩
      rw [hupd] at hg1 hsel
      simp only at hg1 hsel
      have hgw : Grows w.cluster w2.cluster := by
        have : w1.cluster = w.cluster := by rw [hw1]; rfl
        rw [← this]; exact hg1
      have hsw : w2.selectorMap = w.selectorMap := by rw [hsel, hw1]; rfl
      cases e with
      | some e => exact ⟨hgw, hsw⟩
      | none =>
        simp only
        have hs := getJivaVolume_snd cr2 w2
        rcases hg2 : getJivaVolume cr2 w2 with ⟨e2, w3⟩
        rw [hg2] at hs
        simp only at hs
        have hc3 : w3.cluster = w2.cluster := by rw [hs]; rfl
        have hs3 : w3.selectorMap = w2.selectorMap := by rw [hs]; rfl
        cases e2 <;> exact ⟨by simp only [hc3]; exact hgw, by simp only [hs3]; exact hsw⟩

/-- The propagation of the service information after it returns no error. -/
theorem updateJivaVolumeWithServiceInfo_none {cr cr' : JivaVolume} {w w' : World}
    (h : updateJivaVolumeWithServiceInfo cr w = (none, cr', w')) :
    ∃ svc,
      w.cluster.find Service { Namespace := cr.Namespace, Name := cr.Name ++ "-jiva-ctrl-svc" }
        = some svc ∧
      (targetInfo cr svc).1 = true ∧
      cr' = (cr.withISCSISpec (targetInfo cr svc).2).withPhase JivaVolumePhasePending ∧
      (w'.cluster.find JivaVolume { Namespace := cr.Namespace, Name := cr.Name }).isSome = true := by
  unfold updateJivaVolumeWithServiceInfo at h
  rcases hget : apiGet Service { Namespace := cr.Namespace, Name := cr.Name ++ "-jiva-ctrl-svc" } w with ⟨g, w1⟩
  rw [hget] at h
  cases g with
  | error e => simp at h
  | ok ctrlSVC =>
    obtain ⟨-, hfind, -⟩ := apiGet_ok hget
    simp only at h
    rcases hti : targetInfo cr ctrlSVC with ⟨found, iscsi1⟩
    rw [hti] at h
    cases found with
    | false => simp at h
    | true =>
      simp only [Bool.not_true, Bool.false_eq_true, if_false] at h
      rcases hupd : apiUpdate ((cr.withISCSISpec iscsi1).withPhase JivaVolumePhasePending) w1 with ⟨e, w2⟩
      rw [hupd] at h
      cases e with
      | some e => simp at h
      | none =>
        simp only at h
        have hst := updateJivaVolume_stored ((cr.withISCSISpec iscsi1).withPhase JivaVolumePhasePending) w1
          (by rw [hupd])
        have hs := getJivaVolume_snd ((cr.withISCSISpec iscsi1).withPhase JivaVolumePhasePending) w2
        rcases hg2 : getJivaVolume ((cr.withISCSISpec iscsi1).withPhase JivaVolumePhasePending) w2
          with ⟨e2, w3⟩
        rw [hg2] at h hs
        simp only at hs
        cases e2 with
        | some e => simp at h
        | none =>
          simp only [Prod.mk.injEq, true_and] at h
          refine ⟨ctrlSVC, hfind, by rw [hti], by rw [hti]; exact h.1.symm, ?_⟩
          have hw' : w'.cluster = w2.cluster := by rw [← h.2, hs]; rfl
          have hw2 := (apiUpdate_none hupd).2.2
          rw [hw', hw2]
          have hfm := find_map_const Resource.key
            (Resource.key ((cr.withISCSISpec iscsi1).withPhase JivaVolumePhasePending))
            ((cr.withISCSISpec iscsi1).withPhase JivaVolumePhasePending) rfl
            (Resource.sel w1.cluster) (apiUpdate_none hupd).2.1
          show ((Resource.sel (Resource.put w1.cluster _) : List JivaVolume).find? _).isSome = true
          rw [Resource.sel_put]
          exact (congrArg Option.isSome hfm).trans rfl

/-- The propagation of the service information on a stored service with an `iscsi` port and
a stored volume, without fault. -/
theorem updateJivaVolumeWithServiceInfo_found {cr : JivaVolume} {w : World} {svc : Service}
    (hf : w.faults = [])
    (hsvc : w.cluster.find Service { Namespace := cr.Namespace, Name := cr.Name ++ "-jiva-ctrl-svc" }
      = some svc)
    (hfound : (targetInfo cr svc).1 = true)
    (hvol : (w.cluster.find JivaVolume { Namespace := cr.Namespace, Name := cr.Name }).isSome = true) :
    ∃ w', updateJivaVolumeWithServiceInfo cr w
        = (none, (cr.withISCSISpec (targetInfo cr svc).2).withPhase JivaVolumePhasePending, w') ∧
      w'.faults = [] ∧ Quiet w w' ∧ Grows w.cluster w'.cluster ∧ w'.selectorMap = w.selectorMap := by
  have hfr := updateJivaVolumeWithServiceInfo_frame cr w
  have hgr := updateJivaVolumeWithServiceInfo_grows cr w
  have key : ∃ w', updateJivaVolumeWithServiceInfo cr w
        = (none, (cr.withISCSISpec (targetInfo cr svc).2).withPhase JivaVolumePhasePending, w') ∧
      w'.faults = [] := by
    unfold updateJivaVolumeWithServiceInfo
    rw [apiGet_of_find (fault_of_faults_nil hf) hsvc]
    simp only
    rcases hti : targetInfo cr svc with ⟨found, iscsi1⟩
    rw [hti] at hfound
    simp only at hfound
    subst hfound
    simp only [Bool.not_true, Bool.false_eq_true, if_false]
    have hf1 : (w.tick (Call.get (Resource.kind Service)
        { Namespace := cr.Namespace, Name := cr.Name ++ "-jiva-ctrl-svc" })).faults = [] :=
      tick_faults_nil hf _
    have hwr : writeResult JivaVolume
        (Resource.key ((cr.withISCSISpec iscsi1).withPhase JivaVolumePhasePending))
        (w.tick (Call.get (Resource.kind Service)
          { Namespace := cr.Namespace, Name := cr.Name ++ "-jiva-ctrl-svc" })) = none :=
      writeResult_of_find (fault_of_faults_nil hf1) hvol
    have hupd : apiUpdate ((cr.withISCSISpec iscsi1).withPhase JivaVolumePhasePending)
        (w.tick (Call.get (Resource.kind Service)
          { Namespace := cr.Namespace, Name := cr.Name ++ "-jiva-ctrl-svc" }))
        = (none, (apiUpdate ((cr.withISCSISpec iscsi1).withPhase JivaVolumePhasePending)
        (w.tick (Call.get (Resource.kind Service)
          { Namespace := cr.Namespace, Name := cr.Name ++ "-jiva-ctrl-svc" }))).2) := by
      unfold apiUpdate
      rw [hwr]
    rw [hupd]
    simp only
    obtain ⟨-, hx, hw2⟩ := apiUpdate_none hupd
    generalize (apiUpdate ((cr.withISCSISpec iscsi1).withPhase JivaVolumePhasePending)
        (w.tick (Call.get (Resource.kind Service)
          { Namespace := cr.Namespace, Name := cr.Name ++ "-jiva-ctrl-svc" }))).2 = w2 at hw2 ⊢
    have hf2 : w2.faults = [] := by
      rw [hw2, store_faults]
      exact tick_faults_nil hf1 _
    have hfind2 : w2.cluster.find JivaVolume { Namespace := cr.Namespace, Name := cr.Name }
        = some ((cr.withISCSISpec iscsi1).withPhase JivaVolumePhasePending) := by
      rw [hw2]
      exact find_map_const Resource.key _ _ rfl _ hx
    have hg2 : getJivaVolume ((cr.withISCSISpec iscsi1).withPhase JivaVolumePhasePending) w2
        = (none, w2.tick (Call.get Kind.JivaVolume { Namespace := cr.Namespace, Name := cr.Name })) := by
      rw [getJivaVolume_eq]
      have : getResult JivaVolume { Namespace := cr.Namespace, Name := cr.Name } w2
          = Except.ok ((cr.withISCSISpec iscsi1).withPhase JivaVolumePhasePending) :=
        getResult_of_find (fault_of_faults_nil hf2) hfind2
      show (match getResult JivaVolume { Namespace := cr.Namespace, Name := cr.Name } w2 with
        | Except.error e => some e
        | Except.ok _ => none, _) = _
      rw [this]
      rfl
    rw [hg2]
    exact ⟨_, rfl, tick_faults_nil hf2 _⟩
  obtain ⟨w', hw', hfw'⟩ := key
  rw [hw'] at hfr hgr
  exact ⟨w', hw', hfw', hfr.1, hgr.1, hgr.2⟩

/-- A successful `Create` of a service appends the service and keeps the selector map. -/
theorem apiCreateService_none {svc : Service} {w w' : World}
    (h : apiCreateService svc w = (none, w')) :
    Grows w.cluster w'.cluster ∧ w'.selectorMap = w.selectorMap := by
  unfold apiCreateService at h
  rcases hc : apiCreate (svc.withClusterIP (w.ipPool.head?.getD "")) w with ⟨e, w1⟩
  rw [hc] at h
  cases e with
  | some e => simp at h
  | none =>
    simp only [Prod.mk.injEq, true_and] at h
    obtain ⟨-, -, hw1⟩ := apiCreate_none hc
    subst h
    rw [hw1]
    exact ⟨grows_append_service _ _, rfl⟩

/-- A successful service step: the object was built, the service is stored with an `iscsi`
port, the volume carries the target information of that service in phase `Pending` and is
stored. -/
theorem createControllerService_none {r : JivaVolumeReconciler} {cr cr' : JivaVolume}
    {w w' : World} (h : createControllerService r cr w = (none, cr', w')) :
    r.ServiceBuildErr (controllerServiceObj r cr) = none ∧
    (∃ svc,
      w'.cluster.find Service { Namespace := cr.Namespace, Name := cr.Name ++ "-jiva-ctrl-svc" }
        = some svc ∧
      (targetInfo cr svc).1 = true ∧
      cr' = (cr.withISCSISpec (targetInfo cr svc).2).withPhase JivaVolumePhasePending) ∧
    (w'.cluster.find JivaVolume { Namespace := cr.Namespace, Name := cr.Name }).isSome = true ∧
    Grows w.cluster w'.cluster ∧ w'.selectorMap = w.selectorMap := by
  have step : ∀ w1 : World, updateJivaVolumeWithServiceInfo cr w1 = (none, cr', w') →
      (∃ svc,
        w'.cluster.find Service { Namespace := cr.Namespace, Name := cr.Name ++ "-jiva-ctrl-svc" }
          = some svc ∧
        (targetInfo cr svc).1 = true ∧
        cr' = (cr.withISCSISpec (targetInfo cr svc).2).withPhase JivaVolumePhasePending) ∧
      (w'.cluster.find JivaVolume { Namespace := cr.Namespace, Name := cr.Name }).isSome = true ∧
      Grows w1.cluster w'.cluster ∧ w'.selectorMap = w1.selectorMap := by
    intro w1 hu
    obtain ⟨svc, hsvc, hfound, hcr, hvol⟩ := updateJivaVolumeWithServiceInfo_none hu
    have hg := updateJivaVolumeWithServiceInfo_grows cr w1
    rw [hu] at hg
    exact ⟨⟨svc, hg.1.2.1 _ _ hsvc, hfound, hcr⟩, hvol, hg.1, hg.2⟩
  cases hb : r.ServiceBuildErr (controllerServiceObj r cr) with
  | some e => simp [createControllerService, hb] at h
  | none =>
    have hrefs : setControllerReference cr (controllerServiceObj r cr).OwnerReferences
        = Except.ok [controllerRef cr] := setControllerReference_nil cr
    have hname : (controllerServiceObj r cr).Name = cr.Name ++ "-jiva-ctrl-svc" := rfl
    have hns : (controllerServiceObj r cr).Namespace = cr.Namespace := rfl
    simp only [createControllerService, hb, hrefs, hname, hns] at h
    rcases hg : apiGet Service { Namespace := cr.Namespace, Name := cr.Name ++ "-jiva-ctrl-svc" } w
      with ⟨g, w1⟩
    rw [hg] at h
    cases g with
    | ok x =>
      simp only at h
      obtain ⟨-, -, hw1⟩ := apiGet_ok hg
      obtain ⟨hs, hv, hgr, hsm⟩ := step w1 h
      rw [hw1] at hgr hsm
      exact ⟨rfl, hs, hv, hgr, hsm⟩
    | error e =>
      simp only at h
      have hw1 := (apiGet_error hg).1
      by_cases hn : e.isNotFound = true
      · rw [if_pos hn] at h
        rcases hc : apiCreateService ((controllerServiceObj r cr).withOwners [controllerRef cr]) w1
          with ⟨e2, w2⟩
        rw [hc] at h
        cases e2 with
        | some e2 => simp at h
        | none =>
          simp only at h
          obtain ⟨hs, hv, hgr, hsm⟩ := step (w2.sleep 1) h
          obtain ⟨hgc, hsc⟩ := apiCreateService_none hc
          rw [hw1] at hgc hsc
          refine ⟨rfl, hs, hv, Grows.grows_trans hgc hgr, ?_⟩
          rw [hsm]
          exact hsc
      · rw [if_neg hn] at h
        simp at h

/-- The service step on a stored service with an `iscsi` port and a stored volume, without
fault: nothing is created. -/
theorem createControllerService_found {r : JivaVolumeReconciler} {cr : JivaVolume} {w : World}
    {svc : Service} (hf : w.faults = [])
    (hb : r.ServiceBuildErr (controllerServiceObj r cr) = none)
    (hsvc : w.cluster.find Service { Namespace := cr.Namespace, Name := cr.Name ++ "-jiva-ctrl-svc" }
      = some svc)
    (hfound : (targetInfo cr svc).1 = true)
    (hvol : (w.cluster.find JivaVolume { Namespace := cr.Namespace, Name := cr.Name }).isSome = true) :
    ∃ w', createControllerService r cr w
        = (none, (cr.withISCSISpec (targetInfo cr svc).2).withPhase JivaVolumePhasePending, w') ∧
      w'.faults = [] ∧ Quiet w w' ∧ Grows w.cluster w'.cluster ∧ w'.selectorMap = w.selectorMap := by
  have hname : (controllerServiceObj r cr).Name = cr.Name ++ "-jiva-ctrl-svc" := rfl
  have hns : (controllerServiceObj r cr).Namespace = cr.Namespace := rfl
  have hq : Quiet w (w.tick (Call.get (Resource.kind Service)
      { Namespace := cr.Namespace, Name := cr.Name ++ "-jiva-ctrl-svc" })) := Quiet.tick _ _ rfl
  obtain ⟨w', hw', hfw', hqw', hgw', hsw'⟩ :=
    @updateJivaVolumeWithServiceInfo_found cr (w.tick (Call.get (Resource.kind Service)
        { Namespace := cr.Namespace, Name := cr.Name ++ "-jiva-ctrl-svc" })) svc
      (tick_faults_nil hf _) hsvc hfound hvol
  refine ⟨w', ?_, hfw', Quiet.quiet_trans hq hqw', hgw', hsw'⟩
  simp only [createControllerService, hb, hname, hns]
  rw [apiGet_of_find (fault_of_faults_nil hf) hsvc]
  exact hw'

theorem Keeps.isSome {α : Type} [Resource α] {c c' : Cluster} (h : Keeps α c c') {k : Key}
    (hx : (c.find α k).isSome = true) : (c'.find α k).isSome = true := by
  obtain ⟨x, hx⟩ := Option.isSome_iff_exists.1 hx
  rw [h k x hx]
  rfl

/-- The policies found depend on the stored policies alone. -/
theorem find_policy_of_eq {c c' : Cluster} (h : c'.Policies = c.Policies) (k : Key) :
    c'.find JivaVolumePolicy k = c.find JivaVolumePolicy k := by
  show c'.Policies.find? _ = c.Policies.find? _
  rw [h]

theorem resolvedPolicy_of_eq {c c' : Cluster} (h : c'.Policies = c.Policies) (cr cr' : JivaVolume)
    (ha : cr'.Annotations = cr.Annotations) (hn : cr'.Namespace = cr.Namespace) :
    resolvedPolicy cr' c' = resolvedPolicy cr c := by
  unfold resolvedPolicy
  rw [ha, hn, find_policy_of_eq h]

theorem statefulSetReadWorld_faults {cr : JivaVolume} {w : World} (hf : w.faults = []) :
    (statefulSetReadWorld cr w).faults = [] := by
  show w.faults.tail = []
  rw [hf]; rfl

theorem statefulSetReadWorld_quiet (cr : JivaVolume) (w : World) :
    Quiet w (statefulSetReadWorld cr w) :=
  ⟨[Call.get Kind.Service { Namespace := cr.Namespace, Name := cr.Name ++ "-jiva-ctrl-svc" }], rfl,
    by simp [Call.isCreate]⟩

theorem withPolicy_self (cr : JivaVolume)
    (h : cr.Spec.DesiredReplicationFactor = cr.Spec.Policy.Target.ReplicationFactor) :
    cr.withPolicy cr.Spec.Policy = cr := by
  rcases cr with ⟨a, b, c, d, e, f, g, ⟨s1, s2, s3, s4, s5⟩, i, j⟩
  simp only at h
  subst h
  rfl

/-- The deployment step on a stored deployment, without fault, as a frame. -/
theorem createControllerDeployment_again {r : JivaVolumeReconciler} {cr : JivaVolume} {w : World}
    (hf : w.faults = [])
    (hb : r.DeploymentBuildErr (controllerDeploymentObj r cr) = none)
    (hx : (w.cluster.find Deployment { Namespace := cr.Namespace, Name := cr.Name ++ "-jiva-ctrl" }).isSome
      = true) :
    ∃ w', createControllerDeployment r cr w = (none, cr, w') ∧ w'.faults = [] ∧ Quiet w w' ∧
      w'.cluster = w.cluster ∧ w'.selectorMap = w.selectorMap :=
  ⟨_, createControllerDeployment_found hf hb hx, tick_faults_nil hf _, Quiet.tick _ _ rfl, rfl, rfl⟩

/-- The replica step on a stored stateful set, without fault, as a frame. -/
theorem createReplicaStatefulSet_again {r : JivaVolumeReconciler} {cr : JivaVolume} {w : World}
    {svc : Service} {capacity : Int} (hf : w.faults = [])
    (hsvc : w.cluster.find Service { Namespace := cr.Namespace, Name := cr.Name ++ "-jiva-ctrl-svc" }
      = some svc)
    (hram : r.RAMInBytes (splitHead 'i' cr.Spec.Capacity) = some capacity)
    (hb : r.StatefulSetBuildErr (replicaStatefulSetObj r cr svc capacity w.selectorMap) = none)
    (hx : (w.cluster.find StatefulSet { Namespace := cr.Namespace, Name := cr.Name ++ "-jiva-rep" }).isSome
      = true) :
    ∃ w', createReplicaStatefulSet r cr w = (none, cr, w') ∧ w'.faults = [] ∧ Quiet w w' ∧
      w'.cluster = w.cluster :=
  ⟨_, createReplicaStatefulSet_found hf hsvc hram hb hx,
    tick_faults_nil (statefulSetReadWorld_faults hf) _,
    (statefulSetReadWorld_quiet cr w).quiet_trans (Quiet.tick _ _ rfl), rfl⟩

/-- The disruption budget step on a stored budget, without fault, as a frame. -/
theorem createReplicaPodDisruptionBudget_again {r : JivaVolumeReconciler} {cr : JivaVolume}
    {w : World} (hf : w.faults = [])
    (hx : (w.cluster.find PodDisruptionBudget
      { Namespace := cr.Namespace, Name := cr.Name ++ "-pdb" }).isSome = true) :
    ∃ w', createReplicaPodDisruptionBudget r cr w = (none, cr, w') ∧ w'.faults = [] ∧ Quiet w w' ∧
      w'.cluster = w.cluster :=
  ⟨_, createReplicaPodDisruptionBudget_found hf hx, tick_faults_nil hf _, Quiet.tick _ _ rfl, rfl⟩

/-- The installer on an installed volume, without fault: every step finds its object, nothing
is created, and the volume comes out as it went in, in phase `Pending`. -/
theorem installInOrder_installed {r : JivaVolumeReconciler} {cr : JivaVolume} {w : World}
    (hi : Installed r cr w) (hf : w.faults = []) :
    ∃ w', installInOrder r cr w = (none, cr.withPhase JivaVolumePhasePending, w') ∧
      w'.faults = [] ∧ Quiet w w' ∧ Grows w.cluster w'.cluster := by
  obtain ⟨hpol, hres, hdes, hbs, hbd, ⟨svc, capacity, hsvc, hfound, hinfo, hram, hbst⟩, hvol, hdep,
    hsts, hpdb⟩ := hi
  obtain ⟨w1, e1, hf1, hq1, hc1, hs1⟩ := @populateJivaVolumePolicy_found r cr w hf hpol
  have hcr1 : cr.withPolicy (resolvedPolicy cr w.cluster) = cr := by
    rw [hres]
    exact withPolicy_self cr hdes
  rw [hcr1] at e1
  obtain ⟨w2, e2, hf2, hq2, hg2, hs2⟩ := @createControllerService_found r cr w1 svc hf1 hbs
    (by rw [hc1]; exact hsvc) hfound (by rw [hc1]; exact hvol)
  have hcr2 : (cr.withISCSISpec (targetInfo cr svc).2).withPhase JivaVolumePhasePending
      = cr.withPhase JivaVolumePhasePending := by rw [hinfo]; rfl
  rw [hcr2] at e2
  rw [hc1] at hg2
  obtain ⟨w3, e3, hf3, hq3, hc3, hs3⟩ :=
    @createControllerDeployment_again r (cr.withPhase JivaVolumePhasePending) w2 hf2 hbd
      (hg2.2.2.1.isSome hdep)
  obtain ⟨w4, e4, hf4, hq4, hc4⟩ :=
    @createReplicaStatefulSet_again r (cr.withPhase JivaVolumePhasePending) w3 svc capacity hf3
      (by rw [hc3]; exact hg2.2.1 _ _ hsvc) hram (by rw [hs3, hs2, hs1]; exact hbst)
      (by rw [hc3]; exact hg2.2.2.2.1.isSome hsts)
  obtain ⟨w5, e5, hf5, hq5, hc5⟩ :=
    @createReplicaPodDisruptionBudget_again r (cr.withPhase JivaVolumePhasePending) w4 hf4
      (by rw [hc4, hc3]; exact hg2.2.2.2.2.1.isSome hpdb)
  refine ⟨w5, ?_, hf5, hq1.quiet_trans (hq2.quiet_trans (hq3.quiet_trans (hq4.quiet_trans hq5))), ?_⟩
  · unfold installInOrder
    rw [e1]
    simp only
    rw [e2]
    simp only
    rw [e3]
    simp only
    rw [e4]
    simp only
    rw [e5]
  · rw [hc5, hc4, hc3]
    exact hg2

theorem updateJivaVolume_selectorMap (cr : JivaVolume) (w : World) :
    (updateJivaVolume cr w).2.selectorMap = w.selectorMap := by
  unfold updateJivaVolume
  rcases hu : apiUpdate cr w with ⟨e, w1⟩
  have h1 : w1.selectorMap = w.selectorMap := by
    cases e with
    | some e => rw [apiUpdate_some hu]; rfl
    | none => rw [(apiUpdate_none hu).2.2]; rfl
  cases e with
  | some e => exact h1
  | none =>
    simp only
    have hs := getJivaVolume_snd cr w1
    rcases hg : getJivaVolume cr w1 with ⟨e2, w2⟩
    rw [hg] at hs
    simp only at hs
    have h2 : w2.selectorMap = w1.selectorMap := by rw [hs]; rfl
    cases e2 <;> exact h2.trans h1

/-- An installed volume stays installed when the cluster grows and the selector map is kept. -/
theorem Installed.mono {r : JivaVolumeReconciler} {cr : JivaVolume} {w w' : World}
    (hi : Installed r cr w) (hg : Grows w.cluster w'.cluster)
    (hs : w'.selectorMap = w.selectorMap) : Installed r cr w' := by
  obtain ⟨hpol, hres, hdes, hbs, hbd, ⟨svc, capacity, hsvc, hfound, hinfo, hram, hbst⟩, hvol, hdep,
    hsts, hpdb⟩ := hi
  refine ⟨?_, ?_, hdes, hbs, hbd, ⟨svc, capacity, hg.2.1 _ _ hsvc, hfound, hinfo, hram, ?_⟩,
    hg.2.2.2.2.2 _ hvol, hg.2.2.1.isSome hdep, hg.2.2.2.1.isSome hsts, hg.2.2.2.2.1.isSome hpdb⟩
  · intro hne
    rw [find_policy_of_eq hg.1]
    exact hpol hne
  · rw [resolvedPolicy_of_eq hg.1 cr cr rfl rfl]
    exact hres
  · rw [hs]
    exact hbst

/-- The phase plays no part in being installed. -/
theorem Installed.withPhase {r : JivaVolumeReconciler} {cr : JivaVolume} {w : World}
    (hi : Installed r cr w) (phase : String) : Installed r (cr.withPhase phase) w := hi

/-- The installer, when it returns no error, leaves the volume installed. -/
theorem installInOrder_none {r : JivaVolumeReconciler} {cr cr' : JivaVolume} {w w' : World}
    (h : installInOrder r cr w = (none, cr', w')) : Installed r cr' w' := by
  unfold installInOrder at h
  rcases h1 : populateJivaVolumePolicy r cr w with ⟨e1, cr1, w1⟩
  rw [h1] at h
  cases e1 with
  | some e => simp [bootstrapFail] at h
  | none =>
  simp only at h
  rcases h2 : createControllerService r cr1 w1 with ⟨e2, cr2, w2⟩
  rw [h2] at h
  cases e2 with
  | some e => simp [bootstrapFail] at h
  | none =>
  simp only at h
  rcases h3 : createControllerDeployment r cr2 w2 with ⟨e3, cr3, w3⟩
  rw [h3] at h
  cases e3 with
  | some e => simp [bootstrapFail] at h
  | none =>
  simp only at h
  rcases h4 : createReplicaStatefulSet r cr3 w3 with ⟨e4, cr4, w4⟩
  rw [h4] at h
  cases e4 with
  | some e => simp [bootstrapFail] at h
  | none =>
  simp only at h
  rcases h5 : createReplicaPodDisruptionBudget r cr4 w4 with ⟨e5, cr5, w5⟩
  rw [h5] at h
  cases e5 with
  | some e => simp [bootstrapFail] at h
  | none =>
  simp only [Prod.mk.injEq, true_and] at h
  obtain ⟨hcr', hw'⟩ := h
  obtain ⟨hcr1, hpol, hc1, hs1⟩ := populateJivaVolumePolicy_none h1
  obtain ⟨hbs, ⟨svc, hsvc, hfound, hcr2⟩, hvol, hg2, hs2⟩ := createControllerService_none h2
  obtain ⟨hbd, hcr3, hdep, hg3, hs3⟩ := createControllerDeployment_none h3
  obtain ⟨svc', capacity, hsvc', hram, hbst, hcr4, hsts, hg4, hs4⟩ := createReplicaStatefulSet_none h4
  obtain ⟨hcr5, hpdb, hg5, hs5⟩ := createReplicaPodDisruptionBudget_none h5
  subst hcr1
  subst hcr2
  subst hcr3
  subst hcr4
  subst hcr5
  subst hcr'
  subst hw'
  have hsame : svc' = svc := Option.some.inj (hsvc'.symm.trans (hg3.2.1 _ _ hsvc))
  subst hsame
  have hany : svc'.Ports.any (fun port => decide (port.Name = "iscsi")) = true := by
    unfold targetInfo at hfound
    rw [setTargetPort_fst] at hfound
    simpa using hfound
  have hpolicies : w5.cluster.Policies = w.cluster.Policies := by
    rw [hg5.1, hg4.1, hg3.1, hg2.1, hc1]
  refine ⟨?_, ?_, rfl, hbs, hbd, ⟨svc', capacity, hg5.2.1 _ _ (hg4.2.1 _ _ hsvc'), ?_, ?_, hram, ?_⟩,
    hg5.2.2.2.2.2 _ (hg4.2.2.2.2.2 _ (hg3.2.2.2.2.2 _ hvol)),
    hg5.2.2.1.isSome (hg4.2.2.1.isSome hdep), hg5.2.2.2.1.isSome hsts, hpdb⟩
  · intro hne
    rw [find_policy_of_eq hpolicies]
    exact hpol hne
  · exact resolvedPolicy_of_eq hpolicies cr _ rfl rfl
  · unfold targetInfo
    rw [setTargetPort_fst, hany]
    rfl
  · exact setTargetPort_snd _ _ hany _ _ _ _ rfl
  · rw [hs5, hs4]
    rw [replicaStatefulSetObj_idem]
    exact hbst

/-- A run of `bootstrapJiva` that returns no error leaves the volume installed. -/
theorem bootstrapJiva_none_installed {r : JivaVolumeReconciler} {cr : JivaVolume} {w : World}
    (h : (bootstrapJiva r cr w).1 = none) :
    Installed r (bootstrapJiva r cr w).2.1 (bootstrapJiva r cr w).2.2 := by
  unfold bootstrapJiva at h ⊢
  rw [runInstallFuncs_eq_installInOrder] at h ⊢
  rcases hi : installInOrder r cr w with ⟨e, cr1, w1⟩
  rw [hi] at h
  simp only at h
  subst h
  exact ((installInOrder_none hi).withPhase JivaVolumePhaseSyncing).mono
    (updateJivaVolume_grows _ _) (updateJivaVolume_selectorMap _ _)

/-- On an installed volume, without fault, `bootstrapJiva` returns no error, creates nothing
and returns the volume as it went in, in phase `Syncing`. -/
theorem bootstrapJiva_installed {r : JivaVolumeReconciler} {cr : JivaVolume} {w : World}
    (hi : Installed r cr w) (hf : w.faults = []) :
    ∃ w', bootstrapJiva r cr w = (none, cr.withPhase JivaVolumePhaseSyncing, w') ∧ Quiet w w' := by
  obtain ⟨w5, e, -, hq, -⟩ := installInOrder_installed hi hf
  refine ⟨(updateJivaVolume (cr.withPhase JivaVolumePhaseSyncing) w5).2, ?_,
    hq.quiet_trans (updateJivaVolume_quiet _ _)⟩
  unfold bootstrapJiva
  rw [runInstallFuncs_eq_installInOrder, e]
  rfl

/-- C9: when a first run of `bootstrapJiva` returned no error (so that the service, the target
deployment, the replica stateful set and the disruption budget exist) and no API call of the
second run fails, the second run, on the volume and in the world the first run left, returns
no error, issues no `Create`, and leaves the volume, and so its phase, as it was before the
second run. -/
theorem bootstrapJiva_idempotent (r : JivaVolumeReconciler) (cr : JivaVolume) (w : World)
    (h1 : (bootstrapJiva r cr w).1 = none)
    (hf : (bootstrapJiva r cr w).2.2.faults = []) :
    (bootstrapJiva r (bootstrapJiva r cr w).2.1 (bootstrapJiva r cr w).2.2).1 = none ∧
    (∀ c ∈ issued (bootstrapJiva r cr w).2.2
        (bootstrapJiva r (bootstrapJiva r cr w).2.1 (bootstrapJiva r cr w).2.2).2.2,
      c.isCreate = false) ∧
    (bootstrapJiva r (bootstrapJiva r cr w).2.1 (bootstrapJiva r cr w).2.2).2.1.Status.Phase
      = (bootstrapJiva r cr w).2.1.Status.Phase ∧
    (bootstrapJiva r (bootstrapJiva r cr w).2.1 (bootstrapJiva r cr w).2.2).2.1
      = (bootstrapJiva r cr w).2.1 := by
  have hi := bootstrapJiva_none_installed h1
  obtain ⟨w', e, hq⟩ := bootstrapJiva_installed hi hf
  have hphase : (bootstrapJiva r cr w).2.1.withPhase JivaVolumePhaseSyncing
      = (bootstrapJiva r cr w).2.1 := by
    unfold bootstrapJiva at h1 ⊢
    rcases hr : runInstallFuncs r installFuncs cr w with ⟨e1, cr1, w1⟩
    rw [hr] at h1
    simp only at h1
    subst h1
    rfl
  rw [hphase] at e
  rw [e]
  exact ⟨rfl, hq.issued, rfl, rfl⟩

theorem bootstrapJiva_idempotent_witness :
    ((bootstrapJiva sampleReconciler sampleVolume sampleWorld).1 = none ∧
      (bootstrapJiva sampleReconciler sampleVolume sampleWorld).2.2.faults = []) ∧
    (bootstrapJiva sampleReconciler (bootstrapJiva sampleReconciler sampleVolume sampleWorld).2.1
        (bootstrapJiva sampleReconciler sampleVolume sampleWorld).2.2).1 = none ∧
    (∀ c ∈ issued (bootstrapJiva sampleReconciler sampleVolume sampleWorld).2.2
        (bootstrapJiva sampleReconciler (bootstrapJiva sampleReconciler sampleVolume sampleWorld).2.1
          (bootstrapJiva sampleReconciler sampleVolume sampleWorld).2.2).2.2,
      c.isCreate = false) ∧
    (bootstrapJiva sampleReconciler (bootstrapJiva sampleReconciler sampleVolume sampleWorld).2.1
        (bootstrapJiva sampleReconciler sampleVolume sampleWorld).2.2).2.1.Status.Phase
      = (bootstrapJiva sampleReconciler sampleVolume sampleWorld).2.1.Status.Phase ∧
    (bootstrapJiva sampleReconciler (bootstrapJiva sampleReconciler sampleVolume sampleWorld).2.1
        (bootstrapJiva sampleReconciler sampleVolume sampleWorld).2.2).2.1
      = (bootstrapJiva sampleReconciler sampleVolume sampleWorld).2.1 :=
  ⟨⟨by decide, by decide⟩,
    bootstrapJiva_idempotent sampleReconciler sampleVolume sampleWorld (by decide) (by decide)⟩

/-! ### The policy resolver -/

/-- The policy `validatePolicySpec` returns, field by field: a zero replication factor, an
empty storage class and absent resource requirements are replaced by those of the default
policy, the tolerations are the baseline ones followed by those of the user, and every other
field is kept. -/
theorem validatePolicySpec_eq (policy : JivaVolumePolicySpec) :
    validatePolicySpec policy =
      { ReplicaSC := if policy.ReplicaSC = "" then defaultStorageClass else policy.ReplicaSC,
        ServiceAccountName := policy.ServiceAccountName,
        PriorityClassName := policy.PriorityClassName,
        Target :=
          { Tolerations := getBaseTargetTolerations ++ policy.Target.Tolerations,
            Resources :=
              if policy.Target.Resources = none then some zeroResources else policy.Target.Resources,
            NodeSelector := policy.Target.NodeSelector,
            Affinity := policy.Target.Affinity,
            AuxResources :=
              if policy.Target.AuxResources = none then some zeroResources
              else policy.Target.AuxResources,
            ReplicationFactor :=
              if policy.Target.ReplicationFactor = 0 then defaultReplicationFactor
              else policy.Target.ReplicationFactor,
            DisableMonitor := policy.Target.DisableMonitor },
        Replica :=
          { Tolerations := getBaseReplicaTolerations ++ policy.Replica.Tolerations,
            Resources :=
              if policy.Replica.Resources = none then some zeroResources
              else policy.Replica.Resources,
            NodeSelector := policy.Replica.NodeSelector,
            Affinity := policy.Replica.Affinity } } := by
  rcases policy with ⟨sc, sa, pc, ⟨tt, tr, tn, ta, tx, rf, dm⟩, ⟨rt, rr, rn, ra⟩⟩
  simp only [validatePolicySpec, List.foldl_cons, List.foldl_nil, defaultRF, defaultSC,
    defaultTargetRes, defaultReplicaRes, defaultTargetTolerations, defaultReplicaTolerations,
    defaultTargetAuxRes, getDefaultPolicySpec]
  by_cases h1 : rf = 0 <;> by_cases h2 : sc = "" <;> by_cases h3 : tr = none <;>
    by_cases h4 : rr = none <;> by_cases h5 : tx = none <;> simp [h1, h2, h3, h4, h5]

/-- C11: `validatePolicySpec` keeps a non-zero replication factor, a non-empty storage class
and resource requirements that are present (target, target auxiliary, replica), and replaces
each of them that is unset by the built-in default (factor 3, class `openebs-hostpath`, the
default resource requirements); a policy with storage class `custom` and no replication
factor resolves to storage class `custom` and factor 3. -/
theorem validatePolicySpec_defaults (policy : JivaVolumePolicySpec) :
    (validatePolicySpec policy).Target.ReplicationFactor
      = (if policy.Target.ReplicationFactor = 0 then 3 else policy.Target.ReplicationFactor) ∧
    (validatePolicySpec policy).ReplicaSC
      = (if policy.ReplicaSC = "" then "openebs-hostpath" else policy.ReplicaSC) ∧
    (validatePolicySpec policy).Target.Resources
      = some (policy.Target.Resources.getD zeroResources) ∧
    (validatePolicySpec policy).Target.AuxResources
      = some (policy.Target.AuxResources.getD zeroResources) ∧
    (validatePolicySpec policy).Replica.Resources
      = some (policy.Replica.Resources.getD zeroResources) ∧
    (validatePolicySpec
        { policy with ReplicaSC := "custom",
                      Target := { policy.Target with ReplicationFactor := 0 } }).ReplicaSC
      = "custom" ∧
    (validatePolicySpec
        { policy with ReplicaSC := "custom",
                      Target := { policy.Target with ReplicationFactor := 0 } }).Target.ReplicationFactor
      = 3 := by
  have hopt : ∀ o : Option ResourceRequirements,
      (if o = none then some zeroResources else o) = some (o.getD zeroResources) := by
    intro o
    cases o <;> simp
  rw [validatePolicySpec_eq, validatePolicySpec_eq]
  refine ⟨rfl, rfl, hopt _, hopt _, hopt _, ?_, ?_⟩
  · show (if ("custom" : String) = "" then defaultStorageClass else "custom") = "custom"
    decide
  · show (if (0 : Int) = 0 then defaultReplicationFactor else 0) = 3
    decide

/-- C12: after `validatePolicySpec` the target tolerations are the baseline target
tolerations followed by the target tolerations of the user, and the replica tolerations are
the baseline replica tolerations followed by the replica tolerations of the user, each list
in its order. -/
theorem validatePolicySpec_tolerations (policy : JivaVolumePolicySpec) :
    (validatePolicySpec policy).Target.Tolerations
      = getBaseTargetTolerations ++ policy.Target.Tolerations ∧
    (validatePolicySpec policy).Replica.Tolerations
      = getBaseReplicaTolerations ++ policy.Replica.Tolerations ∧
    getBaseTargetTolerations.length = 3 ∧ getBaseReplicaTolerations.length = 9 := by
  rw [validatePolicySpec_eq]
  exact ⟨rfl, rfl, rfl, rfl⟩

/-- C13: when `populateJivaVolumePolicy` returns no error, the volume differs from the one
handed in by its policy and its desired replication factor only, and the desired factor is
the replication factor of the policy; without a policy annotation (or with an empty one) no
call is issued and the policy is the built-in default; with an annotation, the policy is
the named policy of the namespace of the volume, as `validatePolicySpec` completes it, and
when that policy cannot be read the step returns an error and the volume is as handed in. -/
theorem populateJivaVolumePolicy_spec (r : JivaVolumeReconciler) (cr : JivaVolume) (w : World) :
    ((populateJivaVolumePolicy r cr w).1 = none →
      (populateJivaVolumePolicy r cr w).2.1
          = cr.withPolicy (populateJivaVolumePolicy r cr w).2.1.Spec.Policy ∧
        (populateJivaVolumePolicy r cr w).2.1.Spec.DesiredReplicationFactor
          = (populateJivaVolumePolicy r cr w).2.1.Spec.Policy.Target.ReplicationFactor) ∧
    (mapGet cr.Annotations "openebs.io/volume-policy" = "" →
      populateJivaVolumePolicy r cr w = (none, cr.withPolicy getDefaultPolicySpec, w)) ∧
    (mapGet cr.Annotations "openebs.io/volume-policy" ≠ "" →
      (∀ policy,
        getResult JivaVolumePolicy
            { Namespace := cr.Namespace, Name := mapGet cr.Annotations "openebs.io/volume-policy" } w
          = Except.ok policy →
        (populateJivaVolumePolicy r cr w).1 = none ∧
          (populateJivaVolumePolicy r cr w).2.1 = cr.withPolicy (validatePolicySpec policy.Spec)) ∧
      (∀ e,
        getResult JivaVolumePolicy
            { Namespace := cr.Namespace, Name := mapGet cr.Annotations "openebs.io/volume-policy" } w
          = Except.error e →
        (populateJivaVolumePolicy r cr w).1.isSome = true ∧
          (populateJivaVolumePolicy r cr w).2.1 = cr ∧
          (populateJivaVolumePolicy r cr w).2.2.cluster = w.cluster)) := by
  simp only [populateJivaVolumePolicy, apiGet]
  by_cases hn : mapGet cr.Annotations "openebs.io/volume-policy" ≠ ""
  · rw [if_pos hn]
    refine ⟨?_, fun h => absurd h hn, fun _ => ⟨?_, ?_⟩⟩
    · intro h
      cases hg : getResult JivaVolumePolicy
          { Namespace := cr.Namespace, Name := mapGet cr.Annotations "openebs.io/volume-policy" } w with
      | error e => rw [hg] at h; simp at h
      | ok policy => exact ⟨rfl, rfl⟩
    · intro policy hg
      rw [hg]
      exact ⟨rfl, rfl⟩
    · intro e hg
      rw [hg]
      exact ⟨rfl, rfl, rfl⟩
  · rw [if_neg hn]
    exact ⟨fun _ => ⟨rfl, rfl⟩, fun _ => rfl, fun h => absurd h hn⟩

theorem populateJivaVolumePolicy_spec_witness :
    (mapGet sampleVolume.Annotations "openebs.io/volume-policy" = "" ∧
      populateJivaVolumePolicy sampleReconciler sampleVolume sampleWorld
        = (none, sampleVolume.withPolicy getDefaultPolicySpec, sampleWorld)) ∧
    (mapGet samplePolicyVolume.Annotations "openebs.io/volume-policy" ≠ "" ∧
      getResult JivaVolumePolicy { Namespace := "openebs", Name := "gold" } samplePolicyWorld
        = Except.ok samplePolicy ∧
      (populateJivaVolumePolicy sampleReconciler samplePolicyVolume samplePolicyWorld).1 = none ∧
      (populateJivaVolumePolicy sampleReconciler samplePolicyVolume samplePolicyWorld).2.1
        = samplePolicyVolume.withPolicy (validatePolicySpec samplePolicy.Spec) ∧
      (validatePolicySpec samplePolicy.Spec).ReplicaSC = "custom" ∧
      (validatePolicySpec samplePolicy.Spec).Target.ReplicationFactor = 3) :=
  ⟨⟨by decide,
      (populateJivaVolumePolicy_spec sampleReconciler sampleVolume sampleWorld).2.1 (by decide)⟩,
    by decide, rfl,
    ((populateJivaVolumePolicy_spec sampleReconciler samplePolicyVolume samplePolicyWorld).2.2
      (by decide)).1 samplePolicy rfl |>.1,
    ((populateJivaVolumePolicy_spec sampleReconciler samplePolicyVolume samplePolicyWorld).2.2
      (by decide)).1 samplePolicy rfl |>.2,
    by decide, by decide⟩

/-! ### The disruption budget -/

/-- Looking up a name that is not stored, after an object of that name is appended. -/
theorem find_append_new {α : Type} [Resource α] (c : Cluster) (x : α)
    (h : c.find α (Resource.key x) = none) :
    (Resource.put c ((Resource.sel c : List α) ++ [x])).find α (Resource.key x) = some x := by
  unfold Cluster.find at h ⊢
  rw [Resource.sel_put, List.find?_append, h]
  simp

/-- C14, as stated, fails: for the effective replication factor `-1` the budget is built
with `minAvailable = 1` (the division of the code truncates) while `⌊-1/2⌋ + 1 = 0`, and for
the factor `2^32` it is built with `minAvailable = -2^31 + 1` (the conversion to 32 bits
wraps) while `⌊2^32/2⌋ + 1 = 2^31 + 1`. -/
theorem replicaPodDisruptionBudgetObj_not_quorum :
    (factorVolume (-1)).Spec.Policy.Target.ReplicationFactor = -1 ∧
    (replicaPodDisruptionBudgetObj (factorVolume (-1))).MinAvailable = 1 ∧
    quorum (-1) = 0 ∧
    (factorVolume 4294967296).Spec.Policy.Target.ReplicationFactor = 4294967296 ∧
    (replicaPodDisruptionBudgetObj (factorVolume 4294967296)).MinAvailable = -2147483647 ∧
    quorum 4294967296 = 2147483649 := by
  decide

/-- C14, amended: for an effective replication factor `N` with `0 ≤ N ≤ 2^32 - 3`, the budget
`createReplicaPodDisruptionBudget` assembles has `minAvailable = ⌊N/2⌋ + 1`, the budget the
step stores when none is stored has that value, and `isHAVolume` runs its count against the
same value (for `N ≥ 3`, below which it returns false without computing a quorum). -/
theorem replicaPodDisruptionBudget_quorum (r : JivaVolumeReconciler) (cr : JivaVolume) (w : World)
    (h0 : 0 ≤ cr.Spec.Policy.Target.ReplicationFactor)
    (h1 : cr.Spec.Policy.Target.ReplicationFactor ≤ 4294967293) :
    (replicaPodDisruptionBudgetObj cr).MinAvailable = quorum cr.Spec.Policy.Target.ReplicationFactor ∧
    (w.cluster.find PodDisruptionBudget { Namespace := cr.Namespace, Name := cr.Name ++ "-pdb" } = none →
      (createReplicaPodDisruptionBudget r cr w).1 = none →
        ∃ pdb, (createReplicaPodDisruptionBudget r cr w).2.2.cluster.find PodDisruptionBudget
            { Namespace := cr.Namespace, Name := cr.Name ++ "-pdb" } = some pdb ∧
          pdb.MinAvailable = quorum cr.Spec.Policy.Target.ReplicationFactor) ∧
    isHAVolume cr =
      (decide (3 ≤ cr.Spec.Policy.Target.ReplicationFactor) &&
        isHAVolumeLoop (replicaPodDisruptionBudgetObj cr).MinAvailable 0 cr.Status.ReplicaStatuses) := by
  have hq : Int.tdiv cr.Spec.Policy.Target.ReplicationFactor 2
      = Int.fdiv cr.Spec.Policy.Target.ReplicationFactor 2 := by
    rw [Int.tdiv_eq_ediv h0 (by decide), Int.fdiv_eq_ediv _ (by decide)]
  have hdiv : Int.fdiv cr.Spec.Policy.Target.ReplicationFactor 2
      = cr.Spec.Policy.Target.ReplicationFactor / 2 := Int.fdiv_eq_ediv _ (by decide)
  have hmin : (replicaPodDisruptionBudgetObj cr).MinAvailable
      = quorum cr.Spec.Policy.Target.ReplicationFactor := by
    show int32 (Int.tdiv cr.Spec.Policy.Target.ReplicationFactor 2 + 1)
      = Int.fdiv cr.Spec.Policy.Target.ReplicationFactor 2 + 1
    rw [hq, hdiv]
    unfold int32
    omega
  refine ⟨hmin, ?_, ?_⟩
  · intro hnone herr
    rw [createReplicaPodDisruptionBudget_eq] at herr ⊢
    simp only at herr ⊢
    rcases he : ensureExists (ownedPodDisruptionBudget cr)
      ("failed to get the pod disruption budget details: " ++ (replicaPodDisruptionBudgetObj cr).Name) w
      with ⟨e, w'⟩
    rw [he] at herr
    simp only at herr ⊢
    subst herr
    obtain ⟨hx, hc, -⟩ := ensureExists_none he
    rcases hc with hc | hc
    · rw [hc] at hx
      have hk : (Resource.key (ownedPodDisruptionBudget cr) : Key)
          = { Namespace := cr.Namespace, Name := cr.Name ++ "-pdb" } := rfl
      rw [hk, hnone] at hx
      simp at hx
    · refine ⟨ownedPodDisruptionBudget cr, ?_, hmin⟩
      rw [hc]
      exact find_append_new w.cluster (ownedPodDisruptionBudget cr) hnone
  · rw [hmin]
    unfold isHAVolume quorum
    rw [hq]
    by_cases h3 : cr.Spec.Policy.Target.ReplicationFactor < 3
    · have : ¬ 3 ≤ cr.Spec.Policy.Target.ReplicationFactor := by omega
      simp [h3, this]
    · have : 3 ≤ cr.Spec.Policy.Target.ReplicationFactor := by omega
      simp [h3, this]

theorem replicaPodDisruptionBudget_quorum_witness :
    (0 ≤ sampleVolume.Spec.Policy.Target.ReplicationFactor ∧
      sampleVolume.Spec.Policy.Target.ReplicationFactor ≤ 4294967293) ∧
    sampleVolume.Spec.Policy.Target.ReplicationFactor = 3 ∧
    (replicaPodDisruptionBudgetObj sampleVolume).MinAvailable = 2 ∧
    (replicaPodDisruptionBudgetObj sampleVolume).MinAvailable
      = quorum sampleVolume.Spec.Policy.Target.ReplicationFactor :=
  ⟨⟨by decide, by decide⟩, by decide, by decide,
    (replicaPodDisruptionBudget_quorum sampleReconciler sampleVolume sampleWorld
      (by decide) (by decide)).1⟩

/-! ### The version upgrade -/

/-- The reload of a stored volume, without fault. -/
theorem getJivaVolume_ok {cr : JivaVolume} {w : World} (hf : w.faults = [])
    (hx : (w.cluster.find JivaVolume { Namespace := cr.Namespace, Name := cr.Name }).isSome = true) :
    getJivaVolume cr w
      = (none, w.tick (Call.get Kind.JivaVolume { Namespace := cr.Namespace, Name := cr.Name })) := by
  obtain ⟨x, hx⟩ := Option.isSome_iff_exists.1 hx
  rw [getJivaVolume_eq, getResult_of_find (fault_of_faults_nil hf) hx]

/-- The update of a stored volume, without fault: it goes through, no fault is left, the
volume handed in is the stored one, and the volumes stored under other names are kept. -/
theorem updateJivaVolume_ok {cr : JivaVolume} {w : World} (hf : w.faults = [])
    (hx : (w.cluster.find JivaVolume { Namespace := cr.Namespace, Name := cr.Name }).isSome = true) :
    (updateJivaVolume cr w).1 = none ∧ (updateJivaVolume cr w).2.faults = [] ∧
    (updateJivaVolume cr w).2.cluster.find JivaVolume { Namespace := cr.Namespace, Name := cr.Name }
      = some cr := by
  have hwr : writeResult JivaVolume (Resource.key cr) w = none :=
    writeResult_of_find (fault_of_faults_nil hf) hx
  have hupd : apiUpdate cr w = (none, (apiUpdate cr w).2) := by
    unfold apiUpdate
    rw [hwr]
  have hst := updateJivaVolume_stored cr w (by rw [hupd])
  obtain ⟨-, -, hw1⟩ := apiUpdate_none hupd
  have hf1 : (apiUpdate cr w).2.faults = [] := by
    rw [hw1, store_faults]
    exact tick_faults_nil hf _
  have hx1 : ((apiUpdate cr w).2.cluster.find JivaVolume
      { Namespace := cr.Namespace, Name := cr.Name }).isSome = true :=
    (apiUpdate_volume_grows cr w).2.2.2.2.2 _ hx
  have hg := getJivaVolume_ok hf1 hx1
  have hu : updateJivaVolume cr w
      = (none, (apiUpdate cr w).2.tick
          (Call.get Kind.JivaVolume { Namespace := cr.Namespace, Name := cr.Name })) := by
    unfold updateJivaVolume
    rw [hupd]
    simp only
    rw [hg]
  rw [hu] at hst ⊢
  exact ⟨rfl, tick_faults_nil hf1 _, hst⟩

theorem migrationCopy_key (cr : JivaVolume) :
    (migrationCopy cr).Namespace = cr.Namespace ∧ (migrationCopy cr).Name = cr.Name ∧
    (migrationCopy cr).VersionDetails.Status.Current = cr.VersionDetails.Status.Current ∧
    (migrationCopy cr).VersionDetails.Status.State = ReconcileInProgress ∧
    markedSuccess (migrationCopy cr) = markedSuccess cr := by
  unfold migrationCopy
  by_cases hs : cr.VersionDetails.Status.State ≠ ReconcileInProgress
  · rw [if_pos hs]
    exact ⟨rfl, rfl, rfl, rfl, rfl⟩
  · rw [if_neg hs]
    exact ⟨rfl, rfl, rfl, not_not.1 hs, rfl⟩

/-- With versions that differ and are valid, `reconcileVersion` is the update of the marked
copy (skipped when the volume is marked already) followed by the middle part. -/
theorem reconcileVersion_valid (r : JivaVolumeReconciler) (cr : JivaVolume) (w : World)
    (hdiff : cr.VersionDetails.Status.Current ≠ cr.VersionDetails.Desired)
    (hcur : r.IsCurrentVersionValid cr.VersionDetails.Status.Current = true)
    (hdes : r.IsDesiredVersionValid cr.VersionDetails.Desired = true) :
    reconcileVersion r cr w =
      if cr.VersionDetails.Status.State ≠ ReconcileInProgress then
        match updateJivaVolume (migrationCopy cr) w with
        | (some e, w1) => (some e, w1)
        | (none, w1) => runUpgrade r cr (migrationCopy cr) w1
      else runUpgrade r cr (migrationCopy cr) w := by
  unfold reconcileVersion migrationCopy
  rw [if_pos hdiff]
  simp only [hcur, hdes, Bool.not_true, Bool.false_eq_true, if_false]
  by_cases hs : cr.VersionDetails.Status.State ≠ ReconcileInProgress
  · rw [if_pos hs, if_pos hs, if_pos hs]
  · rw [if_neg hs, if_neg hs, if_neg hs]

/-- The middle part of `reconcileVersion` once the reload went through. -/
theorem runUpgrade_reloaded (r : JivaVolumeReconciler) (cr jObj : JivaVolume) (w : World)
    (h : (getJivaVolume cr w).1 = none) :
    runUpgrade r cr jObj w =
      match lookupUpgrade r (splitHead '-' jObj.VersionDetails.Status.Current) with
      | some funcValue =>
        match funcValue jObj (getJivaVolume cr w).2 with
        | (Except.error e, w2) => (some e, w2)
        | (Except.ok jObj1, w2) => finishUpgrade jObj1 w2
      | none => finishUpgrade jObj (getJivaVolume cr w).2 := by
  unfold runUpgrade
  rcases hg : getJivaVolume cr w with ⟨e, w1⟩
  rw [hg] at h
  simp only at h
  subst h
  rfl

/-- The end of `reconcileVersion` on a stored volume, without fault: the resource marked
`Success` is stored. -/
theorem finishUpgrade_ok {jObj : JivaVolume} {w : World} (hf : w.faults = [])
    (hx : (w.cluster.find JivaVolume { Namespace := jObj.Namespace, Name := jObj.Name }).isSome
      = true) :
    (finishUpgrade jObj w).1 = none ∧
    (finishUpgrade jObj w).2.cluster.find JivaVolume
        { Namespace := jObj.Namespace, Name := jObj.Name } = some (markedSuccess jObj) := by
  obtain ⟨hu1, hu2, hu3⟩ := @updateJivaVolume_ok (markedSuccess jObj) w hf hx
  have hfin : finishUpgrade jObj w =
      match updateJivaVolume (markedSuccess jObj) w with
      | (some e, w1) => (some e, w1)
      | (none, w1) =>
        match getJivaVolume jObj w1 with
        | (some e, w2) => (some (Err.wrap updateErrMsg e), w2)
        | (none, w2) => (none, w2) := rfl
  rw [hfin]
  rcases hu : updateJivaVolume (markedSuccess jObj) w with ⟨e, w1⟩
  rw [hu] at hu1 hu2 hu3
  simp only at hu1 hu2 hu3
  subst hu1
  simp only
  have hg := @getJivaVolume_ok jObj w1 hu2 (by
    show (w1.cluster.find JivaVolume
      { Namespace := (markedSuccess jObj).Namespace, Name := (markedSuccess jObj).Name }).isSome = true
    rw [hu3]; rfl)
  rw [hg]
  exact ⟨rfl, hu3⟩

/-- On a stored volume, without fault, the calls of `reconcileVersion` before the migration
go through and leave no fault; the volume is stored, marked `InProgress`, when the migration
is looked up. -/
theorem migrationWorld_ok (cr : JivaVolume) (w : World) (hf : w.faults = [])
    (hx : (w.cluster.find JivaVolume { Namespace := cr.Namespace, Name := cr.Name }).isSome = true) :
    (cr.VersionDetails.Status.State ≠ ReconcileInProgress →
      (updateJivaVolume (migrationCopy cr) w).1 = none ∧
      (getJivaVolume cr (updateJivaVolume (migrationCopy cr) w).2).1 = none ∧
      (migrationWorld cr w).cluster.find JivaVolume { Namespace := cr.Namespace, Name := cr.Name }
        = some (migrationCopy cr)) ∧
    (¬ cr.VersionDetails.Status.State ≠ ReconcileInProgress → (getJivaVolume cr w).1 = none) ∧
    (migrationWorld cr w).faults = [] ∧
    ((migrationWorld cr w).cluster.find JivaVolume
      { Namespace := cr.Namespace, Name := cr.Name }).isSome = true := by
  obtain ⟨hk1, hk2, -⟩ := migrationCopy_key cr
  unfold migrationWorld
  by_cases hs : cr.VersionDetails.Status.State ≠ ReconcileInProgress
  · rw [if_pos hs]
    obtain ⟨hu1, hu2, hu3⟩ := @updateJivaVolume_ok (migrationCopy cr) w hf (by rw [hk1, hk2]; exact hx)
    rw [hk1, hk2] at hu3
    have hg := @getJivaVolume_ok cr (updateJivaVolume (migrationCopy cr) w).2 hu2 (by rw [hu3]; rfl)
    rw [hg]
    exact ⟨fun _ => ⟨hu1, rfl, hu3⟩, fun h => absurd hs h, tick_faults_nil hu2 _,
      by rw [tick_cluster, hu3]; rfl⟩
  · rw [if_neg hs]
    have hg := @getJivaVolume_ok cr w hf hx
    rw [hg]
    exact ⟨fun h => absurd h hs, fun _ => rfl, tick_faults_nil hf _, hx⟩

/-- On a stored volume, without fault and with versions that differ and are valid,
`reconcileVersion` reaches the lookup of the migration. -/
theorem reconcileVersion_reaches (r : JivaVolumeReconciler) (cr : JivaVolume) (w : World)
    (hdiff : cr.VersionDetails.Status.Current ≠ cr.VersionDetails.Desired)
    (hcur : r.IsCurrentVersionValid cr.VersionDetails.Status.Current = true)
    (hdes : r.IsDesiredVersionValid cr.VersionDetails.Desired = true)
    (hf : w.faults = [])
    (hx : (w.cluster.find JivaVolume { Namespace := cr.Namespace, Name := cr.Name }).isSome = true) :
    reconcileVersion r cr w =
      match lookupUpgrade r (splitHead '-' cr.VersionDetails.Status.Current) with
      | some funcValue =>
        match funcValue (migrationCopy cr) (migrationWorld cr w) with
        | (Except.error e, w2) => (some e, w2)
        | (Except.ok jObj1, w2) => finishUpgrade jObj1 w2
      | none => finishUpgrade (migrationCopy cr) (migrationWorld cr w) := by
  obtain ⟨-, -, hk3, -⟩ := migrationCopy_key cr
  obtain ⟨h1, h2, -, -⟩ := migrationWorld_ok cr w hf hx
  rw [reconcileVersion_valid r cr w hdiff hcur hdes]
  unfold migrationWorld
  by_cases hs : cr.VersionDetails.Status.State ≠ ReconcileInProgress
  · obtain ⟨hu, hg, -⟩ := h1 hs
    rw [if_pos hs, if_pos hs]
    rcases hupd : updateJivaVolume (migrationCopy cr) w with ⟨e, w1⟩
    rw [hupd] at hu hg
    simp only at hu hg
    subst hu
    simp only
    rw [runUpgrade_reloaded r cr (migrationCopy cr) w1 hg, hk3]
  · rw [if_neg hs, if_neg hs]
    rw [runUpgrade_reloaded r cr (migrationCopy cr) w (h2 hs), hk3]

/-- C15: with versions that differ and are valid, on a stored volume and without a failing
call: when a migration is registered under the current version up to its first `-` and
returns a resource (leaving it stored and no call to fail), `reconcileVersion` returns no
error and the resource stored at the end is the one the migration returned, marked `Success`
with the current version made the desired one; when the migration returns an error,
`reconcileVersion` returns that error and issues no call after the migration, so nothing is
stored as `Success`; when no migration is registered, the resource stored at the end is the
volume with its version details alone changed, to `Success` and current = desired. -/
theorem reconcileVersion_migrates (r : JivaVolumeReconciler) (cr : JivaVolume) (w : World)
    (hdiff : cr.VersionDetails.Status.Current ≠ cr.VersionDetails.Desired)
    (hcur : r.IsCurrentVersionValid cr.VersionDetails.Status.Current = true)
    (hdes : r.IsDesiredVersionValid cr.VersionDetails.Desired = true)
    (hf : w.faults = [])
    (hx : (w.cluster.find JivaVolume { Namespace := cr.Namespace, Name := cr.Name }).isSome = true) :
    (∀ funcValue, lookupUpgrade r (splitHead '-' cr.VersionDetails.Status.Current) = some funcValue →
      (∀ jObj1 wf, funcValue (migrationCopy cr) (migrationWorld cr w) = (Except.ok jObj1, wf) →
        wf.faults = [] →
        (wf.cluster.find JivaVolume { Namespace := jObj1.Namespace, Name := jObj1.Name }).isSome = true →
          (reconcileVersion r cr w).1 = none ∧
          (reconcileVersion r cr w).2.cluster.find JivaVolume
              { Namespace := jObj1.Namespace, Name := jObj1.Name }
            = some { jObj1 with VersionDetails :=
                { Desired := jObj1.VersionDetails.Desired,
                  Status := { Current := jObj1.VersionDetails.Desired, State := ReconcileComplete } } }) ∧
      (∀ e wf, funcValue (migrationCopy cr) (migrationWorld cr w) = (Except.error e, wf) →
        reconcileVersion r cr w = (some e, wf))) ∧
    (lookupUpgrade r (splitHead '-' cr.VersionDetails.Status.Current) = none →
      (reconcileVersion r cr w).1 = none ∧
      (reconcileVersion r cr w).2.cluster.find JivaVolume { Namespace := cr.Namespace, Name := cr.Name }
        = some { cr with VersionDetails :=
            { Desired := cr.VersionDetails.Desired,
              Status := { Current := cr.VersionDetails.Desired, State := ReconcileComplete } } }) := by
  have hreach := reconcileVersion_reaches r cr w hdiff hcur hdes hf hx
  obtain ⟨-, -, hmf, hmx⟩ := migrationWorld_ok cr w hf hx
  obtain ⟨hk1, hk2, -, -, hk5⟩ := migrationCopy_key cr
  refine ⟨?_, ?_⟩
  · intro funcValue hlook
    rw [hlook] at hreach
    simp only at hreach
    refine ⟨?_, ?_⟩
    · intro jObj1 wf hfun hwf hstored
      rw [hfun] at hreach
      simp only at hreach
      rw [hreach]
      exact finishUpgrade_ok hwf hstored
    · intro e wf hfun
      rw [hfun] at hreach
      exact hreach
  · intro hlook
    rw [hlook] at hreach
    simp only at hreach
    rw [hreach]
    have hfin := @finishUpgrade_ok (migrationCopy cr) (migrationWorld cr w) hmf
      (by rw [hk1, hk2]; exact hmx)
    rw [hk1, hk2, hk5] at hfin
    exact hfin

theorem reconcileVersion_migrates_witness :
    (sampleUpgradeVolume.VersionDetails.Status.Current ≠ sampleUpgradeVolume.VersionDetails.Desired ∧
      sampleUpgradeWorld.faults = [] ∧
      lookupUpgrade sampleUpgradeReconciler
        (splitHead '-' sampleUpgradeVolume.VersionDetails.Status.Current) = some sampleMigration) ∧
    ((reconcileVersion sampleUpgradeReconciler sampleUpgradeVolume sampleUpgradeWorld).1 = none ∧
      (reconcileVersion sampleUpgradeReconciler sampleUpgradeVolume sampleUpgradeWorld).2.cluster.find
          JivaVolume { Namespace := "openebs", Name := "pvc-1" }
        = some { sampleUpgradeVolume with
            Labels := sampleUpgradeVolume.Labels ++ [("migrated", "true")],
            VersionDetails :=
              { Desired := "3.1.0", Status := { Current := "3.1.0", State := ReconcileComplete } } }) ∧
    (reconcileVersion sampleFailingReconciler sampleUpgradeVolume sampleUpgradeWorld
      = (some (Err.msg "migration failed"), migrationWorld sampleUpgradeVolume sampleUpgradeWorld)) ∧
    ((reconcileVersion sampleReconciler sampleUpgradeVolume sampleUpgradeWorld).1 = none ∧
      (reconcileVersion sampleReconciler sampleUpgradeVolume sampleUpgradeWorld).2.cluster.find
          JivaVolume { Namespace := "openebs", Name := "pvc-1" }
        = some { sampleUpgradeVolume with
            VersionDetails :=
              { Desired := "3.1.0", Status := { Current := "3.1.0", State := ReconcileComplete } } }) :=
  ⟨⟨by decide, rfl, rfl⟩,
    ((reconcileVersion_migrates sampleUpgradeReconciler sampleUpgradeVolume sampleUpgradeWorld
      (by decide) rfl rfl rfl (by decide)).1 sampleMigration rfl).1
        { migrationCopy sampleUpgradeVolume with
          Labels := (migrationCopy sampleUpgradeVolume).Labels ++ [("migrated", "true")] }
        (migrationWorld sampleUpgradeVolume sampleUpgradeWorld) rfl rfl (by decide),
    ((reconcileVersion_migrates sampleFailingReconciler sampleUpgradeVolume sampleUpgradeWorld
      (by decide) rfl rfl rfl (by decide)).1 sampleFailingMigration rfl).2
        (Err.msg "migration failed") (migrationWorld sampleUpgradeVolume sampleUpgradeWorld) rfl,
    (reconcileVersion_migrates sampleReconciler sampleUpgradeVolume sampleUpgradeWorld
      (by decide) rfl rfl rfl (by decide)).2 rfl⟩

/-- C17: with versions that differ, when the current version or the desired version is not
valid, `reconcileVersion` returns an error and leaves the world as it is: no call is issued,
nothing is stored; `Reconcile` ends the cycle with that error, the volume in its hands being
the one it loaded. -/
theorem reconcileVersion_invalid (r : JivaVolumeReconciler) (cr : JivaVolume) (w : World)
    (hdiff : cr.VersionDetails.Status.Current ≠ cr.VersionDetails.Desired)
    (hinv : r.IsCurrentVersionValid cr.VersionDetails.Status.Current = false ∨
      r.IsDesiredVersionValid cr.VersionDetails.Desired = false) :
    (reconcileVersion r cr w).1.isSome = true ∧
    (reconcileVersion r cr w).2 = w ∧
    (∀ req w0, apiGet JivaVolume req w0 = (Except.ok cr, w) →
      (Reconcile r req w0).result = Ret.done (reconcileVersion r cr w).1 ∧
      (Reconcile r req w0).volume = some cr ∧ (Reconcile r req w0).world = w) := by
  have key : ∃ e, reconcileVersion r cr w = (some e, w) := by
    unfold reconcileVersion
    rw [if_pos hdiff]
    by_cases hc : r.IsCurrentVersionValid cr.VersionDetails.Status.Current = true
    · rcases hinv with h | h
      · rw [h] at hc; simp at hc
      · simp only [hc, h, Bool.not_true, Bool.not_false, Bool.false_eq_true, if_false, if_true]
        exact ⟨_, rfl⟩
    · have hc' : r.IsCurrentVersionValid cr.VersionDetails.Status.Current = false := by
        simpa using hc
      simp only [hc', Bool.not_false, if_true]
      exact ⟨_, rfl⟩
  obtain ⟨e, he⟩ := key
  rw [he]
  refine ⟨rfl, rfl, ?_⟩
  intro req w0 hget
  unfold Reconcile
  rw [hget]
  simp only
  rw [he]
  exact ⟨rfl, rfl, rfl⟩

theorem reconcileVersion_invalid_witness :
    (sampleUpgradeVolume.VersionDetails.Status.Current ≠ sampleUpgradeVolume.VersionDetails.Desired ∧
      sampleStrictReconciler.IsDesiredVersionValid sampleUpgradeVolume.VersionDetails.Desired = false) ∧
    (reconcileVersion sampleStrictReconciler sampleUpgradeVolume sampleUpgradeWorld).1.isSome = true ∧
    (reconcileVersion sampleStrictReconciler sampleUpgradeVolume sampleUpgradeWorld).2
      = sampleUpgradeWorld :=
  ⟨⟨by decide, by decide⟩,
    (reconcileVersion_invalid sampleStrictReconciler sampleUpgradeVolume sampleUpgradeWorld
      (by decide) (Or.inr (by decide))).1,
    (reconcileVersion_invalid sampleStrictReconciler sampleUpgradeVolume sampleUpgradeWorld
      (by decide) (Or.inr (by decide))).2.1⟩

/-- C16, on a failing input: the stored volume has current version `3.0.0`, the version of
the operator, and desired version `3.1.0`, both valid, and every call succeeds.
`reconcileVersion` returns no error and stores a copy with current = desired = `3.1.0`, but
the volume in the hands of `Reconcile` is still the one it loaded: the branch on the phase
runs on a resource whose current version `3.0.0` is not the desired one, and the volume the
cycle ends with still carries these version details. -/
theorem Reconcile_stale_version :
    getResult JivaVolume { Namespace := "openebs", Name := "pvc-1" } sampleUpgradeWorld
      = Except.ok sampleUpgradeVolume ∧
    sampleUpgradeVolume.VersionDetails
      = { Desired := "3.1.0", Status := { Current := "3.0.0", State := ReconcileComplete } } ∧
    (reconcileVersion sampleReconciler sampleUpgradeVolume
      (apiGet JivaVolume { Namespace := "openebs", Name := "pvc-1" } sampleUpgradeWorld).2).1 = none ∧
    ((reconcileVersion sampleReconciler sampleUpgradeVolume
        (apiGet JivaVolume { Namespace := "openebs", Name := "pvc-1" } sampleUpgradeWorld).2).2.cluster.find
        JivaVolume { Namespace := "openebs", Name := "pvc-1" }).map (fun j => j.VersionDetails)
      = some { Desired := "3.1.0", Status := { Current := "3.1.0", State := ReconcileComplete } } ∧
    Reconcile sampleReconciler { Namespace := "openebs", Name := "pvc-1" } sampleUpgradeWorld
      = reconcilePhase sampleReconciler true sampleUpgradeVolume
          (switchWorld sampleReconciler sampleUpgradeVolume
            (apiGet JivaVolume { Namespace := "openebs", Name := "pvc-1" } sampleUpgradeWorld).2) ∧
    sampleUpgradeVolume.VersionDetails.Status.Current ≠ sampleUpgradeVolume.VersionDetails.Desired ∧
    (Reconcile sampleReconciler { Namespace := "openebs", Name := "pvc-1" }
        sampleUpgradeWorld).volume.map (fun j => j.VersionDetails)
      = some { Desired := "3.1.0", Status := { Current := "3.0.0", State := ReconcileComplete } } := by
  refine ⟨rfl, rfl, by decide, by decide, rfl, by decide, by decide⟩

/-- C18: with versions that differ and are valid, when the volume is not marked `InProgress`
the first thing `reconcileVersion` does is the update of the copy marked `InProgress`: when
that update fails, its error is returned, nothing follows it and the registered migrations
play no part; when it goes through, the marked copy is stored and only then the middle part
(reload, lookup and call of the migration) runs. When the volume is marked already, the
middle part runs from the start: the migration is called right after the reload, no update
being issued before it. -/
theorem reconcileVersion_marks (r : JivaVolumeReconciler) (cr : JivaVolume) (w : World)
    (hdiff : cr.VersionDetails.Status.Current ≠ cr.VersionDetails.Desired)
    (hcur : r.IsCurrentVersionValid cr.VersionDetails.Status.Current = true)
    (hdes : r.IsDesiredVersionValid cr.VersionDetails.Desired = true) :
    (cr.VersionDetails.Status.State ≠ ReconcileInProgress →
      migrationCopy cr =
        { cr with VersionDetails :=
          { cr.VersionDetails with
            Status := { cr.VersionDetails.Status with State := ReconcileInProgress } } } ∧
      (∀ e, (updateJivaVolume (migrationCopy cr) w).1 = some e →
        reconcileVersion r cr w = (some e, (updateJivaVolume (migrationCopy cr) w).2) ∧
        ∀ m, reconcileVersion { r with upgradeMap := m } cr w = reconcileVersion r cr w) ∧
      ((updateJivaVolume (migrationCopy cr) w).1 = none →
        reconcileVersion r cr w
          = runUpgrade r cr (migrationCopy cr) (updateJivaVolume (migrationCopy cr) w).2 ∧
        (updateJivaVolume (migrationCopy cr) w).2.cluster.find JivaVolume
            { Namespace := cr.Namespace, Name := cr.Name } = some (migrationCopy cr))) ∧
    (cr.VersionDetails.Status.State = ReconcileInProgress →
      reconcileVersion r cr w = runUpgrade r cr cr w ∧
      ((getJivaVolume cr w).1 = none →
        ∀ funcValue, lookupUpgrade r (splitHead '-' cr.VersionDetails.Status.Current) = some funcValue →
          reconcileVersion r cr w =
            match funcValue cr
                (w.tick (Call.get Kind.JivaVolume { Namespace := cr.Namespace, Name := cr.Name })) with
            | (Except.error e, w2) => (some e, w2)
            | (Except.ok jObj1, w2) => finishUpgrade jObj1 w2)) := by
  have hv := reconcileVersion_valid r cr w hdiff hcur hdes
  refine ⟨?_, ?_⟩
  · intro hs
    rw [if_pos hs] at hv
    have hcopy : migrationCopy cr =
        { cr with VersionDetails :=
          { cr.VersionDetails with
            Status := { cr.VersionDetails.Status with State := ReconcileInProgress } } } := by
      unfold migrationCopy
      rw [if_pos hs]
      rfl
    refine ⟨hcopy, ?_, ?_⟩
    · intro e he
      have hv1 : reconcileVersion r cr w = (some e, (updateJivaVolume (migrationCopy cr) w).2) := by
        rw [hv]
        rcases hu : updateJivaVolume (migrationCopy cr) w with ⟨e1, w1⟩
        rw [hu] at he
        simp only at he
        subst he
        rfl
      refine ⟨hv1, ?_⟩
      intro m
      have hvm := reconcileVersion_valid { r with upgradeMap := m } cr w hdiff hcur hdes
      rw [if_pos hs] at hvm
      rw [hv1, hvm]
      rcases hu : updateJivaVolume (migrationCopy cr) w with ⟨e1, w1⟩
      rw [hu] at he
      simp only at he
      subst he
      rfl
    · intro hnone
      rcases hu : updateJivaVolume (migrationCopy cr) w with ⟨e1, w1⟩
      rw [hu] at hnone hv
      simp only at hnone
      subst hnone
      refine ⟨hv, ?_⟩
      obtain ⟨-, hx, hw1⟩ := updateJivaVolume_none hu
      obtain ⟨hk1, hk2, -⟩ := migrationCopy_key cr
      show (Resource.sel w1.cluster : List JivaVolume).find? _ = _
      rw [hw1, Resource.sel_put]
      have hkey : (Resource.key (migrationCopy cr) : Key)
          = { Namespace := cr.Namespace, Name := cr.Name } := by
        show ({ Namespace := (migrationCopy cr).Namespace, Name := (migrationCopy cr).Name } : Key) = _
        rw [hk1, hk2]
      rw [hkey] at hx ⊢
      exact find_map_const Resource.key _ (migrationCopy cr) hkey _ hx
  · intro hs
    have hs' : ¬ cr.VersionDetails.Status.State ≠ ReconcileInProgress := not_not.2 hs
    rw [if_neg hs'] at hv
    have hcopy : migrationCopy cr = cr := by
      unfold migrationCopy
      rw [if_neg hs']
    rw [hcopy] at hv
    refine ⟨hv, ?_⟩
    intro hg funcValue hlook
    rw [hv, runUpgrade_reloaded r cr cr w hg, hlook, getJivaVolume_snd]

theorem reconcileVersion_marks_witness :
    (sampleUpgradeVolume.VersionDetails.Status.State ≠ ReconcileInProgress ∧
      (updateJivaVolume (migrationCopy sampleUpgradeVolume) sampleUpgradeWorld).1 = none) ∧
    (migrationCopy sampleUpgradeVolume).VersionDetails.Status.State = ReconcileInProgress ∧
    reconcileVersion sampleUpgradeReconciler sampleUpgradeVolume sampleUpgradeWorld
      = runUpgrade sampleUpgradeReconciler sampleUpgradeVolume (migrationCopy sampleUpgradeVolume)
          (updateJivaVolume (migrationCopy sampleUpgradeVolume) sampleUpgradeWorld).2 ∧
    (updateJivaVolume (migrationCopy sampleUpgradeVolume) sampleUpgradeWorld).2.cluster.find JivaVolume
        { Namespace := sampleUpgradeVolume.Namespace, Name := sampleUpgradeVolume.Name }
      = some (migrationCopy sampleUpgradeVolume) :=
  ⟨⟨by decide, by decide⟩, by decide,
    ((reconcileVersion_marks sampleUpgradeReconciler sampleUpgradeVolume sampleUpgradeWorld
      (by decide) rfl rfl).1 (by decide)).2.2 (by decide)⟩

/-! ### The branch on the phase -/

/-- The branch for phase `Ready` of the code is the one of the specification. -/
theorem reconcileReady_eq_readyDispatch (r : JivaVolumeReconciler) (cr : JivaVolume) (w : World) :
    reconcileReady r cr w = readyDispatch r cr w := by
  unfold reconcileReady readyDispatch
  rcases getAndUpdateVolumeStatus r cr w with ⟨e, cr1, w1⟩
  cases e with
  | some e => rfl
  | none =>
    simp only
    rcases hs : isScaleup cr1 w1 with ⟨b, w2⟩
    cases b with
    | true =>
      simp only [if_true]
      unfold scaleupThenRefresh refreshOnly
      rcases performScaleup cr1 w2 with ⟨p, cr2, w3⟩
      cases p with
      | panic => rfl
      | done e => cases e <;> rfl
    | false =>
      simp only [Bool.false_eq_true, if_false]
      unfold relocateOnly
      rcases moveReplicasForMissingNodes r cr1 w2 with ⟨p, w3⟩
      cases p with
      | panic => rfl
      | done e => cases e <;> rfl

/-- Once the volume is loaded and the version steps pass, `Reconcile` is the switch on the
phase, with `ok` true, in the world `switchWorld`. -/
theorem Reconcile_switch (r : JivaVolumeReconciler) (req : Key) (w : World) (cr : JivaVolume)
    (hload : getResult JivaVolume req w = Except.ok cr)
    (hver : (reconcileVersion r cr (apiGet JivaVolume req w).2).1 = none)
    (hok : (shouldReconcile r cr).2 = none) :
    Reconcile r req w
      = reconcilePhase r true cr (switchWorld r cr (apiGet JivaVolume req w).2) := by
  unfold Reconcile
  have hget : apiGet JivaVolume req w = (Except.ok cr, (apiGet JivaVolume req w).2) := by
    unfold apiGet; rw [hload]
  rw [hget]
  simp only
  unfold switchWorld
  generalize (apiGet JivaVolume req w).2 = w1 at hver ⊢
  rcases hrv : reconcileVersion r cr w1 with ⟨e, w2⟩
  rw [hrv] at hver
  simp only at hver
  subst hver
  simp only
  have hsr : shouldReconcile r cr = (true, none) := by
    unfold shouldReconcile at hok ⊢
    by_cases hv : cr.VersionDetails.Status.Current ≠ r.Version
    · rw [if_pos hv] at hok; simp at hok
    · rw [if_neg hv]
  rw [hsr]

/-- C19, as stated, fails: the sample volume in phase `Deleting` has the version of the
operator as current and desired version, so the version steps pass without a call; yet when
no pod address is cached for it the cycle lists the pods of the namespace and pauses one
second before it reaches the switch, and when an address is cached it does neither. What
`Reconcile` does after the version steps is not fixed by the phase alone, and a cycle in
phase `Deleting` can make a cluster call. -/
theorem Reconcile_deleting_lists_pods :
    sampleDeletingVolume.Status.Phase = JivaVolumePhaseDeleting ∧
    getResult JivaVolume { Namespace := "openebs", Name := "pvc-1" } sampleDeletingWorld
      = Except.ok sampleDeletingVolume ∧
    reconcileVersion sampleReconciler sampleDeletingVolume
        (apiGet JivaVolume { Namespace := "openebs", Name := "pvc-1" } sampleDeletingWorld).2
      = (none, (apiGet JivaVolume { Namespace := "openebs", Name := "pvc-1" } sampleDeletingWorld).2) ∧
    (shouldReconcile sampleReconciler sampleDeletingVolume).2 = none ∧
    (Reconcile sampleReconciler { Namespace := "openebs", Name := "pvc-1" }
        sampleDeletingWorld).result = Ret.done none ∧
    issued sampleDeletingWorld
        (Reconcile sampleReconciler { Namespace := "openebs", Name := "pvc-1" }
          sampleDeletingWorld).world
      = [Call.get Kind.JivaVolume { Namespace := "openebs", Name := "pvc-1" },
         Call.list Kind.Pod "openebs"] ∧
    (Reconcile sampleReconciler { Namespace := "openebs", Name := "pvc-1" }
        sampleDeletingWorld).world.slept = 1 ∧
    getResult JivaVolume { Namespace := "openebs", Name := "pvc-1" }
        (cachedPhaseWorld JivaVolumePhaseDeleting) = Except.ok sampleDeletingVolume ∧
    issued (cachedPhaseWorld JivaVolumePhaseDeleting)
        (Reconcile sampleReconciler { Namespace := "openebs", Name := "pvc-1" }
          (cachedPhaseWorld JivaVolumePhaseDeleting)).world
      = [Call.get Kind.JivaVolume { Namespace := "openebs", Name := "pvc-1" }] ∧
    (Reconcile sampleReconciler { Namespace := "openebs", Name := "pvc-1" }
        (cachedPhaseWorld JivaVolumePhaseDeleting)).world.slept = 0 := by
  refine ⟨by decide, rfl, by decide, by decide, by decide, by decide, by decide, rfl, by decide,
    by decide⟩

/-- C19, amended: once the volume is loaded and the version steps pass, `Reconcile` first
refreshes the cached pod address of the volume: nothing happens when an address is cached,
else `updatePodIPMap` runs (a `List` of pods and reads of their nodes), followed by a pause
of one second when it fails. From the world this leaves, `switchWorld`, what `Reconcile`
does is fixed by the phase: `Deleting` ends the cycle without a further call or an error;
`Syncing` and `Unknown` run the status refresh alone; `Ready` runs the status refresh and
then, unless the refresh failed, the scale-up followed by a second refresh when `isScaleup`
is true (a failed scale-up ends the cycle before that refresh), and the relocation of
replicas when it is false; the unset phase, `Pending` and `Failed` run the bootstrap
installer; any other phase ends the cycle without a further call or an error. -/
theorem Reconcile_dispatch (r : JivaVolumeReconciler) (req : Key) (w : World) (cr : JivaVolume)
    (hload : getResult JivaVolume req w = Except.ok cr)
    (hver : (reconcileVersion r cr (apiGet JivaVolume req w).2).1 = none)
    (hok : (shouldReconcile r cr).2 = none) :
    (mapHas (reconcileVersion r cr (apiGet JivaVolume req w).2).2.podIPMap cr.Name = true →
      switchWorld r cr (apiGet JivaVolume req w).2
        = (reconcileVersion r cr (apiGet JivaVolume req w).2).2) ∧
    (mapHas (reconcileVersion r cr (apiGet JivaVolume req w).2).2.podIPMap cr.Name = false →
      switchWorld r cr (apiGet JivaVolume req w).2
        = match updatePodIPMap r cr (reconcileVersion r cr (apiGet JivaVolume req w).2).2 with
          | (some _, w3) => w3.sleep 1
          | (none, w3) => w3) ∧
    (cr.Status.Phase = JivaVolumePhaseDeleting →
      Reconcile r req w = noAction cr (switchWorld r cr (apiGet JivaVolume req w).2) ∧
      (Reconcile r req w).result = Ret.done none ∧
      issued (switchWorld r cr (apiGet JivaVolume req w).2) (Reconcile r req w).world = []) ∧
    (cr.Status.Phase = JivaVolumePhaseSyncing ∨ cr.Status.Phase = JivaVolumePhaseUnkown →
      Reconcile r req w = refreshOnly r cr (switchWorld r cr (apiGet JivaVolume req w).2)) ∧
    (cr.Status.Phase = JivaVolumePhaseReady →
      Reconcile r req w = readyDispatch r cr (switchWorld r cr (apiGet JivaVolume req w).2)) ∧
    (cr.Status.Phase = "" ∨ cr.Status.Phase = JivaVolumePhasePending
        ∨ cr.Status.Phase = JivaVolumePhaseFailed →
      Reconcile r req w = bootstrapOnly r cr (switchWorld r cr (apiGet JivaVolume req w).2)) ∧
    (cr.Status.Phase ∉ [JivaVolumePhaseReady, JivaVolumePhaseSyncing, JivaVolumePhaseUnkown,
        JivaVolumePhaseDeleting, "", JivaVolumePhasePending, JivaVolumePhaseFailed] →
      Reconcile r req w = noAction cr (switchWorld r cr (apiGet JivaVolume req w).2) ∧
      (Reconcile r req w).result = Ret.done none ∧
      issued (switchWorld r cr (apiGet JivaVolume req w).2) (Reconcile r req w).world = []) := by
  have hnone : ∀ sw : World, issued sw (noAction cr sw).world = [] := by
    intro sw
    show sw.calls.drop sw.calls.length = []
    exact List.drop_length _
  refine ⟨?_, ?_, ?_⟩
  · intro hc
    unfold switchWorld refreshPodIP
    rw [hc]
    rfl
  · intro hc
    unfold switchWorld refreshPodIP
    rw [hc]
    rfl
  rw [Reconcile_switch r req w cr hload hver hok]
  generalize switchWorld r cr (apiGet JivaVolume req w).2 = sw
  have hdel : cr.Status.Phase = JivaVolumePhaseDeleting →
      reconcilePhase r true cr sw = noAction cr sw := by
    intro h
    unfold reconcilePhase
    rw [h]
    rfl
  have hother : cr.Status.Phase ∉ [JivaVolumePhaseReady, JivaVolumePhaseSyncing,
        JivaVolumePhaseUnkown, JivaVolumePhaseDeleting, "", JivaVolumePhasePending,
        JivaVolumePhaseFailed] →
      reconcilePhase r true cr sw = noAction cr sw := by
    intro h
    unfold reconcilePhase
    simp only [List.mem_cons, List.mem_singleton, not_or, List.not_mem_nil, or_false] at h
    obtain ⟨h1, h2, h3, h4, h5, h6, h7⟩ := h
    rw [if_neg h1, if_neg (by tauto), if_neg h4, if_neg (by tauto)]
    rfl
  refine ⟨?_, ?_, ?_, ?_, ?_⟩
  · intro h
    rw [hdel h]
    exact ⟨rfl, rfl, hnone sw⟩
  · intro h
    unfold reconcilePhase
    rcases h with h | h <;> rw [h] <;> rfl
  · intro h
    unfold reconcilePhase
    rw [if_pos h]
    exact reconcileReady_eq_readyDispatch r cr sw
  · intro h
    unfold reconcilePhase
    rcases h with h | h | h <;> rw [h] <;> rfl
  · intro h
    rw [hother h]
    exact ⟨rfl, rfl, hnone sw⟩

/-- C19, amended, on the sample worlds: the sample volume in phase `Deleting` with a cached
address, where the refresh of the address does nothing, and the sample volume in the phases
`Deleting`, `Syncing`, `Ready`, `Pending` and in a phase the switch does not know, each
stored alone without a cached address, so that the cycle lists the pods before the switch. -/
theorem Reconcile_dispatch_witness :
    (mapHas (cachedPhaseWorld JivaVolumePhaseDeleting).podIPMap "pvc-1" = true ∧
      switchWorld sampleReconciler sampleDeletingVolume
          (apiGet JivaVolume { Namespace := "openebs", Name := "pvc-1" }
            (cachedPhaseWorld JivaVolumePhaseDeleting)).2
        = (apiGet JivaVolume { Namespace := "openebs", Name := "pvc-1" }
            (cachedPhaseWorld JivaVolumePhaseDeleting)).2) ∧
    (mapHas (reconcileVersion sampleReconciler (sampleVolume.withPhase JivaVolumePhaseDeleting)
        (apiGet JivaVolume { Namespace := "openebs", Name := "pvc-1" }
          (phaseWorld JivaVolumePhaseDeleting)).2).2.podIPMap "pvc-1" = false ∧
      switchWorld sampleReconciler (sampleVolume.withPhase JivaVolumePhaseDeleting)
          (apiGet JivaVolume { Namespace := "openebs", Name := "pvc-1" }
            (phaseWorld JivaVolumePhaseDeleting)).2
        = match updatePodIPMap sampleReconciler (sampleVolume.withPhase JivaVolumePhaseDeleting)
            (reconcileVersion sampleReconciler (sampleVolume.withPhase JivaVolumePhaseDeleting)
              (apiGet JivaVolume { Namespace := "openebs", Name := "pvc-1" }
                (phaseWorld JivaVolumePhaseDeleting)).2).2 with
          | (some _, w3) => w3.sleep 1
          | (none, w3) => w3) ∧
    (Reconcile sampleReconciler { Namespace := "openebs", Name := "pvc-1" }
        (phaseWorld JivaVolumePhaseDeleting)
      = noAction (sampleVolume.withPhase JivaVolumePhaseDeleting)
          (switchWorld sampleReconciler (sampleVolume.withPhase JivaVolumePhaseDeleting)
            (apiGet JivaVolume { Namespace := "openebs", Name := "pvc-1" }
              (phaseWorld JivaVolumePhaseDeleting)).2)) ∧
    (Reconcile sampleReconciler { Namespace := "openebs", Name := "pvc-1" }
        (phaseWorld JivaVolumePhaseSyncing)
      = refreshOnly sampleReconciler (sampleVolume.withPhase JivaVolumePhaseSyncing)
          (switchWorld sampleReconciler (sampleVolume.withPhase JivaVolumePhaseSyncing)
            (apiGet JivaVolume { Namespace := "openebs", Name := "pvc-1" }
              (phaseWorld JivaVolumePhaseSyncing)).2)) ∧
    (Reconcile sampleReconciler { Namespace := "openebs", Name := "pvc-1" }
        (phaseWorld JivaVolumePhaseReady)
      = readyDispatch sampleReconciler (sampleVolume.withPhase JivaVolumePhaseReady)
          (switchWorld sampleReconciler (sampleVolume.withPhase JivaVolumePhaseReady)
            (apiGet JivaVolume { Namespace := "openebs", Name := "pvc-1" }
              (phaseWorld JivaVolumePhaseReady)).2)) ∧
    (Reconcile sampleReconciler { Namespace := "openebs", Name := "pvc-1" }
        (phaseWorld JivaVolumePhasePending)
      = bootstrapOnly sampleReconciler (sampleVolume.withPhase JivaVolumePhasePending)
          (switchWorld sampleReconciler (sampleVolume.withPhase JivaVolumePhasePending)
            (apiGet JivaVolume { Namespace := "openebs", Name := "pvc-1" }
              (phaseWorld JivaVolumePhasePending)).2)) ∧
    (Reconcile sampleReconciler { Namespace := "openebs", Name := "pvc-1" } (phaseWorld "Held")
      = noAction (sampleVolume.withPhase "Held")
          (switchWorld sampleReconciler (sampleVolume.withPhase "Held")
            (apiGet JivaVolume { Namespace := "openebs", Name := "pvc-1" }
              (phaseWorld "Held")).2)) :=
  ⟨⟨by decide,
     (Reconcile_dispatch sampleReconciler { Namespace := "openebs", Name := "pvc-1" }
       (cachedPhaseWorld JivaVolumePhaseDeleting) sampleDeletingVolume rfl (by decide)
       (by decide)).1 (by decide)⟩,
   ⟨by decide,
     (Reconcile_dispatch sampleReconciler { Namespace := "openebs", Name := "pvc-1" }
       (phaseWorld JivaVolumePhaseDeleting) (sampleVolume.withPhase JivaVolumePhaseDeleting)
       rfl (by decide) (by decide)).2.1 (by decide)⟩,
   ((Reconcile_dispatch sampleReconciler { Namespace := "openebs", Name := "pvc-1" }
       (phaseWorld JivaVolumePhaseDeleting) (sampleVolume.withPhase JivaVolumePhaseDeleting)
       rfl (by decide) (by decide)).2.2.1 (by decide)).1,
   (Reconcile_dispatch sampleReconciler { Namespace := "openebs", Name := "pvc-1" }
       (phaseWorld JivaVolumePhaseSyncing) (sampleVolume.withPhase JivaVolumePhaseSyncing)
       rfl (by decide) (by decide)).2.2.2.1 (Or.inl (by decide)),
   (Reconcile_dispatch sampleReconciler { Namespace := "openebs", Name := "pvc-1" }
       (phaseWorld JivaVolumePhaseReady) (sampleVolume.withPhase JivaVolumePhaseReady)
       rfl (by decide) (by decide)).2.2.2.2.1 (by decide),
   (Reconcile_dispatch sampleReconciler { Namespace := "openebs", Name := "pvc-1" }
       (phaseWorld JivaVolumePhasePending) (sampleVolume.withPhase JivaVolumePhasePending)
       rfl (by decide) (by decide)).2.2.2.2.2.1 (Or.inr (Or.inl (by decide))),
   ((Reconcile_dispatch sampleReconciler { Namespace := "openebs", Name := "pvc-1" }
       (phaseWorld "Held") (sampleVolume.withPhase "Held")
       rfl (by decide) (by decide)).2.2.2.2.2.2 (by decide)).1⟩

/-! ### The relocation of replicas -/

theorem apiDelete_none {α : Type} [Resource α] {k : Key} {w w1 : World}
    (h : apiDelete α k w = (none, w1)) :
    w.fault = none ∧ (w.cluster.find α k).isSome = true ∧
      w1 = (w.tick (Call.delete (Resource.kind α) k)).store
        (fun (stored : List α) => stored.filter (fun y => !decide (Resource.key y = k))) := by
  unfold apiDelete at h
  cases hr : writeResult α k w with
  | some e => rw [hr] at h; simp at h
  | none =>
    rw [hr] at h
    simp only [Prod.mk.injEq, true_and] at h
    exact ⟨(writeResult_none hr).1, (writeResult_none hr).2, h.symm⟩

theorem apiDelete_some {α : Type} [Resource α] {k : Key} {w w1 : World} {e : Err}
    (h : apiDelete α k w = (some e, w1)) : w1 = w.tick (Call.delete (Resource.kind α) k) := by
  unfold apiDelete at h
  cases hr : writeResult α k w with
  | some e1 => rw [hr] at h; simp only [Prod.mk.injEq] at h; exact h.2.symm
  | none => rw [hr] at h; simp at h

/-- An object found under a name carries that name. -/
theorem find_key {α : Type} [Resource α] {c : Cluster} {k : Key} {x : α}
    (h : c.find α k = some x) : Resource.key x = k := by
  unfold Cluster.find at h
  have := List.find?_some h
  simpa using this

/-- Looking up another name after the objects named `k` are rewritten, their names kept. -/
theorem find_map_other {α : Type} (key : α → Key) (k k' : Key) (g : α → α)
    (hg : ∀ x, key (g x) = key x) (hk : k' ≠ k) (xs : List α) :
    (xs.map (fun y => if key y = k then g y else y)).find? (fun x => decide (key x = k'))
      = xs.find? (fun x => decide (key x = k')) := by
  induction xs with
  | nil => rfl
  | cons x rest ih =>
    by_cases hx : key x = k
    · have hx' : ¬ key x = k' := fun h => hk (h.symm.trans hx)
      have hgx : ¬ key (g x) = k' := by rw [hg]; exact hx'
      simp only [List.map_cons, List.find?_cons, if_pos hx, decide_eq_false hgx,
        decide_eq_false hx']
      exact ih
    · by_cases hx' : key x = k'
      · simp only [List.map_cons, List.find?_cons, if_neg hx, decide_eq_true hx']
      · simp only [List.map_cons, List.find?_cons, if_neg hx, decide_eq_false hx']
        exact ih

/-- Looking up a name after the objects named `k` are removed. -/
theorem find_filter_key {α : Type} (key : α → Key) (k k' : Key) (xs : List α) :
    (xs.filter (fun y => !decide (key y = k))).find? (fun x => decide (key x = k'))
      = if k' = k then none else xs.find? (fun x => decide (key x = k')) := by
  induction xs with
  | nil => simp
  | cons x rest ih =>
    by_cases hx : key x = k
    · have hf : (!decide (key x = k)) = false := by rw [decide_eq_true hx]; rfl
      rw [List.filter_cons, hf]
      simp only [Bool.false_eq_true, if_false]
      rw [ih]
      by_cases hk : k' = k
      · rw [if_pos hk, if_pos hk]
      · have hx' : ¬ key x = k' := fun h => hk (h.symm.trans hx)
        rw [if_neg hk, if_neg hk, List.find?_cons, decide_eq_false hx']
    · have hf : (!decide (key x = k)) = true := by rw [decide_eq_false hx]; rfl
      rw [List.filter_cons, hf]
      simp only [if_true]
      rw [List.find?_cons, ih]
      by_cases hk : k' = k
      · have hx' : ¬ key x = k' := fun h => hx (h.trans hk)
        rw [if_pos hk, if_pos hk, decide_eq_false hx']
      · rw [if_neg hk, if_neg hk, List.find?_cons]

/-- What a `Patch` does to the world, whatever its result. -/
theorem apiPatch_effect (α : Type) [Resource α] (k : Key) (f : α → α) (w : World) :
    (apiPatch α k f w).2.calls = w.calls ++ [Call.patch (Resource.kind α) k] ∧
    (apiPatch α k f w).2.faults = w.faults.tail ∧
    ((apiPatch α k f w).2.cluster = w.cluster ∨
      ((apiPatch α k f w).1 = none ∧
        (apiPatch α k f w).2.cluster = Resource.put w.cluster
          ((Resource.sel w.cluster : List α).map (fun y => if Resource.key y = k then f y else y)))) := by
  rcases h : apiPatch α k f w with ⟨e, w1⟩
  cases e with
  | some e => rw [apiPatch_some h]; exact ⟨rfl, rfl, Or.inl rfl⟩
  | none => rw [(apiPatch_none h).2.2]; exact ⟨rfl, rfl, Or.inr ⟨rfl, rfl⟩⟩

/-- What a `Delete` does to the world, whatever its result. -/
theorem apiDelete_effect (α : Type) [Resource α] (k : Key) (w : World) :
    (apiDelete α k w).2.calls = w.calls ++ [Call.delete (Resource.kind α) k] ∧
    (apiDelete α k w).2.faults = w.faults.tail ∧
    ((apiDelete α k w).2.cluster = w.cluster ∨
      ((apiDelete α k w).1 = none ∧
        (apiDelete α k w).2.cluster = Resource.put w.cluster
          ((Resource.sel w.cluster : List α).filter (fun y => !decide (Resource.key y = k))))) ∧
    ((apiDelete α k w).1 = none →
      (apiDelete α k w).2.cluster = Resource.put w.cluster
        ((Resource.sel w.cluster : List α).filter (fun y => !decide (Resource.key y = k)))) := by
  rcases h : apiDelete α k w with ⟨e, w1⟩
  cases e with
  | some e =>
    rw [apiDelete_some h]
    exact ⟨rfl, rfl, Or.inl rfl, fun h => by simp at h⟩
  | none =>
    rw [(apiDelete_none h).2.2]
    exact ⟨rfl, rfl, Or.inr ⟨rfl, rfl⟩, fun _ => rfl⟩

theorem realNotFound_tail {xs : List (Option Err)} (h : realNotFound xs = true) :
    realNotFound xs.tail = true := by
  cases xs with
  | nil => rfl
  | cons x xs =>
    simp only [realNotFound, List.all_cons, Bool.and_eq_true] at h
    exact h.2

theorem realNotFound_tick {w : World} (h : realNotFound w.faults = true) (c : Call) :
    realNotFound (w.tick c).faults = true :=
  realNotFound_tail h

theorem realNotFound_fault {w : World} (h : realNotFound w.faults = true) {e : Err}
    (he : w.fault = some e) : e.isNotFound = false := by
  unfold World.fault at he
  cases hx : w.faults with
  | nil => rw [hx] at he; simp at he
  | cons x xs =>
    rw [hx] at he h
    simp only [List.head?_cons, Option.join] at he
    subst he
    simp only [realNotFound, List.all_cons, Bool.and_eq_true] at h
    simpa using h.1

/-- The stored claim named `k` after `removeSTSVolumeClaim`, and what else it leaves. -/
theorem removeSTSVolumeClaim_effect (pvc : PersistentVolumeClaim) (w : World) :
    ∃ cs, (removeSTSVolumeClaim pvc w).2.calls = w.calls ++ cs ∧
      (∀ c ∈ cs,
        c = Call.patch Kind.PersistentVolumeClaim { Namespace := pvc.Namespace, Name := pvc.Name } ∨
        c = Call.delete Kind.PersistentVolumeClaim { Namespace := pvc.Namespace, Name := pvc.Name }) ∧
      (realNotFound w.faults = true → realNotFound (removeSTSVolumeClaim pvc w).2.faults = true) ∧
      (removeSTSVolumeClaim pvc w).2.cluster.Nodes = w.cluster.Nodes ∧
      (∀ k, k ≠ ({ Namespace := pvc.Namespace, Name := pvc.Name } : Key) →
        (removeSTSVolumeClaim pvc w).2.cluster.find PersistentVolumeClaim k
          = w.cluster.find PersistentVolumeClaim k) ∧
      ((removeSTSVolumeClaim pvc w).1 = none →
        (removeSTSVolumeClaim pvc w).2.cluster.find PersistentVolumeClaim
          { Namespace := pvc.Namespace, Name := pvc.Name } = none) := by
  obtain ⟨hpc, hpf, hpcl⟩ := apiPatch_effect PersistentVolumeClaim
    { Namespace := pvc.Namespace, Name := pvc.Name } (fun c => { c with Finalizers := [] }) w
  unfold removeSTSVolumeClaim
  simp only
  rcases hp : apiPatch PersistentVolumeClaim { Namespace := pvc.Namespace, Name := pvc.Name }
    (fun c => { c with Finalizers := [] }) w with ⟨e, w1⟩
  rw [hp] at hpc hpf hpcl
  simp only at hpc hpf hpcl
  have hn1 : w1.cluster.Nodes = w.cluster.Nodes := by
    rcases hpcl with h | ⟨-, h⟩
    · rw [h]
    · rw [h]; rfl
  have hfind1 : ∀ k, k ≠ ({ Namespace := pvc.Namespace, Name := pvc.Name } : Key) →
      w1.cluster.find PersistentVolumeClaim k = w.cluster.find PersistentVolumeClaim k := by
    intro k hk
    rcases hpcl with h | ⟨-, h⟩
    · rw [h]
    · rw [h]
      unfold Cluster.find
      rw [Resource.sel_put]
      exact find_map_other (Resource.key : PersistentVolumeClaim → Key) _ k
        (fun c => { c with Finalizers := [] }) (fun _ => rfl) hk _
  cases e with
  | some e =>
    simp only
    refine ⟨_, hpc, ?_, fun hf => by rw [hpf]; exact realNotFound_tail hf, hn1, hfind1, fun h => by simp at h⟩
    intro c hc
    simp only [List.mem_singleton] at hc
    exact Or.inl hc
  | none =>
    simp only
    obtain ⟨hdc, hdf, hdcl, hdn⟩ := apiDelete_effect PersistentVolumeClaim
      { Namespace := pvc.Namespace, Name := pvc.Name } w1
    rcases hd : apiDelete PersistentVolumeClaim { Namespace := pvc.Namespace, Name := pvc.Name } w1
      with ⟨e2, w2⟩
    rw [hd] at hdc hdf hdcl hdn
    simp only at hdc hdf hdcl hdn
    have hn2 : w2.cluster.Nodes = w.cluster.Nodes := by
      rcases hdcl with h | ⟨-, h⟩ <;> rw [h] <;> exact hn1
    have hfind2 : ∀ k, k ≠ ({ Namespace := pvc.Namespace, Name := pvc.Name } : Key) →
        w2.cluster.find PersistentVolumeClaim k = w.cluster.find PersistentVolumeClaim k := by
      intro k hk
      rw [← hfind1 k hk]
      rcases hdcl with h | ⟨-, h⟩
      · rw [h]
      · rw [h]
        unfold Cluster.find
        rw [Resource.sel_put, find_filter_key, if_neg hk]
    have hcalls : w2.calls = w.calls ++
        [Call.patch Kind.PersistentVolumeClaim { Namespace := pvc.Namespace, Name := pvc.Name },
         Call.delete Kind.PersistentVolumeClaim { Namespace := pvc.Namespace, Name := pvc.Name }] := by
      rw [hdc, hpc]
      simp [Resource.kind]
    have hmem : ∀ c ∈ [Call.patch Kind.PersistentVolumeClaim
          { Namespace := pvc.Namespace, Name := pvc.Name },
        Call.delete Kind.PersistentVolumeClaim { Namespace := pvc.Namespace, Name := pvc.Name }],
        c = Call.patch Kind.PersistentVolumeClaim { Namespace := pvc.Namespace, Name := pvc.Name } ∨
        c = Call.delete Kind.PersistentVolumeClaim { Namespace := pvc.Namespace, Name := pvc.Name } := by
      intro c hc
      simpa using hc
    have hfaults : realNotFound w.faults = true → realNotFound w2.faults = true := by
      intro hf
      rw [hdf, hpf]
      exact realNotFound_tail (realNotFound_tail hf)
    cases e2 with
    | some e2 => exact ⟨_, hcalls, hmem, hfaults, hn2, hfind2, fun h => by simp at h⟩
    | none =>
      refine ⟨_, hcalls, hmem, hfaults, hn2, hfind2, fun _ => ?_⟩
      rw [hdn rfl]
      unfold Cluster.find
      rw [Resource.sel_put, find_filter_key, if_pos rfl]

/-- The requests `removeSTSVolume` issues, and what it leaves: it reads, patches and deletes
the volume of the claim and patches and deletes the claim, and nothing else. -/
theorem removeSTSVolume_effect (pvc : PersistentVolumeClaim) (w : World) :
    ∃ cs, (removeSTSVolume pvc w).2.calls = w.calls ++ cs ∧
      (∀ c ∈ cs,
        c = Call.get Kind.PersistentVolume { Namespace := "", Name := pvc.VolumeName } ∨
        c = Call.patch Kind.PersistentVolume { Namespace := "", Name := pvc.VolumeName } ∨
        c = Call.delete Kind.PersistentVolume { Namespace := "", Name := pvc.VolumeName } ∨
        c = Call.patch Kind.PersistentVolumeClaim { Namespace := pvc.Namespace, Name := pvc.Name } ∨
        c = Call.delete Kind.PersistentVolumeClaim { Namespace := pvc.Namespace, Name := pvc.Name }) ∧
      (realNotFound w.faults = true → realNotFound (removeSTSVolume pvc w).2.faults = true) ∧
      (removeSTSVolume pvc w).2.cluster.Nodes = w.cluster.Nodes ∧
      (∀ k, k ≠ ({ Namespace := pvc.Namespace, Name := pvc.Name } : Key) →
        (removeSTSVolume pvc w).2.cluster.find PersistentVolumeClaim k
          = w.cluster.find PersistentVolumeClaim k) ∧
      ((removeSTSVolume pvc w).1 = none →
        (removeSTSVolume pvc w).2.cluster.find PersistentVolumeClaim
          { Namespace := pvc.Namespace, Name := pvc.Name } = none) := by
  -- the tail of the function, from any world that kept the nodes and the claims
  have tail : ∀ (w1 : World) (pre : List Call), w1.calls = w.calls ++ pre →
      (∀ c ∈ pre,
        c = Call.get Kind.PersistentVolume { Namespace := "", Name := pvc.VolumeName } ∨
        c = Call.patch Kind.PersistentVolume { Namespace := "", Name := pvc.VolumeName } ∨
        c = Call.delete Kind.PersistentVolume { Namespace := "", Name := pvc.VolumeName }) →
      (realNotFound w.faults = true → realNotFound w1.faults = true) →
      w1.cluster.Nodes = w.cluster.Nodes → w1.cluster.PVCs = w.cluster.PVCs →
      ∃ cs, (removeSTSVolumeClaim pvc w1).2.calls = w.calls ++ cs ∧
        (∀ c ∈ cs,
          c = Call.get Kind.PersistentVolume { Namespace := "", Name := pvc.VolumeName } ∨
          c = Call.patch Kind.PersistentVolume { Namespace := "", Name := pvc.VolumeName } ∨
          c = Call.delete Kind.PersistentVolume { Namespace := "", Name := pvc.VolumeName } ∨
          c = Call.patch Kind.PersistentVolumeClaim { Namespace := pvc.Namespace, Name := pvc.Name } ∨
          c = Call.delete Kind.PersistentVolumeClaim { Namespace := pvc.Namespace, Name := pvc.Name }) ∧
        (realNotFound w.faults = true → realNotFound (removeSTSVolumeClaim pvc w1).2.faults = true) ∧
        (removeSTSVolumeClaim pvc w1).2.cluster.Nodes = w.cluster.Nodes ∧
        (∀ k, k ≠ ({ Namespace := pvc.Namespace, Name := pvc.Name } : Key) →
          (removeSTSVolumeClaim pvc w1).2.cluster.find PersistentVolumeClaim k
            = w.cluster.find PersistentVolumeClaim k) ∧
        ((removeSTSVolumeClaim pvc w1).1 = none →
          (removeSTSVolumeClaim pvc w1).2.cluster.find PersistentVolumeClaim
            { Namespace := pvc.Namespace, Name := pvc.Name } = none) := by
    intro w1 pre hpre hmem hfl hnodes hpvcs
    obtain ⟨cs, hcs, hcm, hcf, hcn, hck, hcd⟩ := removeSTSVolumeClaim_effect pvc w1
    have hfind : ∀ k, w1.cluster.find PersistentVolumeClaim k = w.cluster.find PersistentVolumeClaim k := by
      intro k
      show w1.cluster.PVCs.find? _ = w.cluster.PVCs.find? _
      rw [hpvcs]
    refine ⟨pre ++ cs, by rw [hcs, hpre, List.append_assoc], ?_, fun hf => hcf (hfl hf),
      hcn.trans hnodes, fun k hk => (hck k hk).trans (hfind k), hcd⟩
    intro c hc
    rcases List.mem_append.1 hc with h | h
    · rcases hmem c h with h1 | h1 | h1
      · exact Or.inl h1
      · exact Or.inr (Or.inl h1)
      · exact Or.inr (Or.inr (Or.inl h1))
    · rcases hcm c h with h1 | h1
      · exact Or.inr (Or.inr (Or.inr (Or.inl h1)))
      · exact Or.inr (Or.inr (Or.inr (Or.inr h1)))
  have stop : ∀ (e : Err) (w1 : World) (pre : List Call), w1.calls = w.calls ++ pre →
      (∀ c ∈ pre,
        c = Call.get Kind.PersistentVolume { Namespace := "", Name := pvc.VolumeName } ∨
        c = Call.patch Kind.PersistentVolume { Namespace := "", Name := pvc.VolumeName } ∨
        c = Call.delete Kind.PersistentVolume { Namespace := "", Name := pvc.VolumeName }) →
      (realNotFound w.faults = true → realNotFound w1.faults = true) →
      w1.cluster.Nodes = w.cluster.Nodes → w1.cluster.PVCs = w.cluster.PVCs →
      ∃ cs, ((some e, w1) : Option Err × World).2.calls = w.calls ++ cs ∧
        (∀ c ∈ cs,
          c = Call.get Kind.PersistentVolume { Namespace := "", Name := pvc.VolumeName } ∨
          c = Call.patch Kind.PersistentVolume { Namespace := "", Name := pvc.VolumeName } ∨
          c = Call.delete Kind.PersistentVolume { Namespace := "", Name := pvc.VolumeName } ∨
          c = Call.patch Kind.PersistentVolumeClaim { Namespace := pvc.Namespace, Name := pvc.Name } ∨
          c = Call.delete Kind.PersistentVolumeClaim { Namespace := pvc.Namespace, Name := pvc.Name }) ∧
        (realNotFound w.faults = true → realNotFound ((some e, w1) : Option Err × World).2.faults = true) ∧
        ((some e, w1) : Option Err × World).2.cluster.Nodes = w.cluster.Nodes ∧
        (∀ k, k ≠ ({ Namespace := pvc.Namespace, Name := pvc.Name } : Key) →
          ((some e, w1) : Option Err × World).2.cluster.find PersistentVolumeClaim k
            = w.cluster.find PersistentVolumeClaim k) ∧
        (((some e, w1) : Option Err × World).1 = none →
          ((some e, w1) : Option Err × World).2.cluster.find PersistentVolumeClaim
            { Namespace := pvc.Namespace, Name := pvc.Name } = none) := by
    intro e w1 pre hpre hmem hfl hnodes hpvcs
    refine ⟨pre, hpre, ?_, hfl, hnodes, ?_, fun h => by simp at h⟩
    · intro c hc
      rcases hmem c hc with h1 | h1 | h1
      · exact Or.inl h1
      · exact Or.inr (Or.inl h1)
      · exact Or.inr (Or.inr (Or.inl h1))
    · intro k _
      show w1.cluster.PVCs.find? _ = w.cluster.PVCs.find? _
      rw [hpvcs]
  unfold removeSTSVolume
  simp only
  have hg2 : (apiGet PersistentVolume { Namespace := "", Name := pvc.VolumeName } w).2
      = w.tick (Call.get Kind.PersistentVolume { Namespace := "", Name := pvc.VolumeName }) := rfl
  rcases hg : apiGet PersistentVolume { Namespace := "", Name := pvc.VolumeName } w with ⟨g, w1⟩
  rw [hg] at hg2
  simp only at hg2
  have hw1c : w1.calls = w.calls
      ++ [Call.get Kind.PersistentVolume { Namespace := "", Name := pvc.VolumeName }] := by
    rw [hg2]; rfl
  have hw1m : ∀ c ∈ [Call.get Kind.PersistentVolume { Namespace := "", Name := pvc.VolumeName }],
      c = Call.get Kind.PersistentVolume { Namespace := "", Name := pvc.VolumeName } ∨
      c = Call.patch Kind.PersistentVolume { Namespace := "", Name := pvc.VolumeName } ∨
      c = Call.delete Kind.PersistentVolume { Namespace := "", Name := pvc.VolumeName } := by
    intro c hc
    exact Or.inl (List.mem_singleton.1 hc)
  have hw1f : realNotFound w.faults = true → realNotFound w1.faults = true := by
    intro hf; rw [hg2]; exact realNotFound_tick hf _
  have hw1n : w1.cluster.Nodes = w.cluster.Nodes := by rw [hg2]; rfl
  have hw1p : w1.cluster.PVCs = w.cluster.PVCs := by rw [hg2]; rfl
  cases g with
  | error e =>
    simp only
    by_cases hn : e.isNotFound = true
    · rw [if_pos hn]
      exact tail w1 _ hw1c hw1m hw1f hw1n hw1p
    · rw [if_neg hn]
      exact stop e w1 _ hw1c hw1m hw1f hw1n hw1p
  | ok pv =>
    simp only
    obtain ⟨hpc, hpf, hpcl⟩ := apiPatch_effect PersistentVolume
      { Namespace := "", Name := pvc.VolumeName } (fun v => { v with Finalizers := [] }) w1
    rcases hp : apiPatch PersistentVolume { Namespace := "", Name := pvc.VolumeName }
      (fun v => { v with Finalizers := [] }) w1 with ⟨e2, w2⟩
    rw [hp] at hpc hpf hpcl
    simp only at hpc hpf hpcl
    have hw2c : w2.calls = w.calls
        ++ [Call.get Kind.PersistentVolume { Namespace := "", Name := pvc.VolumeName },
            Call.patch Kind.PersistentVolume { Namespace := "", Name := pvc.VolumeName }] := by
      rw [hpc, hw1c]; simp [Resource.kind]
    have hw2m : ∀ c ∈ [Call.get Kind.PersistentVolume { Namespace := "", Name := pvc.VolumeName },
          Call.patch Kind.PersistentVolume { Namespace := "", Name := pvc.VolumeName }],
        c = Call.get Kind.PersistentVolume { Namespace := "", Name := pvc.VolumeName } ∨
        c = Call.patch Kind.PersistentVolume { Namespace := "", Name := pvc.VolumeName } ∨
        c = Call.delete Kind.PersistentVolume { Namespace := "", Name := pvc.VolumeName } := by
      intro c hc
      simp only [List.mem_cons, List.mem_singleton, List.not_mem_nil, or_false] at hc
      rcases hc with h | h
      · exact Or.inl h
      · exact Or.inr (Or.inl h)
    have hw2f : realNotFound w.faults = true → realNotFound w2.faults = true := by
      intro hf; rw [hpf]; exact realNotFound_tail (hw1f hf)
    have hw2n : w2.cluster.Nodes = w.cluster.Nodes := by
      rcases hpcl with h | ⟨-, h⟩
      · rw [h]; exact hw1n
      · rw [h]; exact hw1n
    have hw2p : w2.cluster.PVCs = w.cluster.PVCs := by
      rcases hpcl with h | ⟨-, h⟩
      · rw [h]; exact hw1p
      · rw [h]; exact hw1p
    cases e2 with
    | some e2 => exact stop e2 w2 _ hw2c hw2m hw2f hw2n hw2p
    | none =>
      simp only
      obtain ⟨hdc, hdf, hdcl, -⟩ := apiDelete_effect PersistentVolume
        { Namespace := "", Name := pvc.VolumeName } w2
      rcases hd : apiDelete PersistentVolume { Namespace := "", Name := pvc.VolumeName } w2
        with ⟨e3, w3⟩
      rw [hd] at hdc hdf hdcl
      simp only at hdc hdf hdcl
      have hw3c : w3.calls = w.calls
          ++ [Call.get Kind.PersistentVolume { Namespace := "", Name := pvc.VolumeName },
              Call.patch Kind.PersistentVolume { Namespace := "", Name := pvc.VolumeName },
              Call.delete Kind.PersistentVolume { Namespace := "", Name := pvc.VolumeName }] := by
        rw [hdc, hw2c]; simp [Resource.kind]
      have hw3m : ∀ c ∈ [Call.get Kind.PersistentVolume { Namespace := "", Name := pvc.VolumeName },
            Call.patch Kind.PersistentVolume { Namespace := "", Name := pvc.VolumeName },
            Call.delete Kind.PersistentVolume { Namespace := "", Name := pvc.VolumeName }],
          c = Call.get Kind.PersistentVolume { Namespace := "", Name := pvc.VolumeName } ∨
          c = Call.patch Kind.PersistentVolume { Namespace := "", Name := pvc.VolumeName } ∨
          c = Call.delete Kind.PersistentVolume { Namespace := "", Name := pvc.VolumeName } := by
        intro c hc
        simp only [List.mem_cons, List.mem_singleton, List.not_mem_nil, or_false] at hc
        exact hc
      have hw3f : realNotFound w.faults = true → realNotFound w3.faults = true := by
        intro hf; rw [hdf]; exact realNotFound_tail (hw2f hf)
      have hw3n : w3.cluster.Nodes = w.cluster.Nodes := by
        rcases hdcl with h | ⟨-, h⟩
        · rw [h]; exact hw2n
        · rw [h]; exact hw2n
      have hw3p : w3.cluster.PVCs = w.cluster.PVCs := by
        rcases hdcl with h | ⟨-, h⟩
        · rw [h]; exact hw2p
        · rw [h]; exact hw2p
      cases e3 with
      | some e3 => exact stop e3 w3 _ hw3c hw3m hw3f hw3n hw3p
      | none => exact tail w3 _ hw3c hw3m hw3f hw3n hw3p

theorem Traced.traced_refl (c : Cluster) (pods : List Pod) (w : World) : Traced c pods w w :=
  ⟨[], by simp, by simp⟩

theorem Traced.traced_trans {c : Cluster} {pods : List Pod} {w w1 w2 : World}
    (h1 : Traced c pods w w1) (h2 : Traced c pods w1 w2) : Traced c pods w w2 := by
  obtain ⟨cs1, hc1, hm1⟩ := h1
  obtain ⟨cs2, hc2, hm2⟩ := h2
  refine ⟨cs1 ++ cs2, by rw [hc2, hc1, List.append_assoc], ?_⟩
  intro x hx
  rcases List.mem_append.1 hx with h | h
  · exact hm1 x h
  · exact hm2 x h

theorem Traced.traced_of_calls {c : Cluster} {pods : List Pod} {w w1 : World}
    (h : w1.calls = w.calls) : Traced c pods w w1 :=
  ⟨[], by simp [h], by simp⟩

theorem Traced.traced_single {c : Cluster} {pods : List Pod} {w w1 : World} {x : Call}
    (h : w1.calls = w.calls ++ [x]) (hx : Warranted c pods x) : Traced c pods w w1 :=
  ⟨[x], h, by intro y hy; rw [List.mem_singleton.1 hy]; exact hx⟩

theorem Warranted.warranted_get (c : Cluster) (pods : List Pod) (kind : Kind) (k : Key) :
    Warranted c pods (Call.get kind k) := by
  unfold Warranted; trivial

/-- A world that differs from one satisfying the invariant of the relocation in neither the
nodes nor the claims satisfies it. -/
theorem RelocInv.inv_same {c : Cluster} {w w1 : World} (h : RelocInv c w)
    (hf : realNotFound w.faults = true → realNotFound w1.faults = true) (hn : w1.cluster.Nodes = w.cluster.Nodes)
    (hp : w1.cluster.PVCs = w.cluster.PVCs) : RelocInv c w1 := by
  obtain ⟨h1, h2, h3⟩ := h
  refine ⟨hf h1, hn.trans h2, ?_⟩
  intro k
  have hk : w1.cluster.find PersistentVolumeClaim k = w.cluster.find PersistentVolumeClaim k := by
    show w1.cluster.PVCs.find? _ = w.cluster.PVCs.find? _
    rw [hp]
  rw [hk]
  exact h3 k

theorem RelocInv.inv_tick {c : Cluster} {w : World} (h : RelocInv c w) (x : Call) :
    RelocInv c (w.tick x) :=
  h.inv_same (fun hf => realNotFound_tick hf x) rfl rfl

theorem RelocInv.inv_deletePod {c : Cluster} {w : World} (h : RelocInv c w) (k : Key) :
    RelocInv c (apiDelete Pod k w).2 := by
  obtain ⟨-, hf, hcl, -⟩ := apiDelete_effect Pod k w
  refine h.inv_same (fun h0 => by rw [hf]; exact realNotFound_tail h0) ?_ ?_
  · rcases hcl with h1 | ⟨-, h1⟩
    · rw [h1]
    · rw [h1]; rfl
  · rcases hcl with h1 | ⟨-, h1⟩
    · rw [h1]
    · rw [h1]; rfl

theorem Traced.traced_deletePod {c : Cluster} {pods : List Pod} (w : World) (k : Key)
    (hx : Warranted c pods (Call.delete Kind.Pod k)) : Traced c pods w (apiDelete Pod k w).2 :=
  Traced.traced_single (apiDelete_effect Pod k w).1 hx

/-- The requests of `removeSTSVolume` on a stale claim are warranted. -/
theorem Traced.traced_removeSTSVolume {c : Cluster} {pods : List Pod} (w : World)
    (pvc : PersistentVolumeClaim)
    (hs : StaleClaim c pods { Namespace := pvc.Namespace, Name := pvc.Name } pvc) :
    Traced c pods w (removeSTSVolume pvc w).2 := by
  obtain ⟨cs, hcs, hm, -⟩ := removeSTSVolume_effect pvc w
  refine ⟨cs, hcs, ?_⟩
  intro x hx
  rcases hm x hx with h | h | h | h | h
  · rw [h]; exact Warranted.warranted_get _ _ _ _
  · rw [h]; exact ⟨_, pvc, hs, rfl⟩
  · rw [h]; exact ⟨_, pvc, hs, rfl⟩
  · rw [h]; exact ⟨pvc, hs⟩
  · rw [h]; exact ⟨pvc, hs⟩

/-- After `removeSTSVolume` succeeded on a stale claim the invariant of the relocation holds
again: the claim is stored no more, the other claims and the nodes are as before. -/
theorem RelocInv.inv_removeSTSVolume {c : Cluster} {w : World} (h : RelocInv c w)
    (pvc : PersistentVolumeClaim)
    (hc : c.find PersistentVolumeClaim { Namespace := pvc.Namespace, Name := pvc.Name } = some pvc)
    (hg : NodeGone c pvc) (hr : (removeSTSVolume pvc w).1 = none) :
    RelocInv c (removeSTSVolume pvc w).2 := by
  obtain ⟨cs, -, -, hf, hn, hk, hd⟩ := removeSTSVolume_effect pvc w
  obtain ⟨h1, h2, h3⟩ := h
  refine ⟨hf h1, hn.trans h2, ?_⟩
  intro k
  by_cases hkk : k = ({ Namespace := pvc.Namespace, Name := pvc.Name } : Key)
  · rw [hkk]
    exact Or.inr ⟨hd hr, pvc, hc, hg⟩
  · rw [hk k hkk]
    exact h3 k

/-- The loop of the relocation issues warranted requests only, from any world that satisfies
its invariant. -/
theorem moveReplicaPods_traced (cr : JivaVolume) (c : Cluster) (all : List Pod) :
    ∀ (pods : List Pod) (w : World), (∀ p ∈ pods, p ∈ all) → RelocInv c w →
      Traced c all w (moveReplicaPods cr pods w).2 := by
  intro pods
  induction pods with
  | nil => intro w _ _; exact Traced.traced_refl c all w
  | cons pod rest ih =>
    intro w hsub hinv
    have hrest : ∀ p ∈ rest, p ∈ all := fun p hp => hsub p (List.mem_cons_of_mem _ hp)
    have hpod : pod ∈ all := hsub pod (List.mem_cons_self _ _)
    rw [moveReplicaPods]
    by_cases hph : pod.Phase ≠ "Pending"
    · rw [if_pos hph]; exact ih w hrest hinv
    · rw [if_neg hph]
      have hpend : pod.Phase = "Pending" := not_not.1 hph
      split
      · exact Traced.traced_refl c all w
      · exact Traced.traced_refl c all w
      · rename_i claimName hv
        simp only
        have hck : claimKey pod = some { Namespace := pod.Namespace, Name := claimName } := by
          unfold claimKey; rw [hv]
        have ht1 : Traced c all w
            (w.tick (Call.get Kind.PersistentVolumeClaim { Namespace := pod.Namespace, Name := claimName })) :=
          Traced.traced_single rfl (Warranted.warranted_get _ _ _ _)
        have hi1 := hinv.inv_tick
          (Call.get Kind.PersistentVolumeClaim { Namespace := pod.Namespace, Name := claimName })
        rcases hg : apiGet PersistentVolumeClaim { Namespace := pod.Namespace, Name := claimName } w
          with ⟨g, w1⟩
        cases g with
        | error e =>
          obtain ⟨hw1, hcase⟩ := apiGet_error hg
          have hw1k : w1 = w.tick (Call.get Kind.PersistentVolumeClaim
              { Namespace := pod.Namespace, Name := claimName }) := hw1
          subst hw1k
          simp only
          by_cases hnf : e.isNotFound = true
          swap
          · rw [if_neg hnf]; exact ht1
          rw [if_pos hnf]
          have hnone : w.cluster.find PersistentVolumeClaim
              { Namespace := pod.Namespace, Name := claimName } = none := by
            rcases hcase with hc | ⟨-, hnone, -⟩
            · rw [realNotFound_fault hinv.1 hc] at hnf; exact absurd hnf (by simp)
            · exact hnone
          have hrel : Relocatable c pod := by
            refine ⟨hpend, _, hck, ?_⟩
            rcases hinv.2.2 { Namespace := pod.Namespace, Name := claimName } with h | ⟨-, h⟩
            · rw [← h]; exact Or.inl hnone
            · exact Or.inr h
          have hwar : Warranted c all
              (Call.delete Kind.Pod { Namespace := pod.Namespace, Name := pod.Name }) :=
            ⟨pod, hpod, rfl, hrel⟩
          have ht2 := ht1.traced_trans (Traced.traced_deletePod
            (w.tick (Call.get Kind.PersistentVolumeClaim { Namespace := pod.Namespace, Name := claimName }))
            { Namespace := pod.Namespace, Name := pod.Name } hwar)
          have hi2 := hi1.inv_deletePod { Namespace := pod.Namespace, Name := pod.Name }
          rcases hd : apiDelete Pod { Namespace := pod.Namespace, Name := pod.Name }
            (w.tick (Call.get Kind.PersistentVolumeClaim { Namespace := pod.Namespace, Name := claimName }))
            with ⟨e2, w2⟩
          rw [hd] at ht2 hi2
          simp only at ht2 hi2
          have ht3 : Traced c all w (w2.sleep 10) := ht2.traced_trans (Traced.traced_of_calls rfl)
          have hi3 : RelocInv c (w2.sleep 10) := hi2.inv_same (fun h => h) rfl rfl
          cases e2 with
          | none => exact ht3.traced_trans (ih _ hrest hi3)
          | some e2 =>
            simp only
            split
            · exact ht3
            · exact ht3.traced_trans (ih _ hrest hi3)
        | ok pvc =>
          obtain ⟨-, hfind, hw1⟩ := apiGet_ok hg
          have hw1k : w1 = w.tick (Call.get Kind.PersistentVolumeClaim
              { Namespace := pod.Namespace, Name := claimName }) := hw1
          subst hw1k
          simp only
          have hsel : mapGet pvc.Annotations "volume.kubernetes.io/selected-node" = selectedNode pvc := rfl
          rw [hsel]
          by_cases hn : selectedNode pvc ≠ ""
          · rw [if_pos hn]
            have ht2 : Traced c all w
                ((w.tick (Call.get Kind.PersistentVolumeClaim
                  { Namespace := pod.Namespace, Name := claimName })).tick
                  (Call.get Kind.Node { Namespace := "", Name := selectedNode pvc })) :=
              ht1.traced_trans (Traced.traced_single rfl (Warranted.warranted_get _ _ _ _))
            have hi2 := hi1.inv_tick (Call.get Kind.Node { Namespace := "", Name := selectedNode pvc })
            rcases hg2 : apiGet Node { Namespace := "", Name := selectedNode pvc }
                (w.tick (Call.get Kind.PersistentVolumeClaim
                  { Namespace := pod.Namespace, Name := claimName })) with ⟨g2, w2⟩
            cases g2 with
            | ok node =>
              obtain ⟨-, -, hw2⟩ := apiGet_ok hg2
              have hw2k : w2 = (w.tick (Call.get Kind.PersistentVolumeClaim
                  { Namespace := pod.Namespace, Name := claimName })).tick
                  (Call.get Kind.Node { Namespace := "", Name := selectedNode pvc }) := hw2
              subst hw2k
              exact ht2.traced_trans (ih _ hrest hi2)
            | error e =>
              obtain ⟨hw2, hcase⟩ := apiGet_error hg2
              have hw2k : w2 = (w.tick (Call.get Kind.PersistentVolumeClaim
                  { Namespace := pod.Namespace, Name := claimName })).tick
                  (Call.get Kind.Node { Namespace := "", Name := selectedNode pvc }) := hw2
              subst hw2k
              simp only
              by_cases hnf : e.isNotFound = true
              swap
              · rw [if_neg hnf]; exact ht2
              rw [if_pos hnf]
              have hnone : w.cluster.find Node { Namespace := "", Name := selectedNode pvc } = none := by
                rcases hcase with hc | ⟨-, hnone, -⟩
                · rw [realNotFound_fault hi1.1 hc] at hnf; exact absurd hnf (by simp)
                · exact hnone
              -- the claim read is the claim stored at the start, and its node is gone
              have hkey : ({ Namespace := pvc.Namespace, Name := pvc.Name } : Key)
                  = { Namespace := pod.Namespace, Name := claimName } := find_key hfind
              have hcfind : c.find PersistentVolumeClaim
                  { Namespace := pod.Namespace, Name := claimName } = some pvc := by
                rcases hinv.2.2 { Namespace := pod.Namespace, Name := claimName } with h | ⟨h, -⟩
                · rw [← h]; exact hfind
                · rw [hfind] at h; exact absurd h (by simp)
              have hgone : NodeGone c pvc := by
                refine ⟨hn, ?_⟩
                have : c.find Node { Namespace := "", Name := selectedNode pvc }
                    = w.cluster.find Node { Namespace := "", Name := selectedNode pvc } := by
                  show c.Nodes.find? _ = w.cluster.Nodes.find? _
                  rw [hinv.2.1]
                rw [this]
                exact hnone
              have hstale : StaleClaim c all { Namespace := pvc.Namespace, Name := pvc.Name } pvc := by
                rw [hkey]
                exact ⟨pod, hpod, hpend, hck, hcfind, hgone⟩
              have ht3 := ht2.traced_trans (Traced.traced_removeSTSVolume
                ((w.tick (Call.get Kind.PersistentVolumeClaim
                  { Namespace := pod.Namespace, Name := claimName })).tick
                  (Call.get Kind.Node { Namespace := "", Name := selectedNode pvc })) pvc hstale)
              have hi3 := hi2.inv_removeSTSVolume pvc (by rw [hkey]; exact hcfind) hgone
              rcases hr : removeSTSVolume pvc
                ((w.tick (Call.get Kind.PersistentVolumeClaim
                  { Namespace := pod.Namespace, Name := claimName })).tick
                  (Call.get Kind.Node { Namespace := "", Name := selectedNode pvc }))
                with ⟨e2, w3⟩
              rw [hr] at ht3 hi3
              simp only at ht3 hi3
              cases e2 with
              | some e2 => exact ht3
              | none =>
                simp only
                have hi3 := hi3 rfl
                have hrel : Relocatable c pod :=
                  ⟨hpend, _, hck, Or.inr ⟨pvc, hcfind, hgone⟩⟩
                have hwar : Warranted c all
                    (Call.delete Kind.Pod { Namespace := pod.Namespace, Name := pod.Name }) :=
                  ⟨pod, hpod, rfl, hrel⟩
                have ht4 := ht3.traced_trans (Traced.traced_deletePod w3
                  { Namespace := pod.Namespace, Name := pod.Name } hwar)
                have hi4 := hi3.inv_deletePod { Namespace := pod.Namespace, Name := pod.Name }
                rcases hd : apiDelete Pod { Namespace := pod.Namespace, Name := pod.Name } w3
                  with ⟨e3, w4⟩
                rw [hd] at ht4 hi4
                simp only at ht4 hi4
                cases e3 with
                | some e3 => exact ht4
                | none =>
                  simp only
                  have hi5 : RelocInv c ((w4.sleep 10).eventf cr EventTypeWarning "ReplicaMovement"
                      ("replica " ++ pod.Name ++ " and it's corresponding PVC & PV deleted")) :=
                    hi4.inv_same (fun h => h) rfl rfl
                  exact (ht4.traced_trans (Traced.traced_of_calls rfl)).traced_trans (ih _ hrest hi5)
          · rw [if_neg hn]
            exact ht1.traced_trans (ih _ hrest hi1)

/-- On the sample world with a stale claim the relocation reads the claim, the node and
the volume, removes the volume and the claim and then the pod. -/
theorem moveReplicasForMissingNodes_stale :
    moveReplicasForMissingNodes sampleReconciler sampleVolume sampleStaleWorld
      = (Ret.done none,
          { sampleStaleWorld with
            cluster := { sampleStaleWorld.cluster with Pods := [], PVCs := [], PVs := [] },
            calls :=
              [Call.list Kind.Pod "openebs",
               Call.get Kind.PersistentVolumeClaim
                 { Namespace := "openebs", Name := "openebs-pvc-1-jiva-rep-0" },
               Call.get Kind.Node { Namespace := "", Name := "node-1" },
               Call.get Kind.PersistentVolume { Namespace := "", Name := "pv-rep-0" },
               Call.patch Kind.PersistentVolume { Namespace := "", Name := "pv-rep-0" },
               Call.delete Kind.PersistentVolume { Namespace := "", Name := "pv-rep-0" },
               Call.patch Kind.PersistentVolumeClaim
                 { Namespace := "openebs", Name := "openebs-pvc-1-jiva-rep-0" },
               Call.delete Kind.PersistentVolumeClaim
                 { Namespace := "openebs", Name := "openebs-pvc-1-jiva-rep-0" },
               Call.delete Kind.Pod { Namespace := "openebs", Name := "pvc-1-jiva-rep-0" }],
            slept := 10,
            events := [{ Object := "pvc-1", EventType := "Warning", Reason := "ReplicaMovement",
                         Message := "replica pvc-1-jiva-rep-0 and it's corresponding PVC & PV deleted" }] }) := by
  decide

/-- C20, as stated, fails: the sample volume is HA, its pending replica pod has a claim
name under which no claim is stored, so that no claim of the pod is bound or annotated to
any node, and the one node of the cluster is stored; `moveReplicasForMissingNodes` reads
the claim, gets `NotFound`, deletes the pod and returns no error. -/
theorem moveReplicasForMissingNodes_deletes_orphan :
    isHAVolume sampleVolume = true ∧
    replicaPods sampleVolume sampleOrphanWorld.cluster = [samplePendingPod] ∧
    claimKey samplePendingPod
      = some { Namespace := "openebs", Name := "openebs-pvc-1-jiva-rep-0" } ∧
    sampleOrphanWorld.cluster.PVCs = [] ∧
    sampleOrphanWorld.faults = [] ∧
    moveReplicasForMissingNodes sampleReconciler sampleVolume sampleOrphanWorld
      = (Ret.done none,
          { sampleOrphanWorld with
            cluster := { sampleOrphanWorld.cluster with Pods := [] },
            calls :=
              [Call.list Kind.Pod "openebs",
               Call.get Kind.PersistentVolumeClaim
                 { Namespace := "openebs", Name := "openebs-pvc-1-jiva-rep-0" },
               Call.delete Kind.Pod { Namespace := "openebs", Name := "pvc-1-jiva-rep-0" }],
            slept := 10 }) := by
  refine ⟨by decide, by decide, by decide, rfl, rfl, by decide⟩

/-- The assumption on `NotFound` answers cannot be dropped in the model: on the world in which
the node `node-1` of the claim is stored, a fault script that answers the read of the node
with `NotFound` nevertheless makes `moveReplicasForMissingNodes` remove the volume, the claim
and the pod. -/
theorem moveReplicasForMissingNodes_untrue_notFound :
    realNotFound (notFoundAt sampleSettledWorld 2).faults = false ∧
    (sampleSettledWorld.cluster.find Node { Namespace := "", Name := "node-1" }).isSome = true ∧
    (moveReplicasForMissingNodes sampleReconciler sampleVolume (notFoundAt sampleSettledWorld 2)).1
      = Ret.done none ∧
    (moveReplicasForMissingNodes sampleReconciler sampleVolume
        (notFoundAt sampleSettledWorld 2)).2.cluster.PVCs = [] ∧
    (moveReplicasForMissingNodes sampleReconciler sampleVolume
        (notFoundAt sampleSettledWorld 2)).2.cluster.Pods = [] := by
  refine ⟨by decide, by decide, by decide, by decide, by decide⟩

/-- C20, amended: `moveReplicasForMissingNodes` returns at once, without a request, when
`isHAVolume` is false. In every run in which a request answers `NotFound` only for an object
that is not stored, whatever other errors its requests meet and wherever they meet them,
every request it issues is warranted by the cluster it starts from and the replica pods it
lists there: besides reads, it deletes a pod only when the pod is listed, is in phase
`Pending`, and either no claim is stored under the claim name of its first volume or that
claim carries a selected-node annotation naming a node that is not stored; it patches or
deletes a claim only when the claim is that of a listed pending pod and is annotated to a
node that is not stored, and a volume only when it is the volume of such a claim; it creates
and updates nothing and patches no pod. -/
theorem moveReplicasForMissingNodes_warranted (r : JivaVolumeReconciler) (cr : JivaVolume)
    (w : World) :
    (isHAVolume cr = false → moveReplicasForMissingNodes r cr w = (Ret.done none, w)) ∧
    (realNotFound w.faults = true →
      ∀ x ∈ issued w (moveReplicasForMissingNodes r cr w).2,
        Warranted w.cluster (replicaPods cr w.cluster) x) := by
  constructor
  · intro h
    unfold moveReplicasForMissingNodes
    rw [h]; rfl
  · intro hf
    have key : Traced w.cluster (replicaPods cr w.cluster) w
        (moveReplicasForMissingNodes r cr w).2 := by
      unfold moveReplicasForMissingNodes
      split
      · exact Traced.traced_refl _ _ _
      · simp only
        split
        · exact Traced.traced_refl _ _ _
        · have ht1 : Traced w.cluster (replicaPods cr w.cluster) w
              (w.tick (Call.list Kind.Pod cr.Namespace)) :=
            Traced.traced_single rfl (by unfold Warranted; trivial)
          cases hfault : w.fault with
          | some e =>
            have hlist : apiListPods cr.Namespace
                (fun pod => hasLabel pod.Labels "openebs.io/component" "jiva-replica"
                  && hasLabel pod.Labels "openebs.io/persistent-volume" cr.Name) w
                = (Except.error e, w.tick (Call.list Kind.Pod cr.Namespace)) := by
              unfold apiListPods
              simp only [hfault]
            rw [hlist]
            exact ht1
          | none =>
            have hlist : apiListPods cr.Namespace
                (fun pod => hasLabel pod.Labels "openebs.io/component" "jiva-replica"
                  && hasLabel pod.Labels "openebs.io/persistent-volume" cr.Name) w
                = (Except.ok (replicaPods cr w.cluster), w.tick (Call.list Kind.Pod cr.Namespace)) := by
              unfold apiListPods
              simp only [hfault]
              rfl
            rw [hlist]
            simp only
            have hi0 : RelocInv w.cluster w := ⟨hf, rfl, fun _ => Or.inl rfl⟩
            exact ht1.traced_trans (moveReplicaPods_traced cr w.cluster (replicaPods cr w.cluster)
              (replicaPods cr w.cluster) _ (fun _ hp => hp) (hi0.inv_tick _))
    obtain ⟨cs, hcs, hm⟩ := key
    rw [issued_of_calls hcs]
    exact hm

/-- C20, amended, on the sample worlds: the volume without a read-write replica is left
alone; the requests issued for the HA volume with a stale claim are warranted when no
request fails, and also when the `Patch` of the volume of the claim, the fifth request,
fails with an error of the API server and the relocation returns that error. -/
theorem moveReplicasForMissingNodes_warranted_witness :
    (isHAVolume sampleDegradedVolume = false ∧
      moveReplicasForMissingNodes sampleReconciler sampleDegradedVolume sampleStaleWorld
        = (Ret.done none, sampleStaleWorld)) ∧
    (realNotFound sampleStaleWorld.faults = true ∧
      ∀ x ∈ issued sampleStaleWorld
          (moveReplicasForMissingNodes sampleReconciler sampleVolume sampleStaleWorld).2,
        Warranted sampleStaleWorld.cluster (replicaPods sampleVolume sampleStaleWorld.cluster) x) ∧
    (realNotFound (timeoutAt sampleStaleWorld 4).faults = true ∧
      (moveReplicasForMissingNodes sampleReconciler sampleVolume (timeoutAt sampleStaleWorld 4)).1
        = Ret.done (some (Err.api "timeout")) ∧
      ∀ x ∈ issued (timeoutAt sampleStaleWorld 4)
          (moveReplicasForMissingNodes sampleReconciler sampleVolume (timeoutAt sampleStaleWorld 4)).2,
        Warranted (timeoutAt sampleStaleWorld 4).cluster
          (replicaPods sampleVolume (timeoutAt sampleStaleWorld 4).cluster) x) :=
  ⟨⟨by decide,
     (moveReplicasForMissingNodes_warranted sampleReconciler sampleDegradedVolume
       sampleStaleWorld).1 (by decide)⟩,
   ⟨by decide,
     (moveReplicasForMissingNodes_warranted sampleReconciler sampleVolume
       sampleStaleWorld).2 (by decide)⟩,
   ⟨by decide, by decide,
     (moveReplicasForMissingNodes_warranted sampleReconciler sampleVolume
       (timeoutAt sampleStaleWorld 4)).2 (by decide)⟩⟩

/-! ### Deletes that answer `NotFound` -/

/-- C21, on a failing input: the sample HA volume with a pending replica pod whose claim is
annotated to a node that is gone, when the volume of the claim goes away between its
`Patch` and its `Delete`, so that the `Delete`, the sixth request, answers `NotFound`.
`removeSTSVolume` does not take that answer for success: it returns the error, the claim
is neither patched nor deleted, the pod stays and `moveReplicasForMissingNodes` returns the
error. The same happens when the `Delete` of the claim, the eighth request, or the `Delete`
of the pod, the ninth, answers `NotFound`. -/
theorem moveReplicasForMissingNodes_delete_notFound :
    isHAVolume sampleVolume = true ∧
    (moveReplicasForMissingNodes sampleReconciler sampleVolume (notFoundAt sampleStaleWorld 5)).1
      = Ret.done (some Err.notFound) ∧
    issued (notFoundAt sampleStaleWorld 5)
        (moveReplicasForMissingNodes sampleReconciler sampleVolume (notFoundAt sampleStaleWorld 5)).2
      = [Call.list Kind.Pod "openebs",
         Call.get Kind.PersistentVolumeClaim
           { Namespace := "openebs", Name := "openebs-pvc-1-jiva-rep-0" },
         Call.get Kind.Node { Namespace := "", Name := "node-1" },
         Call.get Kind.PersistentVolume { Namespace := "", Name := "pv-rep-0" },
         Call.patch Kind.PersistentVolume { Namespace := "", Name := "pv-rep-0" },
         Call.delete Kind.PersistentVolume { Namespace := "", Name := "pv-rep-0" }] ∧
    (moveReplicasForMissingNodes sampleReconciler sampleVolume (notFoundAt sampleStaleWorld 5)).2.cluster.PVCs
      = [sampleReplicaClaim] ∧
    (moveReplicasForMissingNodes sampleReconciler sampleVolume (notFoundAt sampleStaleWorld 5)).2.cluster.Pods
      = [samplePendingPod] ∧
    (moveReplicasForMissingNodes sampleReconciler sampleVolume (notFoundAt sampleStaleWorld 7)).1
      = Ret.done (some Err.notFound) ∧
    (moveReplicasForMissingNodes sampleReconciler sampleVolume
        (notFoundAt sampleStaleWorld 7)).2.cluster.Pods = [samplePendingPod] ∧
    (moveReplicasForMissingNodes sampleReconciler sampleVolume (notFoundAt sampleStaleWorld 8)).1
      = Ret.done (some Err.notFound) := by
  refine ⟨by decide, by decide, by decide, by decide, by decide, by decide, by decide, by decide⟩

/-- The deletes of the relocation and the errors they get: the one of a pending pod whose
claim is not found passes over `NotFound`, and the loop goes on with the pods left after
the pause. The three others return whatever error they get, `NotFound` included, and
nothing follows: an error of the `Delete` of the volume ends `removeSTSVolume` before the
claim is touched, an error of the `Delete` of the claim ends it as well, and an error of the
`Delete` of the pod whose node is gone ends `moveReplicasForMissingNodes`. -/
theorem relocation_delete_errors (cr : JivaVolume) (pod : Pod) (rest : List Pod)
    (pvc : PersistentVolumeClaim) (claimName : String) (e : Err) :
    (∀ w w1 w2 e1, pod.Phase = "Pending" →
      pod.Volumes.head?.map (fun v => v.ClaimName) = some (some claimName) →
      apiGet PersistentVolumeClaim { Namespace := pod.Namespace, Name := claimName } w
        = (Except.error e1, w1) →
      e1.isNotFound = true →
      apiDelete Pod { Namespace := pod.Namespace, Name := pod.Name } w1 = (some e, w2) →
      e.isNotFound = true →
      moveReplicaPods cr (pod :: rest) w = moveReplicaPods cr rest (w2.sleep 10)) ∧
    (∀ w w1 w2 w3 w4 e1, pod.Phase = "Pending" →
      pod.Volumes.head?.map (fun v => v.ClaimName) = some (some claimName) →
      apiGet PersistentVolumeClaim { Namespace := pod.Namespace, Name := claimName } w
        = (Except.ok pvc, w1) →
      selectedNode pvc ≠ "" →
      apiGet Node { Namespace := "", Name := selectedNode pvc } w1 = (Except.error e1, w2) →
      e1.isNotFound = true →
      removeSTSVolume pvc w2 = (none, w3) →
      apiDelete Pod { Namespace := pod.Namespace, Name := pod.Name } w3 = (some e, w4) →
      moveReplicaPods cr (pod :: rest) w = (Ret.done (some e), w4)) ∧
    (∀ w w1 w2 w3 pv,
      apiGet PersistentVolume { Namespace := "", Name := pvc.VolumeName } w = (Except.ok pv, w1) →
      apiPatch PersistentVolume { Namespace := "", Name := pvc.VolumeName }
        (fun v => { v with Finalizers := [] }) w1 = (none, w2) →
      apiDelete PersistentVolume { Namespace := "", Name := pvc.VolumeName } w2 = (some e, w3) →
      removeSTSVolume pvc w = (some e, w3)) ∧
    (∀ w w1 w2,
      apiPatch PersistentVolumeClaim { Namespace := pvc.Namespace, Name := pvc.Name }
        (fun c => { c with Finalizers := [] }) w = (none, w1) →
      apiDelete PersistentVolumeClaim { Namespace := pvc.Namespace, Name := pvc.Name } w1
        = (some e, w2) →
      removeSTSVolumeClaim pvc w = (some e, w2)) := by
  refine ⟨?_, ?_, ?_, ?_⟩
  · intro w w1 w2 e1 hph hv hg he1 hd he
    rw [moveReplicaPods, if_neg (by simpa using hph)]
    simp only [hv, hg, he1, if_true, hd, he, Bool.not_true, Bool.false_eq_true, if_false]
  · intro w w1 w2 w3 w4 e1 hph hv hg hn hg2 he1 hr hd
    have hn' : mapGet pvc.Annotations "volume.kubernetes.io/selected-node" ≠ "" := hn
    have hg2' : apiGet Node
        { Namespace := "", Name := mapGet pvc.Annotations "volume.kubernetes.io/selected-node" } w1
        = (Except.error e1, w2) := hg2
    rw [moveReplicaPods, if_neg (by simpa using hph)]
    simp only [hv, hg, if_pos hn', hg2', he1, if_true, hr, hd]
  · intro w w1 w2 w3 pv hg hp hd
    unfold removeSTSVolume
    simp only [hg, hp, hd]
  · intro w w1 w2 hp hd
    unfold removeSTSVolumeClaim
    simp only [hp, hd]

/-- On the sample worlds: the pod without a claim whose `Delete` answers `NotFound` is passed
over, and each of the three other deletes that answers `NotFound` ends the relocation with
that error. -/
theorem relocation_delete_errors_witness :
    moveReplicaPods sampleVolume [samplePendingPod] (notFoundAt sampleOrphanWorld 1)
      = moveReplicaPods sampleVolume []
          ((apiDelete Pod { Namespace := "openebs", Name := "pvc-1-jiva-rep-0" }
            (apiGet PersistentVolumeClaim
              { Namespace := "openebs", Name := "openebs-pvc-1-jiva-rep-0" }
              (notFoundAt sampleOrphanWorld 1)).2).2.sleep 10) ∧
    (moveReplicaPods sampleVolume [samplePendingPod] (notFoundAt sampleStaleWorld 7)).1
      = Ret.done (some Err.notFound) ∧
    (removeSTSVolume sampleReplicaClaim (notFoundAt sampleStaleWorld 2)).1 = some Err.notFound ∧
    (removeSTSVolumeClaim sampleReplicaClaim (notFoundAt sampleStaleWorld 1)).1
      = some Err.notFound :=
  ⟨(relocation_delete_errors sampleVolume samplePendingPod [] sampleReplicaClaim
      "openebs-pvc-1-jiva-rep-0" Err.notFound).1 (notFoundAt sampleOrphanWorld 1)
      (apiGet PersistentVolumeClaim { Namespace := "openebs", Name := "openebs-pvc-1-jiva-rep-0" }
        (notFoundAt sampleOrphanWorld 1)).2
      (apiDelete Pod { Namespace := "openebs", Name := "pvc-1-jiva-rep-0" }
        (apiGet PersistentVolumeClaim { Namespace := "openebs", Name := "openebs-pvc-1-jiva-rep-0" }
          (notFoundAt sampleOrphanWorld 1)).2).2
      Err.notFound (by decide) (by decide) rfl (by decide) (by decide) (by decide),
   congrArg Prod.fst
    ((relocation_delete_errors sampleVolume samplePendingPod [] sampleReplicaClaim
      "openebs-pvc-1-jiva-rep-0" Err.notFound).2.1 (notFoundAt sampleStaleWorld 7)
      (apiGet PersistentVolumeClaim { Namespace := "openebs", Name := "openebs-pvc-1-jiva-rep-0" }
        (notFoundAt sampleStaleWorld 7)).2
      (apiGet Node { Namespace := "", Name := "node-1" }
        (apiGet PersistentVolumeClaim { Namespace := "openebs", Name := "openebs-pvc-1-jiva-rep-0" }
          (notFoundAt sampleStaleWorld 7)).2).2
      (removeSTSVolume sampleReplicaClaim
        (apiGet Node { Namespace := "", Name := "node-1" }
          (apiGet PersistentVolumeClaim { Namespace := "openebs", Name := "openebs-pvc-1-jiva-rep-0" }
            (notFoundAt sampleStaleWorld 7)).2).2).2
      (apiDelete Pod { Namespace := "openebs", Name := "pvc-1-jiva-rep-0" }
        (removeSTSVolume sampleReplicaClaim
          (apiGet Node { Namespace := "", Name := "node-1" }
            (apiGet PersistentVolumeClaim { Namespace := "openebs", Name := "openebs-pvc-1-jiva-rep-0" }
              (notFoundAt sampleStaleWorld 7)).2).2).2).2
      Err.notFound
      (by decide) (by decide) rfl (by decide) rfl (by decide) (by decide) (by decide)),
   congrArg Prod.fst
    ((relocation_delete_errors sampleVolume samplePendingPod [] sampleReplicaClaim
      "openebs-pvc-1-jiva-rep-0" Err.notFound).2.2.1 (notFoundAt sampleStaleWorld 2)
      (apiGet PersistentVolume { Namespace := "", Name := "pv-rep-0" }
        (notFoundAt sampleStaleWorld 2)).2
      (apiPatch PersistentVolume { Namespace := "", Name := "pv-rep-0" }
        (fun v => { v with Finalizers := [] })
        (apiGet PersistentVolume { Namespace := "", Name := "pv-rep-0" }
          (notFoundAt sampleStaleWorld 2)).2).2
      (apiDelete PersistentVolume { Namespace := "", Name := "pv-rep-0" }
        (apiPatch PersistentVolume { Namespace := "", Name := "pv-rep-0" }
          (fun v => { v with Finalizers := [] })
          (apiGet PersistentVolume { Namespace := "", Name := "pv-rep-0" }
            (notFoundAt sampleStaleWorld 2)).2).2).2
      { Name := "pv-rep-0", Finalizers := ["kubernetes.io/pv-protection"] }
      rfl (by decide) (by decide)),
   congrArg Prod.fst
    ((relocation_delete_errors sampleVolume samplePendingPod [] sampleReplicaClaim
      "openebs-pvc-1-jiva-rep-0" Err.notFound).2.2.2 (notFoundAt sampleStaleWorld 1)
      (apiPatch PersistentVolumeClaim { Namespace := "openebs", Name := "openebs-pvc-1-jiva-rep-0" }
        (fun c => { c with Finalizers := [] }) (notFoundAt sampleStaleWorld 1)).2
      (apiDelete PersistentVolumeClaim { Namespace := "openebs", Name := "openebs-pvc-1-jiva-rep-0" }
        (apiPatch PersistentVolumeClaim { Namespace := "openebs", Name := "openebs-pvc-1-jiva-rep-0" }
          (fun c => { c with Finalizers := [] }) (notFoundAt sampleStaleWorld 1)).2).2
      (by decide) (by decide))⟩

/-! ### The export recorded from the target service -/

/-- The loop over the ports, in terms of the port named `iscsi`. -/
theorem setTargetPort_eq (pv : String) (ports : List ServicePort) :
    ∀ (b : Bool) (x : ISCSISpec),
      setTargetPort pv ports (b, x) =
        match iscsiPort ports with
        | some port =>
          (true, { x with TargetPort := port.Port, Iqn := "iqn.2016-09.com.openebs.jiva:" ++ pv })
        | none => (b, x) := by
  induction ports with
  | nil => intro b x; rfl
  | cons port rest ih =>
    intro b x
    have hrev : iscsiPort (port :: rest)
        = (iscsiPort rest).or (if port.Name = "iscsi" then some port else none) := by
      unfold iscsiPort
      rw [List.reverse_cons, List.find?_append]
      by_cases hn : port.Name = "iscsi"
      · simp [List.find?_cons, hn]
      · simp [List.find?_cons, hn]
    have hstr : "iqn.2016-09.com.openebs.jiva" ++ ":" ++ pv = "iqn.2016-09.com.openebs.jiva:" ++ pv := by
      have h0 : "iqn.2016-09.com.openebs.jiva" ++ ":" = "iqn.2016-09.com.openebs.jiva:" := by decide
      rw [h0]
    unfold setTargetPort
    rw [hrev]
    by_cases hn : port.Name = "iscsi"
    · rw [if_pos hn, if_pos hn, ih, hstr]
      cases iscsiPort rest <;> rfl
    · rw [if_neg hn, if_neg hn, ih]
      cases iscsiPort rest <;> rfl

/-- The update of a stored volume, without fault, at the level of the client call. -/
theorem apiUpdate_volume_ok {cr : JivaVolume} {w : World} (hf : w.faults = [])
    (hx : (w.cluster.find JivaVolume { Namespace := cr.Namespace, Name := cr.Name }).isSome = true) :
    (apiUpdate cr w).1 = none ∧ (apiUpdate cr w).2.faults = [] ∧
    (apiUpdate cr w).2.cluster.find JivaVolume { Namespace := cr.Namespace, Name := cr.Name }
      = some cr := by
  have hwr : writeResult JivaVolume (Resource.key cr) w = none :=
    writeResult_of_find (fault_of_faults_nil hf) hx
  have hupd : apiUpdate cr w = (none, (apiUpdate cr w).2) := by
    unfold apiUpdate
    rw [hwr]
  obtain ⟨-, -, hw1⟩ := apiUpdate_none hupd
  refine ⟨by rw [hupd], ?_, ?_⟩
  · rw [hw1]
    show w.faults.tail = []
    rw [hf]; rfl
  · rw [hw1]
    exact find_map_const (fun (y : JivaVolume) => ({ Namespace := y.Namespace, Name := y.Name } : Key))
      { Namespace := cr.Namespace, Name := cr.Name } cr rfl w.cluster.Volumes hx

/-- C22: with the target service read, `updateJivaVolumeWithServiceInfo` records the export
from it. When the service has a port named `iscsi`, the volume is stored and no call fails,
the volume gets the cluster address of the service as target address, the number of that
port as target port and the fixed prefix followed by the name of the persistent volume as
identifier, its phase becomes `Pending`, no error is returned and the volume so changed is
the stored one. When no port of the service is named `iscsi`, an error is returned, the
read of the service is the only request, the cluster is as before and the phase is the one
the volume had. The service the installer builds has `3260` as its port `iscsi`. -/
theorem updateJivaVolumeWithServiceInfo_spec (cr : JivaVolume) (w : World) (svc : Service) :
    (∀ port, w.faults = [] →
      w.cluster.find Service { Namespace := cr.Namespace, Name := cr.Name ++ "-jiva-ctrl-svc" }
        = some svc →
      (w.cluster.find JivaVolume { Namespace := cr.Namespace, Name := cr.Name }).isSome = true →
      iscsiPort svc.Ports = some port →
      (updateJivaVolumeWithServiceInfo cr w).1 = none ∧
      (updateJivaVolumeWithServiceInfo cr w).2.1
        = (cr.withISCSISpec (exportOf cr svc.ClusterIP port)).withPhase JivaVolumePhasePending ∧
      (updateJivaVolumeWithServiceInfo cr w).2.2.cluster.find JivaVolume
          { Namespace := cr.Namespace, Name := cr.Name }
        = some ((cr.withISCSISpec (exportOf cr svc.ClusterIP port)).withPhase
            JivaVolumePhasePending)) ∧
    (getResult Service { Namespace := cr.Namespace, Name := cr.Name ++ "-jiva-ctrl-svc" } w
        = Except.ok svc →
      (∀ port ∈ svc.Ports, port.Name ≠ "iscsi") →
      (updateJivaVolumeWithServiceInfo cr w).1
        = some (Err.msg (updateErrMsg ++ ", err: can't find targetPort in target service spec")) ∧
      issued w (updateJivaVolumeWithServiceInfo cr w).2.2
        = [Call.get Kind.Service { Namespace := cr.Namespace, Name := cr.Name ++ "-jiva-ctrl-svc" }] ∧
      (updateJivaVolumeWithServiceInfo cr w).2.2.cluster = w.cluster ∧
      (updateJivaVolumeWithServiceInfo cr w).2.1.Status.Phase = cr.Status.Phase) ∧
    (∀ r, iscsiPort (controllerServiceObj r cr).Ports
      = some { Name := "iscsi", Port := 3260, Protocol := "TCP", TargetPort := 3260 }) := by
  refine ⟨?_, ?_, fun _ => rfl⟩
  · intro port hf hsvc hvol hport
    have hti : targetInfo cr svc = (true, exportOf cr svc.ClusterIP port) := by
      unfold targetInfo
      rw [setTargetPort_eq, hport]
      rfl
    have hw1f : (w.tick (Call.get (Resource.kind Service)
        { Namespace := cr.Namespace, Name := cr.Name ++ "-jiva-ctrl-svc" })).faults = [] :=
      tick_faults_nil hf _
    obtain ⟨hu1, hu2, hu3⟩ := @apiUpdate_volume_ok
      ((cr.withISCSISpec (exportOf cr svc.ClusterIP port)).withPhase JivaVolumePhasePending)
      (w.tick (Call.get (Resource.kind Service)
        { Namespace := cr.Namespace, Name := cr.Name ++ "-jiva-ctrl-svc" })) hw1f hvol
    have hg := @getJivaVolume_ok
      ((cr.withISCSISpec (exportOf cr svc.ClusterIP port)).withPhase JivaVolumePhasePending)
      _ hu2 (by rw [hu3]; rfl)
    unfold updateJivaVolumeWithServiceInfo
    rw [apiGet_of_find (fault_of_faults_nil hf) hsvc]
    simp only [hti, Bool.not_true, Bool.false_eq_true, if_false]
    rcases hu : apiUpdate
        ((cr.withISCSISpec (exportOf cr svc.ClusterIP port)).withPhase JivaVolumePhasePending)
        (w.tick (Call.get (Resource.kind Service)
          { Namespace := cr.Namespace, Name := cr.Name ++ "-jiva-ctrl-svc" })) with ⟨e, w2⟩
    rw [hu] at hu1 hu2 hu3 hg
    simp only at hu1 hu2 hu3 hg
    subst hu1
    simp only [hg]
    exact ⟨trivial, trivial, hu3⟩
  · intro hget hports
    have hnone : iscsiPort svc.Ports = none := by
      unfold iscsiPort
      rw [List.find?_eq_none]
      intro port hp
      simpa using hports port (List.mem_reverse.1 hp)
    have hti : targetInfo cr svc
        = (false, { cr.Spec.ISCSISpec with TargetIP := svc.ClusterIP }) := by
      unfold targetInfo
      rw [setTargetPort_eq, hnone]
    have hg : apiGet Service { Namespace := cr.Namespace, Name := cr.Name ++ "-jiva-ctrl-svc" } w
        = (Except.ok svc, w.tick (Call.get Kind.Service
            { Namespace := cr.Namespace, Name := cr.Name ++ "-jiva-ctrl-svc" })) := by
      unfold apiGet
      rw [hget]
      rfl
    unfold updateJivaVolumeWithServiceInfo
    rw [hg]
    simp only [hti, Bool.not_false, if_true]
    exact ⟨trivial, issued_of_calls rfl, rfl, rfl⟩

/-- C22 on the sample worlds: the fresh sample volume gets the export of the sample service,
`10.0.0.1:3260`, and the service without a port `iscsi` is refused. -/
theorem updateJivaVolumeWithServiceInfo_spec_witness :
    ((updateJivaVolumeWithServiceInfo sampleFreshVolume (serviceWorld sampleService)).1 = none ∧
      (updateJivaVolumeWithServiceInfo sampleFreshVolume (serviceWorld sampleService)).2.1
        = sampleVolume.withPhase JivaVolumePhasePending ∧
      (updateJivaVolumeWithServiceInfo sampleFreshVolume
          (serviceWorld sampleService)).2.2.cluster.find JivaVolume
          { Namespace := "openebs", Name := "pvc-1" }
        = some (sampleVolume.withPhase JivaVolumePhasePending)) ∧
    ((updateJivaVolumeWithServiceInfo sampleFreshVolume (serviceWorld sampleBareService)).1
        = some (Err.msg (updateErrMsg ++ ", err: can't find targetPort in target service spec")) ∧
      issued (serviceWorld sampleBareService)
          (updateJivaVolumeWithServiceInfo sampleFreshVolume (serviceWorld sampleBareService)).2.2
        = [Call.get Kind.Service { Namespace := "openebs", Name := "pvc-1-jiva-ctrl-svc" }] ∧
      (updateJivaVolumeWithServiceInfo sampleFreshVolume
          (serviceWorld sampleBareService)).2.2.cluster = (serviceWorld sampleBareService).cluster ∧
      (updateJivaVolumeWithServiceInfo sampleFreshVolume
          (serviceWorld sampleBareService)).2.1.Status.Phase = "") :=
  ⟨(updateJivaVolumeWithServiceInfo_spec sampleFreshVolume (serviceWorld sampleService)
      sampleService).1 { Name := "iscsi", Port := 3260, Protocol := "TCP", TargetPort := 3260 }
      rfl (by decide) (by decide) (by decide),
   (updateJivaVolumeWithServiceInfo_spec sampleFreshVolume (serviceWorld sampleBareService)
      sampleBareService).2.1 rfl (by decide)⟩

/-! ### Failures of the reads and patches of the scale-up -/

/-- C23, as stated, fails: on the sample world of the scale-up, when the `Get` that reloads
the volume after its update, the sixth request of `performScaleup`, answers `NotFound`,
the error returned is that error wrapped twice, and the volume has the desired factor `4`
and phase `Syncing`, in the hands of the caller and as stored, where it had factor `3` and
phase `Ready`. -/
theorem performScaleup_reload_fails :
    sampleScaleVolume.Spec.Policy.Target.ReplicationFactor = 3 ∧
    sampleScaleVolume.Status.Phase = JivaVolumePhaseReady ∧
    (performScaleup sampleScaleVolume (notFoundAt sampleScaleWorld 5)).1
      = Ret.done (some (Err.wrap "failed to update JivaVolume phase"
          (Err.wrap "failed to get JivaVolume, err" Err.notFound))) ∧
    issued (notFoundAt sampleScaleWorld 5)
        (performScaleup sampleScaleVolume (notFoundAt sampleScaleWorld 5)).2.2
      = [Call.get Kind.StatefulSet { Namespace := "openebs", Name := "pvc-1-jiva-rep" },
         Call.patch Kind.StatefulSet { Namespace := "openebs", Name := "pvc-1-jiva-rep" },
         Call.get Kind.Deployment { Namespace := "openebs", Name := "pvc-1-jiva-ctrl" },
         Call.patch Kind.Deployment { Namespace := "openebs", Name := "pvc-1-jiva-ctrl" },
         Call.update Kind.JivaVolume { Namespace := "openebs", Name := "pvc-1" },
         Call.get Kind.JivaVolume { Namespace := "openebs", Name := "pvc-1" }] ∧
    (performScaleup sampleScaleVolume
        (notFoundAt sampleScaleWorld 5)).2.1.Spec.Policy.Target.ReplicationFactor = 4 ∧
    (performScaleup sampleScaleVolume (notFoundAt sampleScaleWorld 5)).2.1.Status.Phase
      = JivaVolumePhaseSyncing ∧
    ((performScaleup sampleScaleVolume (notFoundAt sampleScaleWorld 5)).2.2.cluster.find
        JivaVolume { Namespace := "openebs", Name := "pvc-1" }).map
        (fun x => (x.Spec.Policy.Target.ReplicationFactor, x.Status.Phase))
      = some (4, JivaVolumePhaseSyncing) := by
  refine ⟨by decide, by decide, by decide, by decide, by decide, by decide, by decide⟩

/-- C23, amended: `performScaleup` issues, in this order, the `Get` and the `Patch` of the
replica stateful set, the `Get` and the `Patch` of the target deployment, the `Update` of
the volume and the `Get` that reloads it. When one of the first four fails,
`performScaleup` returns its error as it is, the world is the one right after the failing
call, so that no request follows it, the volume in the hands of the caller is the one
handed in, with its effective replication factor and phase, and the stored volumes are
those from before. When the `Update` fails, its error is returned wrapped and no request
follows, the stored volumes are those from before, and the volume in hand has the desired
factor and phase `Syncing` already. When the reload fails, its error is returned wrapped
and no request follows, and the volume has the desired factor and phase `Syncing` in hand
and as stored. -/
theorem performScaleup_aborts (cr : JivaVolume) (w : World) (e : Err) :
    (∀ w1,
      apiGet StatefulSet { Namespace := cr.Namespace, Name := cr.Name ++ "-jiva-rep" } w
        = (Except.error e, w1) →
      performScaleup cr w = (Ret.done (some e), cr, w1) ∧
      w1.cluster = w.cluster ∧
      issued w w1
        = [Call.get Kind.StatefulSet { Namespace := cr.Namespace, Name := cr.Name ++ "-jiva-rep" }]) ∧
    (∀ s0 w1 w2,
      apiGet StatefulSet { Namespace := cr.Namespace, Name := cr.Name ++ "-jiva-rep" } w
        = (Except.ok s0, w1) →
      apiPatch StatefulSet { Namespace := cr.Namespace, Name := cr.Name ++ "-jiva-rep" }
        (fun s => { s with Replicas := int32 cr.Spec.DesiredReplicationFactor }) w1 = (some e, w2) →
      performScaleup cr w = (Ret.done (some e), cr, w2) ∧
      w2.cluster = w.cluster ∧
      issued w w2
        = [Call.get Kind.StatefulSet { Namespace := cr.Namespace, Name := cr.Name ++ "-jiva-rep" },
           Call.patch Kind.StatefulSet { Namespace := cr.Namespace, Name := cr.Name ++ "-jiva-rep" }]) ∧
    (∀ s0 w1 w2 w3,
      apiGet StatefulSet { Namespace := cr.Namespace, Name := cr.Name ++ "-jiva-rep" } w
        = (Except.ok s0, w1) →
      apiPatch StatefulSet { Namespace := cr.Namespace, Name := cr.Name ++ "-jiva-rep" }
        (fun s => { s with Replicas := int32 cr.Spec.DesiredReplicationFactor }) w1 = (none, w2) →
      apiGet Deployment { Namespace := cr.Namespace, Name := cr.Name ++ "-jiva-ctrl" } w2
        = (Except.error e, w3) →
      performScaleup cr w = (Ret.done (some e), cr, w3) ∧
      w3.cluster.Volumes = w.cluster.Volumes ∧
      issued w w3
        = [Call.get Kind.StatefulSet { Namespace := cr.Namespace, Name := cr.Name ++ "-jiva-rep" },
           Call.patch Kind.StatefulSet { Namespace := cr.Namespace, Name := cr.Name ++ "-jiva-rep" },
           Call.get Kind.Deployment { Namespace := cr.Namespace, Name := cr.Name ++ "-jiva-ctrl" }]) ∧
    (∀ s0 d0 cs w1 w2 w3 w4,
      apiGet StatefulSet { Namespace := cr.Namespace, Name := cr.Name ++ "-jiva-rep" } w
        = (Except.ok s0, w1) →
      apiPatch StatefulSet { Namespace := cr.Namespace, Name := cr.Name ++ "-jiva-rep" }
        (fun s => { s with Replicas := int32 cr.Spec.DesiredReplicationFactor }) w1 = (none, w2) →
      apiGet Deployment { Namespace := cr.Namespace, Name := cr.Name ++ "-jiva-ctrl" } w2
        = (Except.ok d0, w3) →
      setReplicationFactorEnv (toString cr.Spec.DesiredReplicationFactor) d0.Template.Containers
        = some cs →
      apiPatch Deployment { Namespace := cr.Namespace, Name := cr.Name ++ "-jiva-ctrl" }
        (fun d => { d with Template := { d.Template with Containers := cs } }) w3 = (some e, w4) →
      performScaleup cr w = (Ret.done (some e), cr, w4) ∧
      w4.cluster.Volumes = w.cluster.Volumes ∧
      issued w w4
        = [Call.get Kind.StatefulSet { Namespace := cr.Namespace, Name := cr.Name ++ "-jiva-rep" },
           Call.patch Kind.StatefulSet { Namespace := cr.Namespace, Name := cr.Name ++ "-jiva-rep" },
           Call.get Kind.Deployment { Namespace := cr.Namespace, Name := cr.Name ++ "-jiva-ctrl" },
           Call.patch Kind.Deployment { Namespace := cr.Namespace, Name := cr.Name ++ "-jiva-ctrl" }]) ∧
    (∀ s0 d0 cs w1 w2 w3 w4 w5,
      apiGet StatefulSet { Namespace := cr.Namespace, Name := cr.Name ++ "-jiva-rep" } w
        = (Except.ok s0, w1) →
      apiPatch StatefulSet { Namespace := cr.Namespace, Name := cr.Name ++ "-jiva-rep" }
        (fun s => { s with Replicas := int32 cr.Spec.DesiredReplicationFactor }) w1 = (none, w2) →
      apiGet Deployment { Namespace := cr.Namespace, Name := cr.Name ++ "-jiva-ctrl" } w2
        = (Except.ok d0, w3) →
      setReplicationFactorEnv (toString cr.Spec.DesiredReplicationFactor) d0.Template.Containers
        = some cs →
      apiPatch Deployment { Namespace := cr.Namespace, Name := cr.Name ++ "-jiva-ctrl" }
        (fun d => { d with Template := { d.Template with Containers := cs } }) w3 = (none, w4) →
      apiUpdate (scaledVolume cr { cr.Status with Phase := JivaVolumePhaseSyncing }) w4
        = (some e, w5) →
      performScaleup cr w
        = (Ret.done (some (Err.wrap "failed to update JivaVolume phase"
            (Err.wrap "failed to update JivaVolume, err" e))),
           scaledVolume cr { cr.Status with Phase := JivaVolumePhaseSyncing }, w5) ∧
      w5.cluster.Volumes = w.cluster.Volumes ∧
      issued w w5
        = [Call.get Kind.StatefulSet { Namespace := cr.Namespace, Name := cr.Name ++ "-jiva-rep" },
           Call.patch Kind.StatefulSet { Namespace := cr.Namespace, Name := cr.Name ++ "-jiva-rep" },
           Call.get Kind.Deployment { Namespace := cr.Namespace, Name := cr.Name ++ "-jiva-ctrl" },
           Call.patch Kind.Deployment { Namespace := cr.Namespace, Name := cr.Name ++ "-jiva-ctrl" },
           Call.update Kind.JivaVolume { Namespace := cr.Namespace, Name := cr.Name }]) ∧
    (∀ s0 d0 cs w1 w2 w3 w4 w5 w6,
      apiGet StatefulSet { Namespace := cr.Namespace, Name := cr.Name ++ "-jiva-rep" } w
        = (Except.ok s0, w1) →
      apiPatch StatefulSet { Namespace := cr.Namespace, Name := cr.Name ++ "-jiva-rep" }
        (fun s => { s with Replicas := int32 cr.Spec.DesiredReplicationFactor }) w1 = (none, w2) →
      apiGet Deployment { Namespace := cr.Namespace, Name := cr.Name ++ "-jiva-ctrl" } w2
        = (Except.ok d0, w3) →
      setReplicationFactorEnv (toString cr.Spec.DesiredReplicationFactor) d0.Template.Containers
        = some cs →
      apiPatch Deployment { Namespace := cr.Namespace, Name := cr.Name ++ "-jiva-ctrl" }
        (fun d => { d with Template := { d.Template with Containers := cs } }) w3 = (none, w4) →
      apiUpdate (scaledVolume cr { cr.Status with Phase := JivaVolumePhaseSyncing }) w4
        = (none, w5) →
      apiGet JivaVolume { Namespace := cr.Namespace, Name := cr.Name } w5 = (Except.error e, w6) →
      performScaleup cr w
        = (Ret.done (some (Err.wrap "failed to update JivaVolume phase"
            (Err.wrap "failed to get JivaVolume, err" e))),
           scaledVolume cr { cr.Status with Phase := JivaVolumePhaseSyncing }, w6) ∧
      w6.cluster.find JivaVolume { Namespace := cr.Namespace, Name := cr.Name }
        = some (scaledVolume cr { cr.Status with Phase := JivaVolumePhaseSyncing }) ∧
      issued w w6
        = [Call.get Kind.StatefulSet { Namespace := cr.Namespace, Name := cr.Name ++ "-jiva-rep" },
           Call.patch Kind.StatefulSet { Namespace := cr.Namespace, Name := cr.Name ++ "-jiva-rep" },
           Call.get Kind.Deployment { Namespace := cr.Namespace, Name := cr.Name ++ "-jiva-ctrl" },
           Call.patch Kind.Deployment { Namespace := cr.Namespace, Name := cr.Name ++ "-jiva-ctrl" },
           Call.update Kind.JivaVolume { Namespace := cr.Namespace, Name := cr.Name },
           Call.get Kind.JivaVolume { Namespace := cr.Namespace, Name := cr.Name }]) := by
  have hvol : ∀ (s0 : StatefulSet) (w1 w2 : World),
      apiGet StatefulSet { Namespace := cr.Namespace, Name := cr.Name ++ "-jiva-rep" } w
        = (Except.ok s0, w1) →
      apiPatch StatefulSet { Namespace := cr.Namespace, Name := cr.Name ++ "-jiva-rep" }
        (fun s => { s with Replicas := int32 cr.Spec.DesiredReplicationFactor }) w1 = (none, w2) →
      w2.cluster.Volumes = w.cluster.Volumes ∧
      w2.calls = w.calls ++
        [Call.get Kind.StatefulSet { Namespace := cr.Namespace, Name := cr.Name ++ "-jiva-rep" },
         Call.patch Kind.StatefulSet { Namespace := cr.Namespace, Name := cr.Name ++ "-jiva-rep" }] := by
    intro s0 w1 w2 h1 h2
    rw [(apiPatch_none h2).2.2, (apiGet_ok h1).2.2]
    exact ⟨rfl, by simp [Resource.kind]⟩
  have hdep : ∀ (s0 : StatefulSet) (d0 : Deployment) (cs : List Container) (w1 w2 w3 w4 : World),
      apiGet StatefulSet { Namespace := cr.Namespace, Name := cr.Name ++ "-jiva-rep" } w
        = (Except.ok s0, w1) →
      apiPatch StatefulSet { Namespace := cr.Namespace, Name := cr.Name ++ "-jiva-rep" }
        (fun s => { s with Replicas := int32 cr.Spec.DesiredReplicationFactor }) w1 = (none, w2) →
      apiGet Deployment { Namespace := cr.Namespace, Name := cr.Name ++ "-jiva-ctrl" } w2
        = (Except.ok d0, w3) →
      apiPatch Deployment { Namespace := cr.Namespace, Name := cr.Name ++ "-jiva-ctrl" }
        (fun d => { d with Template := { d.Template with Containers := cs } }) w3 = (none, w4) →
      w4.cluster.Volumes = w.cluster.Volumes ∧
      w4.calls = w.calls ++
        [Call.get Kind.StatefulSet { Namespace := cr.Namespace, Name := cr.Name ++ "-jiva-rep" },
         Call.patch Kind.StatefulSet { Namespace := cr.Namespace, Name := cr.Name ++ "-jiva-rep" },
         Call.get Kind.Deployment { Namespace := cr.Namespace, Name := cr.Name ++ "-jiva-ctrl" },
         Call.patch Kind.Deployment { Namespace := cr.Namespace, Name := cr.Name ++ "-jiva-ctrl" }] := by
    intro s0 d0 cs w1 w2 w3 w4 h1 h2 h3 h5
    obtain ⟨hv, hc⟩ := hvol s0 w1 w2 h1 h2
    rw [(apiPatch_none h5).2.2, (apiGet_ok h3).2.2]
    exact ⟨hv, by simp [Resource.kind, hc]⟩
  have hcr1 : scaledVolume cr { cr.Status with Phase := JivaVolumePhaseSyncing }
      = { cr with
          Spec := { cr.Spec with Policy := { cr.Spec.Policy with Target :=
            { cr.Spec.Policy.Target with
              ReplicationFactor := int32 cr.Spec.DesiredReplicationFactor } } },
          Status := { cr.Status with Phase := JivaVolumePhaseSyncing } } := rfl
  refine ⟨?_, ?_, ?_, ?_, ?_, ?_⟩
  · intro w1 h1
    refine ⟨by simp only [performScaleup, h1], ?_, ?_⟩
    · rw [(apiGet_error h1).1]; rfl
    · rw [(apiGet_error h1).1]; exact issued_of_calls rfl
  · intro s0 w1 w2 h1 h2
    refine ⟨by simp only [performScaleup, h1, h2], ?_, ?_⟩
    · rw [apiPatch_some h2, (apiGet_ok h1).2.2]; rfl
    · rw [apiPatch_some h2, (apiGet_ok h1).2.2]
      exact issued_of_calls (by simp [Resource.kind])
  · intro s0 w1 w2 w3 h1 h2 h3
    obtain ⟨hv, hc⟩ := hvol s0 w1 w2 h1 h2
    refine ⟨by simp only [performScaleup, h1, h2, h3], ?_, ?_⟩
    · rw [(apiGet_error h3).1]; exact hv
    · rw [(apiGet_error h3).1]
      exact issued_of_calls (by simp [Resource.kind, hc])
  · intro s0 d0 cs w1 w2 w3 w4 h1 h2 h3 h4 h5
    obtain ⟨hv, hc⟩ := hvol s0 w1 w2 h1 h2
    refine ⟨by simp only [performScaleup, h1, h2, h3, h4, h5], ?_, ?_⟩
    · rw [apiPatch_some h5, (apiGet_ok h3).2.2]; exact hv
    · rw [apiPatch_some h5, (apiGet_ok h3).2.2]
      exact issued_of_calls (by simp [Resource.kind, hc])
  · intro s0 d0 cs w1 w2 w3 w4 w5 h1 h2 h3 h4 h5 h6
    obtain ⟨hv, hc⟩ := hdep s0 d0 cs w1 w2 w3 w4 h1 h2 h3 h5
    rw [hcr1] at h6 ⊢
    refine ⟨by simp only [performScaleup, h1, h2, h3, h4, h5, updateJivaVolume, h6], ?_, ?_⟩
    · rw [apiUpdate_some h6]; exact hv
    · rw [apiUpdate_some h6]
      exact issued_of_calls (by rw [tick_calls, hc, List.append_assoc]; rfl)
  · intro s0 d0 cs w1 w2 w3 w4 w5 w6 h1 h2 h3 h4 h5 h6 h7
    obtain ⟨hv, hc⟩ := hdep s0 d0 cs w1 w2 w3 w4 h1 h2 h3 h5
    have hst := updateJivaVolume_stored
      (scaledVolume cr { cr.Status with Phase := JivaVolumePhaseSyncing }) w4 (by rw [h6])
    have hg : getJivaVolume (scaledVolume cr { cr.Status with Phase := JivaVolumePhaseSyncing }) w5
        = (some e, w6) := by
      unfold getJivaVolume
      have h7' : apiGet JivaVolume
          { Namespace := (scaledVolume cr { cr.Status with Phase := JivaVolumePhaseSyncing }).Namespace,
            Name := (scaledVolume cr { cr.Status with Phase := JivaVolumePhaseSyncing }).Name } w5
          = (Except.error e, w6) := h7
      rw [h7']
    have hu : updateJivaVolume (scaledVolume cr { cr.Status with Phase := JivaVolumePhaseSyncing }) w4
        = (some (Err.wrap "failed to get JivaVolume, err" e), w6) := by
      unfold updateJivaVolume
      rw [h6]
      simp only [hg]
    rw [hu] at hst
    have hw6 : w6.calls = w.calls ++
        [Call.get Kind.StatefulSet { Namespace := cr.Namespace, Name := cr.Name ++ "-jiva-rep" },
         Call.patch Kind.StatefulSet { Namespace := cr.Namespace, Name := cr.Name ++ "-jiva-rep" },
         Call.get Kind.Deployment { Namespace := cr.Namespace, Name := cr.Name ++ "-jiva-ctrl" },
         Call.patch Kind.Deployment { Namespace := cr.Namespace, Name := cr.Name ++ "-jiva-ctrl" },
         Call.update Kind.JivaVolume { Namespace := cr.Namespace, Name := cr.Name },
         Call.get Kind.JivaVolume { Namespace := cr.Namespace, Name := cr.Name }] := by
      rw [(apiGet_error h7).1, (apiUpdate_none h6).2.2]
      rw [tick_calls, store_calls, tick_calls, hc, List.append_assoc, List.append_assoc]
      rfl
    refine ⟨?_, hst, issued_of_calls hw6⟩
    rw [hcr1] at hu ⊢
    simp only [performScaleup, h1, h2, h3, h4, h5, hu]

/-- C23, amended, on the sample world of the scale-up, with `NotFound` as the answer of the
first, the second, the third, the fourth, the fifth and the sixth request in turn: the
first four times that error is the result and the volume is the one handed in, the last two
times the error comes back wrapped and the volume in hand has the factor `4`. -/
theorem performScaleup_aborts_witness :
    ((performScaleup sampleScaleVolume (notFoundAt sampleScaleWorld 0)).1
        = Ret.done (some Err.notFound) ∧
      (performScaleup sampleScaleVolume (notFoundAt sampleScaleWorld 0)).2.1 = sampleScaleVolume) ∧
    ((performScaleup sampleScaleVolume (notFoundAt sampleScaleWorld 1)).1
        = Ret.done (some Err.notFound) ∧
      (performScaleup sampleScaleVolume (notFoundAt sampleScaleWorld 1)).2.1 = sampleScaleVolume) ∧
    ((performScaleup sampleScaleVolume (notFoundAt sampleScaleWorld 2)).1
        = Ret.done (some Err.notFound) ∧
      (performScaleup sampleScaleVolume (notFoundAt sampleScaleWorld 2)).2.1 = sampleScaleVolume) ∧
    ((performScaleup sampleScaleVolume (notFoundAt sampleScaleWorld 3)).1
        = Ret.done (some Err.notFound) ∧
      (performScaleup sampleScaleVolume (notFoundAt sampleScaleWorld 3)).2.1 = sampleScaleVolume) ∧
    ((performScaleup sampleScaleVolume (notFoundAt sampleScaleWorld 4)).1
        = Ret.done (some (Err.wrap "failed to update JivaVolume phase"
            (Err.wrap "failed to update JivaVolume, err" Err.notFound))) ∧
      (performScaleup sampleScaleVolume (notFoundAt sampleScaleWorld 4)).2.1
        = scaledVolume sampleScaleVolume
            { sampleScaleVolume.Status with Phase := JivaVolumePhaseSyncing }) ∧
    ((performScaleup sampleScaleVolume (notFoundAt sampleScaleWorld 5)).1
        = Ret.done (some (Err.wrap "failed to update JivaVolume phase"
            (Err.wrap "failed to get JivaVolume, err" Err.notFound))) ∧
      (performScaleup sampleScaleVolume (notFoundAt sampleScaleWorld 5)).2.1
        = scaledVolume sampleScaleVolume
            { sampleScaleVolume.Status with Phase := JivaVolumePhaseSyncing }) :=
  ⟨(fun h => ⟨congrArg Prod.fst h, congrArg (fun x => x.2.1) h⟩)
      ((performScaleup_aborts sampleScaleVolume (notFoundAt sampleScaleWorld 0) Err.notFound).1
        _ rfl).1,
   (fun h => ⟨congrArg Prod.fst h, congrArg (fun x => x.2.1) h⟩)
      ((performScaleup_aborts sampleScaleVolume (notFoundAt sampleScaleWorld 1) Err.notFound).2.1
        _ _ _ rfl rfl).1,
   (fun h => ⟨congrArg Prod.fst h, congrArg (fun x => x.2.1) h⟩)
      ((performScaleup_aborts sampleScaleVolume (notFoundAt sampleScaleWorld 2) Err.notFound).2.2.1
        _ _ _ _ rfl rfl rfl).1,
   (fun h => ⟨congrArg Prod.fst h, congrArg (fun x => x.2.1) h⟩)
      ((performScaleup_aborts sampleScaleVolume (notFoundAt sampleScaleWorld 3) Err.notFound).2.2.2.1
        _ _ _ _ _ _ _ rfl rfl rfl rfl rfl).1,
   (fun h => ⟨congrArg Prod.fst h, congrArg (fun x => x.2.1) h⟩)
      ((performScaleup_aborts sampleScaleVolume (notFoundAt sampleScaleWorld 4)
        Err.notFound).2.2.2.2.1 _ _ _ _ _ _ _ _ rfl rfl rfl rfl rfl rfl).1,
   (fun h => ⟨congrArg Prod.fst h, congrArg (fun x => x.2.1) h⟩)
      ((performScaleup_aborts sampleScaleVolume (notFoundAt sampleScaleWorld 5)
        Err.notFound).2.2.2.2.2 _ _ _ _ _ _ _ _ _ rfl rfl rfl rfl rfl rfl rfl).1⟩

/-! ### The resource of the caller -/

/-- What is allocated stays readable when the heap grows at its end. -/
theorem Heap.read_of_extends {h h1 : Heap} (hp : h.cells <+: h1.cells) {p : Nat} {x : JivaVolume}
    (hx : h.read p = some x) : h1.read p = some x := by
  obtain ⟨t, ht⟩ := hp
  unfold Heap.read at hx ⊢
  rw [← ht]
  rw [List.get?_eq_getElem?] at hx ⊢
  have hlt : p < h.cells.length := by
    by_contra hge
    rw [List.getElem?_eq_none (by omega)] at hx
    exact absurd hx (by simp)
  rw [List.getElem?_append_left hlt]
  exact hx

theorem Heap.alloc_extends (h : Heap) (x : JivaVolume) : h.cells <+: (h.alloc x).2.cells :=
  List.prefix_append _ _

/-- A write beyond the cells of `h0` keeps them. -/
theorem Heap.write_extends {h0 h : Heap} (hp : h0.cells <+: h.cells) {p : Nat}
    (hge : h0.cells.length ≤ p) (x : JivaVolume) : h0.cells <+: (h.write p x).cells := by
  obtain ⟨t, ht⟩ := hp
  refine ⟨t.set (p - h0.cells.length) x, ?_⟩
  show h0.cells ++ t.set (p - h0.cells.length) x = h.cells.set p x
  rw [← ht, List.set_append]
  rw [if_neg (by omega)]

theorem Heap.read_alloc_new (h : Heap) (x : JivaVolume) :
    (h.alloc x).2.read (h.alloc x).1 = some x := by
  unfold Heap.read Heap.alloc
  simp

theorem Heap.read_write_same {h : Heap} {p : Nat} {y : JivaVolume} (hy : h.read p = some y)
    (x : JivaVolume) : (h.write p x).read p = some x := by
  unfold Heap.read at hy ⊢
  unfold Heap.write
  rw [List.get?_eq_getElem?] at hy ⊢
  have hlt : p < h.cells.length := by
    by_contra hge
    rw [List.getElem?_eq_none (by omega)] at hy
    exact absurd hy (by simp)
  simp [hlt]

theorem Heap.read_write_other (h : Heap) {p q : Nat} (hne : p ≠ q) (x : JivaVolume) :
    (h.write p x).read q = h.read q := by
  unfold Heap.read Heap.write
  rw [List.get?_eq_getElem?, List.get?_eq_getElem?]
  simp [List.getElem?_set, hne]

/-- An address that can be read lies within the heap. -/
theorem Heap.lt_of_read {h : Heap} {p : Nat} {x : JivaVolume} (hx : h.read p = some x) :
    p < h.cells.length := by
  unfold Heap.read at hx
  rw [List.get?_eq_getElem?] at hx
  by_contra hge
  rw [List.getElem?_eq_none (by omega)] at hx
  exact absurd hx (by simp)

/-- The function `getJivaVolume` on addresses only adds cells to the heap. -/
theorem getJivaVolumeAt_extends (cr : Nat) (h : Heap) (w : World) :
    h.cells <+: (getJivaVolumeAt cr h w).2.2.1.cells := by
  unfold getJivaVolumeAt
  simp only
  have h1 : h.cells <+: (h.alloc zeroVolume).2.cells := Heap.alloc_extends h zeroVolume
  split
  · exact h1
  · split
    · exact h1
    · rename_i x w1 _
      exact (Heap.write_extends h1 (Nat.le_refl _) x).trans (Heap.alloc_extends _ x)

/-- On an address that holds the volume `c`, `getJivaVolume` on addresses returns what the
function on values returns for `c`, and leaves the same world. -/
theorem getJivaVolumeAt_refines {cr : Nat} {h : Heap} {c : JivaVolume} (hc : h.read cr = some c)
    (w : World) :
    (getJivaVolumeAt cr h w).1 = Ret.done (getJivaVolume c w).1 ∧
    (getJivaVolumeAt cr h w).2.2.2 = (getJivaVolume c w).2 := by
  have hc1 : (h.alloc zeroVolume).2.read cr = some c :=
    Heap.read_of_extends (Heap.alloc_extends h zeroVolume) hc
  unfold getJivaVolumeAt getJivaVolume
  simp only [hc1]
  rcases apiGet JivaVolume { Namespace := c.Namespace, Name := c.Name } w with ⟨g, w1⟩
  cases g <;> exact ⟨rfl, rfl⟩

theorem updateJivaVolumeAt_extends (cr : Nat) (h : Heap) (w : World) :
    h.cells <+: (updateJivaVolumeAt cr h w).2.1.cells := by
  unfold updateJivaVolumeAt
  split
  · exact List.prefix_refl _
  · split
    · exact List.prefix_refl _
    · rename_i w1 _
      have hp := getJivaVolumeAt_extends cr h w1
      rcases hg : getJivaVolumeAt cr h w1 with ⟨res, cr1, h2, w2⟩
      rw [hg] at hp
      rcases res with (_ | e) | _
      · exact hp
      · exact hp
      · exact hp

theorem updateJivaVolumeAt_refines {cr : Nat} {h : Heap} {c : JivaVolume}
    (hc : h.read cr = some c) (w : World) :
    (updateJivaVolumeAt cr h w).1 = Ret.done (updateJivaVolume c w).1 ∧
    (updateJivaVolumeAt cr h w).2.2 = (updateJivaVolume c w).2 := by
  unfold updateJivaVolumeAt updateJivaVolume
  simp only [hc]
  rcases apiUpdate c w with ⟨e, w1⟩
  cases e with
  | some e => exact ⟨rfl, rfl⟩
  | none =>
    simp only
    obtain ⟨hr, hw⟩ := getJivaVolumeAt_refines hc w1
    rcases hg : getJivaVolumeAt cr h w1 with ⟨res, cr1, h2, w2⟩
    rw [hg] at hr hw
    simp only at hr hw
    rcases hv : getJivaVolume c w1 with ⟨e2, w3⟩
    rw [hv] at hr hw
    simp only at hr hw
    subst hr hw
    cases e2 <;> exact ⟨rfl, rfl⟩

theorem finishUpgradeAt_extends {h0 h : Heap} (hp : h0.cells <+: h.cells) {jObj : Nat}
    (hj : h0.cells.length ≤ jObj) (w : World) :
    h0.cells <+: (finishUpgradeAt jObj h w).2.1.cells := by
  unfold finishUpgradeAt
  split
  · exact hp
  · rename_i j _
    simp only
    have h1 : h0.cells <+: ((h.alloc j).2.write jObj
        { j with VersionDetails := j.VersionDetails.SetSuccessStatus }).cells :=
      Heap.write_extends (hp.trans (Heap.alloc_extends h j)) hj _
    have hu := updateJivaVolumeAt_extends jObj ((h.alloc j).2.write jObj
        { j with VersionDetails := j.VersionDetails.SetSuccessStatus }) w
    rcases hu' : updateJivaVolumeAt jObj ((h.alloc j).2.write jObj
        { j with VersionDetails := j.VersionDetails.SetSuccessStatus }) w with ⟨res, h2, w1⟩
    rw [hu'] at hu
    simp only at hu
    have h2p := h1.trans hu
    rcases res with (_ | e) | _
    · simp only
      have hg := getJivaVolumeAt_extends (h.alloc j).1 h2 w1
      rcases hg' : getJivaVolumeAt (h.alloc j).1 h2 w1 with ⟨res2, cr1, h3, w2⟩
      rw [hg'] at hg
      simp only at hg
      rcases res2 with (_ | e) | _
      · exact h2p.trans hg
      · exact h2p.trans hg
      · exact h2p.trans hg
    · exact h2p
    · exact h2p

theorem finishUpgradeAt_refines {jObj : Nat} {h : Heap} {j : JivaVolume}
    (hj : h.read jObj = some j) (w : World) :
    (finishUpgradeAt jObj h w).1 = Ret.done (finishUpgrade j w).1 ∧
    (finishUpgradeAt jObj h w).2.2 = (finishUpgrade j w).2 := by
  have hlt := Heap.lt_of_read hj
  have hj1 : (h.alloc j).2.read jObj = some j := Heap.read_of_extends (Heap.alloc_extends h j) hj
  have hjw : ((h.alloc j).2.write jObj
      { j with VersionDetails := j.VersionDetails.SetSuccessStatus }).read jObj
      = some { j with VersionDetails := j.VersionDetails.SetSuccessStatus } :=
    Heap.read_write_same hj1 _
  have hcw : ((h.alloc j).2.write jObj
      { j with VersionDetails := j.VersionDetails.SetSuccessStatus }).read (h.alloc j).1
      = some j := by
    rw [Heap.read_write_other _ (by show jObj ≠ h.cells.length; omega)]
    exact Heap.read_alloc_new h j
  have hfin : finishUpgrade j w =
      match updateJivaVolume { j with VersionDetails := j.VersionDetails.SetSuccessStatus } w with
      | (some e, w1) => (some e, w1)
      | (none, w1) =>
        match getJivaVolume j w1 with
        | (some e, w2) => (some (Err.wrap updateErrMsg e), w2)
        | (none, w2) => (none, w2) := rfl
  rw [hfin]
  unfold finishUpgradeAt
  simp only [hj]
  obtain ⟨hr, hw⟩ := updateJivaVolumeAt_refines hjw w
  have hup := updateJivaVolumeAt_extends jObj ((h.alloc j).2.write jObj
      { j with VersionDetails := j.VersionDetails.SetSuccessStatus }) w
  rcases hu : updateJivaVolumeAt jObj ((h.alloc j).2.write jObj
      { j with VersionDetails := j.VersionDetails.SetSuccessStatus }) w with ⟨res, h2, w1⟩
  rw [hu] at hr hw hup
  simp only at hr hw hup
  rcases hv : updateJivaVolume { j with VersionDetails := j.VersionDetails.SetSuccessStatus } w
    with ⟨e, w1'⟩
  rw [hv] at hr hw
  simp only at hr hw
  subst hr hw
  cases e with
  | some e => exact ⟨rfl, rfl⟩
  | none =>
    simp only
    have hc2 : h2.read (h.alloc j).1 = some j := Heap.read_of_extends hup hcw
    obtain ⟨hr2, hw2⟩ := getJivaVolumeAt_refines hc2 w1
    rcases hg : getJivaVolumeAt (h.alloc j).1 h2 w1 with ⟨res2, cr1, h3, w2⟩
    rw [hg] at hr2 hw2
    simp only at hr2 hw2
    rcases hv2 : getJivaVolume j w1 with ⟨e2, w2'⟩
    rw [hv2] at hr2 hw2
    simp only at hr2 hw2
    subst hr2 hw2
    cases e2 <;> exact ⟨rfl, rfl⟩

theorem runUpgradeAt_extends (r : JivaVolumeReconciler) {h0 h : Heap} (hp : h0.cells <+: h.cells)
    (cr : Nat) {jObj : Nat} (hj : h0.cells.length ≤ jObj) (w : World) :
    h0.cells <+: (runUpgradeAt r cr jObj h w).2.1.cells := by
  unfold runUpgradeAt
  have hg := getJivaVolumeAt_extends cr h w
  rcases hg' : getJivaVolumeAt cr h w with ⟨res, cr1, h1, w1⟩
  rw [hg'] at hg
  simp only at hg
  have h1p := hp.trans hg
  rcases res with (_ | e) | _
  · simp only
    split
    · exact h1p
    · rename_i j _
      split
      · rename_i funcValue _
        rcases funcValue j w1 with ⟨out, w2⟩
        cases out with
        | error e => exact h1p
        | ok j1 =>
          simp only
          refine finishUpgradeAt_extends (h1p.trans (Heap.alloc_extends h1 j1)) ?_ w2
          have := h1p.length_le
          show h0.cells.length ≤ h1.cells.length
          exact this
      · exact finishUpgradeAt_extends h1p hj w1
  · exact h1p
  · exact h1p

theorem runUpgradeAt_refines (r : JivaVolumeReconciler) {cr jObj : Nat} {h : Heap}
    {c j : JivaVolume} (hc : h.read cr = some c) (hj : h.read jObj = some j) (w : World) :
    (runUpgradeAt r cr jObj h w).1 = Ret.done (runUpgrade r c j w).1 ∧
    (runUpgradeAt r cr jObj h w).2.2 = (runUpgrade r c j w).2 := by
  unfold runUpgradeAt runUpgrade
  obtain ⟨hr, hw⟩ := getJivaVolumeAt_refines hc w
  have hp := getJivaVolumeAt_extends cr h w
  rcases hg : getJivaVolumeAt cr h w with ⟨res, cr1, h1, w1⟩
  rw [hg] at hr hw hp
  simp only at hr hw hp
  rcases hv : getJivaVolume c w with ⟨e, w1'⟩
  rw [hv] at hr hw
  simp only at hr hw
  subst hr hw
  cases e with
  | some e => exact ⟨rfl, rfl⟩
  | none =>
    have hj1 : h1.read jObj = some j := Heap.read_of_extends hp hj
    simp only [hj1]
    cases lookupUpgrade r (splitHead '-' j.VersionDetails.Status.Current) with
    | none => exact finishUpgradeAt_refines hj1 w1
    | some funcValue =>
      simp only
      rcases funcValue j w1 with ⟨out, w2⟩
      cases out with
      | error e => exact ⟨rfl, rfl⟩
      | ok j1 => exact finishUpgradeAt_refines (Heap.read_alloc_new h1 j1) w2

/-- The function `reconcileVersion` on addresses only adds cells to the heap: it writes to
the copies it makes. -/
theorem reconcileVersionAt_extends (r : JivaVolumeReconciler) (cr : Nat) (h : Heap) (w : World) :
    h.cells <+: (reconcileVersionAt r cr h w).2.1.cells := by
  unfold reconcileVersionAt
  split
  · exact List.prefix_refl _
  · rename_i c _
    split
    · split
      · exact List.prefix_refl _
      · split
        · exact List.prefix_refl _
        · simp only
          have ha : h.cells <+: (h.alloc c).2.cells := Heap.alloc_extends h c
          split
          · have hw1 : h.cells <+: ((h.alloc c).2.write (h.alloc c).1
                { c with VersionDetails :=
                  { c.VersionDetails with
                    Status := c.VersionDetails.Status.SetInProgressStatus } }).cells :=
              Heap.write_extends ha (Nat.le_refl _) _
            have hu := updateJivaVolumeAt_extends (h.alloc c).1 ((h.alloc c).2.write (h.alloc c).1
                { c with VersionDetails :=
                  { c.VersionDetails with
                    Status := c.VersionDetails.Status.SetInProgressStatus } }) w
            rcases hu' : updateJivaVolumeAt (h.alloc c).1 ((h.alloc c).2.write (h.alloc c).1
                { c with VersionDetails :=
                  { c.VersionDetails with
                    Status := c.VersionDetails.Status.SetInProgressStatus } }) w
              with ⟨res, h2, w1⟩
            rw [hu'] at hu
            simp only at hu
            rcases res with (_ | e) | _
            · exact runUpgradeAt_extends r (hw1.trans hu) cr (Nat.le_refl _) w1
            · exact hw1.trans hu
            · exact hw1.trans hu
          · exact runUpgradeAt_extends r ha cr (Nat.le_refl _) w
    · exact List.prefix_refl _

/-- On an address that holds the volume `c`, `reconcileVersion` on addresses returns what the
function on values returns for `c`, and leaves the same world. -/
theorem reconcileVersionAt_refines (r : JivaVolumeReconciler) {cr : Nat} {h : Heap}
    {c : JivaVolume} (hc : h.read cr = some c) (w : World) :
    (reconcileVersionAt r cr h w).1 = Ret.done (reconcileVersion r c w).1 ∧
    (reconcileVersionAt r cr h w).2.2 = (reconcileVersion r c w).2 := by
  unfold reconcileVersionAt reconcileVersion
  simp only [hc]
  have hlt := Heap.lt_of_read hc
  have hca : (h.alloc c).2.read cr = some c := Heap.read_of_extends (Heap.alloc_extends h c) hc
  split
  · split
    · exact ⟨rfl, rfl⟩
    · split
      · exact ⟨rfl, rfl⟩
      · split
        · have hjw : ((h.alloc c).2.write (h.alloc c).1
              { c with VersionDetails :=
                { c.VersionDetails with
                  Status := c.VersionDetails.Status.SetInProgressStatus } }).read (h.alloc c).1
              = some { c with VersionDetails :=
                { c.VersionDetails with
                  Status := c.VersionDetails.Status.SetInProgressStatus } } :=
            Heap.read_write_same (Heap.read_alloc_new h c) _
          have hcw : ((h.alloc c).2.write (h.alloc c).1
              { c with VersionDetails :=
                { c.VersionDetails with
                  Status := c.VersionDetails.Status.SetInProgressStatus } }).read cr = some c := by
            rw [Heap.read_write_other _ (by show h.cells.length ≠ cr; omega)]
            exact hca
          obtain ⟨hr, hw⟩ := updateJivaVolumeAt_refines hjw w
          have hup := updateJivaVolumeAt_extends (h.alloc c).1 ((h.alloc c).2.write (h.alloc c).1
              { c with VersionDetails :=
                { c.VersionDetails with
                  Status := c.VersionDetails.Status.SetInProgressStatus } }) w
          rcases hu : updateJivaVolumeAt (h.alloc c).1 ((h.alloc c).2.write (h.alloc c).1
              { c with VersionDetails :=
                { c.VersionDetails with
                  Status := c.VersionDetails.Status.SetInProgressStatus } }) w
            with ⟨res, h2, w1⟩
          rw [hu] at hr hw hup
          simp only at hr hw hup
          rcases hv : updateJivaVolume
              { c with VersionDetails :=
                { c.VersionDetails with
                  Status := c.VersionDetails.Status.SetInProgressStatus } } w with ⟨e, w1'⟩
          rw [hv] at hr hw
          simp only at hr hw
          subst hr hw
          cases e with
          | some e => exact ⟨rfl, rfl⟩
          | none =>
            exact runUpgradeAt_refines r (Heap.read_of_extends hup hcw)
              (Heap.read_of_extends hup hjw) w1
        · exact runUpgradeAt_refines r hca (Heap.read_alloc_new h c) w
  · exact ⟨rfl, rfl⟩

/-- C24: `getJivaVolume`, on addresses, writes to no volume allocated before the call:
whatever the read returns, every address holds after the call the volume it held before,
the address the caller passed among them, and after a successful read the parameter `cr`
holds an address that was not allocated before, that of the copy. The same is true of
`updateJivaVolume`, whose second half is that reload, and of `reconcileVersion` with its
reloads, which writes to its own copies only. -/
theorem getJivaVolume_keeps_caller (r : JivaVolumeReconciler) (cr : Nat) (h : Heap) (w : World)
    (p : Nat) (x : JivaVolume) (hx : h.read p = some x) :
    (getJivaVolumeAt cr h w).2.2.1.read p = some x ∧
    ((getJivaVolumeAt cr h w).1 = Ret.done none → h.read (getJivaVolumeAt cr h w).2.1 = none) ∧
    (updateJivaVolumeAt cr h w).2.1.read p = some x ∧
    (reconcileVersionAt r cr h w).2.1.read p = some x := by
  refine ⟨Heap.read_of_extends (getJivaVolumeAt_extends cr h w) hx, ?_,
    Heap.read_of_extends (updateJivaVolumeAt_extends cr h w) hx,
    Heap.read_of_extends (reconcileVersionAt_extends r cr h w) hx⟩
  unfold getJivaVolumeAt
  simp only
  split
  · intro hres; simp at hres
  · split
    · intro hres; simp at hres
    · intro _
      show h.cells.get? (((h.alloc zeroVolume).2.write (h.alloc zeroVolume).1 _).cells.length) = none
      rw [List.get?_eq_getElem?, List.getElem?_eq_none]
      show h.cells.length ≤ (((h.cells ++ [zeroVolume]).set h.cells.length _).length)
      simp

/-- C24 on the sample heap, whose address `0` holds the sample volume to upgrade: the
reload, the update and `reconcileVersion` succeed in the sample world, and address `0`
holds the same volume after each of them. -/
theorem getJivaVolume_keeps_caller_witness :
    sampleHeap.read 0 = some sampleUpgradeVolume ∧
    (reconcileVersionAt sampleReconciler 0 sampleHeap sampleUpgradeWorld).1 = Ret.done none ∧
    ((getJivaVolumeAt 0 sampleHeap sampleUpgradeWorld).2.2.1.read 0 = some sampleUpgradeVolume ∧
      ((getJivaVolumeAt 0 sampleHeap sampleUpgradeWorld).1 = Ret.done none →
        sampleHeap.read (getJivaVolumeAt 0 sampleHeap sampleUpgradeWorld).2.1 = none) ∧
      (updateJivaVolumeAt 0 sampleHeap sampleUpgradeWorld).2.1.read 0 = some sampleUpgradeVolume ∧
      (reconcileVersionAt sampleReconciler 0 sampleHeap sampleUpgradeWorld).2.1.read 0
        = some sampleUpgradeVolume) :=
  ⟨rfl, by decide,
    getJivaVolume_keeps_caller sampleReconciler 0 sampleHeap sampleUpgradeWorld 0
      sampleUpgradeVolume rfl⟩

/-! ### The policy that sets nothing -/

/-- C25: `validatePolicySpec` makes the built-in default policy of the zero-valued policy.
So a volume annotated with a policy that is read and sets nothing gets from
`populateJivaVolumePolicy` the same policy and the same desired replication factor as a
volume without the annotation gets, in any world: the built-in defaults. -/
theorem validatePolicySpec_zero (r : JivaVolumeReconciler) (cr : JivaVolume) (w : World)
    (policy : JivaVolumePolicy) :
    validatePolicySpec zeroPolicySpec = getDefaultPolicySpec ∧
    (mapGet cr.Annotations "openebs.io/volume-policy" ≠ "" →
      getResult JivaVolumePolicy
          { Namespace := cr.Namespace, Name := mapGet cr.Annotations "openebs.io/volume-policy" } w
        = Except.ok policy →
      policy.Spec = zeroPolicySpec →
      (populateJivaVolumePolicy r cr w).1 = none ∧
      (populateJivaVolumePolicy r cr w).2.1 = cr.withPolicy getDefaultPolicySpec ∧
      ∀ (cr0 : JivaVolume) (w0 : World), mapGet cr0.Annotations "openebs.io/volume-policy" = "" →
        (populateJivaVolumePolicy r cr0 w0).1 = none ∧
        (populateJivaVolumePolicy r cr0 w0).2.1.Spec.Policy
          = (populateJivaVolumePolicy r cr w).2.1.Spec.Policy ∧
        (populateJivaVolumePolicy r cr0 w0).2.1.Spec.DesiredReplicationFactor
          = (populateJivaVolumePolicy r cr w).2.1.Spec.DesiredReplicationFactor) := by
  have hz : validatePolicySpec zeroPolicySpec = getDefaultPolicySpec := by decide
  refine ⟨hz, ?_⟩
  intro hn hget hspec
  have hpop : populateJivaVolumePolicy r cr w
      = (none, cr.withPolicy getDefaultPolicySpec,
          w.tick (Call.get Kind.JivaVolumePolicy
            { Namespace := cr.Namespace,
              Name := mapGet cr.Annotations "openebs.io/volume-policy" })) := by
    unfold populateJivaVolumePolicy apiGet
    simp only [if_pos hn, hget, hspec, hz]
    rfl
  refine ⟨by rw [hpop], by rw [hpop], ?_⟩
  intro cr0 w0 h0
  have hpop0 : populateJivaVolumePolicy r cr0 w0 = (none, cr0.withPolicy getDefaultPolicySpec, w0) := by
    unfold populateJivaVolumePolicy
    simp only [h0, ne_eq, not_true_eq_false, if_false]
  rw [hpop, hpop0]
  exact ⟨rfl, rfl, rfl⟩

/-- C25 on the sample worlds: the volume annotated with the policy `plain`, which sets
nothing, and the sample volume, which has no annotation, resolve to the same policy. -/
theorem validatePolicySpec_zero_witness :
    (populateJivaVolumePolicy sampleReconciler sampleUnsetPolicyVolume sampleUnsetPolicyWorld).1
      = none ∧
    (populateJivaVolumePolicy sampleReconciler sampleUnsetPolicyVolume sampleUnsetPolicyWorld).2.1
      = sampleUnsetPolicyVolume.withPolicy getDefaultPolicySpec ∧
    (populateJivaVolumePolicy sampleReconciler sampleVolume sampleWorld).2.1.Spec.Policy
      = (populateJivaVolumePolicy sampleReconciler sampleUnsetPolicyVolume
          sampleUnsetPolicyWorld).2.1.Spec.Policy :=
  (fun h => ⟨h.1, h.2.1, (h.2.2 sampleVolume sampleWorld (by decide)).2.1⟩)
    ((validatePolicySpec_zero sampleReconciler sampleUnsetPolicyVolume sampleUnsetPolicyWorld
      sampleUnsetPolicy).2 (by decide) rfl rfl)

/-! ### The closure of the bootstrapped phases -/

theorem Calm.calm_refl (P : JivaVolume → Prop) (k : Key) (w : World) : Calm P k w w :=
  ⟨⟨[], by simp, by simp⟩, fun h => h⟩

theorem Calm.calm_trans {P : JivaVolume → Prop} {k : Key} {w w1 w2 : World}
    (h1 : Calm P k w w1) (h2 : Calm P k w1 w2) : Calm P k w w2 := by
  obtain ⟨⟨cs1, hc1, hm1⟩, hs1⟩ := h1
  obtain ⟨⟨cs2, hc2, hm2⟩, hs2⟩ := h2
  refine ⟨⟨cs1 ++ cs2, by rw [hc2, hc1, List.append_assoc], ?_⟩, fun h => hs2 (hs1 h)⟩
  intro c hc
  rcases List.mem_append.1 hc with h | h
  · exact hm1 c h
  · exact hm2 c h

/-- The stored volumes decide `Stored`. -/
theorem Stored.stored_of_volumes {P : JivaVolume → Prop} {k : Key} {w w1 : World}
    (hv : w1.cluster.Volumes = w.cluster.Volumes) (h : Stored P k w) : Stored P k w1 := by
  intro x hx
  apply h x
  have : w1.cluster.find JivaVolume k = w.cluster.find JivaVolume k := by
    show w1.cluster.Volumes.find? _ = w.cluster.Volumes.find? _
    rw [hv]
  rw [← this]; exact hx

/-- One request that is not of the installer and leaves the stored volumes alone. -/
theorem Calm.calm_of_call {P : JivaVolume → Prop} {k : Key} {w w1 : World} {c : Call}
    (hc : w1.calls = w.calls ++ [c]) (hi : c.isInstall = false)
    (hv : w1.cluster.Volumes = w.cluster.Volumes) : Calm P k w w1 :=
  ⟨⟨[c], hc, by intro y hy; rw [List.mem_singleton.1 hy]; exact hi⟩, Stored.stored_of_volumes hv⟩

/-- A step without a request that leaves the stored volumes alone. -/
theorem Calm.calm_of_same {P : JivaVolume → Prop} {k : Key} {w w1 : World}
    (hc : w1.calls = w.calls) (hv : w1.cluster.Volumes = w.cluster.Volumes) : Calm P k w w1 :=
  ⟨⟨[], by simp [hc], by simp⟩, Stored.stored_of_volumes hv⟩

/-- Replacing the objects named as `x` by `x` keeps a property of the object found under
`k` that `x` has. -/
theorem find_map_replace {α : Type} (key : α → Key) (k : Key) (x : α) (P : α → Prop) (hP : P x)
    (xs : List α) (h : ∀ y, xs.find? (fun y => decide (key y = k)) = some y → P y) :
    ∀ y, (xs.map (fun y => if key y = key x then x else y)).find?
        (fun y => decide (key y = k)) = some y → P y := by
  induction xs with
  | nil => intro y hy; simp at hy
  | cons a rest ih =>
    intro y hy
    rw [List.map_cons, List.find?_cons] at hy
    by_cases ha : key a = key x
    · rw [if_pos ha] at hy
      by_cases hxk : key x = k
      · rw [decide_eq_true hxk] at hy
        simp only [Option.some.injEq] at hy
        rw [← hy]; exact hP
      · rw [decide_eq_false hxk] at hy
        have hak : ¬ key a = k := fun h0 => hxk (ha.symm.trans h0)
        refine ih ?_ y hy
        intro z hz
        apply h z
        rw [List.find?_cons, decide_eq_false hak]
        exact hz
    · rw [if_neg ha] at hy
      by_cases hak : key a = k
      · rw [decide_eq_true hak] at hy
        simp only [Option.some.injEq] at hy
        apply h y
        rw [List.find?_cons, decide_eq_true hak, hy]
      · rw [decide_eq_false hak] at hy
        refine ih ?_ y hy
        intro z hz
        apply h z
        rw [List.find?_cons, decide_eq_false hak]
        exact hz

theorem Calm.calm_get (P : JivaVolume → Prop) (k : Key) (α : Type) [Resource α] (k1 : Key)
    (w : World) (hi : (Call.get (Resource.kind α) k1).isInstall = false) :
    Calm P k w (apiGet α k1 w).2 :=
  Calm.calm_of_call rfl hi rfl

/-- The `Update` of a volume that satisfies `P`. -/
theorem Calm.calm_update {P : JivaVolume → Prop} (k : Key) {x : JivaVolume} (hx : P x) (w : World) :
    Calm P k w (apiUpdate x w).2 := by
  rcases h : apiUpdate x w with ⟨e, w1⟩
  cases e with
  | some e => rw [apiUpdate_some h]; exact Calm.calm_of_call rfl rfl rfl
  | none =>
    rw [(apiUpdate_none h).2.2]
    refine ⟨⟨[Call.update Kind.JivaVolume (Resource.key x)], rfl, ?_⟩, ?_⟩
    · intro c hc; rw [List.mem_singleton.1 hc]; rfl
    · intro hs
      exact find_map_replace (fun (y : JivaVolume) => ({ Namespace := y.Namespace, Name := y.Name } : Key))
        k x P hx w.cluster.Volumes hs

theorem Calm.calm_reload (P : JivaVolume → Prop) (k : Key) (cr : JivaVolume) (w : World) :
    Calm P k w (getJivaVolume cr w).2 := by
  rw [getJivaVolume_snd]
  exact Calm.calm_of_call rfl rfl rfl

theorem Calm.calm_updateVolume {P : JivaVolume → Prop} (k : Key) {cr : JivaVolume} (hx : P cr)
    (w : World) : Calm P k w (updateJivaVolume cr w).2 := by
  unfold updateJivaVolume
  have hu := Calm.calm_update k hx w
  rcases h : apiUpdate cr w with ⟨e, w1⟩
  rw [h] at hu
  simp only at hu
  cases e with
  | some e => exact hu
  | none =>
    simp only
    have hg := Calm.calm_reload P k cr w1
    rcases h2 : getJivaVolume cr w1 with ⟨e2, w2⟩
    rw [h2] at hg
    simp only at hg
    cases e2 <;> exact hu.calm_trans hg

/-- A `Patch` of objects that are not volumes. -/
theorem Calm.calm_patch (P : JivaVolume → Prop) (k : Key) (α : Type) [Resource α] (k1 : Key)
    (f : α → α) (w : World) (hi : (Call.patch (Resource.kind α) k1).isInstall = false)
    (hput : ∀ (c : Cluster) (l : List α), (Resource.put c l).Volumes = c.Volumes) :
    Calm P k w (apiPatch α k1 f w).2 := by
  obtain ⟨hc, -, hcl⟩ := apiPatch_effect α k1 f w
  refine Calm.calm_of_call hc hi ?_
  rcases hcl with h | ⟨-, h⟩
  · rw [h]
  · rw [h]; exact hput _ _

/-- A `Delete` of an object that is not a volume. -/
theorem Calm.calm_delete (P : JivaVolume → Prop) (k : Key) (α : Type) [Resource α] (k1 : Key)
    (w : World) (hi : (Call.delete (Resource.kind α) k1).isInstall = false)
    (hput : ∀ (c : Cluster) (l : List α), (Resource.put c l).Volumes = c.Volumes) :
    Calm P k w (apiDelete α k1 w).2 := by
  obtain ⟨hc, -, hcl, -⟩ := apiDelete_effect α k1 w
  refine Calm.calm_of_call hc hi ?_
  rcases hcl with h | ⟨-, h⟩
  · rw [h]
  · rw [h]; exact hput _ _

theorem Calm.calm_stats (P : JivaVolume → Prop) (k : Key) (w : World) (addr : String) :
    Calm P k w (w.getStats addr).2 :=
  Calm.calm_of_call rfl rfl rfl

theorem Calm.calm_listPods (P : JivaVolume → Prop) (k : Key) (ns : String) (keep : Pod → Bool)
    (w : World) : Calm P k w (apiListPods ns keep w).2 := by
  unfold apiListPods
  cases w.fault <;> exact Calm.calm_of_call rfl rfl rfl

theorem Calm.calm_runningPodIPs (P : JivaVolume → Prop) (k : Key) :
    ∀ (pods : List Pod) (w : World), Calm P k w (runningPodIPs pods w).2 := by
  intro pods
  induction pods with
  | nil => intro w; exact Calm.calm_refl P k w
  | cons pod rest ih =>
    intro w
    rw [runningPodIPs]
    have hg := Calm.calm_get P k Node { Namespace := "", Name := pod.NodeName } w rfl
    rcases h : apiGet Node { Namespace := "", Name := pod.NodeName } w with ⟨g, w1⟩
    rw [h] at hg
    simp only at hg
    cases g with
    | error e => exact hg.calm_trans (ih w1)
    | ok node =>
      simp only
      split
      · have hr := ih w1
        rcases h2 : runningPodIPs rest w1 with ⟨ips, w2⟩
        rw [h2] at hr
        exact hg.calm_trans hr
      · exact hg.calm_trans (ih w1)

theorem Calm.calm_updatePodIPMap (P : JivaVolume → Prop) (k : Key) (r : JivaVolumeReconciler)
    (cr : JivaVolume) (w : World) : Calm P k w (updatePodIPMap r cr w).2 := by
  unfold updatePodIPMap
  simp only
  generalize (fun (pod : Pod) => (if r.ParseLabels
      ("openebs.io/component=jiva-controller,openebs.io/persistent-volume=" ++ cr.Name) = true then
        hasLabel pod.Labels "openebs.io/component" "jiva-controller"
          && hasLabel pod.Labels "openebs.io/persistent-volume" cr.Name
      else true) && pod.Phase == "Running") = keep
  have hl := Calm.calm_listPods P k cr.Namespace keep w
  rcases h : apiListPods cr.Namespace keep w with ⟨res, w1⟩
  rw [h] at hl
  simp only at hl
  cases res with
  | error e => exact hl
  | ok pods =>
    simp only
    have hr := Calm.calm_runningPodIPs P k pods w1
    rcases h2 : runningPodIPs pods w1 with ⟨ips, w2⟩
    rw [h2] at hr
    simp only at hr
    have h12 := hl.calm_trans hr
    match ips with
    | [] => exact h12
    | [ip] => exact h12.calm_trans (Calm.calm_of_same rfl rfl)
    | _ :: _ :: _ => exact h12

theorem Calm.calm_refreshPodIP (P : JivaVolume → Prop) (k : Key) (r : JivaVolumeReconciler)
    (cr : JivaVolume) (w : World) : Calm P k w (refreshPodIP r cr w) := by
  unfold refreshPodIP
  split
  · have hu := Calm.calm_updatePodIPMap P k r cr w
    rcases h : updatePodIPMap r cr w with ⟨e, w1⟩
    rw [h] at hu
    simp only at hu
    cases e with
    | some e => exact hu.calm_trans (Calm.calm_of_same rfl rfl)
    | none => exact hu
  · exact Calm.calm_refl P k w

theorem Calm.calm_isScaleup (P : JivaVolume → Prop) (k : Key) (cr : JivaVolume) (w : World) :
    Calm P k w (isScaleup cr w).2 := by
  unfold isScaleup
  simp only
  split
  · split
    · exact Calm.calm_of_same rfl rfl
    · split
      · exact Calm.calm_of_same rfl rfl
      · split
        · exact Calm.calm_of_same rfl rfl
        · exact Calm.calm_refl P k w
  · exact Calm.calm_refl P k w

/-- The deferred update of the status, of a volume that satisfies `P` as it is written. -/
theorem Calm.calm_updateStatus {P : JivaVolume → Prop} (k : Key) (err : Option Err)
    (cr : JivaVolume) (w : World) (hx : P (updateStatus err cr w).1) :
    Calm P k w (updateStatus err cr w).2 := by
  rw [updateStatus_fst] at hx
  unfold updateStatus
  simp only
  exact (Calm.calm_updateVolume k hx w).calm_trans (Calm.calm_reload P k _ _)

/-- The status refresh leaves the volume in a bootstrapped phase. -/
theorem getAndUpdateVolumeStatus_phase (r : JivaVolumeReconciler) (cr : JivaVolume) (w : World) :
    Bootstrapped (getAndUpdateVolumeStatus r cr w).2.1.Status.Phase := by
  unfold getAndUpdateVolumeStatus
  rcases getJivaVolume cr w with ⟨e, w1⟩
  cases e with
  | some e =>
    simp only [updateStatus_fst]
    exact Or.inr (Or.inl rfl)
  | none =>
    simp only [statsAddr_length, if_false]
    rcases w1.getStats (statsAddr cr w1) with ⟨st, w2⟩
    cases st with
    | some stats =>
      simp only [updateStatus_fst]
      show Bootstrapped (setStatusFromStats cr stats).Status.Phase
      unfold setStatusFromStats Bootstrapped
      simp only
      split
      · exact Or.inl rfl
      · split
        · exact Or.inr (Or.inl rfl)
        · exact Or.inr (Or.inr rfl)
    | none =>
      simp only
      rcases updatePodIPMap r cr w2 with ⟨e3, w3⟩
      cases e3 with
      | some e3 =>
        simp only [updateStatus_fst]
        exact Or.inr (Or.inl rfl)
      | none =>
        simp only [updateStatus_fst]
        exact Or.inr (Or.inr rfl)

/-- The status refresh issues no request of the installer and stores volumes of a
bootstrapped phase only. -/
theorem Calm.calm_refresh (k : Key) (r : JivaVolumeReconciler) (cr : JivaVolume) (w : World) :
    Calm (fun x => Bootstrapped x.Status.Phase) k w (getAndUpdateVolumeStatus r cr w).2.2 := by
  have hph := getAndUpdateVolumeStatus_phase r cr w
  unfold getAndUpdateVolumeStatus at hph ⊢
  have hg := Calm.calm_reload (fun x => Bootstrapped x.Status.Phase) k cr w
  rcases h : getJivaVolume cr w with ⟨e, w1⟩
  rw [h] at hg hph
  simp only at hg
  cases e with
  | some e =>
    simp only at hph ⊢
    exact hg.calm_trans (Calm.calm_updateStatus k _ _ _ hph)
  | none =>
    simp only [statsAddr_length, if_false] at hph ⊢
    have hs := Calm.calm_stats (fun x => Bootstrapped x.Status.Phase) k w1 (statsAddr cr w1)
    rcases h2 : w1.getStats (statsAddr cr w1) with ⟨st, w2⟩
    rw [h2] at hs hph
    simp only at hs
    cases st with
    | some stats =>
      simp only at hph ⊢
      exact (hg.calm_trans hs).calm_trans (Calm.calm_updateStatus k _ _ _ hph)
    | none =>
      simp only at hph ⊢
      have hu := Calm.calm_updatePodIPMap (fun x => Bootstrapped x.Status.Phase) k r cr w2
      rcases h3 : updatePodIPMap r cr w2 with ⟨e3, w3⟩
      rw [h3] at hu hph
      simp only at hu
      cases e3 with
      | some e3 =>
        simp only at hph ⊢
        exact (((hg.calm_trans hs).calm_trans hu).calm_trans
          (Calm.calm_of_same rfl rfl)).calm_trans (Calm.calm_updateStatus k _ _ _ hph)
      | none =>
        simp only at hph ⊢
        exact ((hg.calm_trans hs).calm_trans hu).calm_trans
          (Calm.calm_updateStatus k _ _ _ hph)

/-- The scale-up issues no request of the installer and stores the volume in phase `Syncing`
only. -/
theorem Calm.calm_performScaleup (k : Key) (cr : JivaVolume) (w : World) :
    Calm (fun x => Bootstrapped x.Status.Phase) k w (performScaleup cr w).2.2 := by
  unfold performScaleup
  simp only
  have h1 := Calm.calm_get (fun x => Bootstrapped x.Status.Phase) k StatefulSet
    { Namespace := cr.Namespace, Name := cr.Name ++ "-jiva-rep" } w rfl
  rcases e1 : apiGet StatefulSet { Namespace := cr.Namespace, Name := cr.Name ++ "-jiva-rep" } w
    with ⟨g1, w1⟩
  rw [e1] at h1
  simp only at h1
  cases g1 with
  | error e => exact h1
  | ok s0 =>
    simp only
    have h2 := Calm.calm_patch (fun x => Bootstrapped x.Status.Phase) k StatefulSet
      { Namespace := cr.Namespace, Name := cr.Name ++ "-jiva-rep" }
      (fun s => { s with Replicas := int32 cr.Spec.DesiredReplicationFactor }) w1 rfl
      (fun _ _ => rfl)
    rcases e2 : apiPatch StatefulSet { Namespace := cr.Namespace, Name := cr.Name ++ "-jiva-rep" }
      (fun s => { s with Replicas := int32 cr.Spec.DesiredReplicationFactor }) w1 with ⟨g2, w2⟩
    rw [e2] at h2
    simp only at h2
    cases g2 with
    | some e => exact h1.calm_trans h2
    | none =>
      simp only
      have h3 := Calm.calm_get (fun x => Bootstrapped x.Status.Phase) k Deployment
        { Namespace := cr.Namespace, Name := cr.Name ++ "-jiva-ctrl" } w2 rfl
      rcases e3 : apiGet Deployment { Namespace := cr.Namespace, Name := cr.Name ++ "-jiva-ctrl" } w2
        with ⟨g3, w3⟩
      rw [e3] at h3
      simp only at h3
      cases g3 with
      | error e => exact (h1.calm_trans h2).calm_trans h3
      | ok d0 =>
        simp only
        cases setReplicationFactorEnv (toString cr.Spec.DesiredReplicationFactor)
            d0.Template.Containers with
        | none => exact (h1.calm_trans h2).calm_trans h3
        | some cs =>
          simp only
          have h4 := Calm.calm_patch (fun x => Bootstrapped x.Status.Phase) k Deployment
            { Namespace := cr.Namespace, Name := cr.Name ++ "-jiva-ctrl" }
            (fun d => { d with Template := { d.Template with Containers := cs } }) w3 rfl
            (fun _ _ => rfl)
          rcases e4 : apiPatch Deployment { Namespace := cr.Namespace, Name := cr.Name ++ "-jiva-ctrl" }
            (fun d => { d with Template := { d.Template with Containers := cs } }) w3 with ⟨g4, w4⟩
          rw [e4] at h4
          simp only at h4
          cases g4 with
          | some e => exact ((h1.calm_trans h2).calm_trans h3).calm_trans h4
          | none =>
            simp only
            have h5 := @Calm.calm_updateVolume (fun x => Bootstrapped x.Status.Phase) k
              { cr with
                Spec := { cr.Spec with Policy := { cr.Spec.Policy with Target :=
                  { cr.Spec.Policy.Target with
                    ReplicationFactor := int32 cr.Spec.DesiredReplicationFactor } } },
                Status := { cr.Status with Phase := JivaVolumePhaseSyncing } }
              (Or.inr (Or.inl rfl)) w4
            rcases e5 : updateJivaVolume
              { cr with
                Spec := { cr.Spec with Policy := { cr.Spec.Policy with Target :=
                  { cr.Spec.Policy.Target with
                    ReplicationFactor := int32 cr.Spec.DesiredReplicationFactor } } },
                Status := { cr.Status with Phase := JivaVolumePhaseSyncing } } w4 with ⟨g5, w5⟩
            rw [e5] at h5
            simp only at h5
            cases g5 <;> exact (((h1.calm_trans h2).calm_trans h3).calm_trans h4).calm_trans h5

theorem Calm.calm_removeSTSVolumeClaim (P : JivaVolume → Prop) (k : Key)
    (pvc : PersistentVolumeClaim) (w : World) : Calm P k w (removeSTSVolumeClaim pvc w).2 := by
  unfold removeSTSVolumeClaim
  simp only
  have h1 := Calm.calm_patch P k PersistentVolumeClaim
    { Namespace := pvc.Namespace, Name := pvc.Name } (fun c => { c with Finalizers := [] }) w rfl
    (fun _ _ => rfl)
  rcases e1 : apiPatch PersistentVolumeClaim { Namespace := pvc.Namespace, Name := pvc.Name }
    (fun c => { c with Finalizers := [] }) w with ⟨g1, w1⟩
  rw [e1] at h1
  simp only at h1
  cases g1 with
  | some e => exact h1
  | none =>
    simp only
    have h2 := Calm.calm_delete P k PersistentVolumeClaim
      { Namespace := pvc.Namespace, Name := pvc.Name } w1 rfl (fun _ _ => rfl)
    rcases e2 : apiDelete PersistentVolumeClaim { Namespace := pvc.Namespace, Name := pvc.Name } w1
      with ⟨g2, w2⟩
    rw [e2] at h2
    simp only at h2
    cases g2 <;> exact h1.calm_trans h2

theorem Calm.calm_removeSTSVolume (P : JivaVolume → Prop) (k : Key)
    (pvc : PersistentVolumeClaim) (w : World) : Calm P k w (removeSTSVolume pvc w).2 := by
  unfold removeSTSVolume
  simp only
  have h1 := Calm.calm_get P k PersistentVolume { Namespace := "", Name := pvc.VolumeName } w rfl
  rcases e1 : apiGet PersistentVolume { Namespace := "", Name := pvc.VolumeName } w with ⟨g1, w1⟩
  rw [e1] at h1
  simp only at h1
  cases g1 with
  | error e =>
    simp only
    split
    · exact h1.calm_trans (Calm.calm_removeSTSVolumeClaim P k pvc w1)
    · exact h1
  | ok pv =>
    simp only
    have h2 := Calm.calm_patch P k PersistentVolume { Namespace := "", Name := pvc.VolumeName }
      (fun v => { v with Finalizers := [] }) w1 rfl (fun _ _ => rfl)
    rcases e2 : apiPatch PersistentVolume { Namespace := "", Name := pvc.VolumeName }
      (fun v => { v with Finalizers := [] }) w1 with ⟨g2, w2⟩
    rw [e2] at h2
    simp only at h2
    cases g2 with
    | some e => exact h1.calm_trans h2
    | none =>
      simp only
      have h3 := Calm.calm_delete P k PersistentVolume { Namespace := "", Name := pvc.VolumeName }
        w2 rfl (fun _ _ => rfl)
      rcases e3 : apiDelete PersistentVolume { Namespace := "", Name := pvc.VolumeName } w2
        with ⟨g3, w3⟩
      rw [e3] at h3
      simp only at h3
      cases g3 with
      | some e => exact (h1.calm_trans h2).calm_trans h3
      | none =>
        exact ((h1.calm_trans h2).calm_trans h3).calm_trans
          (Calm.calm_removeSTSVolumeClaim P k pvc w3)

theorem Calm.calm_moveReplicaPods (P : JivaVolume → Prop) (k : Key) (cr : JivaVolume) :
    ∀ (pods : List Pod) (w : World), Calm P k w (moveReplicaPods cr pods w).2 := by
  intro pods
  induction pods with
  | nil => intro w; exact Calm.calm_refl P k w
  | cons pod rest ih =>
    intro w
    rw [moveReplicaPods]
    split
    · exact ih w
    · split
      · exact Calm.calm_refl P k w
      · exact Calm.calm_refl P k w
      · rename_i claimName _
        simp only
        have h1 := Calm.calm_get P k PersistentVolumeClaim
          { Namespace := pod.Namespace, Name := claimName } w rfl
        rcases e1 : apiGet PersistentVolumeClaim { Namespace := pod.Namespace, Name := claimName } w
          with ⟨g1, w1⟩
        rw [e1] at h1
        simp only at h1
        cases g1 with
        | error e =>
          simp only
          split
          · have h2 := Calm.calm_delete P k Pod { Namespace := pod.Namespace, Name := pod.Name }
              w1 rfl (fun _ _ => rfl)
            rcases e2 : apiDelete Pod { Namespace := pod.Namespace, Name := pod.Name } w1
              with ⟨g2, w2⟩
            rw [e2] at h2
            simp only at h2
            have h3 : Calm P k w (w2.sleep 10) :=
              (h1.calm_trans h2).calm_trans (Calm.calm_of_same rfl rfl)
            cases g2 with
            | none => exact h3.calm_trans (ih _)
            | some e2 =>
              simp only
              split
              · exact h3
              · exact h3.calm_trans (ih _)
          · exact h1
        | ok pvc =>
          simp only
          split
          · have h2 := Calm.calm_get P k Node
              { Namespace := "", Name := mapGet pvc.Annotations "volume.kubernetes.io/selected-node" }
              w1 rfl
            rcases e2 : apiGet Node
              { Namespace := "", Name := mapGet pvc.Annotations "volume.kubernetes.io/selected-node" }
              w1 with ⟨g2, w2⟩
            rw [e2] at h2
            simp only at h2
            cases g2 with
            | ok node => exact (h1.calm_trans h2).calm_trans (ih _)
            | error e =>
              simp only
              split
              · have h3 := Calm.calm_removeSTSVolume P k pvc w2
                rcases e3 : removeSTSVolume pvc w2 with ⟨g3, w3⟩
                rw [e3] at h3
                simp only at h3
                cases g3 with
                | some e3 => exact (h1.calm_trans h2).calm_trans h3
                | none =>
                  simp only
                  have h4 := Calm.calm_delete P k Pod
                    { Namespace := pod.Namespace, Name := pod.Name } w3 rfl (fun _ _ => rfl)
                  rcases e4 : apiDelete Pod { Namespace := pod.Namespace, Name := pod.Name } w3
                    with ⟨g4, w4⟩
                  rw [e4] at h4
                  simp only at h4
                  cases g4 with
                  | some e4 => exact ((h1.calm_trans h2).calm_trans h3).calm_trans h4
                  | none =>
                    exact ((((h1.calm_trans h2).calm_trans h3).calm_trans h4).calm_trans
                      (Calm.calm_of_same rfl rfl)).calm_trans (ih _)
              · exact h1.calm_trans h2
          · exact h1.calm_trans (ih _)

/-- The relocation issues no request of the installer and leaves the stored volumes as they
are. -/
theorem Calm.calm_relocation (P : JivaVolume → Prop) (k : Key) (r : JivaVolumeReconciler)
    (cr : JivaVolume) (w : World) : Calm P k w (moveReplicasForMissingNodes r cr w).2 := by
  unfold moveReplicasForMissingNodes
  split
  · exact Calm.calm_refl P k w
  · simp only
    split
    · exact Calm.calm_refl P k w
    · have hl := Calm.calm_listPods P k cr.Namespace
        (fun pod => hasLabel pod.Labels "openebs.io/component" "jiva-replica"
          && hasLabel pod.Labels "openebs.io/persistent-volume" cr.Name) w
      rcases e1 : apiListPods cr.Namespace
        (fun pod => hasLabel pod.Labels "openebs.io/component" "jiva-replica"
          && hasLabel pod.Labels "openebs.io/persistent-volume" cr.Name) w with ⟨g1, w1⟩
      rw [e1] at hl
      simp only at hl
      cases g1 with
      | error e => exact hl
      | ok pods => exact hl.calm_trans (Calm.calm_moveReplicaPods P k cr pods w1)

/-- The branch for phase `Ready` issues no request of the installer and stores volumes of a
bootstrapped phase only, and the volume it ends with is in a bootstrapped phase. -/
theorem reconcileReady_calm (k : Key) (r : JivaVolumeReconciler) (cr : JivaVolume) (w : World) :
    Calm (fun x => Bootstrapped x.Status.Phase) k w (reconcileReady r cr w).world ∧
    ∃ cr1, (reconcileReady r cr w).volume = some cr1 ∧ Bootstrapped cr1.Status.Phase := by
  unfold reconcileReady
  have h1 := Calm.calm_refresh k r cr w
  have p1 := getAndUpdateVolumeStatus_phase r cr w
  rcases e1 : getAndUpdateVolumeStatus r cr w with ⟨g1, cr1, w1⟩
  rw [e1] at h1 p1
  simp only at h1 p1
  cases g1 with
  | some e => exact ⟨h1, cr1, rfl, p1⟩
  | none =>
    simp only
    have h2 := Calm.calm_isScaleup (fun x => Bootstrapped x.Status.Phase) k cr1 w1
    rcases e2 : isScaleup cr1 w1 with ⟨b, w2⟩
    rw [e2] at h2
    simp only at h2
    cases b with
    | true =>
      simp only
      have h3 := Calm.calm_performScaleup k cr1 w2
      have p3 : Bootstrapped (performScaleup cr1 w2).2.1.Status.Phase := by
        unfold performScaleup
        simp only
        split
        · exact p1
        · split
          · exact p1
          · split
            · exact p1
            · split
              · exact p1
              · split
                · exact p1
                · split
                  · exact Or.inr (Or.inl rfl)
                  · exact Or.inr (Or.inl rfl)
      rcases e3 : performScaleup cr1 w2 with ⟨g3, cr2, w3⟩
      rw [e3] at h3 p3
      simp only at h3 p3
      rcases g3 with (_ | e) | _
      · simp only
        have h4 := Calm.calm_refresh k r cr2 w3
        have p4 := getAndUpdateVolumeStatus_phase r cr2 w3
        rcases e4 : getAndUpdateVolumeStatus r cr2 w3 with ⟨g4, cr3, w4⟩
        rw [e4] at h4 p4
        exact ⟨((h1.calm_trans h2).calm_trans h3).calm_trans h4, cr3, rfl, p4⟩
      · exact ⟨((h1.calm_trans h2).calm_trans h3).calm_trans (Calm.calm_of_same rfl rfl),
          cr2, rfl, p3⟩
      · exact ⟨(h1.calm_trans h2).calm_trans h3, cr2, rfl, p3⟩
    | false =>
      simp only
      have h3 := Calm.calm_relocation (fun x => Bootstrapped x.Status.Phase) k r cr1 w2
      rcases e3 : moveReplicasForMissingNodes r cr1 w2 with ⟨g3, w3⟩
      rw [e3] at h3
      simp only at h3
      rcases g3 with (_ | e) | _
      · exact ⟨(h1.calm_trans h2).calm_trans h3, cr1, rfl, p1⟩
      · exact ⟨((h1.calm_trans h2).calm_trans h3).calm_trans (Calm.calm_of_same rfl rfl),
          cr1, rfl, p1⟩
      · exact ⟨(h1.calm_trans h2).calm_trans h3, cr1, rfl, p1⟩

theorem Calm.calm_finishUpgrade {P : JivaVolume → Prop} (k : Key) {jObj : JivaVolume}
    (hx : P { jObj with VersionDetails := jObj.VersionDetails.SetSuccessStatus }) (w : World) :
    Calm P k w (finishUpgrade jObj w).2 := by
  have hfin : finishUpgrade jObj w =
      match updateJivaVolume { jObj with VersionDetails := jObj.VersionDetails.SetSuccessStatus } w with
      | (some e, w1) => (some e, w1)
      | (none, w1) =>
        match getJivaVolume jObj w1 with
        | (some e, w2) => (some (Err.wrap updateErrMsg e), w2)
        | (none, w2) => (none, w2) := rfl
  rw [hfin]
  have h1 := Calm.calm_updateVolume k hx w
  rcases e1 : updateJivaVolume { jObj with VersionDetails := jObj.VersionDetails.SetSuccessStatus } w
    with ⟨g1, w1⟩
  rw [e1] at h1
  simp only at h1
  cases g1 with
  | some e => exact h1
  | none =>
    simp only
    have h2 := Calm.calm_reload P k jObj w1
    rcases e2 : getJivaVolume jObj w1 with ⟨g2, w2⟩
    rw [e2] at h2
    simp only at h2
    cases g2 <;> exact h1.calm_trans h2

theorem Calm.calm_runUpgrade {P : JivaVolume → Prop} (k : Key) (r : JivaVolumeReconciler)
    (cr : JivaVolume) {jObj : JivaVolume}
    (hmig : lookupUpgrade r (splitHead '-' jObj.VersionDetails.Status.Current) = none)
    (hx : P { jObj with VersionDetails := jObj.VersionDetails.SetSuccessStatus }) (w : World) :
    Calm P k w (runUpgrade r cr jObj w).2 := by
  unfold runUpgrade
  have h1 := Calm.calm_reload P k cr w
  rcases e1 : getJivaVolume cr w with ⟨g1, w1⟩
  rw [e1] at h1
  simp only at h1
  cases g1 with
  | some e => exact h1
  | none =>
    simp only [hmig]
    exact h1.calm_trans (Calm.calm_finishUpgrade k hx w1)

/-- The version step, when no migration is registered for the version of the volume: it
issues no request of the installer, and what it stores is the volume with other version
details. -/
theorem Calm.calm_reconcileVersion {P : JivaVolume → Prop} (k : Key) (r : JivaVolumeReconciler)
    {cr : JivaVolume}
    (hmig : lookupUpgrade r (splitHead '-' cr.VersionDetails.Status.Current) = none)
    (hx : ∀ vd, P { cr with VersionDetails := vd }) (w : World) :
    Calm P k w (reconcileVersion r cr w).2 := by
  unfold reconcileVersion
  split
  · split
    · exact Calm.calm_refl P k w
    · split
      · exact Calm.calm_refl P k w
      · simp only
        split
        · have h1 := @Calm.calm_updateVolume P k
            { cr with VersionDetails :=
              { cr.VersionDetails with Status := cr.VersionDetails.Status.SetInProgressStatus } }
            (hx _) w
          rcases e1 : updateJivaVolume
            { cr with VersionDetails :=
              { cr.VersionDetails with Status := cr.VersionDetails.Status.SetInProgressStatus } } w
            with ⟨g1, w1⟩
          rw [e1] at h1
          simp only at h1
          cases g1 with
          | some e => exact h1
          | none =>
            exact h1.calm_trans (@Calm.calm_runUpgrade P k r cr
              { cr with VersionDetails :=
                { cr.VersionDetails with Status := cr.VersionDetails.Status.SetInProgressStatus } }
              hmig (hx _) w1)
        · exact @Calm.calm_runUpgrade P k r cr cr hmig (hx _) w
  · exact Calm.calm_refl P k w

/-- The volume after `performScaleup` is the one before, or the scaled one in phase
`Syncing`. -/
theorem performScaleup_volume_eq (cr : JivaVolume) (w : World) :
    (performScaleup cr w).2.1 = cr ∨
    (performScaleup cr w).2.1
      = scaledVolume cr { cr.Status with Phase := JivaVolumePhaseSyncing } := by
  simp only [performScaleup]
  generalize apiGet StatefulSet _ w = o1
  rcases o1 with ⟨r1, w1⟩
  cases r1 with
  | error e => exact Or.inl rfl
  | ok s0 =>
    simp only
    generalize apiPatch StatefulSet _ _ w1 = o2
    rcases o2 with ⟨r2, w2⟩
    cases r2 with
    | some e => exact Or.inl rfl
    | none =>
      simp only
      generalize apiGet Deployment _ w2 = o3
      rcases o3 with ⟨r3, w3⟩
      cases r3 with
      | error e => exact Or.inl rfl
      | ok d0 =>
        simp only
        cases setReplicationFactorEnv (toString cr.Spec.DesiredReplicationFactor) d0.Template.Containers with
        | none => exact Or.inl rfl
        | some cs =>
          simp only
          generalize apiPatch Deployment _ _ w3 = o5
          rcases o5 with ⟨r5, w4⟩
          cases r5 with
          | some e => exact Or.inl rfl
          | none =>
            simp only
            generalize updateJivaVolume _ w4 = o6
            rcases o6 with ⟨r6, w5⟩
            cases r6 <;> exact Or.inr rfl

/-- The volume the branch for phase `Ready` ends with: the one it started with but for the
status, or, after `isScaleup` held on the status just observed, the scaled one. -/
theorem reconcileReady_volume (r : JivaVolumeReconciler) (cr : JivaVolume) (w : World) :
    ∃ cr1, (reconcileReady r cr w).volume = some cr1 ∧
      (cr1 = { cr with Status := cr1.Status } ∨
        ((isScaleup (getAndUpdateVolumeStatus r cr w).2.1
            (getAndUpdateVolumeStatus r cr w).2.2).1 = true ∧
          cr1 = scaledVolume cr cr1.Status)) := by
  have hspec := getAndUpdateVolumeStatus_spec r cr w
  unfold reconcileReady
  rcases hg : getAndUpdateVolumeStatus r cr w with ⟨e, cr1, w1⟩
  rw [hg] at hspec
  simp only at hspec
  obtain ⟨s1, hs1⟩ : ∃ s, cr1 = { cr with Status := s } := ⟨_, hspec⟩
  subst hs1
  cases e with
  | some e => exact ⟨_, rfl, Or.inl rfl⟩
  | none =>
    simp only
    rcases hs : isScaleup { cr with Status := s1 } w1 with ⟨b, w2⟩
    cases b with
    | false =>
      simp only
      rcases moveReplicasForMissingNodes r { cr with Status := s1 } w2 with ⟨m, w3⟩
      rcases m with (_ | e) | _ <;> exact ⟨_, rfl, Or.inl rfl⟩
    | true =>
      simp only
      have hp := performScaleup_volume_eq { cr with Status := s1 } w2
      rcases hps : performScaleup { cr with Status := s1 } w2 with ⟨p, cr2, w3⟩
      rw [hps] at hp
      simp only at hp
      rcases hp with hp | hp
      · subst hp
        rcases p with (_ | e) | _
        · simp only
          have hspec2 := getAndUpdateVolumeStatus_spec r { cr with Status := s1 } w3
          rcases hg2 : getAndUpdateVolumeStatus r { cr with Status := s1 } w3 with ⟨e3, cr3, w4⟩
          rw [hg2] at hspec2
          simp only at hspec2
          obtain ⟨s3, hs3⟩ : ∃ s, cr3 = { cr with Status := s } := ⟨_, hspec2⟩
          subst hs3
          exact ⟨_, rfl, Or.inl rfl⟩
        · exact ⟨_, rfl, Or.inl rfl⟩
        · exact ⟨_, rfl, Or.inl rfl⟩
      · subst hp
        rcases p with (_ | e) | _
        · simp only
          have hspec2 := getAndUpdateVolumeStatus_spec r
            (scaledVolume { cr with Status := s1 } { s1 with Phase := JivaVolumePhaseSyncing }) w3
          rcases hg2 : getAndUpdateVolumeStatus r
            (scaledVolume { cr with Status := s1 } { s1 with Phase := JivaVolumePhaseSyncing }) w3
            with ⟨e3, cr3, w4⟩
          rw [hg2] at hspec2
          simp only at hspec2
          obtain ⟨s3, hs3⟩ : ∃ s, cr3 = scaledVolume cr s := ⟨_, hspec2⟩
          subst hs3
          exact ⟨_, rfl, Or.inr ⟨trivial, rfl⟩⟩
        · exact ⟨_, rfl, Or.inr ⟨trivial, rfl⟩⟩
        · exact ⟨_, rfl, Or.inr ⟨trivial, rfl⟩⟩

/-- The switch on a bootstrapped phase: what it issues and stores, and the volume it ends
with. -/
theorem reconcilePhase_closed (k : Key) (r : JivaVolumeReconciler) (ok : Bool) (cr : JivaVolume)
    (w : World) (hb : Bootstrapped cr.Status.Phase) :
    Calm (fun x => Bootstrapped x.Status.Phase) k w (reconcilePhase r ok cr w).world ∧
    ∃ cr1, (reconcilePhase r ok cr w).volume = some cr1 ∧ Bootstrapped cr1.Status.Phase ∧
      (cr1 = { cr with Status := cr1.Status } ∨
        (cr.Status.Phase = JivaVolumePhaseReady ∧
          (isScaleup (getAndUpdateVolumeStatus r cr w).2.1
            (getAndUpdateVolumeStatus r cr w).2.2).1 = true ∧
          cr1 = scaledVolume cr cr1.Status)) := by
  unfold reconcilePhase
  by_cases hr : cr.Status.Phase = JivaVolumePhaseReady
  · rw [if_pos hr]
    obtain ⟨hc, cr1, hv1, hp1⟩ := reconcileReady_calm k r cr w
    obtain ⟨cr2, hv2, hshape⟩ := reconcileReady_volume r cr w
    have h12 : cr1 = cr2 := Option.some.inj (hv1.symm.trans hv2)
    subst h12
    refine ⟨hc, cr1, hv1, hp1, ?_⟩
    rcases hshape with h | ⟨ha, h⟩
    · exact Or.inl h
    · exact Or.inr ⟨hr, ha, h⟩
  · rw [if_neg hr]
    have hsu : cr.Status.Phase = JivaVolumePhaseSyncing ∨ cr.Status.Phase = JivaVolumePhaseUnkown := by
      rcases hb with h | h | h
      · exact absurd h hr
      · exact Or.inl h
      · exact Or.inr h
    rw [if_pos hsu]
    have hc := Calm.calm_refresh k r cr w
    have hp := getAndUpdateVolumeStatus_phase r cr w
    have hspec := getAndUpdateVolumeStatus_spec r cr w
    rcases hg : getAndUpdateVolumeStatus r cr w with ⟨e, cr1, w1⟩
    rw [hg] at hc hp hspec
    exact ⟨hc, cr1, rfl, hp, Or.inl hspec⟩

/-- The switch on phase `Deleting` does nothing. -/
theorem reconcilePhase_deleting (r : JivaVolumeReconciler) (ok : Bool) (cr : JivaVolume)
    (w : World) (hd : cr.Status.Phase = JivaVolumePhaseDeleting) :
    reconcilePhase r ok cr w = { result := Ret.done none, volume := some cr, world := w } := by
  unfold reconcilePhase
  rw [hd]
  rfl

/-- A cycle on a loaded volume stops before the switch, with the volume as loaded in the
world the version step left, or runs the switch in the world `switchWorld`. -/
theorem Reconcile_split (r : JivaVolumeReconciler) (req : Key) (w : World) (cr : JivaVolume)
    (hload : getResult JivaVolume req w = Except.ok cr) :
    ((Reconcile r req w).volume = some cr ∧
      (Reconcile r req w).world = (reconcileVersion r cr (apiGet JivaVolume req w).2).2) ∨
    ∃ ok, Reconcile r req w
      = reconcilePhase r ok cr (switchWorld r cr (apiGet JivaVolume req w).2) := by
  unfold Reconcile
  have hget : apiGet JivaVolume req w = (Except.ok cr, (apiGet JivaVolume req w).2) := by
    unfold apiGet; rw [hload]
  rw [hget]
  simp only
  unfold switchWorld
  generalize (apiGet JivaVolume req w).2 = w1
  rcases reconcileVersion r cr w1 with ⟨e, w2⟩
  cases e with
  | some e => exact Or.inl ⟨rfl, rfl⟩
  | none =>
    simp only
    rcases shouldReconcile r cr with ⟨ok, e2⟩
    cases e2 with
    | some e => exact Or.inl ⟨rfl, rfl⟩
    | none => exact Or.inr ⟨ok, rfl⟩

/-- The volume loaded is the one stored under the name of the request. -/
theorem find_of_getResult {α : Type} [Resource α] {k : Key} {w : World} {x : α}
    (h : getResult α k w = Except.ok x) : w.cluster.find α k = some x := by
  unfold getResult at h
  cases hf : w.fault with
  | some e => rw [hf] at h; simp at h
  | none =>
    rw [hf] at h
    cases hx : w.cluster.find α k with
    | none => rw [hx] at h; simp at h
    | some y =>
      rw [hx] at h
      simp only [Except.ok.injEq] at h
      rw [h]

/-- What is issued and stored up to the switch, when no migration is registered for the
version of the volume. -/
theorem Calm.calm_switchWorld {P : JivaVolume → Prop} (r : JivaVolumeReconciler) (req : Key)
    (w : World) {cr : JivaVolume}
    (hmig : lookupUpgrade r (splitHead '-' cr.VersionDetails.Status.Current) = none)
    (hx : ∀ vd, P { cr with VersionDetails := vd }) :
    Calm P req w (reconcileVersion r cr (apiGet JivaVolume req w).2).2 ∧
    Calm P req w (switchWorld r cr (apiGet JivaVolume req w).2) := by
  have h1 : Calm P req w (apiGet JivaVolume req w).2 := Calm.calm_get P req JivaVolume req w rfl
  have h2 := h1.calm_trans (Calm.calm_reconcileVersion req r hmig hx (apiGet JivaVolume req w).2)
  exact ⟨h2, h2.calm_trans (Calm.calm_refreshPodIP P req r cr _)⟩

/-- C26: take a cycle of `Reconcile` that loads the volume `cr`. When the phase of `cr` is
`Ready`, `Syncing` or `Unknown`, the volume the cycle ends with is again in one of these
phases, and it is `cr` but for its status, or, in phase `Ready` and after `isScaleup` held
on the status just observed, `cr` but for its status and the replication factor of its
policy, which is the desired one; so the policy, the desired factor and the export, which
the policy resolver and the installer set, are as loaded. When no migration is registered
for the version of the volume (none is, in the source), no request of the installer or the
policy resolver is issued in the cycle (no `Create`, no request on a policy, a service or a
disruption budget), and the volume stored under the name at the end is in one of the three
phases. When the phase of `cr` is `Deleting`, the cycle ends with `cr` itself, and without
a registered migration the stored volume is in phase `Deleting` at the end. -/
theorem Reconcile_bootstrapped_closed (r : JivaVolumeReconciler) (req : Key) (w : World)
    (cr : JivaVolume) (hload : getResult JivaVolume req w = Except.ok cr) :
    (Bootstrapped cr.Status.Phase →
      (∃ cr1, (Reconcile r req w).volume = some cr1 ∧ Bootstrapped cr1.Status.Phase ∧
        (cr1 = { cr with Status := cr1.Status } ∨
          (cr.Status.Phase = JivaVolumePhaseReady ∧
            (isScaleup
              (getAndUpdateVolumeStatus r cr (switchWorld r cr (apiGet JivaVolume req w).2)).2.1
              (getAndUpdateVolumeStatus r cr (switchWorld r cr (apiGet JivaVolume req w).2)).2.2).1
              = true ∧
            cr1 = scaledVolume cr cr1.Status))) ∧
      (lookupUpgrade r (splitHead '-' cr.VersionDetails.Status.Current) = none →
        (∀ c ∈ issued w (Reconcile r req w).world, c.isInstall = false) ∧
        ∀ x, (Reconcile r req w).world.cluster.find JivaVolume req = some x →
          Bootstrapped x.Status.Phase)) ∧
    (cr.Status.Phase = JivaVolumePhaseDeleting →
      (Reconcile r req w).volume = some cr ∧
      (lookupUpgrade r (splitHead '-' cr.VersionDetails.Status.Current) = none →
        (∀ c ∈ issued w (Reconcile r req w).world, c.isInstall = false) ∧
        ∀ x, (Reconcile r req w).world.cluster.find JivaVolume req = some x →
          x.Status.Phase = JivaVolumePhaseDeleting)) := by
  have hfind := find_of_getResult hload
  have conclude : ∀ (P : JivaVolume → Prop), P cr → Calm P req w (Reconcile r req w).world →
      (∀ c ∈ issued w (Reconcile r req w).world, c.isInstall = false) ∧
      ∀ x, (Reconcile r req w).world.cluster.find JivaVolume req = some x → P x := by
    intro P hP hc
    obtain ⟨⟨cs, hcs, hm⟩, hst⟩ := hc
    refine ⟨by rw [issued_of_calls hcs]; exact hm, hst ?_⟩
    intro x hx
    rw [hfind] at hx
    rw [← Option.some.inj hx]; exact hP
  refine ⟨?_, ?_⟩
  · intro hb
    refine ⟨?_, ?_⟩
    · rcases Reconcile_split r req w cr hload with ⟨hv, -⟩ | ⟨ok, h⟩
      · exact ⟨cr, hv, hb, Or.inl rfl⟩
      · rw [h]
        exact (reconcilePhase_closed req r ok cr _ hb).2
    · intro hmig
      apply conclude (fun x => Bootstrapped x.Status.Phase) hb
      obtain ⟨h1, h2⟩ := @Calm.calm_switchWorld (fun x => Bootstrapped x.Status.Phase) r req w cr
        hmig (fun _ => hb)
      rcases Reconcile_split r req w cr hload with ⟨-, hw⟩ | ⟨ok, h⟩
      · rw [hw]; exact h1
      · rw [h]
        exact h2.calm_trans (reconcilePhase_closed req r ok cr _ hb).1
  · intro hd
    refine ⟨?_, ?_⟩
    · rcases Reconcile_split r req w cr hload with ⟨hv, -⟩ | ⟨ok, h⟩
      · exact hv
      · rw [h, reconcilePhase_deleting r ok cr _ hd]
    · intro hmig
      apply conclude (fun x => x.Status.Phase = JivaVolumePhaseDeleting) hd
      obtain ⟨h1, h2⟩ := @Calm.calm_switchWorld (fun x => x.Status.Phase = JivaVolumePhaseDeleting)
        r req w cr hmig (fun _ => hd)
      rcases Reconcile_split r req w cr hload with ⟨-, hw⟩ | ⟨ok, h⟩
      · rw [hw]; exact h1
      · rw [h, reconcilePhase_deleting r ok cr _ hd]
        exact h2

/-- C26 on the sample worlds: the cycle on the sample volume, loaded in phase `Ready`, and
the cycle on the sample volume in phase `Deleting`. -/
theorem Reconcile_bootstrapped_closed_witness :
    ((∃ cr1, (Reconcile sampleReconciler { Namespace := "openebs", Name := "pvc-1" }
          sampleScaleWorld).volume = some cr1 ∧
        Bootstrapped cr1.Status.Phase ∧
        (cr1 = { sampleVolume with Status := cr1.Status } ∨
          (sampleVolume.Status.Phase = JivaVolumePhaseReady ∧
            (isScaleup
              (getAndUpdateVolumeStatus sampleReconciler sampleVolume
                (switchWorld sampleReconciler sampleVolume
                  (apiGet JivaVolume { Namespace := "openebs", Name := "pvc-1" }
                    sampleScaleWorld).2)).2.1
              (getAndUpdateVolumeStatus sampleReconciler sampleVolume
                (switchWorld sampleReconciler sampleVolume
                  (apiGet JivaVolume { Namespace := "openebs", Name := "pvc-1" }
                    sampleScaleWorld).2)).2.2).1 = true ∧
            cr1 = scaledVolume sampleVolume cr1.Status))) ∧
      (∀ c ∈ issued sampleScaleWorld
          (Reconcile sampleReconciler { Namespace := "openebs", Name := "pvc-1" }
            sampleScaleWorld).world, c.isInstall = false) ∧
      ∀ x, (Reconcile sampleReconciler { Namespace := "openebs", Name := "pvc-1" }
          sampleScaleWorld).world.cluster.find JivaVolume
            { Namespace := "openebs", Name := "pvc-1" } = some x →
        Bootstrapped x.Status.Phase) ∧
    ((Reconcile sampleReconciler { Namespace := "openebs", Name := "pvc-1" }
        sampleDeletingWorld).volume = some sampleDeletingVolume ∧
      (∀ c ∈ issued sampleDeletingWorld
          (Reconcile sampleReconciler { Namespace := "openebs", Name := "pvc-1" }
            sampleDeletingWorld).world, c.isInstall = false) ∧
      ∀ x, (Reconcile sampleReconciler { Namespace := "openebs", Name := "pvc-1" }
          sampleDeletingWorld).world.cluster.find JivaVolume
            { Namespace := "openebs", Name := "pvc-1" } = some x →
        x.Status.Phase = JivaVolumePhaseDeleting) :=
  ⟨(fun h => ⟨h.1, h.2 rfl⟩)
      ((Reconcile_bootstrapped_closed sampleReconciler { Namespace := "openebs", Name := "pvc-1" }
        sampleScaleWorld sampleVolume rfl).1 (by decide)),
   (fun h => ⟨h.1, h.2 rfl⟩)
      ((Reconcile_bootstrapped_closed sampleReconciler { Namespace := "openebs", Name := "pvc-1" }
        sampleDeletingWorld sampleDeletingVolume rfl).2 (by decide))⟩

/-! ### Selectors and pod labels -/

/-- C27: for every name of a persistent volume and of a claim, the match labels of the
target select the labels of the target, and the match labels of the replicas select the
labels of the replicas, also once the anti-affinity label of the user is set in the labels
of the replica pod template; so the selector of the target deployment selects its pod
template, and the selector of the replica stateful set selects its pod template. The
selector of the disruption budget is `defaultReplicaMatchLabels` of the volume, and so is
the selector of the default anti-affinity term, the first term of the replica pods. -/
theorem selectors_match (r : JivaVolumeReconciler) (cr : JivaVolume) (pv pvc : String)
    (svc : Service) (capacity : Int) (selectorMap : StrMap) :
    Selects (defaultControllerMatchLabels pv pvc) (defaultControllerLabels r pv pvc) ∧
    Selects (defaultReplicaMatchLabels pv) (defaultReplicaLabels r pv) ∧
    Selects (defaultReplicaMatchLabels cr.Spec.PV) (replicaPodLabels r cr selectorMap) ∧
    Selects (controllerDeploymentObj r cr).SelectorMatchLabels
      (controllerDeploymentObj r cr).Template.Labels ∧
    Selects (replicaStatefulSetObj r cr svc capacity selectorMap).SelectorMatchLabels
      (replicaStatefulSetObj r cr svc capacity selectorMap).Template.Labels ∧
    (replicaPodDisruptionBudgetObj cr).SelectorMatchLabels
      = defaultReplicaMatchLabels cr.Spec.PV ∧
    (∃ rest, ((replicaAffinity cr).PodAntiAffinity.map
        (fun anti => anti.RequiredDuringSchedulingIgnoredDuringExecution))
      = some ({ LabelSelector := some { MatchLabels := defaultReplicaMatchLabels cr.Spec.PV },
                TopologyKey := "kubernetes.io/hostname" } :: rest)) := by
  have hc : ∀ pv pvc, Selects (defaultControllerMatchLabels pv pvc)
      (defaultControllerLabels r pv pvc) := by
    intro pv pvc p hp
    simp only [defaultControllerMatchLabels, openebsPVC, List.mem_cons, List.mem_singleton,
      List.not_mem_nil, or_false] at hp
    rcases hp with h | h | h | h <;> subst h <;>
      simp [defaultControllerLabels, defaultControllerMatchLabels, openebsPVC, mapSet, mapHas,
        mapGet]
  have hr : ∀ pv, Selects (defaultReplicaMatchLabels pv) (defaultReplicaLabels r pv) := by
    intro pv p hp
    simp only [defaultReplicaMatchLabels, List.mem_cons, List.mem_singleton,
      List.not_mem_nil, or_false] at hp
    rcases hp with h | h | h <;> subst h <;>
      simp [defaultReplicaLabels, defaultReplicaMatchLabels, mapSet, mapHas, mapGet]
  have hrp : Selects (defaultReplicaMatchLabels cr.Spec.PV) (replicaPodLabels r cr selectorMap) := by
    unfold replicaPodLabels
    simp only
    split
    · exact hr _
    · split
      · exact hr _
      · intro p hp
        simp only [defaultReplicaMatchLabels, List.mem_cons, List.mem_singleton,
          List.not_mem_nil, or_false] at hp
        rcases hp with h | h | h <;> subst h <;>
          simp [defaultReplicaLabels, defaultReplicaMatchLabels, replicaAntiAffinityKey, mapSet,
            mapHas, mapGet]
  refine ⟨hc pv pvc, hr pv, hrp, hc _ _, hrp, rfl, ?_⟩
  unfold replicaAffinity
  simp only
  split
  · exact ⟨[], rfl⟩
  · rename_i aff _
    cases aff.PodAntiAffinity with
    | none => exact ⟨[], rfl⟩
    | some anti => exact ⟨anti.RequiredDuringSchedulingIgnoredDuringExecution, rfl⟩

end Jiva
